import Mathlib

/-!
# HID-over-SPI transport core: embedding of `spi-hid-core.c`

The definitions below follow `src/linux-surface-spi-hid/module/spi-hid-core.c`
function by function and keep its names.  Conventions of the embedding:

* a byte buffer is a `List Nat` whose entries are bytes (`< 256`); `buf[i]` is
  `buf.getD i 0`;
* C integers are `Nat`/`Int`; where a fixed width changes the value the
  truncation is written out (`% 2 ^ 16`, `% 2 ^ 64`);
* a function that mutates `struct spi_hid` takes the session and returns the new
  session (next to its return value);
* results of calls that leave the driver (`spi_async`, `hid_input_report`, ...)
  are inputs of the model (`Ext`); the calls themselves are recorded, in
  program order, in the field `log` of the session.
-/

namespace SpiHid

/-! ## Constants -/

/-- Linux errno value `E2BIG`. -/
def E2BIG : Int := 7

/-- Linux errno value `ENOEXEC`. -/
def ENOEXEC : Int := 8

/-- Linux errno value `EFAULT`. -/
def EFAULT : Int := 14

/-- Linux errno value `EEXIST`. -/
def EEXIST : Int := 17

/-- Linux errno value `EBUSY`. -/
def EBUSY : Int := 16

/-- Linux errno value `ENODEV`. -/
def ENODEV : Int := 19

/-- Linux errno value `EINVAL`. -/
def EINVAL : Int := 22

/-- Linux errno value `EMSGSIZE`. -/
def EMSGSIZE : Int := 90

/-- Linux errno value `ESHUTDOWN`. -/
def ESHUTDOWN : Int := 108

/-- Linux errno value `ETIMEDOUT`. -/
def ETIMEDOUT : Int := 110

/-- The macro of line 57 of spi-hid-core.c. -/
def SPI_HID_MAX_RESET_ATTEMPTS : Nat := 3

/-- Modelled from the spec: the macro `SPI_HID_INPUT_HEADER_SYNC_BYTE` is defined in
spi-hid-core.h, which is not among the sources; the spec names 0x5A as the valid
sync constant of an input header. -/
def SPI_HID_INPUT_HEADER_SYNC_BYTE : Nat := 0x5A

/-- Modelled from the spec: `sizeof(shid->input.header)`; the buffer type is declared
in spi-hid-core.h, the spec gives an input header 4 bytes. -/
def SPI_HID_INPUT_HEADER_LEN : Nat := 4

/-- Modelled from the spec: `sizeof(body->content_length) + sizeof(body->content_id)`;
the spec gives the body a 2-byte content length and a 1-byte content id. -/
def SPI_HID_INPUT_BODY_LEN : Nat := 3

/-- Modelled from the spec: `sizeof(buf->header)` of the output buffer, 6 bytes. -/
def SPI_HID_OUTPUT_HEADER_LEN : Nat := 6

/-- Modelled from the spec: `sizeof(buf->body)` of the output buffer (content type,
2-byte length, content id), 4 bytes. -/
def SPI_HID_OUTPUT_BODY_LEN : Nat := 4

/-- Byte offsets of the little-endian 16-bit fields of `struct spi_hid_device_desc_raw`
(declared in spi-hid-core.h, not among the sources). -/
structure spi_hid_device_desc_raw_layout where
  bcdVersion : Nat
  wReportDescLength : Nat
  wReportDescRegister : Nat
  wInputRegister : Nat
  wMaxInputLength : Nat
  wOutputRegister : Nat
  wMaxOutputLength : Nat
  wCommandRegister : Nat
  wVendorID : Nat
  wProductID : Nat
  wVersionID : Nat
deriving DecidableEq, Repr

/-- Values of the macros of spi-hid-core.h that the functions below use.  The header
is not among the sources, so the functions take the values as a parameter. -/
structure Consts where
  SPI_HID_INPUT_HEADER_VERSION : Nat
  SPI_HID_REPORT_TYPE_DATA : Nat
  SPI_HID_REPORT_TYPE_RESET_RESP : Nat
  SPI_HID_REPORT_TYPE_COMMAND_RESP : Nat
  SPI_HID_REPORT_TYPE_GET_FEATURE_RESP : Nat
  SPI_HID_REPORT_TYPE_DEVICE_DESC : Nat
  SPI_HID_REPORT_TYPE_REPORT_DESC : Nat
  SPI_HID_HEARTBEAT_REPORT_ID : Nat
  SPI_HID_RIGHT_SCREEN_TOUCH_HEAT_MAP_REPORT_ID : Nat
  SPI_HID_LEFT_SCREEN_TOUCH_HEAT_MAP_REPORT_ID : Nat
  MSHW0231_COLLECTION_TOUCHSCREEN : Nat
  SPI_HID_READ_APPROVAL_OPCODE_READ : Nat
  SPI_HID_READ_APPROVAL_CONSTANT : Nat
  SPI_HID_OUTPUT_HEADER_OPCODE_WRITE : Nat
  SPI_HID_OUTPUT_HEADER_VERSION : Nat
  SPI_HID_CONTENT_TYPE_COMMAND : Nat
  SPI_HID_CONTENT_TYPE_OUTPUT_REPORT : Nat
  SPI_HID_CONTENT_TYPE_GET_FEATURE : Nat
  SPI_HID_CONTENT_TYPE_SET_FEATURE : Nat
  SPI_HID_SUPPORTED_VERSION : Nat
  raw : spi_hid_device_desc_raw_layout
deriving DecidableEq, Repr

/-- One admissible choice of the constants (the usual values of a HID-over-SPI driver
header; the layout offsets are those of a packed descriptor that starts with a
16-bit length field).  It is used only to evaluate the functions at concrete inputs;
every general theorem holds for all values of the constants. -/
def consts0 : Consts :=
  { SPI_HID_INPUT_HEADER_VERSION := 0x03
    SPI_HID_REPORT_TYPE_DATA := 0x01
    SPI_HID_REPORT_TYPE_RESET_RESP := 0x03
    SPI_HID_REPORT_TYPE_COMMAND_RESP := 0x04
    SPI_HID_REPORT_TYPE_GET_FEATURE_RESP := 0x05
    SPI_HID_REPORT_TYPE_DEVICE_DESC := 0x07
    SPI_HID_REPORT_TYPE_REPORT_DESC := 0x08
    SPI_HID_HEARTBEAT_REPORT_ID := 0xFB
    SPI_HID_RIGHT_SCREEN_TOUCH_HEAT_MAP_REPORT_ID := 0x0D
    SPI_HID_LEFT_SCREEN_TOUCH_HEAT_MAP_REPORT_ID := 0x0C
    MSHW0231_COLLECTION_TOUCHSCREEN := 0x06
    SPI_HID_READ_APPROVAL_OPCODE_READ := 0x0B
    SPI_HID_READ_APPROVAL_CONSTANT := 0xFF
    SPI_HID_OUTPUT_HEADER_OPCODE_WRITE := 0x02
    SPI_HID_OUTPUT_HEADER_VERSION := 0x03
    SPI_HID_CONTENT_TYPE_COMMAND := 0x00
    SPI_HID_CONTENT_TYPE_OUTPUT_REPORT := 0x05
    SPI_HID_CONTENT_TYPE_GET_FEATURE := 0x04
    SPI_HID_CONTENT_TYPE_SET_FEATURE := 0x03
    SPI_HID_SUPPORTED_VERSION := 0x0300
    raw :=
      { bcdVersion := 2
        wReportDescLength := 4
        wReportDescRegister := 6
        wInputRegister := 8
        wMaxInputLength := 10
        wOutputRegister := 12
        wMaxOutputLength := 14
        wCommandRegister := 16
        wVendorID := 18
        wProductID := 20
        wVersionID := 22 } }

/-! ## Frame codec -/

/-- Decoded input header (`struct spi_hid_input_header`). -/
structure spi_hid_input_header where
  version : Nat
  report_type : Nat
  fragment_id : Nat
  report_length : Nat
  sync_const : Nat
deriving DecidableEq, Repr

/-- Decoded input body (`struct spi_hid_input_body`); `content_length` is a 16-bit
field. -/
structure spi_hid_input_body where
  content_length : Nat
  content_id : Nat
deriving DecidableEq, Repr

/-- Lines 108-117: decode the 4 header bytes. -/
def spi_hid_populate_input_header (buf : List Nat) : spi_hid_input_header :=
  { version := (buf.getD 0 0 >>> 0) &&& 0xf
    report_type := (buf.getD 0 0 >>> 4) &&& 0xf
    fragment_id := (buf.getD 1 0 >>> 0) &&& 0xf
    report_length := ((((buf.getD 1 0 >>> 4) &&& 0xf) <<< 0) ||| (buf.getD 2 0 <<< 4)) * 4
    sync_const := buf.getD 3 0 }

/-- Lines 119-125: decode the body prefix.  The subtraction is done in `size_t`
(the `int` left operand is converted, 64 bits) and the result is stored in the
16-bit field `content_length`. -/
def spi_hid_populate_input_body (buf : List Nat) : spi_hid_input_body :=
  { content_length :=
      ((buf.getD 0 0 ||| (buf.getD 1 0 <<< 8)) + 2 ^ 64 - SPI_HID_INPUT_BODY_LEN) % 2 ^ 64 % 2 ^ 16
    content_id := buf.getD 2 0 }

set_option maxRecDepth 4000

/-! ## Session state -/

/-- Power modes `SPI_HID_POWER_MODE_*`; the driver only assigns and compares them. -/
inductive SPI_HID_POWER_MODE where
  | ACTIVE
  | SLEEP
  | OFF
  | WAKING_SLEEP
deriving DecidableEq, Repr

/-- Input stages `SPI_HID_INPUT_STAGE_*`. -/
inductive SPI_HID_INPUT_STAGE where
  | IDLE
  | BODY
deriving DecidableEq, Repr

/-- The work items of `struct spi_hid`. -/
inductive Work where
  | reset_work
  | create_device_work
  | refresh_device_work
  | error_work
  | staged_init_work
deriving DecidableEq, Repr

/-- The two input buffers of the session: `&shid->input` and `&shid->response`. -/
inductive BufSel where
  | input
  | response
deriving DecidableEq, Repr

/-- Receive target of an input transfer: `buf->header` or `buf->body` of a buffer. -/
inductive RxBuf where
  | header (b : BufSel)
  | body (b : BufSel)
deriving DecidableEq, Repr

/-- Completion callbacks installed in `shid->input_message.complete`. -/
inductive Callback where
  | spi_hid_input_header_complete
  | spi_hid_input_body_complete
deriving DecidableEq, Repr

/-- The pin-control states of the session: `pinctrl_reset`, `pinctrl_active` and
`pinctrl_sleep`. -/
inductive PinState where
  | reset
  | active
  | sleep
deriving DecidableEq, Repr

/-- An input message (read approval + receive) handed to the SPI core by `spi_async`
and not yet completed. -/
structure Message where
  rx : RxBuf
  len : Nat
  complete : Callback
deriving DecidableEq, Repr

/-- Calls that leave the function under study, recorded in program order.  The
`trace_*` events are the tracepoints at the entry of the respective function; the
buffer argument of the function is recorded with them. -/
inductive Event where
  | schedule_work (w : Work)
  | spi_async_input (tx : List Nat) (rx : RxBuf) (len : Nat) (complete : Callback) (ret : Int)
  | spi_async_output (tx : List Nat) (ret : Int)
  | hid_input_report (hid : Nat) (data : List Nat)
  | complete_output_done
  | trace_bus_input_report
  | trace_input_header_complete
  | trace_input_body_complete
  | trace_process_input_report (buf : BufSel)
  | trace_input_report_handler (buf : BufSel)
  | trace_response_handler (buf : BufSel)
  | sysfs_notify_ready
  | cancel_work_sync (w : Work)
  | hid_destroy_device (hid : Nat)
  | pinctrl_select_state (st : PinState) (ret : Int)
  | regulator_disable (ret : Int)
  | msleep (ms : Nat)
  | gpio_request (gpio : Nat) (ret : Int)
  | gpio_direction_input (gpio : Nat)
  | gpio_direction_output (gpio : Nat) (value : Nat)
  | gpio_set_value (gpio : Nat) (value : Nat)
  | gpio_free (gpio : Nat)
  | acpi_evaluate_RST (failure : Bool)
  | flush_work (w : Work)
  | hid_allocate_device (err : Int)
  | hid_add_device (hid : Nat) (ret : Int)
  | enable_irq
  | disable_irq
  | regulator_enable (ret : Int)
  | usleep_range (min : Nat) (max : Nat)
  | trace_reset_work
  | trace_create_device_work
  | trace_refresh_device_work
  | hid_parse_report (hid : Nat) (data : List Nat) (ret : Int)
deriving DecidableEq, Repr

/-- Input buffer `struct spi_hid_input_buf`: header bytes, body bytes and content
bytes, contiguous in memory in this order. -/
structure spi_hid_input_buf where
  header : List Nat
  body : List Nat
  content : List Nat
deriving DecidableEq, Repr

/-- Output buffer `struct spi_hid_output_buf`. -/
structure spi_hid_output_buf where
  header : List Nat
  body : List Nat
  content : List Nat
deriving DecidableEq, Repr

/-- Output report `struct spi_hid_output_report`. -/
structure spi_hid_output_report where
  content_type : Nat
  content_length : Nat
  content_id : Nat
  content : List Nat
deriving DecidableEq, Repr

/-- Device descriptor `struct spi_hid_device_descriptor`. -/
structure spi_hid_device_descriptor where
  hid_version : Nat
  report_descriptor_length : Nat
  report_descriptor_register : Nat
  input_register : Nat
  max_input_length : Nat
  output_register : Nat
  max_output_length : Nat
  command_register : Nat
  vendor_id : Nat
  product_id : Nat
  version_id : Nat
  device_power_support : Nat
  power_response_delay : Nat
deriving DecidableEq, Repr

/-- The session `struct spi_hid`, restricted to the fields the modelled functions
read or write.  `input_transfer_pending` and the error counters are unbounded
integers (their declarations are in spi-hid-core.h): the wrap of a fixed-width
counter at its far limit is outside the model, the passage through zero is not.
`name_has_MSHW0231` is the value of `strstr(dev_name(dev), "MSHW0231")`, `of_node`
that of `dev->of_node != NULL`, `hid_desc_addr` the register of the device descriptor
that probe reads from the firmware.  The fields `init_responses` to `touch_sim_count`
are the function-local statics of the source.  `bus` is the queue of the SPI core
for the input message (reads submitted and not yet completed), `output_in_flight`
the number of output messages submitted and not yet completed, `log` the record of
outgoing calls; `output_done` is the `done` count of the completion of that name. -/
structure spi_hid where
  name_has_MSHW0231 : Bool
  of_node : Bool
  powered : Bool
  power_state : SPI_HID_POWER_MODE
  ready : Bool
  refresh_in_progress : Bool
  irq_enabled : Bool
  hid : Option Nat
  attempts : Nat
  input_transfer_pending : Int
  input_stage : SPI_HID_INPUT_STAGE
  desc : spi_hid_device_descriptor
  input : spi_hid_input_buf
  response : spi_hid_input_buf
  output : spi_hid_output_buf
  read_approval : List Nat
  input_message_status : Int
  input_message_complete : Callback
  input_transfer_rx_buf : RxBuf
  input_transfer_len : Nat
  output_done : Nat
  report_descriptor_crc32 : Nat
  bus_error_count : Int
  bus_last_error : Int
  logic_error_count : Int
  logic_last_error : Int
  dir_count : Int
  perf_mode : Nat
  touch_signature_index : Nat
  windows_multi_collection_mode : Bool
  target_collection : Nat
  init_responses : Nat
  body_bypass_attempts : Nat
  wake_attempts : Nat
  interrupt_successes : Nat
  touch_sim_count : Nat
  hid_desc_addr : Nat
  interrupt_driven_mode : Bool
  regulator_error_count : Int
  regulator_last_error : Int
  collection_06_parsed : Bool
  bus : List Message
  output_in_flight : Nat
  log : List Event
deriving DecidableEq, Repr

/-- Results of the calls that leave the driver during one invocation of an entry
point: `spi_async` on the input message, `spi_async` on an output message,
`hid_input_report`, and `in_atomic() || in_interrupt()`; the result of
`wait_for_completion_interruptible_timeout` when the caller has to sleep (0 for a
timeout, negative for an interruption, positive when the completion arrived in
time); the results of `pinctrl_select_state` for the three pin states and of
`regulator_disable`; and what `spi_hid_reset_via_acpi` finds: whether the ACPI
companion matches "MSHW0231", whether `gpio_to_desc(644)` returns a descriptor, the
result of `gpio_request`, and whether the evaluation of `_RST` fails; the result of
`regulator_enable`; the result of `hid_allocate_device` (an error code, or 0 together
with the handle of the new device), the result of `hid_add_device` once the report
descriptor of the new device has been parsed, and the result of `hid_parse_report`. -/
structure Ext where
  spi_async_ret : Int
  spi_async_output_ret : Int
  hid_input_report_ret : Int
  in_atomic : Bool
  wait_for_completion_ret : Int
  pinctrl_reset_ret : Int
  pinctrl_active_ret : Int
  pinctrl_sleep_ret : Int
  regulator_disable_ret : Int
  acpi_match_MSHW0231 : Bool
  gpio_to_desc_ok : Bool
  gpio_request_ret : Int
  acpi_RST_failure : Bool
  regulator_enable_ret : Int
  hid_allocate_device_err : Int
  hid_allocate_device_hid : Nat
  hid_add_device_ret : Int
  hid_parse_report_ret : Int
deriving DecidableEq, Repr

/-- The buffer a selector stands for. -/
def spi_hid.buf (s : spi_hid) : BufSel → spi_hid_input_buf
  | BufSel.input => s.input
  | BufSel.response => s.response

/-- Store a buffer back into the session. -/
def spi_hid.set_buf (s : spi_hid) (b : BufSel) (v : spi_hid_input_buf) : spi_hid :=
  match b with
  | BufSel.input => { s with input := v }
  | BufSel.response => { s with response := v }

/-- Record an outgoing call. -/
def spi_hid.emit (s : spi_hid) (e : Event) : spi_hid :=
  { s with log := s.log ++ [e] }

/-- Kernel `schedule_work(&shid->w)`. -/
def schedule_work (s : spi_hid) (w : Work) : spi_hid :=
  s.emit (Event.schedule_work w)

/-- Line 2644: `spi_hid_is_mshw0231`. -/
def spi_hid_is_mshw0231 (s : spi_hid) : Bool :=
  s.name_has_MSHW0231

/-- Overwrite `src.length` bytes of `dst` from offset `off` on (`memcpy`, `memset`, a
receive); `dst` is extended by zero bytes when it is too short. -/
def write_at (dst : List Nat) (off : Nat) (src : List Nat) : List Nat :=
  let d := dst ++ List.replicate (off + src.length - dst.length) 0
  d.take off ++ src ++ d.drop (off + src.length)

/-- The first `n` bytes at `src`, read as bytes of a C array. -/
def read_bytes (src : List Nat) (n : Nat) : List Nat :=
  (List.range n).map (fun i => src.getD i 0)

/-- Kernel macro `round_up(x, 4)`: `(((x) - 1) | 3) + 1`, for `x` computed in a type
wider than 16 bits. -/
def round_up4 (x : Nat) : Nat :=
  (x + 3) / 4 * 4

/-! ## Frame codec, output side -/

/-- Lines 89-106: `le16_to_cpu` of the 16-bit field at byte offset `off` of the raw
descriptor. -/
def le16_to_cpu (raw : List Nat) (off : Nat) : Nat :=
  raw.getD off 0 ||| (raw.getD (off + 1) 0 <<< 8)

/-- Lines 89-106: `spi_hid_parse_dev_desc`. -/
def spi_hid_parse_dev_desc (k : Consts) (raw : List Nat) : spi_hid_device_descriptor :=
  { hid_version := le16_to_cpu raw k.raw.bcdVersion
    report_descriptor_length := le16_to_cpu raw k.raw.wReportDescLength
    report_descriptor_register := le16_to_cpu raw k.raw.wReportDescRegister
    input_register := le16_to_cpu raw k.raw.wInputRegister
    max_input_length := le16_to_cpu raw k.raw.wMaxInputLength
    output_register := le16_to_cpu raw k.raw.wOutputRegister
    max_output_length := le16_to_cpu raw k.raw.wMaxOutputLength
    command_register := le16_to_cpu raw k.raw.wCommandRegister
    vendor_id := le16_to_cpu raw k.raw.wVendorID
    product_id := le16_to_cpu raw k.raw.wProductID
    version_id := le16_to_cpu raw k.raw.wVersionID
    device_power_support := 0
    power_response_delay := 0 }

/-- Lines 141-151: `spi_hid_output_header`; both parameters are `u16`. -/
def spi_hid_output_header (k : Consts) (output_register output_report_length : Nat) :
    List Nat :=
  let reg := output_register % 2 ^ 16
  let len := output_report_length % 2 ^ 16
  [ k.SPI_HID_OUTPUT_HEADER_OPCODE_WRITE % 256,
    (reg >>> 16) &&& 0xff,
    (reg >>> 8) &&& 0xff,
    (reg >>> 0) &&& 0xff,
    ((k.SPI_HID_OUTPUT_HEADER_VERSION <<< 0) ||| (((len >>> 0) &&& 0xf) <<< 4)) % 256,
    (len >>> 4) &&& 0xff ]

/-- Lines 153-162: `spi_hid_output_body`. -/
def spi_hid_output_body (report : spi_hid_output_report) : List Nat :=
  let content_length := report.content_length % 2 ^ 16
  [ report.content_type % 256,
    (content_length >>> 0) &&& 0xff,
    (content_length >>> 8) &&& 0xff,
    report.content_id % 256 ]

/-- Lines 164-171: `spi_hid_read_approval`. -/
def spi_hid_read_approval (k : Consts) (input_register : Nat) : List Nat :=
  [ k.SPI_HID_READ_APPROVAL_OPCODE_READ % 256,
    (input_register >>> 16) &&& 0xff,
    (input_register >>> 8) &&& 0xff,
    (input_register >>> 0) &&& 0xff,
    k.SPI_HID_READ_APPROVAL_CONSTANT % 256 ]

/-! ## Transfers -/

/-- Lines 173-215: `spi_hid_input_async`: one message of two transfers, the read
approval (tx) and the receive into `buf` of `length` bytes, completed by `complete`. -/
def spi_hid_input_async (k : Consts) (o : Ext) (s : spi_hid) (buf : RxBuf) (length : Nat)
    (complete : Callback) : Int × spi_hid :=
  let s1 := { s with
    input_transfer_rx_buf := buf,
    input_transfer_len := length,
    read_approval := spi_hid_read_approval k s.desc.input_register,
    input_message_complete := complete }
  let ret := o.spi_async_ret
  let s2 := s1.emit (Event.spi_async_input s1.read_approval buf length complete ret)
  let s3 := if ret = 0 then { s2 with bus := s2.bus ++ [Message.mk buf length complete] }
            else s2
  if ret ≠ 0 then
    (ret, { s3 with bus_error_count := s3.bus_error_count + 1, bus_last_error := ret })
  else
    (ret, s3)

/-- Lines 217-225: `spi_hid_output_complete`. -/
def spi_hid_output_complete (s : spi_hid) : spi_hid :=
  { s.emit Event.complete_output_done with output_done := s.output_done + 1 }

/-- Lines 227-269: `spi_hid_output`, sending the first `length` bytes of the output
buffer; the parameter `length` is `u16`, so the value handed in is taken modulo
2^16. -/
def spi_hid_output (o : Ext) (s : spi_hid) (length : Nat) : Int × spi_hid :=
  if o.in_atomic then (0, s)
  else
    let tx := read_bytes (s.output.header ++ s.output.body ++ s.output.content)
      (length % 2 ^ 16)
    let ret := o.spi_async_output_ret
    let s1 := s.emit (Event.spi_async_output tx ret)
    let s2 := if ret = 0 then { s1 with output_in_flight := s1.output_in_flight + 1 } else s1
    if ret ≠ 0 then
      (ret, { s2 with bus_error_count := s2.bus_error_count + 1, bus_last_error := ret })
    else
      (ret, s2)

/-- Lines 600-650: `spi_hid_send_output_report`.  `body_length`, `padded_length` and
`max_length` are `u16`, `padding` is `u8`. -/
def spi_hid_send_output_report (k : Consts) (o : Ext) (s : spi_hid) (output_register : Nat)
    (report : spi_hid_output_report) : Int × spi_hid :=
  let body_length := (SPI_HID_OUTPUT_BODY_LEN + report.content_length) % 2 ^ 16
  let padded_length := round_up4 body_length % 2 ^ 16
  let padding := (padded_length + 2 ^ 16 - body_length) % 2 ^ 8
  let max_length := round_up4 (s.desc.max_output_length + 3 + SPI_HID_OUTPUT_BODY_LEN) % 2 ^ 16
  if padded_length < report.content_length then (-E2BIG, s)
  else if padded_length > max_length then (-E2BIG, s)
  else
    let header := spi_hid_output_header k output_register padded_length
    let body := spi_hid_output_body report
    let content1 :=
      if report.content_length > 3 then
        write_at s.output.content 0 (read_bytes report.content report.content_length)
      else s.output.content
    let content2 := write_at content1 report.content_length (List.replicate padding 0)
    let s1 := { s with output := { header := header, body := body, content := content2 } }
    spi_hid_output o s1 (SPI_HID_OUTPUT_HEADER_LEN + padded_length)

/-- Lines 2819-2842: `spi_hid_send_multitouch_enable_collection_06`. -/
def spi_hid_send_multitouch_enable_collection_06 (k : Consts) (o : Ext) (s : spi_hid) :
    Int × spi_hid :=
  spi_hid_send_output_report k o s s.desc.output_register
    { content_type := k.SPI_HID_CONTENT_TYPE_SET_FEATURE, content_id := 0x06,
      content_length := 3, content := [0x06, 0x02, 0x0A] }

/-- A statement `ret = f(shid); msleep(ms); return ret;`. -/
def then_msleep (r : Int × spi_hid) (ms : Nat) : Int × spi_hid :=
  (r.1, r.2.emit (Event.msleep ms))

/-- Lines 2534-2572: `spi_hid_send_reset_notification`. -/
def spi_hid_send_reset_notification (k : Consts) (o : Ext) (s : spi_hid) : Int × spi_hid :=
  if !s.ready then (-ENODEV, s)
  else if o.in_atomic then (0, s)
  else
    then_msleep
      (spi_hid_send_output_report k o s s.desc.output_register
        { content_type := k.SPI_HID_CONTENT_TYPE_SET_FEATURE, content_id := 0x01,
          content_length := 2, content := [0x01, 0x00] })
      100

/-- Lines 2574-2611: `spi_hid_send_enhanced_power_mgmt`. -/
def spi_hid_send_enhanced_power_mgmt (k : Consts) (o : Ext) (s : spi_hid) (enable : Nat) :
    Int × spi_hid :=
  if !s.ready then (-ENODEV, s)
  else if o.in_atomic then (0, s)
  else
    then_msleep
      (spi_hid_send_output_report k o s s.desc.output_register
        { content_type := k.SPI_HID_CONTENT_TYPE_SET_FEATURE, content_id := 0x05,
          content_length := 3, content := [0x05, enable, 0x00] })
      30

/-- Lines 2613-2642: `spi_hid_send_selective_suspend`. -/
def spi_hid_send_selective_suspend (k : Consts) (o : Ext) (s : spi_hid) (enable : Nat) :
    Int × spi_hid :=
  if !s.ready then (-ENODEV, s)
  else
    then_msleep
      (spi_hid_send_output_report k o s s.desc.output_register
        { content_type := k.SPI_HID_CONTENT_TYPE_SET_FEATURE, content_id := 0x04,
          content_length := 3, content := [0x04, enable, 0x00] })
      30

/-! ## Report dispatch -/

/-- Input report `struct spi_hid_input_report`; `content` stands for the pointer
into the content bytes of the buffer. -/
structure spi_hid_input_report where
  report_type : Nat
  content_length : Nat
  content_id : Nat
  content : List Nat
deriving DecidableEq, Repr

/-- Lines 127-139: `spi_hid_input_report_prepare`. -/
def spi_hid_input_report_prepare (buf : spi_hid_input_buf) : spi_hid_input_report :=
  let header := spi_hid_populate_input_header buf.header
  let body := spi_hid_populate_input_body buf.body
  { report_type := header.report_type
    content_length := body.content_length
    content_id := body.content_id
    content := buf.content }

/-- Lines 554-559 of `spi_hid_input_report_handler`: in `perf_mode` the first two
content bytes of a heat-map report are overwritten with the touch signature index,
which is then incremented. -/
def spi_hid_input_report_handler_signature (k : Consts) (s : spi_hid) (b : BufSel) : spi_hid :=
  let r := spi_hid_input_report_prepare (s.buf b)
  if decide (s.perf_mode ≠ 0)
      && (decide (r.content_id = k.SPI_HID_RIGHT_SCREEN_TOUCH_HEAT_MAP_REPORT_ID)
        || decide (r.content_id = k.SPI_HID_LEFT_SCREEN_TOUCH_HEAT_MAP_REPORT_ID)) then
    let c1 := write_at r.content 1 [(s.touch_signature_index >>> 8) % 256]
    let c0 := write_at c1 0 [s.touch_signature_index % 256]
    { (s.set_buf b { s.buf b with content := c0 }) with
      touch_signature_index := s.touch_signature_index + 1 }
  else s

/-- Line 561 of `spi_hid_input_report_handler`: the bytes handed to
`hid_input_report`; they start one byte before the content (`r.content - 1`, the
last body byte) and are `content_length + 1` long. -/
def spi_hid_input_report_handler_data (s : spi_hid) (b : BufSel) : List Nat :=
  (s.buf b).body.getD (SPI_HID_INPUT_BODY_LEN - 1) 0 ::
    read_bytes (s.buf b).content (spi_hid_populate_input_body (s.buf b).body).content_length

/-- Lines 504-583: `spi_hid_input_report_handler`.  The latency table written in
`perf_mode` is instrumentation and is not part of the session model. -/
def spi_hid_input_report_handler (k : Consts) (o : Ext) (s0 : spi_hid) (b : BufSel) :
    Int × spi_hid :=
  let s := s0.emit (Event.trace_input_report_handler b)
  if !s.ready then (0, s)
  else if s.refresh_in_progress then (0, s)
  else
    match s.hid with
    | none => (0, s)
    | some hid =>
      let r := spi_hid_input_report_prepare (s.buf b)
      let collection_id := (r.content.getD 0 0 >>> 4) % 256
      if spi_hid_is_mshw0231 s && s.windows_multi_collection_mode
          && decide (r.content_length > 0)
          && decide (s.target_collection = k.MSHW0231_COLLECTION_TOUCHSCREEN)
          && decide (collection_id ≠ k.MSHW0231_COLLECTION_TOUCHSCREEN)
          && decide (collection_id ≠ 0x00) then
        (0, s)
      else
        let s1 := spi_hid_input_report_handler_signature k s b
        let s2 := s1.emit (Event.hid_input_report hid (spi_hid_input_report_handler_data s1 b))
        let ret := o.hid_input_report_ret
        if ret = -ENODEV ∨ ret = -EBUSY then (0, s2) else (ret, s2)

/-- Lines 585-598: `spi_hid_response_handler`; `completion_done` is true when the
`done` count is not zero. -/
def spi_hid_response_handler (s0 : spi_hid) (b : BufSel) : Int × spi_hid :=
  let s := s0.emit (Event.trace_response_handler b)
  if s.output_done ≠ 0 then (0, s)
  else (0, { s.emit Event.complete_output_done with output_done := s.output_done + 1 })

/-- A statement `if (c) ret = f(shid);` whose result is only logged. -/
def run_if (c : Bool) (f : spi_hid → Int × spi_hid) (s : spi_hid) : spi_hid :=
  if c then (f s).2 else s

/-- Lines 733-1088 of `spi_hid_process_input_report`: the branch taken by an
MSHW0231 device for a content length of 0xFFFD.  The payload scans of the branch
(lines 740-943 and 953-977) write only function-local variables and the kernel log
(their `hid_input_report` calls are commented out in the source, the one of lines
1049-1085 is guarded by `0 &&`), so they leave the session as it is. -/
def spi_hid_process_input_report_handshake (k : Consts) (o : Ext) (s : spi_hid)
    (header : spi_hid_input_header) : Int × spi_hid :=
  let s1 := { s with init_responses := s.init_responses + 1 }
  let n := s1.init_responses
  if header.report_type = 0x0f then (0, s1)
  else if n ≥ 10 then
    let s2 := { s1 with ready := true }
    let s3 := if s2.hid.isNone then schedule_work s2 Work.create_device_work else s2
    (0, s3
      |> run_if (n == 150) (spi_hid_send_multitouch_enable_collection_06 k o)
      |> run_if (n == 155) (spi_hid_send_reset_notification k o)
      |> run_if (n == 160) (fun t => spi_hid_send_enhanced_power_mgmt k o t 1)
      |> run_if (n == 165) (fun t => spi_hid_send_selective_suspend k o t 1)
      |> run_if (n == 170) (fun t => spi_hid_send_selective_suspend k o t 0)
      |> run_if (n == 190) (fun t => spi_hid_send_selective_suspend k o t 1))
  else (0, s1)

/-- Lines 1115-1187 of `spi_hid_process_input_report`: the switch on the report
type, its cases tried in the order of the source. -/
def spi_hid_process_input_report_switch (k : Consts) (o : Ext) (s : spi_hid) (b : BufSel)
    (header : spi_hid_input_header) : Int × spi_hid :=
  if header.report_type = k.SPI_HID_REPORT_TYPE_DATA then
    spi_hid_input_report_handler k o s b
  else if header.report_type = k.SPI_HID_REPORT_TYPE_RESET_RESP then
    (0, schedule_work s Work.reset_work)
  else if header.report_type = k.SPI_HID_REPORT_TYPE_DEVICE_DESC then
    let s1 := { s with attempts := 0 }
    let s2 := { s1 with desc := spi_hid_parse_dev_desc k (s1.buf b).content }
    if s2.hid.isNone then (0, schedule_work s2 Work.create_device_work)
    else (0, schedule_work s2 Work.refresh_device_work)
  else if header.report_type = k.SPI_HID_REPORT_TYPE_COMMAND_RESP
      ∨ header.report_type = k.SPI_HID_REPORT_TYPE_GET_FEATURE_RESP then
    if !s.ready then (-EINVAL, s)
    else spi_hid_response_handler s b
  else if header.report_type = k.SPI_HID_REPORT_TYPE_REPORT_DESC then
    spi_hid_response_handler s b
  else if spi_hid_is_mshw0231 s then
    let s1 :=
      if s.touch_sim_count % 50 = 0 then
        match s.hid with
        | some hid => s.emit (Event.hid_input_report hid [0x06, 0x01, 0x00, 0x08, 0x00, 0x06])
        | none => s
      else s
    let s2 := { s1 with touch_sim_count := s1.touch_sim_count + 1 }
    spi_hid_input_report_handler k o s2 b
  else (-EINVAL, s)

/-- Lines 717-1191: `spi_hid_process_input_report`.  The heartbeat test of lines
1110-1113 only writes the kernel log. -/
def spi_hid_process_input_report (k : Consts) (o : Ext) (s0 : spi_hid) (b : BufSel) :
    Int × spi_hid :=
  let s := s0.emit (Event.trace_process_input_report b)
  let header := spi_hid_populate_input_header (s.buf b).header
  let body := spi_hid_populate_input_body (s.buf b).body
  if body.content_length > header.report_length then
    if spi_hid_is_mshw0231 s && decide (body.content_length = 65533) then
      spi_hid_process_input_report_handshake k o s header
    else if (decide (header.sync_const = 0xFF) || decide (body.content_length > 60000)
          || spi_hid_is_mshw0231 s) && decide (s.body_bypass_attempts < 50) then
      (0, { s with body_bypass_attempts := s.body_bypass_attempts + 1 })
    else (-EINVAL, s)
  else
    spi_hid_process_input_report_switch k o s b header

/-- Lines 1193-1270: `spi_hid_bus_validate_header`; returns the result, the header
(its sync byte may be rewritten) and the session (the statics `wake_attempts` and
`interrupt_successes`). -/
def spi_hid_bus_validate_header (k : Consts) (s : spi_hid) (header : spi_hid_input_header) :
    Int × spi_hid_input_header × spi_hid :=
  if header.sync_const ≠ SPI_HID_INPUT_HEADER_SYNC_BYTE then
    if header.sync_const = 0xFF then
      if s.irq_enabled && decide (s.input_transfer_pending ≠ 0) then
        let s1 := { s with interrupt_successes := s.interrupt_successes + 1 }
        if s1.interrupt_successes ≥ 5 then
          (0, { header with sync_const := SPI_HID_INPUT_HEADER_SYNC_BYTE }, s1)
        else (0, header, s1)
      else if s.wake_attempts < 15 then
        (0, header, { s with wake_attempts := s.wake_attempts + 1 })
      else (-EINVAL, header, s)
    else (-EINVAL, header, s)
  else if header.version ≠ k.SPI_HID_INPUT_HEADER_VERSION
      ∧ ¬ (spi_hid_is_mshw0231 s = true ∧ header.version = 0x0f) then
    (-EINVAL, header, s)
  else if s.desc.max_input_length ≠ 0 ∧ header.report_length > s.desc.max_input_length then
    (-EMSGSIZE, header, s)
  else (0, header, s)

/-- The case labels of the switch of lines 1115-1148, in the order of the source; C
requires the labels of one switch to be pairwise distinct. -/
def switch_case_labels (k : Consts) : List Nat :=
  [ k.SPI_HID_REPORT_TYPE_DATA, k.SPI_HID_REPORT_TYPE_RESET_RESP,
    k.SPI_HID_REPORT_TYPE_DEVICE_DESC, k.SPI_HID_REPORT_TYPE_COMMAND_RESP,
    k.SPI_HID_REPORT_TYPE_GET_FEATURE_RESP, k.SPI_HID_REPORT_TYPE_REPORT_DESC ]

/-! ## Transfer pipeline -/

/-- The predicate of lines 1541-1543 and 1625-1627: the report types whose body goes
to the response buffer. -/
def is_response_type (k : Consts) (report_type : Nat) : Bool :=
  decide (report_type = k.SPI_HID_REPORT_TYPE_COMMAND_RESP)
    || decide (report_type = k.SPI_HID_REPORT_TYPE_GET_FEATURE_RESP)
    || decide (report_type = k.SPI_HID_REPORT_TYPE_REPORT_DESC)

/-- Lines 1540-1545 and 1624-1628: `buf = &shid->input`, replaced by `&shid->response`
for the three response report types. -/
def spi_hid_select_buf (k : Consts) (report_type : Nat) : BufSel :=
  if is_response_type k report_type then BufSel.response else BufSel.input

/-- Lines 1624-1633 of `spi_hid_input_header_complete`: for a response report type
the header bytes are copied into the response buffer; then
`input_stage = SPI_HID_INPUT_STAGE_BODY`. -/
def spi_hid_input_header_complete_route (k : Consts) (s1 : spi_hid) (report_type : Nat) :
    spi_hid :=
  let h := write_at s1.response.header 0 (read_bytes s1.input.header SPI_HID_INPUT_HEADER_LEN)
  let s2 :=
    if is_response_type k report_type then
      { s1 with response := { s1.response with header := h } }
    else s1
  { s2 with input_stage := SPI_HID_INPUT_STAGE.BODY }

/-- Lines 1571-1645: `spi_hid_input_header_complete`. -/
def spi_hid_input_header_complete (k : Consts) (o : Ext) (s0 : spi_hid) : spi_hid :=
  if !s0.powered then s0
  else
    let s := s0.emit Event.trace_input_header_complete
    if s.input_message_status < 0 then
      schedule_work
        { s with bus_error_count := s.bus_error_count + 1,
                 bus_last_error := s.input_message_status } Work.error_work
    else if s.power_state = SPI_HID_POWER_MODE.OFF then s
    else
      let v := spi_hid_bus_validate_header k s (spi_hid_populate_input_header s.input.header)
      let ret := v.1
      let header := v.2.1
      let s1 := v.2.2
      if ret ≠ 0 then
        { s1 with bus_error_count := s1.bus_error_count + 1,
                  bus_last_error := ret,
                  input_transfer_pending := 0 }
      else
        let r := spi_hid_input_async k o
          (spi_hid_input_header_complete_route k s1 header.report_type)
          (RxBuf.body (spi_hid_select_buf k header.report_type)) header.report_length
          Callback.spi_hid_input_body_complete
        if r.1 ≠ 0 then { r.2 with input_transfer_pending := 0 } else r.2

/-- Lines 1515-1522 of `spi_hid_input_body_complete`: the tracepoint and
`input_stage = SPI_HID_INPUT_STAGE_IDLE`. -/
def spi_hid_input_body_complete_begin (s0 : spi_hid) : spi_hid :=
  { s0.emit Event.trace_input_body_complete with input_stage := SPI_HID_INPUT_STAGE.IDLE }

/-- Lines 1554-1565 of `spi_hid_input_body_complete`: the pending count is decremented
and, when it is still nonzero, the next header read is started. -/
def spi_hid_input_body_complete_next (k : Consts) (o : Ext) (s : spi_hid) : spi_hid :=
  let pending := s.input_transfer_pending - 1
  let s1 := { s with input_transfer_pending := pending }
  if pending ≠ 0 then
    (spi_hid_input_async k o s1 (RxBuf.header BufSel.input) SPI_HID_INPUT_HEADER_LEN
      Callback.spi_hid_input_header_complete).2
  else s1

/-- Lines 1502-1569: `spi_hid_input_body_complete`.  The interrupt time stamps are
instrumentation and not part of the session model. -/
def spi_hid_input_body_complete (k : Consts) (o : Ext) (s0 : spi_hid) : spi_hid :=
  if !s0.powered then s0
  else
    let s := spi_hid_input_body_complete_begin s0
    if s.input_message_status < 0 then
      schedule_work
        { s with bus_error_count := s.bus_error_count + 1,
                 bus_last_error := s.input_message_status } Work.error_work
    else if s.power_state = SPI_HID_POWER_MODE.OFF then s
    else
      let b := spi_hid_select_buf k (spi_hid_populate_input_header s.input.header).report_type
      let r := spi_hid_process_input_report k o s b
      if r.1 ≠ 0 then schedule_work r.2 Work.error_work
      else spi_hid_input_body_complete_next k o r.2

/-- Lines 1647-1665: `spi_hid_bus_input_report`. -/
def spi_hid_bus_input_report (k : Consts) (o : Ext) (s0 : spi_hid) : Int × spi_hid :=
  let s := s0.emit Event.trace_bus_input_report
  let s1 := { s with input_transfer_pending := s.input_transfer_pending + 1 }
  if s.input_transfer_pending ≠ 0 then (0, s1)
  else
    let r := spi_hid_input_async k o s1 (RxBuf.header BufSel.input) SPI_HID_INPUT_HEADER_LEN
      Callback.spi_hid_input_header_complete
    if r.1 ≠ 0 then (r.1, r.2) else (0, r.2)

/-- Lines 1760-1795: `spi_hid_dev_irq`, the interrupt handler (data-ready signal). -/
def spi_hid_dev_irq (k : Consts) (o : Ext) (s : spi_hid) : spi_hid :=
  let r := spi_hid_bus_input_report k o s
  if r.1 ≠ 0 then schedule_work r.2 Work.error_work else r.2

/-! ## The SPI core, as the driver sees it -/

/-- The receive of a completed input message: `len` bytes of `data` stored at the
receive target.  Body and content of a buffer are contiguous, so a receive at
`buf->body` longer than the body runs on into `buf->content`. -/
def spi_receive (s : spi_hid) (rx : RxBuf) (len : Nat) (data : List Nat) : spi_hid :=
  match rx with
  | RxBuf.header b =>
    s.set_buf b { s.buf b with header := write_at (s.buf b).header 0 (read_bytes data len) }
  | RxBuf.body b =>
    let flat := write_at ((s.buf b).body ++ (s.buf b).content) 0 (read_bytes data len)
    let n := (s.buf b).body.length
    s.set_buf b { s.buf b with body := flat.take n, content := flat.drop n }

/-- The session as the completion callback of the oldest in-flight input message
finds it: message dequeued, status stored, received bytes in place. -/
def spi_deliver (status : Int) (data : List Nat) (s : spi_hid) : spi_hid :=
  match s.bus with
  | [] => s
  | m :: rest =>
    spi_receive { s with bus := rest, input_message_status := status } m.rx m.len data

/-- Completion of the oldest in-flight input message with `status` and received
bytes `data`: the SPI core invokes the callback stored with the message.  Without a
message in flight nothing happens. -/
def spi_complete (k : Consts) (o : Ext) (status : Int) (data : List Nat) (s : spi_hid) :
    spi_hid :=
  match s.bus with
  | [] => s
  | m :: _ =>
    match m.complete with
    | Callback.spi_hid_input_header_complete =>
      spi_hid_input_header_complete k o (spi_deliver status data s)
    | Callback.spi_hid_input_body_complete =>
      spi_hid_input_body_complete k o (spi_deliver status data s)

/-- Completion of the oldest output message in flight: the SPI core invokes the
callback stored with the message by `spi_hid_output`, `spi_hid_output_complete`.
Without an output message in flight nothing happens. -/
def spi_complete_output (s : spi_hid) : spi_hid :=
  if s.output_in_flight = 0 then s
  else spi_hid_output_complete { s with output_in_flight := s.output_in_flight - 1 }

/-! ## Request/response rendezvous -/

/-- Kernel `wait_for_completion_interruptible_timeout(&shid->output_done, ...)` as its
caller sees it.  With the `done` count not zero the call takes one count and returns
at once with the time left, a positive number.  With the count at zero the caller
sleeps; what the other contexts do meanwhile is not part of this function, and the
result is an input of the model: 0 for a timeout, a negative value for an
interruption, a positive value when `output_done` was completed in time (the count
given by that completion is taken by the waiter, so it is zero again). -/
def wait_for_completion_interruptible_timeout (o : Ext) (s : spi_hid) : Int × spi_hid :=
  if s.output_done ≠ 0 then
    (max 1 o.wait_for_completion_ret, { s with output_done := s.output_done - 1 })
  else (o.wait_for_completion_ret, s)

/-- Lines 657-682: `spi_hid_sync_request`; the parameter `output_register` is `u16`. -/
def spi_hid_sync_request (k : Consts) (o : Ext) (s : spi_hid) (output_register : Nat)
    (report : spi_hid_output_report) : Int × spi_hid :=
  let r := spi_hid_send_output_report k o s (output_register % 2 ^ 16) report
  if r.1 ≠ 0 then (r.1, r.2)
  else
    let w := wait_for_completion_interruptible_timeout o r.2
    if w.1 = 0 then (-ETIMEDOUT, schedule_work w.2 Work.error_work)
    else (0, w.2)

/-! ## Error recovery -/

/-- Lines 287-308: `spi_hid_power_down`. -/
def spi_hid_power_down (o : Ext) (s : spi_hid) : Int × spi_hid :=
  if !s.powered then (0, s)
  else if s.of_node then
    let s1 := s.emit (Event.pinctrl_select_state PinState.sleep o.pinctrl_sleep_ret)
    let s2 := s1.emit (Event.regulator_disable o.regulator_disable_ret)
    if o.regulator_disable_ret ≠ 0 then (o.regulator_disable_ret, s2)
    else (0, { s2 with powered := false })
  else (0, { s with powered := false })

/-- Lines 310-317: `spi_hid_disconnect_hid`; returns the consumer that was attached. -/
def spi_hid_disconnect_hid (s : spi_hid) : Option Nat × spi_hid :=
  (s.hid, { s with hid := none })

/-- Lines 319-329: `spi_hid_stop_hid`. -/
def spi_hid_stop_hid (s : spi_hid) : spi_hid :=
  let r := spi_hid_disconnect_hid s
  match r.1 with
  | some hid =>
    ((r.2.emit (Event.cancel_work_sync Work.create_device_work)).emit
      (Event.cancel_work_sync Work.refresh_device_work)).emit (Event.hid_destroy_device hid)
  | none => r.2

/-- Lines 356-375 of `spi_hid_reset_via_acpi`: the reset pulse on GPIO 644. -/
def spi_hid_reset_via_acpi_gpio (s : spi_hid) : spi_hid :=
  [ Event.gpio_direction_input 644, Event.msleep 10,
    Event.gpio_direction_output 644 1, Event.msleep 20,
    Event.gpio_set_value 644 0, Event.msleep 100,
    Event.gpio_set_value 644 1, Event.msleep 1000,
    Event.gpio_free 644 ].foldl spi_hid.emit s

/-- Lines 331-384: `spi_hid_reset_via_acpi`. -/
def spi_hid_reset_via_acpi (o : Ext) (s : spi_hid) : Int × spi_hid :=
  if o.acpi_match_MSHW0231 && o.gpio_to_desc_ok then
    let s1 := s.emit (Event.gpio_request 644 o.gpio_request_ret)
    if o.gpio_request_ret ≠ 0 then
      let s2 := s1.emit (Event.acpi_evaluate_RST o.acpi_RST_failure)
      if o.acpi_RST_failure then (-EFAULT, s2) else (0, s2)
    else (0, spi_hid_reset_via_acpi_gpio s1)
  else
    let s2 := s.emit (Event.acpi_evaluate_RST o.acpi_RST_failure)
    if o.acpi_RST_failure then (-EFAULT, s2) else (0, s2)

/-- Lines 398-403 of `spi_hid_error_handler`: the device is given up. -/
def spi_hid_error_handler_abort (o : Ext) (s : spi_hid) : Int × spi_hid :=
  (-ESHUTDOWN, (spi_hid_power_down o (spi_hid_stop_hid s)).2)

/-- Lines 417-427 of `spi_hid_error_handler`: the session is taken through Off back to
Active, the input pipeline is cleared and pending reset work is cancelled; with a
device-tree node the reset is held for 100 ms. -/
def spi_hid_error_handler_cycle (s : spi_hid) : spi_hid :=
  let s1 := { s with
    power_state := SPI_HID_POWER_MODE.OFF,
    input_stage := SPI_HID_INPUT_STAGE.IDLE,
    input_transfer_pending := 0 }
  let s2 := s1.emit (Event.cancel_work_sync Work.reset_work)
  let s3 := if s2.of_node then s2.emit (Event.msleep 100) else s2
  { s3 with power_state := SPI_HID_POWER_MODE.ACTIVE }

/-- Lines 406-441 of `spi_hid_error_handler`: the reset of the device. -/
def spi_hid_error_handler_reset (o : Ext) (s0 : spi_hid) : Int × spi_hid :=
  let s := ({ s0 with ready := false } : spi_hid).emit Event.sysfs_notify_ready
  if s.of_node then
    let s1 := s.emit (Event.pinctrl_select_state PinState.reset o.pinctrl_reset_ret)
    if o.pinctrl_reset_ret ≠ 0 then (o.pinctrl_reset_ret, s1)
    else
      (o.pinctrl_active_ret,
        (spi_hid_error_handler_cycle s1).emit
          (Event.pinctrl_select_state PinState.active o.pinctrl_active_ret))
  else
    spi_hid_reset_via_acpi o (spi_hid_error_handler_cycle s)

/-- Lines 386-446: `spi_hid_error_handler`; `shid->attempts++ >= ...` tests the value
before the increment. -/
def spi_hid_error_handler (o : Ext) (s : spi_hid) : Int × spi_hid :=
  if s.power_state = SPI_HID_POWER_MODE.OFF then (0, s)
  else
    let s1 := { s with attempts := s.attempts + 1 }
    if s.attempts ≥ SPI_HID_MAX_RESET_ATTEMPTS then spi_hid_error_handler_abort o s1
    else spi_hid_error_handler_reset o s1

/-- Lines 448-457: `spi_hid_error_work`, the work item that runs the error handler; its
result is only logged. -/
def spi_hid_error_work (o : Ext) (s : spi_hid) : spi_hid :=
  (spi_hid_error_handler o s).2

/-- Consecutive invocations of `spi_hid_error_handler`, one for each element of the
list (the results of the platform calls during that invocation): the values returned,
in order, and the session after the last one. -/
def error_handler_run : spi_hid → List Ext → List Int × spi_hid
  | s, [] => ([], s)
  | s, o :: os =>
    ((spi_hid_error_handler o s).1 :: (error_handler_run (spi_hid_error_handler o s).2 os).1,
      (error_handler_run (spi_hid_error_handler o s).2 os).2)

/-- Every fallible platform reset operation succeeds during an invocation: the
selection of the reset and of the active pin state and the evaluation of `_RST`. -/
def reset_operations_succeed (o : Ext) : Bool :=
  decide (o.pinctrl_reset_ret = 0) && decide (o.pinctrl_active_ret = 0) && !o.acpi_RST_failure

/-! ## Output report lengths -/

/-- Line 613 of `spi_hid_send_output_report`: `body_length`, a `u16`. -/
def send_output_report_body_length (report : spi_hid_output_report) : Nat :=
  (SPI_HID_OUTPUT_BODY_LEN + report.content_length) % 2 ^ 16

/-- Line 614 of `spi_hid_send_output_report`: `padded_length`, a `u16`. -/
def send_output_report_padded_length (report : spi_hid_output_report) : Nat :=
  round_up4 (send_output_report_body_length report) % 2 ^ 16

/-- Lines 616-617 of `spi_hid_send_output_report`: `max_length`, a `u16`. -/
def send_output_report_max_length (s : spi_hid) : Nat :=
  round_up4 (s.desc.max_output_length + 3 + SPI_HID_OUTPUT_BODY_LEN) % 2 ^ 16

/-- Lines 631-637 of `spi_hid_send_output_report`: the session with the frame built in
the output buffer. -/
def send_output_report_build (k : Consts) (s : spi_hid) (output_register : Nat)
    (report : spi_hid_output_report) : spi_hid :=
  { s with output :=
    { header := spi_hid_output_header k output_register (send_output_report_padded_length report),
      body := spi_hid_output_body report,
      content :=
        write_at
          (if report.content_length > 3 then
            write_at s.output.content 0 (read_bytes report.content report.content_length)
           else s.output.content)
          report.content_length
          (List.replicate ((send_output_report_padded_length report + 2 ^ 16
            - send_output_report_body_length report) % 2 ^ 8) 0) } }

/-! ## Device lifecycle -/

/-- Kernel `min_t(unsigned int, a, b)` with the result assigned to an `int`: both
operands are converted to 32-bit unsigned, the smaller is taken and converted back. -/
def min_t_unsigned_int (a b : Int) : Int :=
  if min (a % 2 ^ 32) (b % 2 ^ 32) < 2 ^ 31 then min (a % 2 ^ 32) (b % 2 ^ 32)
  else min (a % 2 ^ 32) (b % 2 ^ 32) - 2 ^ 32

/-- Lines 688-715: `spi_hid_report_descriptor_request`.  The response is read from the
response buffer as the session holds it when the synchronous request returns; its
arrival, a run of the transfer pipeline in another context during the wait, is not
part of this function.  The field `report_descriptor_length` is taken to be at most
as wide as `int`, so that the comparison of line 708 is one of integer values. -/
def spi_hid_report_descriptor_request (k : Consts) (o : Ext) (s : spi_hid) : Int × spi_hid :=
  let r := spi_hid_sync_request k o s s.desc.report_descriptor_register
    { content_type := k.SPI_HID_CONTENT_TYPE_COMMAND, content_length := 3, content_id := 0,
      content := [] }
  if r.1 ≠ 0 then (r.1, r.2)
  else
    let ret : Int :=
      ((r.2.response.body.getD 0 0 ||| (r.2.response.body.getD 1 0 <<< 8) : Nat) : Int) - 3
    if ret ≠ (r.2.desc.report_descriptor_length : Int) then
      (min_t_unsigned_int ret (r.2.desc.report_descriptor_length : Int), r.2)
    else (ret, r.2)

/-- Kernel `crc32_le`, one bit: shift right and fold in the reflected polynomial
0xEDB88320 when the bit shifted out is set. -/
def crc32_le_bit (crc : Nat) : Nat :=
  (crc >>> 1) ^^^ (if crc &&& 1 = 1 then 0xedb88320 else 0)

/-- Kernel `crc32_le`, one byte. -/
def crc32_le_byte (crc byte : Nat) : Nat :=
  crc32_le_bit (crc32_le_bit (crc32_le_bit (crc32_le_bit (crc32_le_bit (crc32_le_bit
    (crc32_le_bit (crc32_le_bit (crc ^^^ byte))))))))

/-- Kernel `crc32_le(crc, p, len)`: the CRC-32 (reflected, no inversion) of the first
`len` bytes at `p`, continued from `crc`. -/
def crc32_le (crc : Nat) (p : List Nat) (len : Nat) : Nat :=
  (read_bytes p len).foldl crc32_le_byte crc

/-- Lines 3126-3136: `spi_hid_windows_interrupt_setup`. -/
def spi_hid_windows_interrupt_setup (s : spi_hid) : Int × spi_hid :=
  (0, schedule_work s Work.staged_init_work)

/-- The array `touchscreen_descriptor` of `spi_hid_ll_parse` (lines 1947-1975), 57
bytes. -/
def touchscreen_descriptor : List Nat :=
  [ 0x05, 0x0D, 0x09, 0x04, 0xA1, 0x01, 0x85, 0x06, 0x09, 0x22, 0xA1, 0x02, 0x09, 0x42,
    0x15, 0x00, 0x25, 0x01, 0x75, 0x01, 0x95, 0x01, 0x81, 0x02, 0x95, 0x07, 0x81, 0x03,
    0x05, 0x01, 0x09, 0x30, 0x09, 0x31, 0x16, 0x00, 0x00, 0x26, 0xFF, 0x0F, 0x36, 0x00,
    0x00, 0x46, 0xFF, 0x0F, 0x66, 0x00, 0x00, 0x75, 0x10, 0x95, 0x02, 0x81, 0x02, 0xC0,
    0xC0 ]

/-- Lines 2666-2687 of `spi_hid_parse_mshw0231_collections`: the loop over the items of
the descriptor, which counts the Collection items (type 0, tag 0xA); an item is its
prefix byte followed by `size` data bytes.  Every iteration consumes at least one
byte, so a `fuel` of the number of bytes is not exhausted before the bytes are. -/
def spi_hid_parse_mshw0231_collections_scan : Nat → List Nat → Nat → Nat
  | 0, _, found => found
  | _ + 1, [], found => found
  | fuel + 1, item :: rest, found =>
    spi_hid_parse_mshw0231_collections_scan fuel
      (rest.drop (if (item % 256) &&& 0x03 = 3 then 4 else (item % 256) &&& 0x03))
      (if ((item % 256) >>> 2) &&& 0x03 = 0x00 ∧ ((item % 256) >>> 4) &&& 0x0F = 0x0A then
        found + 1
       else found)

/-- Lines 2704-2719: `spi_hid_parse_collection_06`. -/
def spi_hid_parse_collection_06 (o : Ext) (s : spi_hid) (hid : Nat) (descriptor : List Nat) :
    Int × spi_hid :=
  let s1 := s.emit (Event.hid_parse_report hid descriptor o.hid_parse_report_ret)
  if o.hid_parse_report_ret = 0 then (0, { s1 with collection_06_parsed := true })
  else (o.hid_parse_report_ret, s1)

/-- Lines 2656-2702: `spi_hid_parse_mshw0231_collections`; `descriptor` stands for the
`len` bytes at the pointer of that name.  The count of collections goes up by one at
a time, so it passes 6, where `target_collection` is written, exactly when it ends
at 6 or more. -/
def spi_hid_parse_mshw0231_collections (o : Ext) (s : spi_hid) (hid : Nat)
    (descriptor : List Nat) : Int × spi_hid :=
  let found := spi_hid_parse_mshw0231_collections_scan descriptor.length descriptor 0
  if found ≥ 6 then
    spi_hid_parse_collection_06 o { s with target_collection := 6 } hid descriptor
  else
    (o.hid_parse_report_ret,
      s.emit (Event.hid_parse_report hid descriptor o.hid_parse_report_ret))

/-- Lines 2006-2012 of `spi_hid_ll_parse`: after a successful parse the checksum of the
`len` descriptor bytes in the response buffer is stored. -/
def spi_hid_ll_parse_store (r : Int × spi_hid) (len : Int) : Int × spi_hid :=
  if r.1 ≠ 0 then (r.1, r.2)
  else
    (0, { r.2 with report_descriptor_crc32 := crc32_le 0 r.2.response.content len.toNat })

/-- Lines 1994-2001 of `spi_hid_ll_parse`: the `len` descriptor bytes in the response
buffer are parsed as a multi-collection descriptor and, when that fails, once more by
`hid_parse_report`. -/
def spi_hid_ll_parse_mshw0231_parse (o : Ext) (s : spi_hid) (hid : Nat) (len : Nat) :
    Int × spi_hid :=
  if (spi_hid_parse_mshw0231_collections o s hid (read_bytes s.response.content len)).1 ≠ 0 then
    (o.hid_parse_report_ret,
      (spi_hid_parse_mshw0231_collections o s hid (read_bytes s.response.content len)).2.emit
        (Event.hid_parse_report hid
          (read_bytes
            (spi_hid_parse_mshw0231_collections o s hid
              (read_bytes s.response.content len)).2.response.content len)
          o.hid_parse_report_ret))
  else spi_hid_parse_mshw0231_collections o s hid (read_bytes s.response.content len)

/-- Lines 1938-1979 and 1994-2001 of `spi_hid_ll_parse`: an MSHW0231 device is not
asked for its report descriptor; the built-in touchscreen descriptor is copied into
the response buffer and parsed. -/
def spi_hid_ll_parse_mshw0231 (o : Ext) (s : spi_hid) (hid : Nat) : Int × spi_hid :=
  let content := write_at s.response.content 0 touchscreen_descriptor
  spi_hid_ll_parse_mshw0231_parse o { s with response := { s.response with content := content } }
    hid touchscreen_descriptor.length

/-- Lines 1931-2018: `spi_hid_ll_parse`, the `.parse` entry of `spi_hid_ll_driver`, for
the device `hid`. -/
def spi_hid_ll_parse (k : Consts) (o : Ext) (s : spi_hid) (hid : Nat) : Int × spi_hid :=
  if spi_hid_is_mshw0231 s then
    spi_hid_ll_parse_store (spi_hid_ll_parse_mshw0231 o s hid) touchscreen_descriptor.length
  else if (spi_hid_report_descriptor_request k o s).1 < 0 then
    ((spi_hid_report_descriptor_request k o s).1, (spi_hid_report_descriptor_request k o s).2)
  else
    spi_hid_ll_parse_store
      (o.hid_parse_report_ret,
        (spi_hid_report_descriptor_request k o s).2.emit
          (Event.hid_parse_report hid
            (read_bytes (spi_hid_report_descriptor_request k o s).2.response.content
              (spi_hid_report_descriptor_request k o s).1.toNat)
            o.hid_parse_report_ret))
      (spi_hid_report_descriptor_request k o s).1

/-- Kernel `hid_add_device(hid)` as the driver sees it.  The HID core reads the report
descriptor of the new device through the `.parse` entry of the transport: it calls
`spi_hid_ll_parse` in the calling thread and returns its result when that is not 0;
otherwise it registers the device, with the result `o.hid_add_device_ret`.  The call
is recorded when it returns.  What a HID driver bound during the registration asks
of the transport (`start`, `open`, `raw_request`) depends on that driver; those entry
points are operations of their own. -/
def hid_add_device (k : Consts) (o : Ext) (s : spi_hid) (hid : Nat) : Int × spi_hid :=
  ((if (spi_hid_ll_parse k o s hid).1 ≠ 0 then (spi_hid_ll_parse k o s hid).1
    else o.hid_add_device_ret),
   (spi_hid_ll_parse k o s hid).2.emit
    (Event.hid_add_device hid
      (if (spi_hid_ll_parse k o s hid).1 ≠ 0 then (spi_hid_ll_parse k o s hid).1
       else o.hid_add_device_ret)))

/-- Lines 1287-1309 of `spi_hid_create_device`: the allocated device is set up and
attached to the session. -/
def spi_hid_create_device_attach (o : Ext) (s : spi_hid) : spi_hid :=
  let s1 :=
    if s.desc.vendor_id = 0x045e ∧ s.desc.product_id = 0x0231 then
      { s with target_collection := 6 }
    else s
  { s1 with hid := some o.hid_allocate_device_hid }

/-- Lines 1272-1325: `spi_hid_create_device`. -/
def spi_hid_create_device (k : Consts) (o : Ext) (s : spi_hid) : Int × spi_hid :=
  let s0 := s.emit (Event.hid_allocate_device o.hid_allocate_device_err)
  if o.hid_allocate_device_err ≠ 0 then (o.hid_allocate_device_err, s0)
  else
    let a := hid_add_device k o (spi_hid_create_device_attach o s0) o.hid_allocate_device_hid
    if a.1 ≠ 0 then
      match (spi_hid_disconnect_hid a.2).1 with
      | some hid => (a.1, (spi_hid_disconnect_hid a.2).2.emit (Event.hid_destroy_device hid))
      | none => (a.1, (spi_hid_disconnect_hid a.2).2)
    else (0, a.2)

/-- Lines 1327-1363: `spi_hid_create_mshw0231_multi_collections`. -/
def spi_hid_create_mshw0231_multi_collections (k : Consts) (s : spi_hid) : Int × spi_hid :=
  if !s.windows_multi_collection_mode then (0, s)
  else if s.target_collection = k.MSHW0231_COLLECTION_TOUCHSCREEN then
    if s.interrupt_driven_mode then spi_hid_windows_interrupt_setup s else (0, s)
  else (0, s)

/-- Lines 1376-1396 of `spi_hid_create_device_work`: the version check.  `none` stands
for the unsupported version; an MSHW0231 device that reports version 0 is given
default descriptor values instead. -/
def spi_hid_create_device_work_version (k : Consts) (s : spi_hid) : Option spi_hid :=
  if s.desc.hid_version ≠ k.SPI_HID_SUPPORTED_VERSION then
    if spi_hid_is_mshw0231 s && decide (s.desc.hid_version = 0) then
      some { s with desc := { s.desc with
        hid_version := k.SPI_HID_SUPPORTED_VERSION,
        report_descriptor_length := 256,
        max_input_length := 64,
        max_output_length := 64,
        vendor_id := 0x045E,
        product_id := 0x0921 } }
    else none
  else some s

/-- Lines 1413-1432 of `spi_hid_create_device_work`: the attempt counter is cleared, the
interrupt disabled and the device powered down. -/
def spi_hid_create_device_work_finish (o : Ext) (s : spi_hid) : spi_hid :=
  let s1 := { s with attempts := 0 }
  let s2 :=
    if s1.irq_enabled then { s1.emit Event.disable_irq with irq_enabled := false }
    else { s1 with logic_error_count := s1.logic_error_count + 1, logic_last_error := -ENOEXEC }
  if (spi_hid_power_down o s2).1 ≠ 0 then (spi_hid_power_down o s2).2
  else { (spi_hid_power_down o s2).2 with power_state := SPI_HID_POWER_MODE.OFF }

/-- Lines 1365-1433: `spi_hid_create_device_work`. -/
def spi_hid_create_device_work (k : Consts) (o : Ext) (s0 : spi_hid) : spi_hid :=
  let s := s0.emit Event.trace_create_device_work
  match spi_hid_create_device_work_version k s with
  | none => schedule_work s Work.error_work
  | some s1 =>
    if (spi_hid_create_device k o s1).1 ≠ 0 then (spi_hid_create_device k o s1).2
    else
      spi_hid_create_device_work_finish o
        (if spi_hid_is_mshw0231 (spi_hid_create_device k o s1).2 then
          (spi_hid_create_mshw0231_multi_collections k (spi_hid_create_device k o s1).2).2
         else (spi_hid_create_device k o s1).2)

/-- Lines 1481-1484 of `spi_hid_refresh_device_work`: the consumer is detached and
destroyed. -/
def spi_hid_refresh_device_work_detach (s : spi_hid) : spi_hid :=
  match (spi_hid_disconnect_hid s).1 with
  | some hid => (spi_hid_disconnect_hid s).2.emit (Event.hid_destroy_device hid)
  | none => (spi_hid_disconnect_hid s).2

/-- Lines 1481-1494 of `spi_hid_refresh_device_work`: the consumer is detached and
destroyed and a new one is created. -/
def spi_hid_refresh_device_work_recreate (k : Consts) (o : Ext) (s : spi_hid) : spi_hid :=
  let s1 := spi_hid_refresh_device_work_detach s
  if (spi_hid_create_device k o s1).1 ≠ 0 then (spi_hid_create_device k o s1).2
  else
    ({ (spi_hid_create_device k o s1).2 with refresh_in_progress := false, ready := true }
      : spi_hid).emit Event.sysfs_notify_ready

/-- Lines 1467-1494 of `spi_hid_refresh_device_work`: the checksum of the `len` fetched
bytes is compared with the stored one. -/
def spi_hid_refresh_device_work_compare (k : Consts) (o : Ext) (s : spi_hid) (len : Int) :
    spi_hid :=
  if crc32_le 0 s.response.content len.toNat = s.report_descriptor_crc32 then
    ({ s with ready := true } : spi_hid).emit Event.sysfs_notify_ready
  else
    spi_hid_refresh_device_work_recreate k o
      { s with
        report_descriptor_crc32 := crc32_le 0 s.response.content len.toNat,
        refresh_in_progress := true }

/-- Lines 1435-1498: `spi_hid_refresh_device_work`. -/
def spi_hid_refresh_device_work (k : Consts) (o : Ext) (s0 : spi_hid) : spi_hid :=
  let s := s0.emit Event.trace_refresh_device_work
  if s.desc.hid_version ≠ k.SPI_HID_SUPPORTED_VERSION then schedule_work s Work.error_work
  else if s.power_state = SPI_HID_POWER_MODE.OFF then s
  else if (spi_hid_report_descriptor_request k o s).1 < 0 then
    (spi_hid_report_descriptor_request k o s).2
  else
    spi_hid_refresh_device_work_compare k o (spi_hid_report_descriptor_request k o s).2
      (spi_hid_report_descriptor_request k o s).1

/-- Lines 475-480 of `spi_hid_reset_work`: a reset that finds the session ready is
counted as device-initiated and clears the readiness flag. -/
def spi_hid_reset_work_count (s : spi_hid) : spi_hid :=
  if s.ready then
    ({ s with ready := false, dir_count := s.dir_count + 1 } : spi_hid).emit
      Event.sysfs_notify_ready
  else s

/-- Lines 492-501 of `spi_hid_reset_work`: the device descriptor request, a header for
the register `hid_desc_addr` followed by a zeroed body. -/
def spi_hid_reset_work_request (k : Consts) (o : Ext) (s : spi_hid) : spi_hid :=
  let s1 := { s with output := { s.output with
    header := spi_hid_output_header k s.hid_desc_addr (round_up4 SPI_HID_OUTPUT_BODY_LEN),
    body := write_at s.output.body 0 (List.replicate SPI_HID_OUTPUT_BODY_LEN 0) } }
  if (spi_hid_output o s1 (SPI_HID_OUTPUT_HEADER_LEN + SPI_HID_OUTPUT_BODY_LEN)).1 ≠ 0 then
    schedule_work (spi_hid_output o s1 (SPI_HID_OUTPUT_HEADER_LEN + SPI_HID_OUTPUT_BODY_LEN)).2
      Work.error_work
  else (spi_hid_output o s1 (SPI_HID_OUTPUT_HEADER_LEN + SPI_HID_OUTPUT_BODY_LEN)).2

/-- Lines 464-502: `spi_hid_reset_work`.  `flush_work` waits for another work item;
what that item does is not part of this function, the session is read as it is. -/
def spi_hid_reset_work (k : Consts) (o : Ext) (s0 : spi_hid) : spi_hid :=
  let s1 := spi_hid_reset_work_count (s0.emit Event.trace_reset_work)
  let s2 := s1.emit (Event.flush_work Work.create_device_work)
  if s2.power_state = SPI_HID_POWER_MODE.OFF then s2
  else spi_hid_reset_work_request k o (s2.emit (Event.flush_work Work.refresh_device_work))

/-! ## Power transitions -/

/-- Lines 1667-1682: `spi_hid_assert_reset`. -/
def spi_hid_assert_reset (o : Ext) (s : spi_hid) : Int × spi_hid :=
  if !s.of_node then (0, s)
  else if o.pinctrl_reset_ret ≠ 0 then
    (o.pinctrl_reset_ret, s.emit (Event.pinctrl_select_state PinState.reset o.pinctrl_reset_ret))
  else
    (0, (s.emit (Event.pinctrl_select_state PinState.reset o.pinctrl_reset_ret)).emit
      (Event.usleep_range 10000 11000))

/-- Lines 1684-1699: `spi_hid_deassert_reset`. -/
def spi_hid_deassert_reset (o : Ext) (s : spi_hid) : Int × spi_hid :=
  if !s.of_node then spi_hid_reset_via_acpi o s
  else if o.pinctrl_active_ret ≠ 0 then
    (o.pinctrl_active_ret,
      s.emit (Event.pinctrl_select_state PinState.active o.pinctrl_active_ret))
  else
    (0, (s.emit (Event.pinctrl_select_state PinState.active o.pinctrl_active_ret)).emit
      (Event.usleep_range 5000 6000))

/-- Lines 1701-1729: `spi_hid_power_up`. -/
def spi_hid_power_up (o : Ext) (s : spi_hid) : Int × spi_hid :=
  if s.powered then (0, s)
  else
    let s1 := { s with input_transfer_pending := 0, powered := true }
    if s1.of_node then
      let s2 := s1.emit (Event.regulator_enable o.regulator_enable_ret)
      if o.regulator_enable_ret ≠ 0 then
        (o.regulator_enable_ret,
          { s2 with
            regulator_error_count := s2.regulator_error_count + 1,
            regulator_last_error := o.regulator_enable_ret,
            powered := false })
      else (0, s2.emit (Event.usleep_range 5000 6000))
    else (0, s1)

/-- Lines 1867-1873 of `spi_hid_ll_open`: the exit through `err1`. -/
def spi_hid_ll_open_err1 (o : Ext) (ret : Int) (s : spi_hid) : Int × spi_hid :=
  let s1 := { s with power_state := SPI_HID_POWER_MODE.OFF }
  (ret, if s1.of_node then
      s1.emit (Event.pinctrl_select_state PinState.sleep o.pinctrl_sleep_ret)
    else s1)

/-- Lines 1835-1862 of `spi_hid_ll_open`: the power state becomes Active, the interrupt
is enabled, the device is powered up and the reset is released. -/
def spi_hid_ll_open_activate (o : Ext) (s : spi_hid) : Int × spi_hid :=
  let s1 := { s with power_state := SPI_HID_POWER_MODE.ACTIVE }
  let s2 :=
    if !s1.irq_enabled then { s1.emit Event.enable_irq with irq_enabled := true }
    else { s1 with logic_error_count := s1.logic_error_count + 1, logic_last_error := -EEXIST }
  if (spi_hid_power_up o s2).1 ≠ 0 then
    spi_hid_ll_open_err1 o (spi_hid_power_up o s2).1 (spi_hid_power_up o s2).2
  else if (spi_hid_deassert_reset o (spi_hid_power_up o s2).2).1 ≠ 0 then
    spi_hid_ll_open_err1 o (spi_hid_deassert_reset o (spi_hid_power_up o s2).2).1
      (spi_hid_power_down o (spi_hid_deassert_reset o (spi_hid_power_up o s2).2).2).2
  else (0, (spi_hid_deassert_reset o (spi_hid_power_up o s2).2).2)

/-- Lines 1818-1874: `spi_hid_ll_open`. -/
def spi_hid_ll_open (o : Ext) (s : spi_hid) : Int × spi_hid :=
  if s.refresh_in_progress || decide (s.power_state = SPI_HID_POWER_MODE.ACTIVE) then (0, s)
  else if (spi_hid_assert_reset o s).1 ≠ 0 then
    ((spi_hid_assert_reset o s).1, (spi_hid_assert_reset o s).2)
  else spi_hid_ll_open_activate o (spi_hid_assert_reset o s).2

/-- Lines 1889-1911 of `spi_hid_ll_close`: the interrupt is disabled, the session made
not ready, the attempt counter cleared and the device powered down. -/
def spi_hid_ll_close_power_off (o : Ext) (s : spi_hid) : spi_hid :=
  let s1 :=
    if s.irq_enabled then { s.emit Event.disable_irq with irq_enabled := false }
    else { s with logic_error_count := s.logic_error_count + 1, logic_last_error := -ENOEXEC }
  let s2 := ({ s1 with ready := false } : spi_hid).emit Event.sysfs_notify_ready
  let s3 := { s2 with attempts := 0 }
  if (spi_hid_power_down o s3).1 ≠ 0 then (spi_hid_power_down o s3).2
  else { (spi_hid_power_down o s3).2 with power_state := SPI_HID_POWER_MODE.OFF }

/-- Lines 1876-1915: `spi_hid_ll_close`. -/
def spi_hid_ll_close (o : Ext) (s : spi_hid) : spi_hid :=
  if s.refresh_in_progress || decide (s.power_state = SPI_HID_POWER_MODE.OFF) then s
  else spi_hid_ll_close_power_off o s

/-! ## Runs of the transfer pipeline -/

/-- What happens to the pipeline: a data-ready signal (`spi_hid_bus_input_report`) or
the completion of the in-flight read with a status and received bytes; each comes
with the results of the outgoing calls made while it is handled. -/
inductive PipelineEvent where
  | signal (o : Ext)
  | complete (o : Ext) (status : Int) (data : List Nat)
deriving DecidableEq, Repr

/-- One step of the pipeline. -/
def pipeline_step (k : Consts) (s : spi_hid) : PipelineEvent → spi_hid
  | PipelineEvent.signal o => (spi_hid_bus_input_report k o s).2
  | PipelineEvent.complete o status data => spi_complete k o status data s

/-- The session after a sequence of pipeline events. -/
def pipeline_run (k : Consts) (s : spi_hid) (evs : List PipelineEvent) : spi_hid :=
  evs.foldl (pipeline_step k) s

/-- A pipeline event is handled successfully: a signal when the header read it submits
(if any) is accepted by `spi_async`; a completion when a read is in flight, the
session is powered and not Off, the status is not negative, and for a header
completion the header validates and the body read is accepted by `spi_async`, for a
body completion report processing returns 0 and the next header read (if any) is
accepted by `spi_async`. -/
def pipeline_step_ok (k : Consts) (s : spi_hid) : PipelineEvent → Bool
  | PipelineEvent.signal o => decide (s.input_transfer_pending ≠ 0 ∨ o.spi_async_ret = 0)
  | PipelineEvent.complete o status data =>
    match s.bus with
    | [] => false
    | m :: _ =>
      let d := spi_deliver status data s
      d.powered && decide (d.power_state ≠ SPI_HID_POWER_MODE.OFF) && decide (0 ≤ status)
        && (match m.complete with
            | Callback.spi_hid_input_header_complete =>
              decide ((spi_hid_bus_validate_header k (d.emit Event.trace_input_header_complete)
                (spi_hid_populate_input_header d.input.header)).1 = 0)
              && decide (o.spi_async_ret = 0)
            | Callback.spi_hid_input_body_complete =>
              decide ((spi_hid_process_input_report k o (spi_hid_input_body_complete_begin d)
                (spi_hid_select_buf k (spi_hid_populate_input_header
                  (spi_hid_input_body_complete_begin d).input.header).report_type)).1 = 0)
              && decide (d.input_transfer_pending - 1 = 0 ∨ o.spi_async_ret = 0))

/-- Every event of the sequence is handled successfully, each in the session the
events before it produce. -/
def pipeline_ok (k : Consts) : spi_hid → List PipelineEvent → Bool
  | _, [] => true
  | s, e :: evs => pipeline_step_ok k s e && pipeline_ok k (pipeline_step k s e) evs

/-- Number of data-ready signals in a sequence of pipeline events. -/
def signals : List PipelineEvent → Nat
  | [] => 0
  | PipelineEvent.signal _ :: evs => signals evs + 1
  | PipelineEvent.complete _ _ _ :: evs => signals evs

/-- Kind of a read: of a header or of a body. -/
inductive ReadKind where
  | header
  | body
deriving DecidableEq, Repr

/-- The reads submitted (`spi_async` on the input message), in order, read off the
record of outgoing calls. -/
def reads : List Event → List ReadKind
  | [] => []
  | Event.spi_async_input _ (RxBuf.header _) _ _ _ :: l => ReadKind.header :: reads l
  | Event.spi_async_input _ (RxBuf.body _) _ _ _ :: l => ReadKind.body :: reads l
  | _ :: l => reads l

/-- The strictly alternating sequence header, body, header, body, ... of length `n`. -/
def alternating : Nat → List ReadKind
  | 0 => []
  | n + 1 => alternating n ++ [if n % 2 = 0 then ReadKind.header else ReadKind.body]

/-! ## Operations on a session -/

/-- The operations of the driver on a session that this development embeds, each
with the results of the outgoing calls made during it: the interrupt handler, the
completion of the in-flight input message and of an output message, the four work
items, open and close of the HID low-level driver, and the two ways a report is sent,
`spi_hid_send_output_report` and `spi_hid_sync_request`, that the request functions of
the HID low-level driver go through. -/
inductive DriverOp where
  | dev_irq (o : Ext)
  | input_complete (o : Ext) (status : Int) (data : List Nat)
  | output_complete
  | error_work (o : Ext)
  | reset_work (o : Ext)
  | create_device_work (o : Ext)
  | refresh_device_work (o : Ext)
  | ll_open (o : Ext)
  | ll_close (o : Ext)
  | send_output_report (o : Ext) (output_register : Nat) (report : spi_hid_output_report)
  | sync_request (o : Ext) (output_register : Nat) (report : spi_hid_output_report)
deriving DecidableEq, Repr

/-- The session after one operation. -/
def driver_step (k : Consts) (s : spi_hid) : DriverOp → spi_hid
  | DriverOp.dev_irq o => spi_hid_dev_irq k o s
  | DriverOp.input_complete o status data => spi_complete k o status data s
  | DriverOp.output_complete => spi_complete_output s
  | DriverOp.error_work o => spi_hid_error_work o s
  | DriverOp.reset_work o => spi_hid_reset_work k o s
  | DriverOp.create_device_work o => spi_hid_create_device_work k o s
  | DriverOp.refresh_device_work o => spi_hid_refresh_device_work k o s
  | DriverOp.ll_open o => (spi_hid_ll_open o s).2
  | DriverOp.ll_close o => spi_hid_ll_close o s
  | DriverOp.send_output_report o output_register report =>
    (spi_hid_send_output_report k o s output_register report).2
  | DriverOp.sync_request o output_register report =>
    (spi_hid_sync_request k o s output_register report).2

/-- The session after a sequence of operations. -/
def driver_run (k : Consts) (s : spi_hid) (ops : List DriverOp) : spi_hid :=
  ops.foldl (driver_step k) s

/-- An operation is a refresh of the device during which the allocation and the
registration of a HID consumer succeed (`hid_allocate_device` and `hid_add_device`),
as they do in every successful creation. -/
def DriverOp.is_successful_refresh : DriverOp → Bool
  | DriverOp.refresh_device_work o =>
    decide (o.hid_allocate_device_err = 0) && decide (o.hid_add_device_ret = 0)
  | _ => false

/-! ## Concrete sessions for evaluation -/

/-- The results of outgoing calls when all of them succeed, in process context. -/
def ext_ok : Ext :=
  { spi_async_ret := 0, spi_async_output_ret := 0, hid_input_report_ret := 0,
    in_atomic := false, wait_for_completion_ret := 1,
    pinctrl_reset_ret := 0, pinctrl_active_ret := 0, pinctrl_sleep_ret := 0,
    regulator_disable_ret := 0, acpi_match_MSHW0231 := false, gpio_to_desc_ok := true,
    gpio_request_ret := 0, acpi_RST_failure := false, regulator_enable_ret := 0,
    hid_allocate_device_err := 0, hid_allocate_device_hid := 2, hid_add_device_ret := 0,
    hid_parse_report_ret := 0 }

/-- A session as `spi_hid_probe` leaves it for a device whose name does not contain
MSHW0231: zeroed allocation, power state Active, interrupt enabled, powered up;
the content buffers are given 8 bytes. -/
def shid0 : spi_hid :=
  { name_has_MSHW0231 := false
    of_node := false
    powered := true
    power_state := SPI_HID_POWER_MODE.ACTIVE
    ready := false
    refresh_in_progress := false
    irq_enabled := true
    hid := none
    attempts := 0
    input_transfer_pending := 0
    input_stage := SPI_HID_INPUT_STAGE.IDLE
    desc :=
      { hid_version := 0, report_descriptor_length := 0, report_descriptor_register := 0,
        input_register := 0x1000, max_input_length := 0, output_register := 0,
        max_output_length := 0, command_register := 0, vendor_id := 0, product_id := 0,
        version_id := 0, device_power_support := 0, power_response_delay := 0 }
    input := { header := [0, 0, 0, 0], body := [0, 0, 0], content := List.replicate 8 0 }
    response := { header := [0, 0, 0, 0], body := [0, 0, 0], content := List.replicate 8 0 }
    output :=
      { header := [0, 0, 0, 0, 0, 0], body := [0, 0, 0, 0], content := List.replicate 8 0 }
    read_approval := [0, 0, 0, 0, 0]
    input_message_status := 0
    input_message_complete := Callback.spi_hid_input_header_complete
    input_transfer_rx_buf := RxBuf.header BufSel.input
    input_transfer_len := 0
    output_done := 0
    report_descriptor_crc32 := 0
    bus_error_count := 0
    bus_last_error := 0
    logic_error_count := 0
    logic_last_error := 0
    dir_count := 0
    perf_mode := 0
    touch_signature_index := 0
    windows_multi_collection_mode := false
    target_collection := 0
    init_responses := 0
    body_bypass_attempts := 0
    wake_attempts := 0
    interrupt_successes := 0
    touch_sim_count := 0
    hid_desc_addr := 0x0001
    interrupt_driven_mode := false
    regulator_error_count := 0
    regulator_last_error := 0
    collection_06_parsed := false
    bus := []
    output_in_flight := 0
    log := [] }

/-- The session `shid0` after one data-ready signal and the arrival of the header
bytes `hdr` (status 0), as `spi_hid_input_header_complete` finds it. -/
def shid_header_arrived (hdr : List Nat) : spi_hid :=
  spi_deliver 0 hdr (spi_hid_bus_input_report consts0 ext_ok shid0).2

/-- The session `shid0` after one data-ready signal, the arrival of the header bytes
`hdr`, `spi_hid_input_header_complete`, and the arrival of the body bytes `body`
(status 0), as `spi_hid_input_body_complete` finds it. -/
def shid_body_arrived (hdr body : List Nat) : spi_hid :=
  spi_deliver 0 body (spi_hid_input_header_complete consts0 ext_ok (shid_header_arrived hdr))

/-- An MSHW0231 session in multi-collection mode (as probe sets it up) that is ready
with HID consumer 1 attached, holding in its input buffer a Data frame with header
[0x13, 0x20, 0x00, 0x5A] (report_length 8), body [0x05, 0x00, 0x01] (content length 2)
and first content byte 0x30 (collection hint 3). -/
def shid_mshw_data : spi_hid :=
  { shid0 with
    name_has_MSHW0231 := true,
    windows_multi_collection_mode := true,
    interrupt_driven_mode := true,
    target_collection := 6,
    ready := true,
    hid := some 1,
    input := { header := [0x13, 0x20, 0x00, 0x5A], body := [0x05, 0x00, 0x01],
               content := [0x30, 0x01, 0, 0, 0, 0, 0, 0] } }

/-- The session after probe (device name without MSHW0231) made ready with HID consumer 1
attached, holding in its input buffer a Data frame with header
[0x13, 0x20, 0x00, 0x5A] (report_length 8), body [0x05, 0x00, 0x01] (content length 2). -/
def shid_ready_data : spi_hid :=
  { shid0 with
    ready := true,
    hid := some 1,
    input := { header := [0x13, 0x20, 0x00, 0x5A], body := [0x05, 0x00, 0x01],
               content := [0x30, 0x01, 0, 0, 0, 0, 0, 0] } }

/-- The results of outgoing calls when all of them succeed but no response arrives:
the wait on `output_done` times out. -/
def ext_timeout : Ext :=
  { ext_ok with wait_for_completion_ret := 0 }

/-- The session after probe with the power state Off. -/
def shid_off : spi_hid :=
  { shid0 with power_state := SPI_HID_POWER_MODE.OFF }

/-- The session after probe (not ready) holding in its response buffer a
CommandResponse frame with header [0x43, 0x20, 0x00, 0x5A] (report_length 8) and body
[0x05, 0x00, 0x01] (content length 2). -/
def shid_command_resp : spi_hid :=
  { shid0 with
    response := { header := [0x43, 0x20, 0x00, 0x5A], body := [0x05, 0x00, 0x01],
                  content := [0x30, 0x01, 0, 0, 0, 0, 0, 0] } }

/-- The MSHW0231 session `shid_mshw_data` with the report type of the frame in its
input buffer changed to 2, a value that is no case label of the dispatch switch:
header [0x23, 0x20, 0x00, 0x5A]. -/
def shid_mshw_unknown : spi_hid :=
  { shid_mshw_data with
    input := { header := [0x23, 0x20, 0x00, 0x5A], body := [0x05, 0x00, 0x01],
               content := [0x30, 0x01, 0, 0, 0, 0, 0, 0] } }

/-- The ready session `shid_ready_data` (device name without MSHW0231, consumer 1
attached) with the report type of the frame in its input buffer changed to 2: header
[0x23, 0x20, 0x00, 0x5A]. -/
def shid_ready_unknown : spi_hid :=
  { shid_ready_data with
    input := { header := [0x23, 0x20, 0x00, 0x5A], body := [0x05, 0x00, 0x01],
               content := [0x30, 0x01, 0, 0, 0, 0, 0, 0] } }

/-- The session after probe with 3 attempts used, holding in its input buffer a
DeviceDescriptor frame with header [0x73, 0x60, 0x00, 0x5A] (report_length 24), body
[0x1B, 0x00, 0x00] (content length 24) and a raw descriptor of 24 bytes: length 24,
version 0x0300, report descriptor length 0x0123 at register 0x0002, input register
0x1000 with maximum length 0x0040, output register 0x2000 with maximum length 0x0020,
command register 0x3000, vendor 0x045E, product 0x0C19, version 0x0001. -/
def shid_device_desc : spi_hid :=
  { shid0 with
    attempts := 3,
    input := { header := [0x73, 0x60, 0x00, 0x5A], body := [0x1B, 0x00, 0x00],
               content := [0x18, 0x00, 0x00, 0x03, 0x23, 0x01, 0x02, 0x00, 0x00, 0x10,
                           0x40, 0x00, 0x00, 0x20, 0x20, 0x00, 0x00, 0x30, 0x5E, 0x04,
                           0x19, 0x0C, 0x01, 0x00] } }

/-- The report of `spi_hid_send_reset_notification`: a SetFeature report with content
id 0x01 and the 2 content bytes 0x01, 0x00. -/
def reset_notification_report : spi_hid_output_report :=
  { content_type := consts0.SPI_HID_CONTENT_TYPE_SET_FEATURE, content_id := 0x01,
    content_length := 2, content := [0x01, 0x00] }

/-- A report descriptor request as `spi_hid_report_descriptor_request` builds it: a
Command report of content length 3 without content. -/
def report_descriptor_report : spi_hid_output_report :=
  { content_type := consts0.SPI_HID_CONTENT_TYPE_COMMAND, content_id := 0,
    content_length := 3, content := [] }

/-- A ready session with consumer 1 attached and a negotiated maximum output length of
32, whose output buffer still holds the 5 content bytes 0xA1 .. 0xA5 of an earlier
report. -/
def shid_ready_output : spi_hid :=
  { shid0 with
    ready := true,
    hid := some 1,
    desc := { shid0.desc with max_output_length := 32, output_register := 0x2000 },
    output := { header := [0, 0, 0, 0, 0, 0], body := [0, 0, 0, 0],
                content := [0xA1, 0xA2, 0xA3, 0xA4, 0xA5, 0, 0, 0] } }

/-- The session `shid_ready_output` after `spi_hid_send_reset_notification`, an output
report that no response is waited for, and the completion of its output message by
the SPI core. -/
def shid_output_completed : spi_hid :=
  spi_complete_output (spi_hid_send_reset_notification consts0 ext_ok shid_ready_output).2

/-- The session after probe holding in its input buffer a frame with header
[0x13, 0xF0, 0xFF, 0x5A] (report_length 16380, the largest) and body [0x02, 0x00, 0x01]
(length field 2). -/
def shid_short_body : spi_hid :=
  { shid0 with
    input := { header := [0x13, 0xF0, 0xFF, 0x5A], body := [0x02, 0x00, 0x01],
               content := [0, 0, 0, 0, 0, 0, 0, 0] } }

/-- The session after probe with consumer 1 attached and not ready, as after a
reset by the error handler. -/
def shid_attached : spi_hid :=
  { shid0 with hid := some 1 }

/-- An MSHW0231 session as probe sets it up: multi-collection and interrupt-driven mode,
target collection 6, no consumer, descriptor version 0. -/
def shid_mshw_probe : spi_hid :=
  { shid0 with
    name_has_MSHW0231 := true,
    windows_multi_collection_mode := true,
    interrupt_driven_mode := true,
    target_collection := 6 }

/-- A session with consumer 1 attached, not ready, whose descriptor holds the supported
version 0x0300 and the report descriptor length 4, whose response buffer holds the
response to a report descriptor request (length field 7, content 05 0D 09 04) and
whose stored checksum is the CRC-32 of these 4 bytes. -/
def shid_refresh_same : spi_hid :=
  let d := { shid0.desc with hid_version := 0x0300, report_descriptor_length := 4 }
  { shid0 with
    ready := false,
    hid := some 1,
    desc := { d with max_output_length := 32 },
    response := { header := [0x83, 0x20, 0x00, 0x5A], body := [0x07, 0x00, 0x00],
                  content := [0x05, 0x0D, 0x09, 0x04, 0, 0, 0, 0] },
    report_descriptor_crc32 := crc32_le 0 [0x05, 0x0D, 0x09, 0x04] 4 }

/-- The session `shid_refresh_same` with a stored checksum that differs from the one of
the response content. -/
def shid_refresh_changed : spi_hid :=
  { shid_refresh_same with report_descriptor_crc32 := 0 }

/-- An MSHW0231 session with consumer 1 attached and the checksum stored that the
creation of a consumer leaves on this device, the CRC-32 of the built-in touchscreen
descriptor; the device descriptor holds the supported version, and the response
buffer (64 content bytes) holds the response to a report descriptor request (length
field 7, content 05 0D 09 04). -/
def shid_mshw_refresh : spi_hid :=
  { shid_refresh_same with
    name_has_MSHW0231 := true,
    response := { header := [0x83, 0x20, 0x00, 0x5A], body := [0x07, 0x00, 0x00],
                  content := [0x05, 0x0D, 0x09, 0x04] ++ List.replicate 60 0 },
    report_descriptor_crc32 := crc32_le 0 touchscreen_descriptor touchscreen_descriptor.length }

/-- The results of outgoing calls when all succeed except `hid_add_device`, which
fails with -ENODEV. -/
def ext_add_fails : Ext :=
  { ext_ok with hid_add_device_ret := -19 }

/-- An output report of 65532 content bytes. -/
def report_65532 : spi_hid_output_report :=
  { content_type := consts0.SPI_HID_CONTENT_TYPE_OUTPUT_REPORT, content_id := 0x01,
    content_length := 65532, content := List.replicate 65532 0xAB }

/-- The ready session `shid_ready_output` with a negotiated maximum output length of
65535. -/
def shid_ready_output_max : spi_hid :=
  { shid_ready_output with
    desc := { shid_ready_output.desc with max_output_length := 65535 } }

/-- An output report of 36 content bytes. -/
def report_36 : spi_hid_output_report :=
  { content_type := consts0.SPI_HID_CONTENT_TYPE_OUTPUT_REPORT, content_id := 0x01,
    content_length := 36, content := List.replicate 36 0xAB }

/-- A burst of three data-ready signals interleaved with the successful completions of
three header+body sequences: a ResetResponse frame, a Data frame and another
ResetResponse frame. -/
def pipeline_events0 : List PipelineEvent :=
  [ PipelineEvent.signal ext_ok, PipelineEvent.signal ext_ok,
    PipelineEvent.complete ext_ok 0 [0x33, 0x10, 0x00, 0x5A],
    PipelineEvent.complete ext_ok 0 [0x04, 0x00, 0x00, 0x09],
    PipelineEvent.signal ext_ok,
    PipelineEvent.complete ext_ok 0 [0x13, 0x20, 0x00, 0x5A],
    PipelineEvent.complete ext_ok 0 [0x05, 0x00, 0x07, 0x01, 0x02],
    PipelineEvent.complete ext_ok 0 [0x33, 0x10, 0x00, 0x5A],
    PipelineEvent.complete ext_ok 0 [0x03, 0x00, 0x07, 0x01, 0x02] ]

/-! ## Auxiliary predicates of the proofs -/

/-- An outgoing call made by a report-type handler of the dispatch switch: the entry
of the input-report or the response handler, a delivery to the HID consumer, the
completion of `output_done`, the scheduling of the reset or the refresh work. -/
def Event.is_dispatch : Event → Bool
  | Event.trace_input_report_handler _ => true
  | Event.trace_response_handler _ => true
  | Event.hid_input_report _ _ => true
  | Event.complete_output_done => true
  | Event.schedule_work Work.reset_work => true
  | Event.schedule_work Work.refresh_device_work => true
  | _ => false

/-- The deliveries to the HID consumer (`hid_input_report`), in order, read off the
record of outgoing calls. -/
def deliveries : List Event → List (Nat × List Nat)
  | [] => []
  | Event.hid_input_report hid data :: l => (hid, data) :: deliveries l
  | _ :: l => deliveries l

/-- The consumers destroyed (`hid_destroy_device`), in order, read off the record of
outgoing calls. -/
def destroys : List Event → List Nat
  | [] => []
  | Event.hid_destroy_device hid :: l => hid :: destroys l
  | _ :: l => destroys l

/-- Number of creations of a HID consumer attempted (`hid_allocate_device`), read off
the record of outgoing calls. -/
def creations : List Event → Nat
  | [] => 0
  | Event.hid_allocate_device _ :: l => creations l + 1
  | _ :: l => creations l

/-- The checksum `new_crc32` that `spi_hid_refresh_device_work` computes at line 1467
over the bytes fetched by the report descriptor request. -/
def refresh_device_work_crc32 (k : Consts) (o : Ext) (s : spi_hid) : Nat :=
  crc32_le 0 s.response.content
    (spi_hid_report_descriptor_request k o (s.emit Event.trace_refresh_device_work)).1.toNat

/-- The session in which `spi_hid_refresh_device_work`, having found a changed
checksum, calls `spi_hid_create_device` (line 1486): the report descriptor is
fetched, the new checksum stored, `refresh_in_progress` set and the consumer detached
and destroyed. -/
def refresh_device_work_before_create (k : Consts) (o : Ext) (s : spi_hid) : spi_hid :=
  spi_hid_refresh_device_work_detach
    { (spi_hid_report_descriptor_request k o (s.emit Event.trace_refresh_device_work)).2 with
      report_descriptor_crc32 := refresh_device_work_crc32 k o s,
      refresh_in_progress := true }

/-- The session that `spi_hid_create_device`, called in the session `s`, hands to
`hid_add_device` after a successful allocation, the new device attached. -/
def create_device_attached (o : Ext) (s : spi_hid) : spi_hid :=
  spi_hid_create_device_attach o (s.emit (Event.hid_allocate_device o.hid_allocate_device_err))

/-- The length `len` of the report descriptor in `spi_hid_ll_parse`: the size of the
built-in descriptor for an MSHW0231 device, the result of the report descriptor
request otherwise. -/
def ll_parse_length (k : Consts) (o : Ext) (s : spi_hid) : Int :=
  if spi_hid_is_mshw0231 s then touchscreen_descriptor.length
  else (spi_hid_report_descriptor_request k o s).1

/-- An outgoing call that asserts the reset of the device with success: the selection
of the reset pin state, the low level on the reset GPIO, the evaluation of `_RST`. -/
def Event.is_reset : Event → Bool
  | Event.pinctrl_select_state PinState.reset ret => decide (ret = 0)
  | Event.gpio_set_value _ value => decide (value = 0)
  | Event.acpi_evaluate_RST failure => !failure
  | _ => false

/-- Number of resets of the device in a record of outgoing calls. -/
def resets (l : List Event) : Nat :=
  l.countP Event.is_reset

/-- The session `s2` differs from `s1` at most in the output buffer, the count of
output messages in flight and the bus error counters, and its record of outgoing
calls is that of `s1` followed by `new`. -/
def output_effect (s1 s2 : spi_hid) (new : List Event) : Prop :=
  s2 = { s1 with
    output := s2.output,
    output_in_flight := s2.output_in_flight,
    bus_error_count := s2.bus_error_count,
    bus_last_error := s2.bus_last_error,
    log := s1.log ++ new } ∧
  ∀ e ∈ new, ∃ tx ret, e = Event.spi_async_output tx ret

/-- As `output_effect`, with pauses (`msleep`) among the calls recorded: the effect of
a command of the initialization handshake. -/
def command_effect (s1 s2 : spi_hid) (new : List Event) : Prop :=
  s2 = { s1 with
    output := s2.output,
    output_in_flight := s2.output_in_flight,
    bus_error_count := s2.bus_error_count,
    bus_last_error := s2.bus_last_error,
    log := s1.log ++ new } ∧
  ∀ e ∈ new, (∃ tx ret, e = Event.spi_async_output tx ret) ∨ ∃ ms, e = Event.msleep ms

/-- The session `s2` differs from `s1` at most in the output buffer, the count of
output messages in flight, the bus error counters and the `done` count of
`output_done`, and its record of outgoing calls is that of `s1` followed by `new`,
which holds only output transfers and the scheduling of the error work: the effect of
a synchronous request. -/
def request_effect (s1 s2 : spi_hid) (new : List Event) : Prop :=
  s2 = { s1 with
    output := s2.output,
    output_in_flight := s2.output_in_flight,
    bus_error_count := s2.bus_error_count,
    bus_last_error := s2.bus_last_error,
    output_done := s2.output_done,
    log := s1.log ++ new } ∧
  ∀ e ∈ new, (∃ tx ret, e = Event.spi_async_output tx ret)
    ∨ e = Event.schedule_work Work.error_work

/-- The step from session `s1` to session `s2` leaves the transfer pipeline and the
report buffers alone and makes no call of a report-type handler: queue of in-flight
reads, pending count, power flags, input and response buffers, attempt counter,
device descriptor and `output_done` are unchanged, and the calls recorded in
between are neither reads nor handler calls. -/
def quiet_step (s1 s2 : spi_hid) : Prop :=
  (∃ new, s2.log = s1.log ++ new ∧ (∀ e ∈ new, e.is_dispatch = false) ∧ reads new = []) ∧
  s2.bus = s1.bus ∧ s2.input_transfer_pending = s1.input_transfer_pending ∧
  s2.powered = s1.powered ∧ s2.power_state = s1.power_state ∧
  s2.input = s1.input ∧ s2.response = s1.response ∧
  s2.attempts = s1.attempts ∧ s2.desc = s1.desc ∧ s2.output_done = s1.output_done

/-- The step from session `s1` to session `s2` leaves the transfer pipeline alone:
no read is submitted, and the queue of in-flight reads, the pending count, the power
flags and the header bytes of the input buffer are unchanged. -/
def pipeline_frame (s1 s2 : spi_hid) : Prop :=
  (∃ new, s2.log = s1.log ++ new ∧ reads new = []) ∧
  s2.bus = s1.bus ∧ s2.input_transfer_pending = s1.input_transfer_pending ∧
  s2.powered = s1.powered ∧ s2.power_state = s1.power_state ∧
  s2.input.header = s1.input.header

/-- Invariant of the transfer pipeline after `n` data-ready signals: for some number
`c` of completed header+body sequences the pending count is `n - c`, and either the
pipeline is idle (no read in flight, pending count 0, `2c` reads submitted), or the
header read of sequence `c + 1` is in flight, or its body read is; the reads
submitted so far alternate, header first. -/
def pipeline_inv (n : Nat) (s : spi_hid) : Prop :=
  ∃ c : Nat, s.input_transfer_pending = (n : Int) - (c : Int) ∧
    ((s.bus = [] ∧ s.input_transfer_pending = 0 ∧ reads s.log = alternating (2 * c)) ∨
     (s.bus = [Message.mk (RxBuf.header BufSel.input) SPI_HID_INPUT_HEADER_LEN
          Callback.spi_hid_input_header_complete] ∧
        1 ≤ s.input_transfer_pending ∧ reads s.log = alternating (2 * c + 1)) ∨
     (∃ b len, s.bus = [Message.mk (RxBuf.body b) len Callback.spi_hid_input_body_complete] ∧
        1 ≤ s.input_transfer_pending ∧ reads s.log = alternating (2 * c + 2)))

/-! ## Theorems -/

theorem shiftRight4_and_0xf (b : Nat) (h : b < 256) : (b >>> 4) &&& 0xf = b >>> 4 := by
  have h1 : b >>> 4 < 16 := by rw [Nat.shiftRight_eq_div_pow]; omega
  have h2 : (b >>> 4) &&& 0xf = (b >>> 4) % 2 ^ 4 := Nat.and_pow_two_sub_one_eq_mod _ 4
  rw [h2]; omega

theorem le16_lt (b0 b1 : Nat) (h0 : b0 < 256) (h1 : b1 < 256) :
    b0 ||| (b1 <<< 8) < 65536 := by
  have a : b0 < 2 ^ 16 := by omega
  have c : b1 <<< 8 < 2 ^ 16 := by rw [Nat.shiftLeft_eq]; omega
  exact Nat.or_lt_two_pow a c

/-- C2: for every 4-byte buffer `b`, `spi_hid_populate_input_header` yields
version = b[0] & 0xF, report_type = b[0] >> 4, fragment_id = b[1] & 0xF,
report_length = ((b[1] >> 4) | (b[2] << 4)) * 4 and sync_const = b[3]; the value
of report_length fits the 16-bit field. -/
theorem populate_input_header_spec (b0 b1 b2 b3 : Nat)
    (h0 : b0 < 256) (h1 : b1 < 256) (h2 : b2 < 256) (h3 : b3 < 256) :
    spi_hid_populate_input_header [b0, b1, b2, b3] =
      { version := b0 &&& 0xF
        report_type := b0 >>> 4
        fragment_id := b1 &&& 0xF
        report_length := ((b1 >>> 4) ||| (b2 <<< 4)) * 4
        sync_const := b3 } ∧
    (spi_hid_populate_input_header [b0, b1, b2, b3]).report_length < 2 ^ 16 ∧
    (spi_hid_populate_input_header [b0, b1, b2, b3]).sync_const < 256 := by
  have e0 := shiftRight4_and_0xf b0 h0
  have e1 := shiftRight4_and_0xf b1 h1
  refine ⟨?_, ?_, ?_⟩
  · simp [spi_hid_populate_input_header, e0, e1]
  · simp only [spi_hid_populate_input_header, List.getD_cons_zero, List.getD_cons_succ, e1,
      Nat.shiftLeft_zero]
    have a : b1 >>> 4 < 2 ^ 12 := by rw [Nat.shiftRight_eq_div_pow]; omega
    have c : b2 <<< 4 < 2 ^ 12 := by rw [Nat.shiftLeft_eq]; omega
    have := Nat.or_lt_two_pow a c
    omega
  · simpa [spi_hid_populate_input_header] using h3

/-- C2, the scenario of the spec: [0x01, 0x00, 0x05, 0x5A] decodes to version 1,
report_type 0, fragment_id 0, report_length 320, sync_const 0x5A. -/
theorem populate_input_header_spec_witness :
    (0x01 < 256 ∧ 0x00 < 256 ∧ 0x05 < 256 ∧ 0x5A < 256) ∧
    spi_hid_populate_input_header [0x01, 0x00, 0x05, 0x5A] =
      { version := 1, report_type := 0, fragment_id := 0, report_length := 320,
        sync_const := 0x5A } :=
  ⟨by decide,
   (populate_input_header_spec 0x01 0x00 0x05 0x5A (by decide) (by decide) (by decide)
      (by decide)).1.trans (by decide)⟩

/-- C3: for every body buffer `b` of at least 3 bytes, `spi_hid_populate_input_body`
yields content_length = (b[0] | b[1] << 8) - 3, as the value of the 16-bit field
(the difference taken modulo 2^16, which is the difference itself as soon as the
length field is at least 3), and content_id = b[2]; in particular
[0x06, 0x00, 0x03] decodes to content_length 3 and content_id 3. -/
theorem populate_input_body_spec (b : List Nat) (hlen : 3 ≤ b.length)
    (hb : ∀ x ∈ b, x < 256) :
    ((spi_hid_populate_input_body b).content_length : Int) =
      (((b.getD 0 0 ||| (b.getD 1 0 <<< 8) : Nat) : Int) - 3) % 2 ^ 16 ∧
    (3 ≤ (b.getD 0 0 ||| (b.getD 1 0 <<< 8)) →
      (spi_hid_populate_input_body b).content_length =
        (b.getD 0 0 ||| (b.getD 1 0 <<< 8)) - 3) ∧
    (spi_hid_populate_input_body b).content_id = b.getD 2 0 ∧
    spi_hid_populate_input_body [0x06, 0x00, 0x03] = { content_length := 3, content_id := 3 } := by
  obtain ⟨b0, b1, b2, rest, rfl⟩ : ∃ b0 b1 b2 rest, b = b0 :: b1 :: b2 :: rest := by
    match b, hlen with
    | b0 :: b1 :: b2 :: rest, _ => exact ⟨b0, b1, b2, rest, rfl⟩
  have h0 : b0 < 256 := hb b0 (by simp)
  have h1 : b1 < 256 := hb b1 (by simp)
  have hL := le16_lt b0 b1 h0 h1
  simp only [spi_hid_populate_input_body, List.getD_cons_zero, List.getD_cons_succ,
    SPI_HID_INPUT_BODY_LEN]
  generalize b0 ||| (b1 <<< 8) = L at hL ⊢
  refine ⟨?_, ?_, trivial, by decide⟩
  · omega
  · intro h3
    omega

/-- C3, the scenario of the spec: the body bytes [0x06, 0x00, 0x03]. -/
theorem populate_input_body_spec_witness :
    (spi_hid_populate_input_body [0x06, 0x00, 0x03]).content_length = 3 ∧
    (spi_hid_populate_input_body [0x06, 0x00, 0x03]).content_id = 3 :=
  ⟨((populate_input_body_spec [0x06, 0x00, 0x03] (by decide) (by decide)).2.1
      (by decide)).trans (by decide),
   (populate_input_body_spec [0x06, 0x00, 0x03] (by decide) (by decide)).2.2.1⟩

theorem reads_cons (e : Event) (l : List Event) : reads (e :: l) = reads [e] ++ reads l := by
  cases e with
  | spi_async_input tx rx len cb ret => cases rx <;> simp [reads]
  | _ => simp [reads]

theorem reads_append (l1 l2 : List Event) : reads (l1 ++ l2) = reads l1 ++ reads l2 := by
  induction l1 with
  | nil => simp [reads]
  | cons e l ih =>
    rw [List.cons_append, reads_cons, ih, reads_cons e l, List.append_assoc]

/-- C8: `spi_hid_bus_input_report` increments `input_transfer_pending` by exactly one on
every call; when the count was zero before the call it submits one message, the read
approval followed by the receive of the 4 header bytes into the input buffer, and
returns the result of the submission; otherwise it returns 0 and submits
nothing. -/
theorem bus_input_report_spec (k : Consts) (o : Ext) (s : spi_hid) :
    (spi_hid_bus_input_report k o s).2.input_transfer_pending = s.input_transfer_pending + 1 ∧
    (spi_hid_bus_input_report k o s).2.log =
      s.log ++ Event.trace_bus_input_report ::
        (if s.input_transfer_pending = 0 then
          [Event.spi_async_input (spi_hid_read_approval k s.desc.input_register)
            (RxBuf.header BufSel.input) 4 Callback.spi_hid_input_header_complete
            o.spi_async_ret]
         else []) ∧
    (spi_hid_bus_input_report k o s).2.bus =
      s.bus ++
        (if s.input_transfer_pending = 0 ∧ o.spi_async_ret = 0 then
          [Message.mk (RxBuf.header BufSel.input) 4 Callback.spi_hid_input_header_complete]
         else []) ∧
    (spi_hid_bus_input_report k o s).1 =
      (if s.input_transfer_pending = 0 then o.spi_async_ret else 0) ∧
    (reads (spi_hid_bus_input_report k o s).2.log ≠ reads s.log ↔
      s.input_transfer_pending = 0) := by
  by_cases hp : s.input_transfer_pending = 0 <;> by_cases hr : o.spi_async_ret = 0 <;>
    simp [spi_hid_bus_input_report, spi_hid_input_async, spi_hid.emit, hp, hr, reads_append,
      reads, SPI_HID_INPUT_HEADER_LEN]

/-- C5 as stated fails: the header [0x13, 0x10, 0x00, 0xFF] has the sync byte 0xFF, not
the valid constant; arriving on the first interrupt-driven read after probe it is
accepted by `spi_hid_bus_validate_header` (return 0) and
`spi_hid_input_header_complete` issues the body read for it. -/
theorem validate_header_bad_sync_counterexample :
    (spi_hid_populate_input_header [0x13, 0x10, 0x00, 0xFF]).sync_const
      ≠ SPI_HID_INPUT_HEADER_SYNC_BYTE ∧
    (shid_header_arrived [0x13, 0x10, 0x00, 0xFF]).input.header = [0x13, 0x10, 0x00, 0xFF] ∧
    (spi_hid_bus_validate_header consts0 (shid_header_arrived [0x13, 0x10, 0x00, 0xFF])
      (spi_hid_populate_input_header [0x13, 0x10, 0x00, 0xFF])).1 = 0 ∧
    reads (shid_header_arrived [0x13, 0x10, 0x00, 0xFF]).log = [ReadKind.header] ∧
    reads (spi_hid_input_header_complete consts0 ext_ok
      (shid_header_arrived [0x13, 0x10, 0x00, 0xFF])).log = [ReadKind.header, ReadKind.body] := by
  decide

/-- C6 as stated fails: before a device descriptor is received `max_input_length` is 0
and the length check is skipped, so the header [0x13, 0x10, 0x00, 0x5A] (valid sync,
supported version, report_length 4) is accepted although its report_length exceeds
`max_input_length`. -/
theorem validate_header_good_sync_counterexample :
    (spi_hid_populate_input_header [0x13, 0x10, 0x00, 0x5A]).sync_const
      = SPI_HID_INPUT_HEADER_SYNC_BYTE ∧
    ¬ ((spi_hid_bus_validate_header consts0 shid0
          (spi_hid_populate_input_header [0x13, 0x10, 0x00, 0x5A])).1 = 0 ↔
        ((spi_hid_populate_input_header [0x13, 0x10, 0x00, 0x5A]).version
            = consts0.SPI_HID_INPUT_HEADER_VERSION ∧
          (spi_hid_populate_input_header [0x13, 0x10, 0x00, 0x5A]).report_length
            ≤ shid0.desc.max_input_length)) := by
  decide

/-- C6, amended: for a header whose sync byte is the valid constant,
`spi_hid_bus_validate_header` succeeds if and only if the version is the supported
one, or is 0xF on an MSHW0231 device, and `max_input_length` is 0 (nothing negotiated
yet) or report_length does not exceed it; any other version fails with -EINVAL and,
the version being accepted, a report_length above a nonzero `max_input_length`
fails with -EMSGSIZE; header and session are left as they are. -/
theorem validate_header_good_sync (k : Consts) (s : spi_hid) (h : spi_hid_input_header)
    (hs : h.sync_const = SPI_HID_INPUT_HEADER_SYNC_BYTE) :
    ((spi_hid_bus_validate_header k s h).1 = 0 ↔
      (h.version = k.SPI_HID_INPUT_HEADER_VERSION ∨
        (spi_hid_is_mshw0231 s = true ∧ h.version = 0x0f)) ∧
      (s.desc.max_input_length = 0 ∨ h.report_length ≤ s.desc.max_input_length)) ∧
    (¬ (h.version = k.SPI_HID_INPUT_HEADER_VERSION ∨
        (spi_hid_is_mshw0231 s = true ∧ h.version = 0x0f)) →
      (spi_hid_bus_validate_header k s h).1 = -EINVAL) ∧
    ((h.version = k.SPI_HID_INPUT_HEADER_VERSION ∨
        (spi_hid_is_mshw0231 s = true ∧ h.version = 0x0f)) →
      s.desc.max_input_length ≠ 0 → s.desc.max_input_length < h.report_length →
      (spi_hid_bus_validate_header k s h).1 = -EMSGSIZE) ∧
    (spi_hid_bus_validate_header k s h).2 = (h, s) := by
  unfold spi_hid_bus_validate_header
  simp only [ne_eq, hs, not_true_eq_false, if_false]
  split_ifs with a b
  · refine ⟨?_, ?_, ?_, rfl⟩
    · simp only [EINVAL]; constructor
      · intro h1; exact absurd h1 (by decide)
      · intro h1; exact absurd h1.1 (by tauto)
    · intro _; rfl
    · intro h1; exact absurd h1 (by tauto)
  · refine ⟨?_, ?_, ?_, rfl⟩
    · simp only [EMSGSIZE]; constructor
      · intro h1; exact absurd h1 (by decide)
      · intro h1; rcases h1.2 with h2 | h2
        · exact absurd h2 b.1
        · exact absurd b.2 (by omega)
    · intro h1; exact absurd h1 (by tauto)
    · intro _ _ _; rfl
  · refine ⟨?_, ?_, ?_, rfl⟩
    · constructor
      · intro _
        refine ⟨by tauto, ?_⟩
        by_cases h0 : s.desc.max_input_length = 0
        · exact Or.inl h0
        · right
          by_contra hl
          exact b ⟨h0, by omega⟩
      · intro _; rfl
    · intro h1; exact absurd h1 (by tauto)
    · intro _ h0 hl; exact absurd (And.intro h0 hl) b

/-- C6, amended, at the header [0x13, 0x10, 0x00, 0x5A] in the session after probe:
accepted, version supported and nothing negotiated yet. -/
theorem validate_header_good_sync_witness :
    (spi_hid_bus_validate_header consts0 shid0
      (spi_hid_populate_input_header [0x13, 0x10, 0x00, 0x5A])).1 = 0 :=
  (validate_header_good_sync consts0 shid0
    (spi_hid_populate_input_header [0x13, 0x10, 0x00, 0x5A]) (by decide)).1.2 (by decide)

theorem output_effect_refl (s : spi_hid) : output_effect s s [] := by
  constructor
  · simp
  · simp

theorem spi_hid_output_effect (o : Ext) (s : spi_hid) (length : Nat) :
    ∃ new, output_effect s (spi_hid_output o s length).2 new := by
  unfold spi_hid_output
  by_cases ha : o.in_atomic = true
  · exact ⟨[], by simpa [ha] using output_effect_refl s⟩
  · by_cases hr : o.spi_async_output_ret = 0
    · refine ⟨[Event.spi_async_output
        (read_bytes (s.output.header ++ s.output.body ++ s.output.content) (length % 2 ^ 16))
        o.spi_async_output_ret], ?_, ?_⟩
      · simp [ha, hr, spi_hid.emit]
      · simp
    · refine ⟨[Event.spi_async_output
        (read_bytes (s.output.header ++ s.output.body ++ s.output.content) (length % 2 ^ 16))
        o.spi_async_output_ret], ?_, ?_⟩
      · simp [ha, hr, spi_hid.emit]
      · simp

theorem output_effect_of_output (s s2 : spi_hid) (x : spi_hid_output_buf) (new : List Event)
    (h : output_effect { s with output := x } s2 new) : output_effect s s2 new :=
  ⟨h.1, h.2⟩

theorem spi_hid_send_output_report_effect (k : Consts) (o : Ext) (s : spi_hid)
    (output_register : Nat) (report : spi_hid_output_report) :
    ∃ new, output_effect s (spi_hid_send_output_report k o s output_register report).2 new := by
  unfold spi_hid_send_output_report
  simp only []
  split_ifs
  · exact ⟨[], output_effect_refl s⟩
  · exact ⟨[], output_effect_refl s⟩
  · obtain ⟨new, h⟩ := spi_hid_output_effect o _ _
    exact ⟨new, output_effect_of_output _ _ _ _ h⟩
  · obtain ⟨new, h⟩ := spi_hid_output_effect o _ _
    exact ⟨new, output_effect_of_output _ _ _ _ h⟩

theorem command_effect_refl (s : spi_hid) : command_effect s s [] := by
  constructor
  · simp
  · simp

theorem command_effect_of_output (s s2 : spi_hid) (new : List Event)
    (h : output_effect s s2 new) : command_effect s s2 new :=
  ⟨h.1, fun e he => Or.inl (h.2 e he)⟩

theorem command_effect_trans (s1 s2 s3 : spi_hid) (n1 n2 : List Event)
    (h1 : command_effect s1 s2 n1) (h2 : command_effect s2 s3 n2) :
    command_effect s1 s3 (n1 ++ n2) := by
  obtain ⟨a1, b1⟩ := h1
  obtain ⟨a2, b2⟩ := h2
  constructor
  · rw [a2]
    rw [a1]
    simp [List.append_assoc]
  · intro e he
    rcases List.mem_append.mp he with h | h
    · exact b1 e h
    · exact b2 e h

theorem command_effect_msleep (s : spi_hid) (ms : Nat) :
    command_effect s (s.emit (Event.msleep ms)) [Event.msleep ms] := by
  constructor
  · simp [spi_hid.emit]
  · intro e he
    rw [List.mem_singleton] at he
    exact Or.inr ⟨ms, he⟩

theorem then_msleep_effect (s : spi_hid) (r : Int × spi_hid) (ms : Nat)
    (h : ∃ new, output_effect s r.2 new) :
    ∃ new, command_effect s (then_msleep r ms).2 new := by
  obtain ⟨new, h⟩ := h
  exact ⟨new ++ [Event.msleep ms],
    command_effect_trans _ _ _ _ _ (command_effect_of_output _ _ _ h)
      (command_effect_msleep r.2 ms)⟩

theorem spi_hid_send_multitouch_effect (k : Consts) (o : Ext) (s : spi_hid) :
    ∃ new, command_effect s (spi_hid_send_multitouch_enable_collection_06 k o s).2 new := by
  obtain ⟨new, h⟩ := spi_hid_send_output_report_effect k o s s.desc.output_register
    { content_type := k.SPI_HID_CONTENT_TYPE_SET_FEATURE, content_id := 0x06,
      content_length := 3, content := [0x06, 0x02, 0x0A] }
  exact ⟨new, command_effect_of_output _ _ _ h⟩

theorem spi_hid_send_reset_notification_effect (k : Consts) (o : Ext) (s : spi_hid) :
    ∃ new, command_effect s (spi_hid_send_reset_notification k o s).2 new := by
  unfold spi_hid_send_reset_notification
  split_ifs
  · exact ⟨[], command_effect_refl s⟩
  · exact ⟨[], command_effect_refl s⟩
  · exact then_msleep_effect s _ 100 (spi_hid_send_output_report_effect k o s _ _)

theorem spi_hid_send_enhanced_power_mgmt_effect (k : Consts) (o : Ext) (s : spi_hid)
    (enable : Nat) :
    ∃ new, command_effect s (spi_hid_send_enhanced_power_mgmt k o s enable).2 new := by
  unfold spi_hid_send_enhanced_power_mgmt
  split_ifs
  · exact ⟨[], command_effect_refl s⟩
  · exact ⟨[], command_effect_refl s⟩
  · exact then_msleep_effect s _ 30 (spi_hid_send_output_report_effect k o s _ _)

theorem spi_hid_send_selective_suspend_effect (k : Consts) (o : Ext) (s : spi_hid)
    (enable : Nat) :
    ∃ new, command_effect s (spi_hid_send_selective_suspend k o s enable).2 new := by
  unfold spi_hid_send_selective_suspend
  split_ifs
  · exact ⟨[], command_effect_refl s⟩
  · exact then_msleep_effect s _ 30 (spi_hid_send_output_report_effect k o s _ _)

theorem output_effect_trans (s1 s2 s3 : spi_hid) (n1 n2 : List Event)
    (h1 : output_effect s1 s2 n1) (h2 : output_effect s2 s3 n2) :
    output_effect s1 s3 (n1 ++ n2) := by
  obtain ⟨a1, b1⟩ := h1
  obtain ⟨a2, b2⟩ := h2
  constructor
  · rw [a2]
    rw [a1]
    simp [List.append_assoc]
  · intro e he
    rcases List.mem_append.mp he with h | h
    · exact b1 e h
    · exact b2 e h

theorem run_if_effect (c : Bool) (f : spi_hid → Int × spi_hid)
    (hf : ∀ s, ∃ new, command_effect s (f s).2 new) (s0 s : spi_hid) (n0 : List Event)
    (h0 : command_effect s0 s n0) :
    ∃ new, command_effect s0 (run_if c f s) new := by
  unfold run_if
  cases c
  · exact ⟨n0, by simpa using h0⟩
  · obtain ⟨n1, h1⟩ := hf s
    exact ⟨n0 ++ n1, by simpa using command_effect_trans _ _ _ _ _ h0 h1⟩

theorem handshake_commands_effect (k : Consts) (o : Ext) (n : Nat) (s : spi_hid) :
    ∃ new, command_effect s
      (s
        |> run_if (n == 150) (spi_hid_send_multitouch_enable_collection_06 k o)
        |> run_if (n == 155) (spi_hid_send_reset_notification k o)
        |> run_if (n == 160) (fun t => spi_hid_send_enhanced_power_mgmt k o t 1)
        |> run_if (n == 165) (fun t => spi_hid_send_selective_suspend k o t 1)
        |> run_if (n == 170) (fun t => spi_hid_send_selective_suspend k o t 0)
        |> run_if (n == 190) (fun t => spi_hid_send_selective_suspend k o t 1)) new := by
  obtain ⟨n1, h1⟩ := run_if_effect (n == 150) _ (spi_hid_send_multitouch_effect k o) s s []
    (command_effect_refl s)
  obtain ⟨n2, h2⟩ := run_if_effect (n == 155) _ (spi_hid_send_reset_notification_effect k o)
    s _ n1 h1
  obtain ⟨n3, h3⟩ := run_if_effect (n == 160) _
    (fun t => spi_hid_send_enhanced_power_mgmt_effect k o t 1) s _ n2 h2
  obtain ⟨n4, h4⟩ := run_if_effect (n == 165) _
    (fun t => spi_hid_send_selective_suspend_effect k o t 1) s _ n3 h3
  obtain ⟨n5, h5⟩ := run_if_effect (n == 170) _
    (fun t => spi_hid_send_selective_suspend_effect k o t 0) s _ n4 h4
  exact run_if_effect (n == 190) _
    (fun t => spi_hid_send_selective_suspend_effect k o t 1) s _ n5 h5

theorem reads_output_events (new : List Event)
    (h : ∀ e ∈ new, ∃ tx ret, e = Event.spi_async_output tx ret) : reads new = [] := by
  induction new with
  | nil => rfl
  | cons e l ih =>
    obtain ⟨tx, ret, rfl⟩ := h e (by simp)
    rw [reads_cons, ih (fun x hx => h x (List.mem_cons_of_mem _ hx))]
    rfl

theorem reads_command_events (new : List Event)
    (h : ∀ e ∈ new, (∃ tx ret, e = Event.spi_async_output tx ret) ∨ ∃ ms, e = Event.msleep ms) :
    reads new = [] := by
  induction new with
  | nil => rfl
  | cons e l ih =>
    rw [reads_cons, ih (fun x hx => h x (List.mem_cons_of_mem _ hx))]
    rcases h e (by simp) with ⟨tx, ret, rfl⟩ | ⟨ms, rfl⟩ <;> rfl

theorem output_effect_quiet (s1 s2 : spi_hid) (new : List Event)
    (h : output_effect s1 s2 new) : quiet_step s1 s2 := by
  obtain ⟨a, b⟩ := h
  have hb := fun {α : Type} (f : spi_hid → α) => congrArg f a
  refine ⟨⟨new, hb spi_hid.log, ?_, reads_output_events new b⟩,
    hb spi_hid.bus, hb spi_hid.input_transfer_pending,
    hb spi_hid.powered, hb spi_hid.power_state,
    hb spi_hid.input, hb spi_hid.response,
    hb spi_hid.attempts, hb spi_hid.desc, hb spi_hid.output_done⟩
  intro e he
  obtain ⟨tx, ret, rfl⟩ := b e he
  rfl

theorem command_effect_quiet (s1 s2 : spi_hid) (new : List Event)
    (h : command_effect s1 s2 new) : quiet_step s1 s2 := by
  obtain ⟨a, b⟩ := h
  have hb := fun {α : Type} (f : spi_hid → α) => congrArg f a
  refine ⟨⟨new, hb spi_hid.log, ?_, reads_command_events new b⟩,
    hb spi_hid.bus, hb spi_hid.input_transfer_pending,
    hb spi_hid.powered, hb spi_hid.power_state,
    hb spi_hid.input, hb spi_hid.response,
    hb spi_hid.attempts, hb spi_hid.desc, hb spi_hid.output_done⟩
  intro e he
  rcases b e he with ⟨tx, ret, rfl⟩ | ⟨ms, rfl⟩ <;> rfl

theorem quiet_step_refl (s : spi_hid) : quiet_step s s :=
  ⟨⟨[], by simp, by simp, rfl⟩, rfl, rfl, rfl, rfl, rfl, rfl, rfl, rfl, rfl⟩

theorem quiet_step_trans (s1 s2 s3 : spi_hid) (h1 : quiet_step s1 s2) (h2 : quiet_step s2 s3) :
    quiet_step s1 s3 := by
  obtain ⟨⟨n1, l1, d1, r1⟩, a1, a2, a3, a4, a5, a6, a7, a8, a9⟩ := h1
  obtain ⟨⟨n2, l2, d2, r2⟩, b1, b2, b3, b4, b5, b6, b7, b8, b9⟩ := h2
  refine ⟨⟨n1 ++ n2, by rw [l2, l1, List.append_assoc], ?_, by rw [reads_append, r1, r2]; rfl⟩,
    b1.trans a1, b2.trans a2, b3.trans a3, b4.trans a4, b5.trans a5, b6.trans a6,
    b7.trans a7, b8.trans a8, b9.trans a9⟩
  intro e he
  rcases List.mem_append.mp he with h | h
  · exact d1 e h
  · exact d2 e h

theorem handshake_quiet (k : Consts) (o : Ext) (s : spi_hid) (header : spi_hid_input_header) :
    (spi_hid_process_input_report_handshake k o s header).1 = 0 ∧
    quiet_step s (spi_hid_process_input_report_handshake k o s header).2 := by
  unfold spi_hid_process_input_report_handshake
  simp only []
  split_ifs with h1 h2 h3
  · exact ⟨rfl, ⟨[], by simp, by simp, rfl⟩, rfl, rfl, rfl, rfl, rfl, rfl, rfl, rfl, rfl⟩
  · refine ⟨rfl, ?_⟩
    obtain ⟨new, h⟩ := handshake_commands_effect k o (s.init_responses + 1)
      (schedule_work { s with init_responses := s.init_responses + 1, ready := true }
        Work.create_device_work)
    refine quiet_step_trans _ _ _ ?_ (command_effect_quiet _ _ _ h)
    exact ⟨⟨[Event.schedule_work Work.create_device_work], rfl, by
      intro e he
      rw [List.mem_singleton] at he
      subst he
      rfl, rfl⟩, rfl, rfl, rfl, rfl, rfl, rfl, rfl, rfl, rfl⟩
  · refine ⟨rfl, ?_⟩
    obtain ⟨new, h⟩ := handshake_commands_effect k o (s.init_responses + 1)
      { s with init_responses := s.init_responses + 1, ready := true }
    refine quiet_step_trans _ _ _ ?_ (command_effect_quiet _ _ _ h)
    exact ⟨⟨[], by simp, by simp, rfl⟩, rfl, rfl, rfl, rfl, rfl, rfl, rfl, rfl, rfl⟩
  · exact ⟨rfl, ⟨[], by simp, by simp, rfl⟩, rfl, rfl, rfl, rfl, rfl, rfl, rfl, rfl, rfl⟩

theorem buf_emit (s : spi_hid) (e : Event) (b : BufSel) : (s.emit e).buf b = s.buf b := by
  cases b <;> rfl

/-- C4 as stated fails: the frame with header [0x13, 0x10, 0x00, 0x5A] (report_length 4)
and body [0xFF, 0xFF, 0x01, 0x00] (content length 65532), received after probe, has a
content length above the declared report_length, and
`spi_hid_process_input_report` returns 0 for it. -/
theorem process_input_report_bad_length_counterexample :
    (shid_body_arrived [0x13, 0x10, 0x00, 0x5A] [0xFF, 0xFF, 0x01, 0x00]).input.header
      = [0x13, 0x10, 0x00, 0x5A] ∧
    (shid_body_arrived [0x13, 0x10, 0x00, 0x5A] [0xFF, 0xFF, 0x01, 0x00]).input.body
      = [0xFF, 0xFF, 0x01] ∧
    (spi_hid_populate_input_body [0xFF, 0xFF, 0x01]).content_length >
      (spi_hid_populate_input_header [0x13, 0x10, 0x00, 0x5A]).report_length ∧
    (spi_hid_process_input_report consts0 ext_ok
      (shid_body_arrived [0x13, 0x10, 0x00, 0x5A] [0xFF, 0xFF, 0x01, 0x00]) BufSel.input).1
      = 0 := by
  decide

/-- C4, amended: for every input frame whose decoded content length exceeds the
header's report_length, `spi_hid_process_input_report` dispatches the frame to no
report-type handler (no handler call, no delivery, no completion, attempt counter
and device descriptor untouched); it returns -EINVAL unless the frame is tolerated,
and 0 when it is: an MSHW0231 device with content length 0xFFFD (initialization
handshake), or fewer than 50 bypasses so far together with a sync byte 0xFF, a
content length above 60000 or an MSHW0231 device. -/
theorem process_input_report_bad_length (k : Consts) (o : Ext) (s : spi_hid) (b : BufSel)
    (hlen : (spi_hid_populate_input_body (s.buf b).body).content_length >
      (spi_hid_populate_input_header (s.buf b).header).report_length) :
    (spi_hid_process_input_report k o s b).1 =
      (if (spi_hid_is_mshw0231 s = true ∧
            (spi_hid_populate_input_body (s.buf b).body).content_length = 65533) ∨
          (((spi_hid_populate_input_header (s.buf b).header).sync_const = 0xFF ∨
              (spi_hid_populate_input_body (s.buf b).body).content_length > 60000 ∨
              spi_hid_is_mshw0231 s = true) ∧
            s.body_bypass_attempts < 50)
       then 0 else -EINVAL) ∧
    (∃ new, (spi_hid_process_input_report k o s b).2.log =
        s.log ++ Event.trace_process_input_report b :: new ∧
      ∀ e ∈ new, e.is_dispatch = false) ∧
    (spi_hid_process_input_report k o s b).2.attempts = s.attempts ∧
    (spi_hid_process_input_report k o s b).2.desc = s.desc ∧
    (spi_hid_process_input_report k o s b).2.output_done = s.output_done := by
  simp only [spi_hid_process_input_report, buf_emit]
  rw [if_pos hlen]
  by_cases hh : spi_hid_is_mshw0231 s = true ∧
      (spi_hid_populate_input_body (s.buf b).body).content_length = 65533
  · have hm : spi_hid_is_mshw0231 (s.emit (Event.trace_process_input_report b)) = true := hh.1
    obtain ⟨r0, ⟨new, hl, hd, _⟩, _, _, _, _, _, _, ha, hdesc, hod⟩ :=
      handshake_quiet k o (s.emit (Event.trace_process_input_report b))
        (spi_hid_populate_input_header (s.buf b).header)
    simp only [hm, hh.2, decide_True, Bool.and_self, if_true, hh, true_or]
    refine ⟨r0, ⟨new, ?_, hd⟩, ha, hdesc, hod⟩
    rw [hl]
    simp [spi_hid.emit]
  · have hm : spi_hid_is_mshw0231 (s.emit (Event.trace_process_input_report b))
        = spi_hid_is_mshw0231 s := rfl
    have hbp : (s.emit (Event.trace_process_input_report b)).body_bypass_attempts
        = s.body_bypass_attempts := rfl
    have hc1 : (spi_hid_is_mshw0231 s && decide
        ((spi_hid_populate_input_body (s.buf b).body).content_length = 65533)) = false := by
      rw [Bool.and_eq_false_iff]
      by_cases h1 : spi_hid_is_mshw0231 s = true
      · right
        simpa using fun h2 => hh ⟨h1, h2⟩
      · left
        simpa using h1
    simp only [hm, hbp, hc1, Bool.false_eq_true, if_false, hh, false_or]
    by_cases ht : ((spi_hid_populate_input_header (s.buf b).header).sync_const = 0xFF ∨
              (spi_hid_populate_input_body (s.buf b).body).content_length > 60000 ∨
              spi_hid_is_mshw0231 s = true) ∧ s.body_bypass_attempts < 50
    · have hc2 : ((decide ((spi_hid_populate_input_header (s.buf b).header).sync_const = 0xFF)
          || decide ((spi_hid_populate_input_body (s.buf b).body).content_length > 60000)
          || spi_hid_is_mshw0231 s) && decide (s.body_bypass_attempts < 50)) = true := by
        simpa [or_assoc] using ht
      rw [if_pos hc2, if_pos ht]
      exact ⟨rfl, ⟨[], by simp [spi_hid.emit], by simp⟩, rfl, rfl, rfl⟩
    · have hc2 : ¬ ((decide ((spi_hid_populate_input_header (s.buf b).header).sync_const = 0xFF)
          || decide ((spi_hid_populate_input_body (s.buf b).body).content_length > 60000)
          || spi_hid_is_mshw0231 s) && decide (s.body_bypass_attempts < 50)) = true := by
        simpa [or_assoc] using ht
      rw [if_neg hc2, if_neg ht]
      exact ⟨rfl, ⟨[], by simp [spi_hid.emit], by simp⟩, rfl, rfl, rfl⟩

/-- C4, amended, at the frame with header [0x13, 0x10, 0x00, 0x5A] (report_length 4) and
body [0x10, 0x00, 0x01, 0x00] (content length 13) received after probe: not tolerated,
rejected with -EINVAL. -/
theorem process_input_report_bad_length_witness :
    (spi_hid_process_input_report consts0 ext_ok
      (shid_body_arrived [0x13, 0x10, 0x00, 0x5A] [0x10, 0x00, 0x01, 0x00]) BufSel.input).1
      = -EINVAL :=
  (process_input_report_bad_length consts0 ext_ok
    (shid_body_arrived [0x13, 0x10, 0x00, 0x5A] [0x10, 0x00, 0x01, 0x00]) BufSel.input
    (by decide)).1.trans (by decide)

theorem deliveries_cons (e : Event) (l : List Event) :
    deliveries (e :: l) = deliveries [e] ++ deliveries l := by
  cases e <;> simp [deliveries]

theorem deliveries_append (l1 l2 : List Event) :
    deliveries (l1 ++ l2) = deliveries l1 ++ deliveries l2 := by
  induction l1 with
  | nil => simp [deliveries]
  | cons e l ih =>
    rw [List.cons_append, deliveries_cons, ih, deliveries_cons e l, List.append_assoc]

theorem set_buf_log (s : spi_hid) (b : BufSel) (v : spi_hid_input_buf) :
    (s.set_buf b v).log = s.log := by
  cases b <;> rfl

theorem signature_log (k : Consts) (s : spi_hid) (b : BufSel) :
    (spi_hid_input_report_handler_signature k s b).log = s.log := by
  simp only [spi_hid_input_report_handler_signature]
  split_ifs
  · exact set_buf_log _ _ _
  · rfl

theorem input_report_handler_dropped (k : Consts) (o : Ext) (s : spi_hid) (b : BufSel)
    (h : s.ready = false ∨ s.refresh_in_progress = true ∨ s.hid = none ∨
      (spi_hid_is_mshw0231 s = true ∧ s.windows_multi_collection_mode = true ∧
        0 < (spi_hid_populate_input_body (s.buf b).body).content_length ∧
        s.target_collection = k.MSHW0231_COLLECTION_TOUCHSCREEN ∧
        ((s.buf b).content.getD 0 0 >>> 4) % 256 ≠ k.MSHW0231_COLLECTION_TOUCHSCREEN ∧
        ((s.buf b).content.getD 0 0 >>> 4) % 256 ≠ 0)) :
    spi_hid_input_report_handler k o s b = (0, s.emit (Event.trace_input_report_handler b)) := by
  simp only [spi_hid_input_report_handler, spi_hid_input_report_prepare, buf_emit]
  have e1 : (s.emit (Event.trace_input_report_handler b)).ready = s.ready := rfl
  have e2 : (s.emit (Event.trace_input_report_handler b)).refresh_in_progress
      = s.refresh_in_progress := rfl
  have e3 : (s.emit (Event.trace_input_report_handler b)).hid = s.hid := rfl
  have m1 : spi_hid_is_mshw0231 (s.emit (Event.trace_input_report_handler b))
      = spi_hid_is_mshw0231 s := rfl
  have m2 : (s.emit (Event.trace_input_report_handler b)).windows_multi_collection_mode
      = s.windows_multi_collection_mode := rfl
  have m3 : (s.emit (Event.trace_input_report_handler b)).target_collection
      = s.target_collection := rfl
  simp only [e1, e2, e3, m1, m2, m3]
  by_cases hr : s.ready = true
  · by_cases hf : s.refresh_in_progress = true
    · simp [hr, hf]
    · cases hh : s.hid with
      | none => simp [hr, hf]
      | some hid =>
        have hfil := h.resolve_left (by simp [hr]) |>.resolve_left hf |>.resolve_left (by simp [hh])
        have hc : (spi_hid_is_mshw0231 s && s.windows_multi_collection_mode
            && decide ((spi_hid_populate_input_body (s.buf b).body).content_length > 0)
            && decide (s.target_collection = k.MSHW0231_COLLECTION_TOUCHSCREEN)
            && decide (((s.buf b).content.getD 0 0 >>> 4) % 256
                ≠ k.MSHW0231_COLLECTION_TOUCHSCREEN)
            && decide (((s.buf b).content.getD 0 0 >>> 4) % 256 ≠ 0x00)) = true := by
          simpa [and_assoc] using hfil
        simp only [hc, if_true]
        simp [hr, hf]
  · simp [hr]

theorem input_report_handler_delivered (k : Consts) (o : Ext) (s : spi_hid) (b : BufSel)
    (hid : Nat) (hr : s.ready = true) (hf : s.refresh_in_progress = false)
    (hh : s.hid = some hid)
    (hfil : ¬ (spi_hid_is_mshw0231 s = true ∧ s.windows_multi_collection_mode = true ∧
        0 < (spi_hid_populate_input_body (s.buf b).body).content_length ∧
        s.target_collection = k.MSHW0231_COLLECTION_TOUCHSCREEN ∧
        ((s.buf b).content.getD 0 0 >>> 4) % 256 ≠ k.MSHW0231_COLLECTION_TOUCHSCREEN ∧
        ((s.buf b).content.getD 0 0 >>> 4) % 256 ≠ 0)) :
    (spi_hid_input_report_handler k o s b).2.log =
      s.log ++ [Event.trace_input_report_handler b,
        Event.hid_input_report hid (spi_hid_input_report_handler_data
          (spi_hid_input_report_handler_signature k
            (s.emit (Event.trace_input_report_handler b)) b) b)] := by
  simp only [spi_hid_input_report_handler, spi_hid_input_report_prepare, buf_emit]
  have e1 : (s.emit (Event.trace_input_report_handler b)).ready = s.ready := rfl
  have e2 : (s.emit (Event.trace_input_report_handler b)).refresh_in_progress
      = s.refresh_in_progress := rfl
  have e3 : (s.emit (Event.trace_input_report_handler b)).hid = s.hid := rfl
  have m1 : spi_hid_is_mshw0231 (s.emit (Event.trace_input_report_handler b))
      = spi_hid_is_mshw0231 s := rfl
  have m2 : (s.emit (Event.trace_input_report_handler b)).windows_multi_collection_mode
      = s.windows_multi_collection_mode := rfl
  have m3 : (s.emit (Event.trace_input_report_handler b)).target_collection
      = s.target_collection := rfl
  have hc : ¬ (spi_hid_is_mshw0231 s && s.windows_multi_collection_mode
      && decide ((spi_hid_populate_input_body (s.buf b).body).content_length > 0)
      && decide (s.target_collection = k.MSHW0231_COLLECTION_TOUCHSCREEN)
      && decide (((s.buf b).content.getD 0 0 >>> 4) % 256
          ≠ k.MSHW0231_COLLECTION_TOUCHSCREEN)
      && decide (((s.buf b).content.getD 0 0 >>> 4) % 256 ≠ 0x00)) = true := by
    simpa [and_assoc] using hfil
  simp only [e1, e2, e3, m1, m2, m3, hr, hf, hh, hc, Bool.not_true, Bool.false_eq_true, if_false]
  split_ifs <;> simp [spi_hid.emit, signature_log]

/-- C10 as stated fails: the MSHW0231 session `shid_mshw_data` is ready, not in refresh
and has a consumer attached, it holds a Data frame that passes the content-length
validation (content length 2, report_length 8), and the report is not delivered:
the collection filter of lines 533-552 drops it (return 0). -/
theorem data_report_delivery_counterexample :
    (spi_hid_populate_input_header (shid_mshw_data.buf BufSel.input).header).report_type
      = consts0.SPI_HID_REPORT_TYPE_DATA ∧
    (spi_hid_populate_input_body (shid_mshw_data.buf BufSel.input).body).content_length
      ≤ (spi_hid_populate_input_header (shid_mshw_data.buf BufSel.input).header).report_length ∧
    shid_mshw_data.ready = true ∧ shid_mshw_data.refresh_in_progress = false ∧
    shid_mshw_data.hid = some 1 ∧
    deliveries (spi_hid_process_input_report consts0 ext_ok shid_mshw_data BufSel.input).2.log
      = [] ∧
    (spi_hid_process_input_report consts0 ext_ok shid_mshw_data BufSel.input).1 = 0 := by
  decide

theorem input_report_handler_delivered_ret (k : Consts) (o : Ext) (s : spi_hid) (b : BufSel)
    (hid : Nat) (hr : s.ready = true) (hf : s.refresh_in_progress = false)
    (hh : s.hid = some hid)
    (hfil : ¬ (spi_hid_is_mshw0231 s = true ∧ s.windows_multi_collection_mode = true ∧
        0 < (spi_hid_populate_input_body (s.buf b).body).content_length ∧
        s.target_collection = k.MSHW0231_COLLECTION_TOUCHSCREEN ∧
        ((s.buf b).content.getD 0 0 >>> 4) % 256 ≠ k.MSHW0231_COLLECTION_TOUCHSCREEN ∧
        ((s.buf b).content.getD 0 0 >>> 4) % 256 ≠ 0)) :
    (spi_hid_input_report_handler k o s b).1 =
      (if o.hid_input_report_ret = -ENODEV ∨ o.hid_input_report_ret = -EBUSY then 0
       else o.hid_input_report_ret) := by
  simp only [spi_hid_input_report_handler, spi_hid_input_report_prepare, buf_emit]
  have e1 : (s.emit (Event.trace_input_report_handler b)).ready = s.ready := rfl
  have e2 : (s.emit (Event.trace_input_report_handler b)).refresh_in_progress
      = s.refresh_in_progress := rfl
  have e3 : (s.emit (Event.trace_input_report_handler b)).hid = s.hid := rfl
  have m1 : spi_hid_is_mshw0231 (s.emit (Event.trace_input_report_handler b))
      = spi_hid_is_mshw0231 s := rfl
  have m2 : (s.emit (Event.trace_input_report_handler b)).windows_multi_collection_mode
      = s.windows_multi_collection_mode := rfl
  have m3 : (s.emit (Event.trace_input_report_handler b)).target_collection
      = s.target_collection := rfl
  have hc : ¬ (spi_hid_is_mshw0231 s && s.windows_multi_collection_mode
      && decide ((spi_hid_populate_input_body (s.buf b).body).content_length > 0)
      && decide (s.target_collection = k.MSHW0231_COLLECTION_TOUCHSCREEN)
      && decide (((s.buf b).content.getD 0 0 >>> 4) % 256
          ≠ k.MSHW0231_COLLECTION_TOUCHSCREEN)
      && decide (((s.buf b).content.getD 0 0 >>> 4) % 256 ≠ 0x00)) = true := by
    simpa [and_assoc] using hfil
  simp only [e1, e2, e3, m1, m2, m3, hr, hf, hh, hc, Bool.not_true, Bool.false_eq_true, if_false]
  split_ifs <;> rfl

theorem input_report_handler_data_emit (k : Consts) (s : spi_hid) (b : BufSel) (e1 e2 : Event) :
    spi_hid_input_report_handler_data
      (spi_hid_input_report_handler_signature k ((s.emit e1).emit e2) b) b =
    spi_hid_input_report_handler_data (spi_hid_input_report_handler_signature k s b) b := by
  have hs : ∀ (t : spi_hid) (e : Event),
      (spi_hid_input_report_handler_signature k (t.emit e) b).buf b
        = (spi_hid_input_report_handler_signature k t b).buf b := by
    intro t e
    simp only [spi_hid_input_report_handler_signature, buf_emit]
    have p1 : (t.emit e).perf_mode = t.perf_mode := rfl
    have p2 : (t.emit e).touch_signature_index = t.touch_signature_index := rfl
    rw [p1, p2]
    split_ifs
    · cases b <;> rfl
    · exact buf_emit t e b
  simp only [spi_hid_input_report_handler_data]
  rw [hs, hs]

/-- C10, amended: a Data-type frame that passes the content-length validation is handed
to `spi_hid_input_report_handler`, and the report is delivered to the HID consumer
if and only if the session is ready, no refresh is in progress, a consumer is
attached, and the frame is not dropped by the collection filter of an MSHW0231 device
in multi-collection mode (content length above 0, target collection the touchscreen,
and a collection hint, the high nibble of the first content byte, that is neither 0
nor the touchscreen collection).  The delivery is one call of `hid_input_report` for
the attached consumer with the report id (the last body byte) followed by the
content bytes of the frame (in `perf_mode` the first two content bytes of a heat-map
report are overwritten with the touch signature index first), and the result is that
of `hid_input_report`, with -ENODEV and -EBUSY turned into 0; in every other case
nothing is delivered and the result is 0. -/
theorem data_report_delivery (k : Consts) (o : Ext) (s : spi_hid) (b : BufSel)
    (htype : (spi_hid_populate_input_header (s.buf b).header).report_type
      = k.SPI_HID_REPORT_TYPE_DATA)
    (hlen : (spi_hid_populate_input_body (s.buf b).body).content_length
      ≤ (spi_hid_populate_input_header (s.buf b).header).report_length) :
    spi_hid_process_input_report k o s b =
      spi_hid_input_report_handler k o (s.emit (Event.trace_process_input_report b)) b ∧
    ((s.ready = true ∧ s.refresh_in_progress = false ∧ s.hid ≠ none ∧
        ¬ (spi_hid_is_mshw0231 s = true ∧ s.windows_multi_collection_mode = true ∧
          0 < (spi_hid_populate_input_body (s.buf b).body).content_length ∧
          s.target_collection = k.MSHW0231_COLLECTION_TOUCHSCREEN ∧
          ((s.buf b).content.getD 0 0 >>> 4) % 256 ≠ k.MSHW0231_COLLECTION_TOUCHSCREEN ∧
          ((s.buf b).content.getD 0 0 >>> 4) % 256 ≠ 0)) →
      ∃ hid, s.hid = some hid ∧
        deliveries (spi_hid_process_input_report k o s b).2.log =
          deliveries s.log ++
            [(hid, spi_hid_input_report_handler_data
              (spi_hid_input_report_handler_signature k s b) b)] ∧
        (spi_hid_process_input_report k o s b).1 =
          (if o.hid_input_report_ret = -ENODEV ∨ o.hid_input_report_ret = -EBUSY then 0
           else o.hid_input_report_ret) ∧
        (s.perf_mode = 0 →
          spi_hid_input_report_handler_data
              (spi_hid_input_report_handler_signature k s b) b =
            (s.buf b).body.getD 2 0 ::
              read_bytes (s.buf b).content
                (spi_hid_populate_input_body (s.buf b).body).content_length)) ∧
    (¬ (s.ready = true ∧ s.refresh_in_progress = false ∧ s.hid ≠ none ∧
        ¬ (spi_hid_is_mshw0231 s = true ∧ s.windows_multi_collection_mode = true ∧
          0 < (spi_hid_populate_input_body (s.buf b).body).content_length ∧
          s.target_collection = k.MSHW0231_COLLECTION_TOUCHSCREEN ∧
          ((s.buf b).content.getD 0 0 >>> 4) % 256 ≠ k.MSHW0231_COLLECTION_TOUCHSCREEN ∧
          ((s.buf b).content.getD 0 0 >>> 4) % 256 ≠ 0)) →
      deliveries (spi_hid_process_input_report k o s b).2.log = deliveries s.log ∧
      (spi_hid_process_input_report k o s b).1 = 0) := by
  have heq : spi_hid_process_input_report k o s b =
      spi_hid_input_report_handler k o (s.emit (Event.trace_process_input_report b)) b := by
    simp only [spi_hid_process_input_report, buf_emit]
    rw [if_neg (by omega)]
    simp only [spi_hid_process_input_report_switch, htype, if_true]
  refine ⟨heq, ?_, ?_⟩
  · rintro ⟨hr, hf, hh, hfil⟩
    obtain ⟨hid, hh⟩ := Option.ne_none_iff_exists'.mp hh
    refine ⟨hid, hh, ?_, ?_, ?_⟩
    · rw [heq, input_report_handler_delivered k o (s.emit (Event.trace_process_input_report b))
        b hid hr hf hh (by simpa only [buf_emit] using hfil), input_report_handler_data_emit]
      simp [spi_hid.emit, deliveries_append, deliveries]
    · rw [heq]
      exact input_report_handler_delivered_ret k o
        (s.emit (Event.trace_process_input_report b)) b hid hr hf hh
        (by simpa only [buf_emit] using hfil)
    · intro hperf
      simp only [spi_hid_input_report_handler_data, spi_hid_input_report_handler_signature,
        hperf, ne_eq, not_true_eq_false, decide_False, Bool.false_and, Bool.false_eq_true,
        if_false, SPI_HID_INPUT_BODY_LEN]
  · intro hnd
    have hdrop : s.ready = false ∨ s.refresh_in_progress = true ∨ s.hid = none ∨
        (spi_hid_is_mshw0231 s = true ∧ s.windows_multi_collection_mode = true ∧
          0 < (spi_hid_populate_input_body (s.buf b).body).content_length ∧
          s.target_collection = k.MSHW0231_COLLECTION_TOUCHSCREEN ∧
          ((s.buf b).content.getD 0 0 >>> 4) % 256 ≠ k.MSHW0231_COLLECTION_TOUCHSCREEN ∧
          ((s.buf b).content.getD 0 0 >>> 4) % 256 ≠ 0) := by
      by_cases hr : s.ready = true
      · by_cases hf : s.refresh_in_progress = true
        · exact Or.inr (Or.inl hf)
        · by_cases hh : s.hid = none
          · exact Or.inr (Or.inr (Or.inl hh))
          · refine Or.inr (Or.inr (Or.inr ?_))
            by_contra hfil
            exact hnd ⟨hr, by simpa using hf, hh, hfil⟩
      · exact Or.inl (by simpa using hr)
    rw [heq, input_report_handler_dropped k o (s.emit (Event.trace_process_input_report b)) b
      (by simpa only [buf_emit] using hdrop)]
    simp [spi_hid.emit, deliveries_append, deliveries]

/-- C10, amended, at the session after probe made ready with consumer 1 attached and
holding the Data frame of header [0x13, 0x20, 0x00, 0x5A], body [0x05, 0x00, 0x01],
content 30 01: the bytes 01 30 01 are delivered to consumer 1 and the result is 0. -/
theorem data_report_delivery_witness :
    deliveries (spi_hid_process_input_report consts0 ext_ok shid_ready_data BufSel.input).2.log
      = [(1, [0x01, 0x30, 0x01])] ∧
    (spi_hid_process_input_report consts0 ext_ok shid_ready_data BufSel.input).1 = 0 := by
  obtain ⟨hid, h1, h2, h3, _⟩ := (data_report_delivery consts0 ext_ok shid_ready_data
    BufSel.input (by decide) (by decide)).2.1 (by decide)
  have hh : hid = 1 := Option.some.inj (h1.symm.trans (by decide))
  subst hh
  exact ⟨h2.trans (by decide), h3.trans (by decide)⟩

theorem validate_header_session (k : Consts) (t : spi_hid) (h : spi_hid_input_header) :
    ∃ w i, (spi_hid_bus_validate_header k t h).2.2 =
      { t with wake_attempts := w, interrupt_successes := i } := by
  simp only [spi_hid_bus_validate_header]
  split_ifs <;> exact ⟨_, _, rfl⟩

theorem validate_header_report (k : Consts) (t : spi_hid) (h : spi_hid_input_header) :
    (spi_hid_bus_validate_header k t h).2.1.report_type = h.report_type ∧
    (spi_hid_bus_validate_header k t h).2.1.report_length = h.report_length := by
  simp only [spi_hid_bus_validate_header]
  split_ifs <;> exact ⟨rfl, rfl⟩

/-- C7 as stated fails: the header [0x13, 0x10, 0x00, 0x00] (bad sync) arriving on the
first read after probe fails validation in `spi_hid_input_header_complete`, and no
error-recovery work is scheduled: the failure is counted as a bus error and
`input_transfer_pending` is cleared. -/
theorem protocol_error_recovery_counterexample :
    (spi_hid_bus_validate_header consts0
      ((shid_header_arrived [0x13, 0x10, 0x00, 0x00]).emit Event.trace_input_header_complete)
      (spi_hid_populate_input_header
        (shid_header_arrived [0x13, 0x10, 0x00, 0x00]).input.header)).1 = -EINVAL ∧
    Event.schedule_work Work.error_work ∉
      (spi_hid_input_header_complete consts0 ext_ok
        (shid_header_arrived [0x13, 0x10, 0x00, 0x00])).log ∧
    (spi_hid_input_header_complete consts0 ext_ok
      (shid_header_arrived [0x13, 0x10, 0x00, 0x00])).bus_error_count = 1 ∧
    (spi_hid_input_header_complete consts0 ext_ok
      (shid_header_arrived [0x13, 0x10, 0x00, 0x00])).input_transfer_pending = 0 := by
  decide

/-- C7, amended: in a powered session that is not Off and whose transfer completed
without error, (1) whenever `spi_hid_process_input_report` returns an error in
`spi_hid_input_body_complete` (bad content length, unexpected response, unknown
report type), `error_work` is scheduled, as the last call of the handler; (2) whenever
header validation fails in `spi_hid_input_header_complete` (bad sync, unsupported
version, oversize body) no work is scheduled: the failure is recorded as a bus error
and `input_transfer_pending` is set to 0. -/
theorem protocol_error_recovery (k : Consts) (o : Ext) (s : spi_hid)
    (hp : s.powered = true) (hst : ¬ s.input_message_status < 0)
    (hoff : s.power_state ≠ SPI_HID_POWER_MODE.OFF) :
    ((spi_hid_process_input_report k o (spi_hid_input_body_complete_begin s)
        (spi_hid_select_buf k (spi_hid_populate_input_header
          (spi_hid_input_body_complete_begin s).input.header).report_type)).1 ≠ 0 →
      (spi_hid_input_body_complete k o s).log =
        (spi_hid_process_input_report k o (spi_hid_input_body_complete_begin s)
          (spi_hid_select_buf k (spi_hid_populate_input_header
            (spi_hid_input_body_complete_begin s).input.header).report_type)).2.log
          ++ [Event.schedule_work Work.error_work]) ∧
    ((spi_hid_bus_validate_header k (s.emit Event.trace_input_header_complete)
        (spi_hid_populate_input_header s.input.header)).1 ≠ 0 →
      (spi_hid_input_header_complete k o s).log = s.log ++ [Event.trace_input_header_complete] ∧
      (spi_hid_input_header_complete k o s).bus_error_count = s.bus_error_count + 1 ∧
      (spi_hid_input_header_complete k o s).bus_last_error =
        (spi_hid_bus_validate_header k (s.emit Event.trace_input_header_complete)
          (spi_hid_populate_input_header s.input.header)).1 ∧
      (spi_hid_input_header_complete k o s).input_transfer_pending = 0) := by
  have e1 : (s.emit Event.trace_input_header_complete).input.header = s.input.header := rfl
  have e2 : (s.emit Event.trace_input_header_complete).input_message_status
      = s.input_message_status := rfl
  have e3 : (s.emit Event.trace_input_header_complete).power_state = s.power_state := rfl
  constructor
  · intro hne
    have hp0 : ¬ (!s.powered) = true := by rw [hp]; decide
    have hst1 : ¬ (spi_hid_input_body_complete_begin s).input_message_status < 0 := hst
    have hoff1 : ¬ (spi_hid_input_body_complete_begin s).power_state = SPI_HID_POWER_MODE.OFF :=
      hoff
    unfold spi_hid_input_body_complete
    rw [if_neg hp0]
    dsimp only
    rw [if_neg hst1, if_neg hoff1, if_pos hne]
    rfl
  · intro hne
    obtain ⟨w, i, hv⟩ := validate_header_session k (s.emit Event.trace_input_header_complete)
      (spi_hid_populate_input_header s.input.header)
    unfold spi_hid_input_header_complete
    simp only [hp, Bool.not_true, Bool.false_eq_true, if_false, e1, e2, e3, hst, hoff]
    rw [if_pos hne]
    refine ⟨?_, ?_, rfl, rfl⟩
    · exact congrArg spi_hid.log hv
    · exact congrArg (fun t => t.bus_error_count + 1) hv

/-- C7, amended, at two frames received after probe: the body of a frame of unknown
report type 2 (header [0x23, 0x10, 0x00, 0x5A]) makes report processing fail and
`error_work` is scheduled; the header [0x13, 0x10, 0x00, 0x00] fails validation and
only the tracepoint is recorded. -/
theorem protocol_error_recovery_witness :
    (spi_hid_input_body_complete consts0 ext_ok
        (shid_body_arrived [0x23, 0x10, 0x00, 0x5A] [0x03, 0x00, 0x00, 0x00])).log =
      (spi_hid_process_input_report consts0 ext_ok
        (spi_hid_input_body_complete_begin
          (shid_body_arrived [0x23, 0x10, 0x00, 0x5A] [0x03, 0x00, 0x00, 0x00]))
        (spi_hid_select_buf consts0 (spi_hid_populate_input_header
          (spi_hid_input_body_complete_begin
            (shid_body_arrived [0x23, 0x10, 0x00, 0x5A]
              [0x03, 0x00, 0x00, 0x00])).input.header).report_type)).2.log
        ++ [Event.schedule_work Work.error_work] ∧
    (spi_hid_input_header_complete consts0 ext_ok
        (shid_header_arrived [0x13, 0x10, 0x00, 0x00])).log =
      (shid_header_arrived [0x13, 0x10, 0x00, 0x00]).log ++ [Event.trace_input_header_complete] :=
  ⟨(protocol_error_recovery consts0 ext_ok
      (shid_body_arrived [0x23, 0x10, 0x00, 0x5A] [0x03, 0x00, 0x00, 0x00])
      (by decide) (by decide) (by decide)).1 (by decide),
   ((protocol_error_recovery consts0 ext_ok (shid_header_arrived [0x13, 0x10, 0x00, 0x00])
      (by decide) (by decide) (by decide)).2 (by decide)).1⟩


theorem pipeline_frame_refl (s : spi_hid) : pipeline_frame s s :=
  ⟨⟨[], by simp, rfl⟩, rfl, rfl, rfl, rfl, rfl⟩

theorem pipeline_frame_trans (s1 s2 s3 : spi_hid) (h1 : pipeline_frame s1 s2)
    (h2 : pipeline_frame s2 s3) : pipeline_frame s1 s3 := by
  obtain ⟨⟨n1, l1, r1⟩, a1, a2, a3, a4, a5⟩ := h1
  obtain ⟨⟨n2, l2, r2⟩, b1, b2, b3, b4, b5⟩ := h2
  exact ⟨⟨n1 ++ n2, by rw [l2, l1, List.append_assoc], by rw [reads_append, r1, r2]; rfl⟩,
    b1.trans a1, b2.trans a2, b3.trans a3, b4.trans a4, b5.trans a5⟩

theorem pipeline_frame_of_quiet (s1 s2 : spi_hid) (h : quiet_step s1 s2) :
    pipeline_frame s1 s2 := by
  obtain ⟨⟨new, l, _, r⟩, a1, a2, a3, a4, a5, _⟩ := h
  exact ⟨⟨new, l, r⟩, a1, a2, a3, a4, by rw [a5]⟩

theorem pipeline_frame_emit (s : spi_hid) (e : Event) (h : reads [e] = []) :
    pipeline_frame s (s.emit e) :=
  ⟨⟨[e], rfl, h⟩, rfl, rfl, rfl, rfl, rfl⟩

theorem set_buf_content_frame (s : spi_hid) (b : BufSel) (c : List Nat) :
    pipeline_frame s (s.set_buf b { s.buf b with content := c }) := by
  cases b <;> exact ⟨⟨[], by simp [spi_hid.set_buf], rfl⟩, rfl, rfl, rfl, rfl, rfl⟩

theorem signature_frame (k : Consts) (s : spi_hid) (b : BufSel) :
    pipeline_frame s (spi_hid_input_report_handler_signature k s b) := by
  simp only [spi_hid_input_report_handler_signature]
  split_ifs
  · obtain ⟨⟨new, l, r⟩, a1, a2, a3, a4, a5⟩ := set_buf_content_frame s b
      (write_at (write_at (spi_hid_input_report_prepare (s.buf b)).content 1
        [(s.touch_signature_index >>> 8) % 256]) 0 [s.touch_signature_index % 256])
    exact ⟨⟨new, l, r⟩, a1, a2, a3, a4, a5⟩
  · exact pipeline_frame_refl s

theorem input_report_handler_frame (k : Consts) (o : Ext) (s : spi_hid) (b : BufSel) :
    pipeline_frame s (spi_hid_input_report_handler k o s b).2 := by
  have h0 := pipeline_frame_emit s (Event.trace_input_report_handler b) rfl
  simp only [spi_hid_input_report_handler]
  split_ifs <;> (try split) <;> first
    | exact h0
    | exact pipeline_frame_trans _ _ _ h0
        (pipeline_frame_trans _ _ _ (signature_frame k _ b) (pipeline_frame_emit _ _ rfl))

theorem response_handler_frame (s : spi_hid) (b : BufSel) :
    pipeline_frame s (spi_hid_response_handler s b).2 := by
  simp only [spi_hid_response_handler]
  split_ifs
  · exact pipeline_frame_emit s _ rfl
  · exact ⟨⟨[Event.trace_response_handler b, Event.complete_output_done],
      by simp [spi_hid.emit], rfl⟩, rfl, rfl, rfl, rfl, rfl⟩

theorem process_input_report_switch_frame (k : Consts) (o : Ext) (s : spi_hid) (b : BufSel)
    (h : spi_hid_input_header) :
    pipeline_frame s (spi_hid_process_input_report_switch k o s b h).2 := by
  simp only [spi_hid_process_input_report_switch]
  split_ifs
  · exact input_report_handler_frame k o s b
  · exact pipeline_frame_emit s _ rfl
  · exact ⟨⟨[Event.schedule_work Work.create_device_work], rfl, rfl⟩, rfl, rfl, rfl, rfl, rfl⟩
  · exact ⟨⟨[Event.schedule_work Work.refresh_device_work], rfl, rfl⟩, rfl, rfl, rfl, rfl, rfl⟩
  · exact pipeline_frame_refl s
  · exact response_handler_frame s b
  · exact response_handler_frame s b
  · refine pipeline_frame_trans _ _ _ ?_ (input_report_handler_frame k o _ b)
    split
    · exact ⟨⟨[Event.hid_input_report _ _], rfl, rfl⟩, rfl, rfl, rfl, rfl, rfl⟩
    · exact pipeline_frame_refl s
  · refine pipeline_frame_trans _ _ _ ?_ (input_report_handler_frame k o _ b)
    exact pipeline_frame_refl s
  · exact pipeline_frame_refl s

theorem process_input_report_frame (k : Consts) (o : Ext) (s : spi_hid) (b : BufSel) :
    pipeline_frame (s.emit (Event.trace_process_input_report b))
      (spi_hid_process_input_report k o s b).2 := by
  simp only [spi_hid_process_input_report]
  split_ifs
  · exact pipeline_frame_of_quiet _ _ (handshake_quiet k o _ _).2
  · exact ⟨⟨[], by simp, rfl⟩, rfl, rfl, rfl, rfl, rfl⟩
  · exact pipeline_frame_refl _
  · exact process_input_report_switch_frame k o _ b _
theorem validate_header_fields (k : Consts) (t : spi_hid) (h : spi_hid_input_header) :
    (spi_hid_bus_validate_header k t h).2.2.log = t.log ∧
    (spi_hid_bus_validate_header k t h).2.2.bus = t.bus ∧
    (spi_hid_bus_validate_header k t h).2.2.powered = t.powered ∧
    (spi_hid_bus_validate_header k t h).2.2.power_state = t.power_state ∧
    (spi_hid_bus_validate_header k t h).2.2.input = t.input ∧
    (spi_hid_bus_validate_header k t h).2.2.input_transfer_pending = t.input_transfer_pending ∧
    (spi_hid_bus_validate_header k t h).2.2.desc = t.desc := by
  obtain ⟨w, i, hvs⟩ := validate_header_session k t h
  have hb := fun {α : Type} (f : spi_hid → α) => congrArg f hvs
  exact ⟨hb spi_hid.log, hb spi_hid.bus, hb spi_hid.powered, hb spi_hid.power_state,
    hb spi_hid.input, hb spi_hid.input_transfer_pending, hb spi_hid.desc⟩

theorem input_async_spec (k : Consts) (o : Ext) (t : spi_hid) (rx : RxBuf) (len : Nat)
    (cb : Callback) :
    (spi_hid_input_async k o t rx len cb).1 = o.spi_async_ret ∧
    (spi_hid_input_async k o t rx len cb).2.log =
      t.log ++ [Event.spi_async_input (spi_hid_read_approval k t.desc.input_register) rx len cb
        o.spi_async_ret] ∧
    (spi_hid_input_async k o t rx len cb).2.bus =
      t.bus ++ (if o.spi_async_ret = 0 then [Message.mk rx len cb] else []) ∧
    (spi_hid_input_async k o t rx len cb).2.powered = t.powered ∧
    (spi_hid_input_async k o t rx len cb).2.power_state = t.power_state ∧
    (spi_hid_input_async k o t rx len cb).2.input = t.input ∧
    (spi_hid_input_async k o t rx len cb).2.input_transfer_pending = t.input_transfer_pending := by
  by_cases hr : o.spi_async_ret = 0 <;> simp [spi_hid_input_async, spi_hid.emit, hr]

theorem input_header_complete_route_fields (k : Consts) (t : spi_hid) (rt : Nat) :
    (spi_hid_input_header_complete_route k t rt).log = t.log ∧
    (spi_hid_input_header_complete_route k t rt).bus = t.bus ∧
    (spi_hid_input_header_complete_route k t rt).powered = t.powered ∧
    (spi_hid_input_header_complete_route k t rt).power_state = t.power_state ∧
    (spi_hid_input_header_complete_route k t rt).input = t.input ∧
    (spi_hid_input_header_complete_route k t rt).input_transfer_pending
      = t.input_transfer_pending ∧
    (spi_hid_input_header_complete_route k t rt).desc = t.desc := by
  simp only [spi_hid_input_header_complete_route]
  split_ifs <;> exact ⟨rfl, rfl, rfl, rfl, rfl, rfl, rfl⟩

theorem input_header_complete_ok (k : Consts) (o : Ext) (s : spi_hid)
    (hp : s.powered = true) (hst : ¬ s.input_message_status < 0)
    (hoff : s.power_state ≠ SPI_HID_POWER_MODE.OFF)
    (hv : (spi_hid_bus_validate_header k (s.emit Event.trace_input_header_complete)
      (spi_hid_populate_input_header s.input.header)).1 = 0) :
    (spi_hid_input_header_complete k o s).log =
      s.log ++ [Event.trace_input_header_complete,
        Event.spi_async_input (spi_hid_read_approval k s.desc.input_register)
          (RxBuf.body (spi_hid_select_buf k (spi_hid_populate_input_header s.input.header).report_type))
          (spi_hid_populate_input_header s.input.header).report_length
          Callback.spi_hid_input_body_complete o.spi_async_ret] ∧
    (spi_hid_input_header_complete k o s).bus =
      s.bus ++ (if o.spi_async_ret = 0 then
        [Message.mk
          (RxBuf.body (spi_hid_select_buf k (spi_hid_populate_input_header s.input.header).report_type))
          (spi_hid_populate_input_header s.input.header).report_length
          Callback.spi_hid_input_body_complete]
        else []) ∧
    (spi_hid_input_header_complete k o s).powered = s.powered ∧
    (spi_hid_input_header_complete k o s).power_state = s.power_state ∧
    (spi_hid_input_header_complete k o s).input.header = s.input.header ∧
    (o.spi_async_ret = 0 →
      (spi_hid_input_header_complete k o s).input_transfer_pending = s.input_transfer_pending) := by
  have hp0 : ¬ (!s.powered) = true := by rw [hp]; decide
  have hst1 : ¬ (s.emit Event.trace_input_header_complete).input_message_status < 0 := hst
  have hoff1 : ¬ (s.emit Event.trace_input_header_complete).power_state
      = SPI_HID_POWER_MODE.OFF := hoff
  have e1 : (s.emit Event.trace_input_header_complete).input.header = s.input.header := rfl
  obtain ⟨ht, hl⟩ := validate_header_report k (s.emit Event.trace_input_header_complete)
    (spi_hid_populate_input_header s.input.header)
  obtain ⟨f1, f2, f3, f4, f5, f6, f7⟩ := validate_header_fields k
    (s.emit Event.trace_input_header_complete) (spi_hid_populate_input_header s.input.header)
  unfold spi_hid_input_header_complete
  rw [if_neg hp0]
  dsimp only
  rw [if_neg hst1, if_neg hoff1, e1]
  generalize spi_hid_bus_validate_header k (s.emit Event.trace_input_header_complete)
    (spi_hid_populate_input_header s.input.header) = V at hv ht hl f1 f2 f3 f4 f5 f6 f7 ⊢
  obtain ⟨ret, hdr, t⟩ := V
  dsimp only at hv ht hl f1 f2 f3 f4 f5 f6 f7 ⊢
  subst hv
  rw [if_neg (by decide), ht, hl]
  obtain ⟨g1, g2, g3, g4, g5, g6, g7⟩ := input_header_complete_route_fields k t
    (spi_hid_populate_input_header s.input.header).report_type
  obtain ⟨a0, a1, a2, a3, a4, a5, a6⟩ := input_async_spec k o
    (spi_hid_input_header_complete_route k t
      (spi_hid_populate_input_header s.input.header).report_type)
    (RxBuf.body (spi_hid_select_buf k (spi_hid_populate_input_header s.input.header).report_type))
    (spi_hid_populate_input_header s.input.header).report_length
    Callback.spi_hid_input_body_complete
  rw [a0]
  by_cases hr : o.spi_async_ret = 0
  · rw [if_neg (not_not.mpr hr)]
    refine ⟨?_, ?_, ?_, ?_, ?_, ?_⟩
    · rw [a1, g1, f1, g7, f7]
      simp [spi_hid.emit]
    · rw [a2, g2, f2]
      rfl
    · rw [a3, g3, f3]
      rfl
    · rw [a4, g4, f4]
      rfl
    · rw [a5, g5, f5]
      rfl
    · intro _
      rw [a6, g6, f6]
      rfl
  · rw [if_pos hr]
    refine ⟨?_, ?_, ?_, ?_, ?_, ?_⟩
    · show (spi_hid_input_async k o _ _ _ _).2.log = _
      rw [a1, g1, f1, g7, f7]
      simp [spi_hid.emit]
    · show (spi_hid_input_async k o _ _ _ _).2.bus = _
      rw [a2, g2, f2]
      rfl
    · show (spi_hid_input_async k o _ _ _ _).2.powered = _
      rw [a3, g3, f3]
      rfl
    · show (spi_hid_input_async k o _ _ _ _).2.power_state = _
      rw [a4, g4, f4]
      rfl
    · show (spi_hid_input_async k o _ _ _ _).2.input.header = _
      rw [a5, g5, f5]
      rfl
    · intro h
      exact absurd h hr
theorem input_body_complete_next_spec (k : Consts) (o : Ext) (t : spi_hid) :
    ∃ nx, (spi_hid_input_body_complete_next k o t).log = t.log ++ nx ∧
      reads nx = (if t.input_transfer_pending - 1 ≠ 0 then [ReadKind.header] else []) ∧
      (spi_hid_input_body_complete_next k o t).input_transfer_pending
        = t.input_transfer_pending - 1 ∧
      (spi_hid_input_body_complete_next k o t).bus =
        t.bus ++ (if t.input_transfer_pending - 1 ≠ 0 ∧ o.spi_async_ret = 0 then
          [Message.mk (RxBuf.header BufSel.input) SPI_HID_INPUT_HEADER_LEN
            Callback.spi_hid_input_header_complete] else []) ∧
      (spi_hid_input_body_complete_next k o t).powered = t.powered ∧
      (spi_hid_input_body_complete_next k o t).power_state = t.power_state := by
  by_cases hpd : t.input_transfer_pending - 1 = 0
  · exact ⟨[], by simp [spi_hid_input_body_complete_next, hpd, reads]⟩
  · by_cases hr : o.spi_async_ret = 0
    · exact ⟨[Event.spi_async_input (spi_hid_read_approval k t.desc.input_register)
        (RxBuf.header BufSel.input) SPI_HID_INPUT_HEADER_LEN
        Callback.spi_hid_input_header_complete o.spi_async_ret], by
        simp [spi_hid_input_body_complete_next, spi_hid_input_async, spi_hid.emit, hpd, hr,
          reads]⟩
    · exact ⟨[Event.spi_async_input (spi_hid_read_approval k t.desc.input_register)
        (RxBuf.header BufSel.input) SPI_HID_INPUT_HEADER_LEN
        Callback.spi_hid_input_header_complete o.spi_async_ret], by
        simp [spi_hid_input_body_complete_next, spi_hid_input_async, spi_hid.emit, hpd, hr,
          reads]⟩

theorem input_body_complete_dispatch (k : Consts) (o : Ext) (d : spi_hid)
    (hp : d.powered = true) (hst : ¬ d.input_message_status < 0)
    (hoff : d.power_state ≠ SPI_HID_POWER_MODE.OFF) :
    ∃ rest, (spi_hid_input_body_complete k o d).log =
      d.log ++ [Event.trace_input_body_complete,
        Event.trace_process_input_report
          (spi_hid_select_buf k (spi_hid_populate_input_header d.input.header).report_type)]
        ++ rest := by
  have hp0 : ¬ (!d.powered) = true := by rw [hp]; decide
  have hst1 : ¬ (spi_hid_input_body_complete_begin d).input_message_status < 0 := hst
  have hoff1 : ¬ (spi_hid_input_body_complete_begin d).power_state = SPI_HID_POWER_MODE.OFF :=
    hoff
  have e1 : (spi_hid_input_body_complete_begin d).input.header = d.input.header := rfl
  have e2 : (spi_hid_input_body_complete_begin d).log
      = d.log ++ [Event.trace_input_body_complete] := rfl
  obtain ⟨⟨new, hl, _⟩, _⟩ := process_input_report_frame k o
    (spi_hid_input_body_complete_begin d)
    (spi_hid_select_buf k (spi_hid_populate_input_header d.input.header).report_type)
  have hl2 : (spi_hid_process_input_report k o (spi_hid_input_body_complete_begin d)
      (spi_hid_select_buf k (spi_hid_populate_input_header d.input.header).report_type)).2.log
      = d.log ++ [Event.trace_input_body_complete,
        Event.trace_process_input_report
          (spi_hid_select_buf k (spi_hid_populate_input_header d.input.header).report_type)]
        ++ new := by
    rw [hl]
    simp [spi_hid.emit, e2]
  unfold spi_hid_input_body_complete
  rw [if_neg hp0]
  dsimp only
  rw [if_neg hst1, if_neg hoff1, e1]
  obtain ⟨nx, hnx, _⟩ := input_body_complete_next_spec k o
    (spi_hid_process_input_report k o (spi_hid_input_body_complete_begin d)
      (spi_hid_select_buf k (spi_hid_populate_input_header d.input.header).report_type)).2
  split_ifs
  · exact ⟨new ++ [Event.schedule_work Work.error_work], by
      show (spi_hid_process_input_report k o _ _).2.log ++ _ = _
      rw [hl2, List.append_assoc]⟩
  · exact ⟨new ++ nx, by rw [hnx, hl2, List.append_assoc]⟩
theorem spi_receive_fields (t : spi_hid) (rx : RxBuf) (len : Nat) (data : List Nat) :
    (spi_receive t rx len data).log = t.log ∧
    (spi_receive t rx len data).bus = t.bus ∧
    (spi_receive t rx len data).powered = t.powered ∧
    (spi_receive t rx len data).power_state = t.power_state ∧
    (spi_receive t rx len data).input_transfer_pending = t.input_transfer_pending ∧
    (spi_receive t rx len data).input_message_status = t.input_message_status ∧
    (∀ b, rx = RxBuf.body b → (spi_receive t rx len data).input.header = t.input.header) := by
  cases rx with
  | header b => cases b <;> exact ⟨rfl, rfl, rfl, rfl, rfl, rfl, fun _ h => by cases h⟩
  | body b => cases b <;> exact ⟨rfl, rfl, rfl, rfl, rfl, rfl, fun _ _ => rfl⟩

theorem spi_deliver_fields (t : spi_hid) (m : Message) (rest : List Message) (status : Int)
    (data : List Nat) (hbus : t.bus = m :: rest) :
    (spi_deliver status data t).log = t.log ∧
    (spi_deliver status data t).bus = rest ∧
    (spi_deliver status data t).powered = t.powered ∧
    (spi_deliver status data t).power_state = t.power_state ∧
    (spi_deliver status data t).input_transfer_pending = t.input_transfer_pending ∧
    (spi_deliver status data t).input_message_status = status ∧
    (∀ b, m.rx = RxBuf.body b → (spi_deliver status data t).input.header = t.input.header) := by
  obtain ⟨a1, a2, a3, a4, a5, a6, a7⟩ := spi_receive_fields
    { t with bus := rest, input_message_status := status } m.rx m.len data
  simp only [spi_deliver, hbus]
  exact ⟨a1, a2, a3, a4, a5, a6, a7⟩

/-- C9: for every header that validates (in a powered session that is not Off, transfer
status not negative), `spi_hid_input_header_complete` directs the body read into the
response buffer exactly when report_type is CommandResponse, GetFeatureResponse or
ReportDescriptor and into the input buffer for every other report type; when that
read completes, `spi_hid_input_body_complete` hands the same buffer to
`spi_hid_process_input_report`. -/
theorem body_buffer_routing (k : Consts) (o o2 : Ext) (s : spi_hid) (status : Int)
    (data : List Nat)
    (hp : s.powered = true) (hst : ¬ s.input_message_status < 0)
    (hoff : s.power_state ≠ SPI_HID_POWER_MODE.OFF)
    (hv : (spi_hid_bus_validate_header k (s.emit Event.trace_input_header_complete)
      (spi_hid_populate_input_header s.input.header)).1 = 0) :
    (spi_hid_select_buf k (spi_hid_populate_input_header s.input.header).report_type
        = BufSel.response ↔
      (spi_hid_populate_input_header s.input.header).report_type
          = k.SPI_HID_REPORT_TYPE_COMMAND_RESP ∨
        (spi_hid_populate_input_header s.input.header).report_type
          = k.SPI_HID_REPORT_TYPE_GET_FEATURE_RESP ∨
        (spi_hid_populate_input_header s.input.header).report_type
          = k.SPI_HID_REPORT_TYPE_REPORT_DESC) ∧
    (spi_hid_select_buf k (spi_hid_populate_input_header s.input.header).report_type
        = BufSel.input ↔
      ¬ ((spi_hid_populate_input_header s.input.header).report_type
          = k.SPI_HID_REPORT_TYPE_COMMAND_RESP ∨
        (spi_hid_populate_input_header s.input.header).report_type
          = k.SPI_HID_REPORT_TYPE_GET_FEATURE_RESP ∨
        (spi_hid_populate_input_header s.input.header).report_type
          = k.SPI_HID_REPORT_TYPE_REPORT_DESC)) ∧
    (spi_hid_input_header_complete k o s).log =
      s.log ++ [Event.trace_input_header_complete,
        Event.spi_async_input (spi_hid_read_approval k s.desc.input_register)
          (RxBuf.body (spi_hid_select_buf k (spi_hid_populate_input_header s.input.header).report_type))
          (spi_hid_populate_input_header s.input.header).report_length
          Callback.spi_hid_input_body_complete o.spi_async_ret] ∧
    (s.bus = [] → o.spi_async_ret = 0 → 0 ≤ status →
      ∃ rest, (spi_complete k o2 status data (spi_hid_input_header_complete k o s)).log =
        (spi_hid_input_header_complete k o s).log ++
          [Event.trace_input_body_complete,
            Event.trace_process_input_report
              (spi_hid_select_buf k (spi_hid_populate_input_header s.input.header).report_type)]
          ++ rest) := by
  obtain ⟨h1, h2, h3, h4, h5, _⟩ := input_header_complete_ok k o s hp hst hoff hv
  have hsel : ∀ t, (spi_hid_select_buf k t = BufSel.response ↔
      t = k.SPI_HID_REPORT_TYPE_COMMAND_RESP ∨ t = k.SPI_HID_REPORT_TYPE_GET_FEATURE_RESP ∨
        t = k.SPI_HID_REPORT_TYPE_REPORT_DESC) := by
    intro t
    simp only [spi_hid_select_buf, is_response_type]
    by_cases a : t = k.SPI_HID_REPORT_TYPE_COMMAND_RESP <;>
      by_cases b : t = k.SPI_HID_REPORT_TYPE_GET_FEATURE_RESP <;>
        by_cases c : t = k.SPI_HID_REPORT_TYPE_REPORT_DESC <;> simp [a, b, c]
  refine ⟨hsel _, ?_, h1, ?_⟩
  · rw [← hsel]
    cases spi_hid_select_buf k (spi_hid_populate_input_header s.input.header).report_type <;>
      simp
  · intro hbus hr hs0
    rw [hbus, if_pos hr, List.nil_append] at h2
    obtain ⟨d1, d2, d3, d4, d5, d6, d7⟩ := spi_deliver_fields
      (spi_hid_input_header_complete k o s) _ [] status data h2
    have hcomp : spi_complete k o2 status data (spi_hid_input_header_complete k o s) =
        spi_hid_input_body_complete k o2
          (spi_deliver status data (spi_hid_input_header_complete k o s)) := by
      simp only [spi_complete, h2]
    obtain ⟨rest, hrest⟩ := input_body_complete_dispatch k o2
      (spi_deliver status data (spi_hid_input_header_complete k o s))
      (by rw [d3, h3, hp]) (by rw [d6]; omega) (by rw [d4, h4]; exact hoff)
    refine ⟨rest, ?_⟩
    rw [hcomp, hrest, d1, d7 _ rfl, h5]

/-- C9 at the CommandResponse header [0x43, 0x10, 0x00, 0x5A] arriving on the first read
after probe: the body read of 4 bytes goes to the response buffer, and when it
completes the response buffer is handed to report processing. -/
theorem body_buffer_routing_witness :
    (spi_hid_input_header_complete consts0 ext_ok
        (shid_header_arrived [0x43, 0x10, 0x00, 0x5A])).log =
      (shid_header_arrived [0x43, 0x10, 0x00, 0x5A]).log ++
        [Event.trace_input_header_complete,
          Event.spi_async_input [0x0B, 0x00, 0x10, 0x00, 0xFF] (RxBuf.body BufSel.response) 4
            Callback.spi_hid_input_body_complete 0] ∧
    ∃ rest, (spi_complete consts0 ext_ok 0 [0x03, 0x00, 0x00, 0x00]
        (spi_hid_input_header_complete consts0 ext_ok
          (shid_header_arrived [0x43, 0x10, 0x00, 0x5A]))).log =
      (spi_hid_input_header_complete consts0 ext_ok
          (shid_header_arrived [0x43, 0x10, 0x00, 0x5A])).log ++
        [Event.trace_input_body_complete,
          Event.trace_process_input_report
            (spi_hid_select_buf consts0 (spi_hid_populate_input_header
              (shid_header_arrived [0x43, 0x10, 0x00, 0x5A]).input.header).report_type)]
        ++ rest :=
  ⟨(body_buffer_routing consts0 ext_ok ext_ok (shid_header_arrived [0x43, 0x10, 0x00, 0x5A]) 0
      [0x03, 0x00, 0x00, 0x00] (by decide) (by decide) (by decide) (by decide)).2.2.1.trans
      (by decide),
   (body_buffer_routing consts0 ext_ok ext_ok (shid_header_arrived [0x43, 0x10, 0x00, 0x5A]) 0
      [0x03, 0x00, 0x00, 0x00] (by decide) (by decide) (by decide) (by decide)).2.2.2
      (by decide) (by decide) (by decide)⟩

theorem alternating_length (n : Nat) : (alternating n).length = n := by
  induction n with
  | zero => rfl
  | succ n ih => simp [alternating, ih]

theorem alternating_odd (c : Nat) :
    alternating (2 * c + 1) = alternating (2 * c) ++ [ReadKind.header] := by
  simp [alternating]

theorem alternating_even (c : Nat) :
    alternating (2 * c + 2) = alternating (2 * c + 1) ++ [ReadKind.body] := by
  have h : (2 * c + 1) % 2 ≠ 0 := by omega
  show alternating (2 * c + 1) ++ [if (2 * c + 1) % 2 = 0 then ReadKind.header
    else ReadKind.body] = _
  rw [if_neg h]

theorem alternating_count (c : Nat) :
    (alternating (2 * c)).count ReadKind.header = c ∧
    (alternating (2 * c)).count ReadKind.body = c := by
  induction c with
  | zero => exact ⟨rfl, rfl⟩
  | succ c ih =>
    have e : 2 * (c + 1) = 2 * c + 2 := by ring
    rw [e, alternating_even, alternating_odd]
    simp [List.count_append, ih.1, ih.2]

theorem bus_input_report_fields (k : Consts) (o : Ext) (s : spi_hid) :
    (spi_hid_bus_input_report k o s).2.input_transfer_pending = s.input_transfer_pending + 1 ∧
    reads (spi_hid_bus_input_report k o s).2.log =
      reads s.log ++ (if s.input_transfer_pending = 0 then [ReadKind.header] else []) ∧
    (spi_hid_bus_input_report k o s).2.bus =
      s.bus ++
        (if s.input_transfer_pending = 0 ∧ o.spi_async_ret = 0 then
          [Message.mk (RxBuf.header BufSel.input) SPI_HID_INPUT_HEADER_LEN
            Callback.spi_hid_input_header_complete]
         else []) := by
  by_cases hp : s.input_transfer_pending = 0 <;> by_cases hr : o.spi_async_ret = 0 <;>
    simp [spi_hid_bus_input_report, spi_hid_input_async, spi_hid.emit, hp, hr, reads_append,
      reads]

theorem pipeline_inv_signal (k : Consts) (o : Ext) (n : Nat) (s : spi_hid)
    (hinv : pipeline_inv n s)
    (hok : pipeline_step_ok k s (PipelineEvent.signal o) = true) :
    pipeline_inv (n + 1) (pipeline_step k s (PipelineEvent.signal o)) := by
  obtain ⟨c, hc, hcase⟩ := hinv
  obtain ⟨f1, f2, f3⟩ := bus_input_report_fields k o s
  have hok1 : s.input_transfer_pending ≠ 0 ∨ o.spi_async_ret = 0 := by
    simpa [pipeline_step_ok] using hok
  refine ⟨c, ?_, ?_⟩
  · show (spi_hid_bus_input_report k o s).2.input_transfer_pending = _
    rw [f1, hc]
    push_cast
    ring
  · show (_ ∧ (spi_hid_bus_input_report k o s).2.input_transfer_pending = 0 ∧ _) ∨
      ((spi_hid_bus_input_report k o s).2.bus = _ ∧
        1 ≤ (spi_hid_bus_input_report k o s).2.input_transfer_pending ∧
        reads (spi_hid_bus_input_report k o s).2.log = _) ∨
      (∃ b len, (spi_hid_bus_input_report k o s).2.bus = _ ∧
        1 ≤ (spi_hid_bus_input_report k o s).2.input_transfer_pending ∧
        reads (spi_hid_bus_input_report k o s).2.log = _)
    rw [f1, f2, f3]
    rcases hcase with ⟨hb, hp, hr⟩ | ⟨hb, hp, hr⟩ | ⟨b, len, hb, hp, hr⟩
    · have hret : o.spi_async_ret = 0 := hok1.resolve_left (not_not.mpr hp)
      right; left
      simp [hb, hp, hret, hr, alternating_odd]
    · have hne : s.input_transfer_pending ≠ 0 := by omega
      right; left
      simp [hb, hne, hr]
      omega
    · have hne : s.input_transfer_pending ≠ 0 := by omega
      right; right
      refine ⟨b, len, ?_⟩
      simp [hb, hne, hr]
      omega
theorem input_body_complete_ok (k : Consts) (o : Ext) (d : spi_hid)
    (hp : d.powered = true) (hst : ¬ d.input_message_status < 0)
    (hoff : d.power_state ≠ SPI_HID_POWER_MODE.OFF)
    (hproc : (spi_hid_process_input_report k o (spi_hid_input_body_complete_begin d)
      (spi_hid_select_buf k (spi_hid_populate_input_header
        (spi_hid_input_body_complete_begin d).input.header).report_type)).1 = 0) :
    reads (spi_hid_input_body_complete k o d).log =
      reads d.log ++ (if d.input_transfer_pending - 1 ≠ 0 then [ReadKind.header] else []) ∧
    (spi_hid_input_body_complete k o d).input_transfer_pending = d.input_transfer_pending - 1 ∧
    (spi_hid_input_body_complete k o d).bus =
      d.bus ++ (if d.input_transfer_pending - 1 ≠ 0 ∧ o.spi_async_ret = 0 then
        [Message.mk (RxBuf.header BufSel.input) SPI_HID_INPUT_HEADER_LEN
          Callback.spi_hid_input_header_complete] else []) := by
  have hp0 : ¬ (!d.powered) = true := by rw [hp]; decide
  have hst1 : ¬ (spi_hid_input_body_complete_begin d).input_message_status < 0 := hst
  have hoff1 : ¬ (spi_hid_input_body_complete_begin d).power_state = SPI_HID_POWER_MODE.OFF :=
    hoff
  obtain ⟨⟨new, hl, hrd⟩, fb, fp, _⟩ := process_input_report_frame k o
    (spi_hid_input_body_complete_begin d)
    (spi_hid_select_buf k (spi_hid_populate_input_header
      (spi_hid_input_body_complete_begin d).input.header).report_type)
  obtain ⟨nx, hnx, hnr, hnp, hnb, _⟩ := input_body_complete_next_spec k o
    (spi_hid_process_input_report k o (spi_hid_input_body_complete_begin d)
      (spi_hid_select_buf k (spi_hid_populate_input_header
        (spi_hid_input_body_complete_begin d).input.header).report_type)).2
  have fb1 : (spi_hid_process_input_report k o (spi_hid_input_body_complete_begin d)
      (spi_hid_select_buf k (spi_hid_populate_input_header
        (spi_hid_input_body_complete_begin d).input.header).report_type)).2.bus = d.bus := fb
  have fp1 : (spi_hid_process_input_report k o (spi_hid_input_body_complete_begin d)
      (spi_hid_select_buf k (spi_hid_populate_input_header
        (spi_hid_input_body_complete_begin d).input.header).report_type)).2.input_transfer_pending
      = d.input_transfer_pending := fp
  have hl1 : reads (spi_hid_process_input_report k o (spi_hid_input_body_complete_begin d)
      (spi_hid_select_buf k (spi_hid_populate_input_header
        (spi_hid_input_body_complete_begin d).input.header).report_type)).2.log
      = reads d.log := by
    rw [hl, reads_append, hrd]
    show reads ((d.log ++ [Event.trace_input_body_complete]) ++
      [Event.trace_process_input_report _]) ++ [] = _
    rw [reads_append, reads_append]
    simp [reads]
  unfold spi_hid_input_body_complete
  rw [if_neg hp0]
  dsimp only
  rw [if_neg hst1, if_neg hoff1, if_neg (not_not.mpr hproc)]
  rw [hnx, hnp, hnb, reads_append, hnr, hl1, fb1, fp1]
  exact ⟨rfl, rfl, rfl⟩
theorem pipeline_inv_complete (k : Consts) (o : Ext) (status : Int) (data : List Nat)
    (n : Nat) (s : spi_hid) (hinv : pipeline_inv n s)
    (hok : pipeline_step_ok k s (PipelineEvent.complete o status data) = true) :
    pipeline_inv n (pipeline_step k s (PipelineEvent.complete o status data)) := by
  obtain ⟨c, hc, hcase⟩ := hinv
  rcases hcase with ⟨hb, hp, hr⟩ | ⟨hb, hp, hr⟩ | ⟨b, len, hb, hp, hr⟩
  · simp [pipeline_step_ok, hb] at hok
  · obtain ⟨d1, d2, d3, d4, d5, d6, _⟩ := spi_deliver_fields s _ [] status data hb
    simp only [pipeline_step_ok, hb, Bool.and_eq_true, decide_eq_true_eq] at hok
    obtain ⟨⟨⟨hpw, hoff⟩, hst⟩, hv, hret⟩ := hok
    obtain ⟨h1, h2, _, _, _, h6⟩ := input_header_complete_ok k o (spi_deliver status data s)
      hpw (by rw [d6]; omega) hoff hv
    have hstep : pipeline_step k s (PipelineEvent.complete o status data) =
        spi_hid_input_header_complete k o (spi_deliver status data s) := by
      simp only [pipeline_step, spi_complete, hb]
    rw [hstep]
    refine ⟨c, by rw [h6 hret, d5, hc], Or.inr (Or.inr
      ⟨spi_hid_select_buf k
          (spi_hid_populate_input_header (spi_deliver status data s).input.header).report_type,
        (spi_hid_populate_input_header (spi_deliver status data s).input.header).report_length,
        ?_, by rw [h6 hret, d5]; exact hp, ?_⟩)⟩
    · rw [h2, d2, if_pos hret]
      rfl
    · rw [h1, reads_append, d1, hr, alternating_even]
      cases spi_hid_select_buf k
        (spi_hid_populate_input_header (spi_deliver status data s).input.header).report_type <;>
        rfl
  · obtain ⟨d1, d2, d3, d4, d5, d6, _⟩ := spi_deliver_fields s _ [] status data hb
    simp only [pipeline_step_ok, hb, Bool.and_eq_true, decide_eq_true_eq] at hok
    obtain ⟨⟨⟨hpw, hoff⟩, hst⟩, hv, hret⟩ := hok
    obtain ⟨h1, h2, h3⟩ := input_body_complete_ok k o (spi_deliver status data s)
      hpw (by rw [d6]; omega) hoff hv
    have hstep : pipeline_step k s (PipelineEvent.complete o status data) =
        spi_hid_input_body_complete k o (spi_deliver status data s) := by
      simp only [pipeline_step, spi_complete, hb]
    rw [hstep]
    rw [d5] at h1 h2 h3 hret
    rw [d1] at h1
    rw [d2] at h3
    by_cases hz : s.input_transfer_pending - 1 = 0
    · refine ⟨c + 1, by rw [h2, hc]; push_cast; ring, Or.inl ⟨?_, by rw [h2, hz], ?_⟩⟩
      · rw [h3]
        simp [hz]
      · rw [h1, hr]
        simp [hz]
        ring_nf
    · have hret0 : o.spi_async_ret = 0 := hret.resolve_left hz
      refine ⟨c + 1, by rw [h2, hc]; push_cast; ring, Or.inr (Or.inl ⟨?_, by rw [h2]; omega, ?_⟩)⟩
      · rw [h3]
        simp [hz, hret0]
      · rw [h1, hr]
        simp [hz]
        have e : 2 * (c + 1) = 2 * c + 2 := by ring
        rw [alternating_odd (c + 1), e]
theorem pipeline_inv_run (k : Consts) (evs : List PipelineEvent) :
    ∀ (n : Nat) (s : spi_hid), pipeline_inv n s → pipeline_ok k s evs = true →
      pipeline_inv (n + signals evs) (pipeline_run k s evs) := by
  induction evs with
  | nil => intro n s h _; exact h
  | cons e evs ih =>
    intro n s h hok
    simp only [pipeline_ok, Bool.and_eq_true] at hok
    cases e with
    | signal o =>
      have h1 := ih (n + 1) _ (pipeline_inv_signal k o n s h hok.1) hok.2
      have e1 : n + signals (PipelineEvent.signal o :: evs) = n + 1 + signals evs := by
        simp only [signals]; omega
      rw [e1]
      exact h1
    | complete o status data =>
      exact ih n _ (pipeline_inv_complete k o status data n s h hok.1) hok.2

theorem pipeline_ok_take (k : Consts) (evs : List PipelineEvent) :
    ∀ (m : Nat) (s : spi_hid), pipeline_ok k s evs = true →
      pipeline_ok k s (evs.take m) = true := by
  induction evs with
  | nil => intro m s h; simpa using h
  | cons e evs ih =>
    intro m s h
    cases m with
    | zero => rfl
    | succ m =>
      simp only [pipeline_ok, Bool.and_eq_true] at h
      simp only [List.take_succ_cons, pipeline_ok, Bool.and_eq_true]
      exact ⟨h.1, ih m _ h.2⟩

theorem pipeline_inv_facts (n : Nat) (s : spi_hid) (h : pipeline_inv n s) :
    s.bus.length ≤ 1 ∧
    reads s.log = alternating (reads s.log).length ∧
    (reads s.log).count ReadKind.header ≤ n ∧
    (reads s.log).count ReadKind.body ≤ (reads s.log).count ReadKind.header ∧
    (reads s.log).count ReadKind.header ≤ (reads s.log).count ReadKind.body + 1 ∧
    (s.bus = [] → (reads s.log).count ReadKind.header = n ∧
      (reads s.log).count ReadKind.body = n ∧ s.input_transfer_pending = 0) := by
  obtain ⟨c, hc, hcase⟩ := h
  obtain ⟨k1, k2⟩ := alternating_count c
  rcases hcase with ⟨hb, hp, hr⟩ | ⟨hb, hp, hr⟩ | ⟨b, len, hb, hp, hr⟩
  · have hcn : c = n := by omega
    rw [hr, alternating_length, k1, k2, hb]
    exact ⟨by simp, rfl, by omega, le_refl _, by omega, fun _ => ⟨hcn, hcn, hp⟩⟩
  · have hcn : c + 1 ≤ n := by omega
    rw [hr, alternating_length, hb]
    rw [alternating_odd, List.count_append, List.count_append, k1, k2]
    refine ⟨by simp, rfl, by simpa using hcn, by simp, by simp, fun h => by simp at h⟩
  · have hcn : c + 1 ≤ n := by omega
    rw [hr, alternating_length, hb]
    rw [alternating_even, alternating_odd, List.count_append, List.count_append,
      List.count_append, List.count_append, k1, k2]
    refine ⟨by simp, rfl, by simpa using hcn, by simp, by simp, fun h => by simp at h⟩

/-- C1: starting from an idle pipeline (pending count 0, no read in flight, nothing
recorded yet), for every sequence of data-ready signals and successful header and
body completions: at every moment at most one read is in flight; the reads
submitted alternate strictly, header, body, header, body, ...; with N the number of
signals, never more than N header reads are submitted and never more body reads
than header reads; and once no read is in flight the pipeline has submitted exactly
N header reads and exactly N body reads, and the pending count is back to 0. -/
theorem pipeline_serialized (k : Consts) (s0 : spi_hid) (evs : List PipelineEvent)
    (hidle : s0.input_transfer_pending = 0) (hbus : s0.bus = []) (hlog : s0.log = [])
    (hok : pipeline_ok k s0 evs = true) :
    (∀ m, (pipeline_run k s0 (evs.take m)).bus.length ≤ 1) ∧
    reads (pipeline_run k s0 evs).log =
      alternating (reads (pipeline_run k s0 evs).log).length ∧
    (reads (pipeline_run k s0 evs).log).count ReadKind.header ≤ signals evs ∧
    (reads (pipeline_run k s0 evs).log).count ReadKind.body ≤
      (reads (pipeline_run k s0 evs).log).count ReadKind.header ∧
    (reads (pipeline_run k s0 evs).log).count ReadKind.header ≤
      (reads (pipeline_run k s0 evs).log).count ReadKind.body + 1 ∧
    ((pipeline_run k s0 evs).bus = [] →
      (reads (pipeline_run k s0 evs).log).count ReadKind.header = signals evs ∧
      (reads (pipeline_run k s0 evs).log).count ReadKind.body = signals evs ∧
      (pipeline_run k s0 evs).input_transfer_pending = 0) := by
  have h0 : pipeline_inv 0 s0 :=
    ⟨0, by rw [hidle]; rfl, Or.inl ⟨hbus, hidle, by rw [hlog]; rfl⟩⟩
  have hrun := pipeline_inv_run k evs 0 s0 h0 hok
  rw [Nat.zero_add] at hrun
  obtain ⟨_, f2, f3, f4, f5, f6⟩ := pipeline_inv_facts _ _ hrun
  refine ⟨fun m => ?_, f2, f3, f4, f5, f6⟩
  exact (pipeline_inv_facts _ _
    (pipeline_inv_run k (evs.take m) 0 s0 h0 (pipeline_ok_take k evs m s0 hok))).1

/-- C1 at the burst `pipeline_events0` (three signals, the second arriving while the
first header read is in flight) applied to the session after probe: the pipeline
ends idle after exactly three header reads and three body reads. -/
theorem pipeline_serialized_witness :
    (pipeline_run consts0 shid0 pipeline_events0).bus = [] ∧
    (reads (pipeline_run consts0 shid0 pipeline_events0).log).count ReadKind.header = 3 ∧
    (reads (pipeline_run consts0 shid0 pipeline_events0).log).count ReadKind.body = 3 ∧
    (pipeline_run consts0 shid0 pipeline_events0).input_transfer_pending = 0 :=
  ⟨by decide,
   (pipeline_serialized consts0 shid0 pipeline_events0 (by decide) (by decide) (by decide)
      (by decide)).2.2.2.2.2 (by decide)⟩

theorem switch_case_labels_distinct (k : Consts) (hk : (switch_case_labels k).Nodup) :
    k.SPI_HID_REPORT_TYPE_DEVICE_DESC ≠ k.SPI_HID_REPORT_TYPE_DATA ∧
    k.SPI_HID_REPORT_TYPE_DEVICE_DESC ≠ k.SPI_HID_REPORT_TYPE_RESET_RESP ∧
    k.SPI_HID_REPORT_TYPE_COMMAND_RESP ≠ k.SPI_HID_REPORT_TYPE_DATA ∧
    k.SPI_HID_REPORT_TYPE_COMMAND_RESP ≠ k.SPI_HID_REPORT_TYPE_RESET_RESP ∧
    k.SPI_HID_REPORT_TYPE_COMMAND_RESP ≠ k.SPI_HID_REPORT_TYPE_DEVICE_DESC ∧
    k.SPI_HID_REPORT_TYPE_GET_FEATURE_RESP ≠ k.SPI_HID_REPORT_TYPE_DATA ∧
    k.SPI_HID_REPORT_TYPE_GET_FEATURE_RESP ≠ k.SPI_HID_REPORT_TYPE_RESET_RESP ∧
    k.SPI_HID_REPORT_TYPE_GET_FEATURE_RESP ≠ k.SPI_HID_REPORT_TYPE_DEVICE_DESC ∧
    k.SPI_HID_REPORT_TYPE_REPORT_DESC ≠ k.SPI_HID_REPORT_TYPE_DATA ∧
    k.SPI_HID_REPORT_TYPE_REPORT_DESC ≠ k.SPI_HID_REPORT_TYPE_RESET_RESP ∧
    k.SPI_HID_REPORT_TYPE_REPORT_DESC ≠ k.SPI_HID_REPORT_TYPE_DEVICE_DESC ∧
    k.SPI_HID_REPORT_TYPE_REPORT_DESC ≠ k.SPI_HID_REPORT_TYPE_COMMAND_RESP ∧
    k.SPI_HID_REPORT_TYPE_REPORT_DESC ≠ k.SPI_HID_REPORT_TYPE_GET_FEATURE_RESP := by
  simp only [switch_case_labels, List.nodup_cons, List.mem_cons, List.mem_singleton,
    List.not_mem_nil, not_or, List.nodup_nil, or_false, and_true] at hk
  obtain ⟨⟨a1, a2, a3, a4, a5⟩, ⟨b2, b3, b4, b5⟩, ⟨c3, c4, c5⟩, ⟨d4, d5⟩, e5⟩ := hk
  exact ⟨Ne.symm a2, Ne.symm b2, Ne.symm a3, Ne.symm b3, Ne.symm c3, Ne.symm a4, Ne.symm b4,
    Ne.symm c4, Ne.symm a5, Ne.symm b5, Ne.symm c5, Ne.symm d5, Ne.symm e5.1⟩

theorem process_input_report_dispatch (k : Consts) (o : Ext) (s : spi_hid) (b : BufSel)
    (hlen : (spi_hid_populate_input_body (s.buf b).body).content_length
      ≤ (spi_hid_populate_input_header (s.buf b).header).report_length) :
    spi_hid_process_input_report k o s b =
      spi_hid_process_input_report_switch k o (s.emit (Event.trace_process_input_report b)) b
        (spi_hid_populate_input_header (s.buf b).header) := by
  simp only [spi_hid_process_input_report, buf_emit]
  rw [if_neg (by omega)]

theorem response_handler_spec (s : spi_hid) (b : BufSel) :
    (spi_hid_response_handler s b).1 = 0 ∧
    (s.output_done = 0 →
      (spi_hid_response_handler s b).2.output_done = 1 ∧
      (spi_hid_response_handler s b).2.log =
        s.log ++ [Event.trace_response_handler b, Event.complete_output_done]) ∧
    (s.output_done ≠ 0 →
      (spi_hid_response_handler s b).2.output_done = s.output_done ∧
      (spi_hid_response_handler s b).2.log = s.log ++ [Event.trace_response_handler b]) := by
  refine ⟨?_, ?_, ?_⟩
  · simp only [spi_hid_response_handler]
    split_ifs <;> rfl
  · intro h
    have h1 : ¬ (s.emit (Event.trace_response_handler b)).output_done ≠ 0 := by
      simpa [spi_hid.emit] using h
    simp only [spi_hid_response_handler]
    rw [if_neg h1]
    simp [spi_hid.emit, h]
  · intro h
    have h1 : (s.emit (Event.trace_response_handler b)).output_done ≠ 0 := h
    simp only [spi_hid_response_handler]
    rw [if_pos h1]
    simp [spi_hid.emit]

/-- C11: a CommandResponse or GetFeatureResponse frame that passes the content-length
validation is rejected with -EINVAL while the session is not ready, the session being
left as it was (nothing is completed; only the entry tracepoint is recorded), and is
handed to `spi_hid_response_handler` when the session is ready; a ReportDescriptor
frame is handed to `spi_hid_response_handler` whatever the readiness flag.  The
handler returns 0 and completes `output_done` unless it is completed already. -/
theorem response_dispatch (k : Consts) (o : Ext) (s : spi_hid) (b : BufSel)
    (hk : (switch_case_labels k).Nodup)
    (hlen : (spi_hid_populate_input_body (s.buf b).body).content_length
      ≤ (spi_hid_populate_input_header (s.buf b).header).report_length) :
    (((spi_hid_populate_input_header (s.buf b).header).report_type
          = k.SPI_HID_REPORT_TYPE_COMMAND_RESP ∨
        (spi_hid_populate_input_header (s.buf b).header).report_type
          = k.SPI_HID_REPORT_TYPE_GET_FEATURE_RESP) →
      (s.ready = false →
        spi_hid_process_input_report k o s b
          = (-EINVAL, s.emit (Event.trace_process_input_report b)) ∧
        (spi_hid_process_input_report k o s b).2.output_done = s.output_done ∧
        (spi_hid_process_input_report k o s b).2.log
          = s.log ++ [Event.trace_process_input_report b]) ∧
      (s.ready = true →
        spi_hid_process_input_report k o s b
          = spi_hid_response_handler (s.emit (Event.trace_process_input_report b)) b ∧
        Event.trace_response_handler b ∈ (spi_hid_process_input_report k o s b).2.log)) ∧
    ((spi_hid_populate_input_header (s.buf b).header).report_type
        = k.SPI_HID_REPORT_TYPE_REPORT_DESC →
      spi_hid_process_input_report k o s b
        = spi_hid_response_handler (s.emit (Event.trace_process_input_report b)) b ∧
      Event.trace_response_handler b ∈ (spi_hid_process_input_report k o s b).2.log) ∧
    (spi_hid_response_handler (s.emit (Event.trace_process_input_report b)) b).1 = 0 ∧
    (s.output_done = 0 →
      (spi_hid_response_handler (s.emit (Event.trace_process_input_report b)) b).2.output_done
        = 1) := by
  obtain ⟨_, _, c1, c2, c3, g1, g2, g3, r1, r2, r3, r4, r5⟩ := switch_case_labels_distinct k hk
  have hmem : Event.trace_response_handler b ∈
      (spi_hid_response_handler (s.emit (Event.trace_process_input_report b)) b).2.log := by
    simp only [spi_hid_response_handler]
    split_ifs <;> simp [spi_hid.emit]
  rw [process_input_report_dispatch k o s b hlen]
  refine ⟨?_, ?_, (response_handler_spec _ b).1, ?_⟩
  · intro ht
    have hsw : ∀ t : spi_hid, spi_hid_process_input_report_switch k o t b
        (spi_hid_populate_input_header (s.buf b).header) =
        if (!t.ready) = true then (-EINVAL, t) else spi_hid_response_handler t b := by
      intro t
      simp only [spi_hid_process_input_report_switch]
      rcases ht with ht | ht
      · rw [ht, if_neg c1, if_neg c2, if_neg c3, if_pos (Or.inl rfl)]
      · rw [ht, if_neg g1, if_neg g2, if_neg g3, if_pos (Or.inr rfl)]
    rw [hsw]
    constructor
    · intro hr
      have hr1 : (!(s.emit (Event.trace_process_input_report b)).ready) = true := by
        simp [spi_hid.emit, hr]
      rw [if_pos hr1]
      exact ⟨rfl, rfl, rfl⟩
    · intro hr
      have hr1 : ¬ (!(s.emit (Event.trace_process_input_report b)).ready) = true := by
        simp [spi_hid.emit, hr]
      rw [if_neg hr1]
      exact ⟨rfl, hmem⟩
  · intro ht
    have hsw : spi_hid_process_input_report_switch k o
        (s.emit (Event.trace_process_input_report b)) b
        (spi_hid_populate_input_header (s.buf b).header) =
        spi_hid_response_handler (s.emit (Event.trace_process_input_report b)) b := by
      simp only [spi_hid_process_input_report_switch]
      rw [ht, if_neg r1, if_neg r2, if_neg r3, if_neg (fun h => h.elim r4 r5), if_pos rfl]
    rw [hsw]
    exact ⟨rfl, hmem⟩
  · intro h0
    exact ((response_handler_spec (s.emit (Event.trace_process_input_report b)) b).2.1 h0).1

/-- C11 at the session after probe (not ready) holding a CommandResponse frame in its
response buffer: the frame is rejected with -EINVAL and `output_done` stays 0. -/
theorem response_dispatch_witness :
    (spi_hid_process_input_report consts0 ext_ok shid_command_resp BufSel.response).1 = -EINVAL ∧
    (spi_hid_process_input_report consts0 ext_ok shid_command_resp BufSel.response).2.output_done
      = 0 :=
  ⟨congrArg Prod.fst (((response_dispatch consts0 ext_ok shid_command_resp BufSel.response
      (by decide) (by decide)).1 (Or.inl (by decide))).1 (by decide)).1,
   (((response_dispatch consts0 ext_ok shid_command_resp BufSel.response
      (by decide) (by decide)).1 (Or.inl (by decide))).1 (by decide)).2.1⟩

/-- C12 as stated fails: the MSHW0231 session `shid_mshw_unknown` holds a frame that
passes the content-length validation (content length 2, report_length 8) and whose
report type 2 is none of the six case labels; `spi_hid_process_input_report` returns 0
for it and delivers a (synthetic) report to the HID consumer. -/
theorem unknown_report_type_counterexample :
    (spi_hid_populate_input_body (shid_mshw_unknown.buf BufSel.input).body).content_length
      ≤ (spi_hid_populate_input_header (shid_mshw_unknown.buf BufSel.input).header).report_length ∧
    (spi_hid_populate_input_header (shid_mshw_unknown.buf BufSel.input).header).report_type
      ∉ switch_case_labels consts0 ∧
    (spi_hid_process_input_report consts0 ext_ok shid_mshw_unknown BufSel.input).1 = 0 ∧
    deliveries (spi_hid_process_input_report consts0 ext_ok shid_mshw_unknown BufSel.input).2.log
      = [(1, [0x06, 0x01, 0x00, 0x08, 0x00, 0x06])] := by
  decide

/-- C12, amended: a frame that passes the content-length validation and whose report
type is none of Data, ResetResponse, DeviceDescriptor, CommandResponse,
GetFeatureResponse, ReportDescriptor is rejected with -EINVAL, nothing being delivered
to the HID consumer and the session being left as it was, when the device is not an
MSHW0231; on an MSHW0231 device the frame is handed to `spi_hid_input_report_handler`
like a Data frame, after a synthetic touch report has been delivered to the attached
consumer on every 50th such frame, and the result is that of the handler. -/
theorem unknown_report_type (k : Consts) (o : Ext) (s : spi_hid) (b : BufSel)
    (hlen : (spi_hid_populate_input_body (s.buf b).body).content_length
      ≤ (spi_hid_populate_input_header (s.buf b).header).report_length)
    (htype : (spi_hid_populate_input_header (s.buf b).header).report_type
      ∉ switch_case_labels k) :
    (spi_hid_is_mshw0231 s = false →
      spi_hid_process_input_report k o s b
        = (-EINVAL, s.emit (Event.trace_process_input_report b)) ∧
      deliveries (spi_hid_process_input_report k o s b).2.log = deliveries s.log) ∧
    (spi_hid_is_mshw0231 s = true →
      spi_hid_process_input_report k o s b =
        spi_hid_input_report_handler k o
          { (if s.touch_sim_count % 50 = 0 then
              match s.hid with
              | some hid =>
                (s.emit (Event.trace_process_input_report b)).emit
                  (Event.hid_input_report hid [0x06, 0x01, 0x00, 0x08, 0x00, 0x06])
              | none => s.emit (Event.trace_process_input_report b)
             else s.emit (Event.trace_process_input_report b))
            with touch_sim_count := s.touch_sim_count + 1 } b) := by
  simp only [switch_case_labels, List.mem_cons, List.mem_singleton, List.not_mem_nil,
    not_or, or_false] at htype
  obtain ⟨t1, t2, t3, t4, t5, t6⟩ := htype
  rw [process_input_report_dispatch k o s b hlen]
  simp only [spi_hid_process_input_report_switch]
  rw [if_neg t1, if_neg t2, if_neg t3, if_neg (fun h => h.elim t4 t5), if_neg t6]
  constructor
  · intro hm
    have hm1 : ¬ spi_hid_is_mshw0231 (s.emit (Event.trace_process_input_report b)) = true := by
      simpa [spi_hid.emit, spi_hid_is_mshw0231] using hm
    rw [if_neg hm1]
    refine ⟨rfl, ?_⟩
    simp [spi_hid.emit, deliveries_append, deliveries]
  · intro hm
    have hm1 : spi_hid_is_mshw0231 (s.emit (Event.trace_process_input_report b)) = true := hm
    rw [if_pos hm1]
    have e1 : (s.emit (Event.trace_process_input_report b)).touch_sim_count
        = s.touch_sim_count := rfl
    have e2 : (s.emit (Event.trace_process_input_report b)).hid = s.hid := rfl
    by_cases h50 : s.touch_sim_count % 50 = 0
    · simp only [e1, e2, h50, if_true]
      cases hh : s.hid <;> rfl
    · simp only [e1, h50, if_false]

/-- C12, amended, at the ready session `shid_ready_unknown` (device name without
MSHW0231) holding a frame of report type 2: rejected with -EINVAL, nothing delivered. -/
theorem unknown_report_type_witness :
    spi_hid_process_input_report consts0 ext_ok shid_ready_unknown BufSel.input
      = (-EINVAL, shid_ready_unknown.emit (Event.trace_process_input_report BufSel.input)) ∧
    deliveries (spi_hid_process_input_report consts0 ext_ok shid_ready_unknown BufSel.input).2.log
      = deliveries shid_ready_unknown.log :=
  (unknown_report_type consts0 ext_ok shid_ready_unknown BufSel.input (by decide)
    (by decide)).1 (by decide)

theorem getD_byte (l : List Nat) (h : ∀ x ∈ l, x < 256) (i : Nat) : l.getD i 0 < 256 := by
  induction l generalizing i with
  | nil => simp
  | cons a l ih =>
    cases i with
    | zero => simpa using h a (by simp)
    | succ i =>
      simpa using ih (fun x hx => h x (List.mem_cons_of_mem _ hx)) i

theorem le16_to_cpu_eq (raw : List Nat) (h : ∀ x ∈ raw, x < 256) (off : Nat) :
    le16_to_cpu raw off = raw.getD off 0 + 256 * raw.getD (off + 1) 0 := by
  have h0 : raw.getD off 0 < 2 ^ 8 := getD_byte raw h off
  simp only [le16_to_cpu]
  rw [Nat.lor_comm, Nat.shiftLeft_eq, Nat.mul_comm, ← Nat.mul_add_lt_is_or h0]
  omega

/-- C13: a DeviceDescriptor frame that passes the content-length validation makes
`spi_hid_process_input_report` return 0 with the attempt counter set to 0 and the
device descriptor replaced by the fields parsed from the frame content, each the
little-endian 16-bit value (low byte + 256 * high byte) at its offset of the raw
descriptor; the create-device work is scheduled when no consumer exists, the
refresh-device work when one exists, and nothing else of the session changes. -/
theorem device_descriptor_dispatch (k : Consts) (o : Ext) (s : spi_hid) (b : BufSel)
    (hk : (switch_case_labels k).Nodup)
    (hlen : (spi_hid_populate_input_body (s.buf b).body).content_length
      ≤ (spi_hid_populate_input_header (s.buf b).header).report_length)
    (htype : (spi_hid_populate_input_header (s.buf b).header).report_type
      = k.SPI_HID_REPORT_TYPE_DEVICE_DESC)
    (hbytes : ∀ x ∈ (s.buf b).content, x < 256) :
    spi_hid_process_input_report k o s b =
      (0, { s with
        attempts := 0,
        desc := spi_hid_parse_dev_desc k (s.buf b).content,
        log := s.log ++ [Event.trace_process_input_report b,
          Event.schedule_work (if s.hid = none then Work.create_device_work
            else Work.refresh_device_work)] }) ∧
    (spi_hid_process_input_report k o s b).1 = 0 ∧
    (spi_hid_process_input_report k o s b).2.attempts = 0 ∧
    (spi_hid_process_input_report k o s b).2.desc =
      { hid_version := (s.buf b).content.getD k.raw.bcdVersion 0
          + 256 * (s.buf b).content.getD (k.raw.bcdVersion + 1) 0
        report_descriptor_length := (s.buf b).content.getD k.raw.wReportDescLength 0
          + 256 * (s.buf b).content.getD (k.raw.wReportDescLength + 1) 0
        report_descriptor_register := (s.buf b).content.getD k.raw.wReportDescRegister 0
          + 256 * (s.buf b).content.getD (k.raw.wReportDescRegister + 1) 0
        input_register := (s.buf b).content.getD k.raw.wInputRegister 0
          + 256 * (s.buf b).content.getD (k.raw.wInputRegister + 1) 0
        max_input_length := (s.buf b).content.getD k.raw.wMaxInputLength 0
          + 256 * (s.buf b).content.getD (k.raw.wMaxInputLength + 1) 0
        output_register := (s.buf b).content.getD k.raw.wOutputRegister 0
          + 256 * (s.buf b).content.getD (k.raw.wOutputRegister + 1) 0
        max_output_length := (s.buf b).content.getD k.raw.wMaxOutputLength 0
          + 256 * (s.buf b).content.getD (k.raw.wMaxOutputLength + 1) 0
        command_register := (s.buf b).content.getD k.raw.wCommandRegister 0
          + 256 * (s.buf b).content.getD (k.raw.wCommandRegister + 1) 0
        vendor_id := (s.buf b).content.getD k.raw.wVendorID 0
          + 256 * (s.buf b).content.getD (k.raw.wVendorID + 1) 0
        product_id := (s.buf b).content.getD k.raw.wProductID 0
          + 256 * (s.buf b).content.getD (k.raw.wProductID + 1) 0
        version_id := (s.buf b).content.getD k.raw.wVersionID 0
          + 256 * (s.buf b).content.getD (k.raw.wVersionID + 1) 0
        device_power_support := 0
        power_response_delay := 0 } ∧
    (s.hid = none →
      (spi_hid_process_input_report k o s b).2.log = s.log ++
        [Event.trace_process_input_report b, Event.schedule_work Work.create_device_work]) ∧
    (s.hid ≠ none →
      (spi_hid_process_input_report k o s b).2.log = s.log ++
        [Event.trace_process_input_report b, Event.schedule_work Work.refresh_device_work]) := by
  obtain ⟨d1, d2, _⟩ := switch_case_labels_distinct k hk
  have heq : spi_hid_process_input_report k o s b =
      (0, { s with
        attempts := 0,
        desc := spi_hid_parse_dev_desc k (s.buf b).content,
        log := s.log ++ [Event.trace_process_input_report b,
          Event.schedule_work (if s.hid = none then Work.create_device_work
            else Work.refresh_device_work)] }) := by
    rw [process_input_report_dispatch k o s b hlen]
    simp only [spi_hid_process_input_report_switch]
    rw [htype, if_neg d1, if_neg d2, if_pos rfl]
    cases hh : s.hid with
    | none =>
      cases b <;>
        simp [spi_hid.emit, schedule_work, spi_hid.buf, hh]
    | some h =>
      cases b <;>
        simp [spi_hid.emit, schedule_work, spi_hid.buf, hh]
  rw [heq]
  refine ⟨rfl, rfl, rfl, ?_, ?_, ?_⟩
  · simp only [spi_hid_parse_dev_desc, le16_to_cpu_eq _ hbytes]
  · intro hh
    simp [hh]
  · intro hh
    simp [hh]

/-- C13 at the session `shid_device_desc` (3 attempts used, no consumer): the result is
0, the attempt counter is 0 again, the fields of the frame are stored, and the
create-device work is scheduled. -/
theorem device_descriptor_dispatch_witness :
    (spi_hid_process_input_report consts0 ext_ok shid_device_desc BufSel.input).1 = 0 ∧
    (spi_hid_process_input_report consts0 ext_ok shid_device_desc BufSel.input).2.attempts = 0 ∧
    (spi_hid_process_input_report consts0 ext_ok shid_device_desc BufSel.input).2.desc =
      { hid_version := 0x0300, report_descriptor_length := 0x0123,
        report_descriptor_register := 0x0002, input_register := 0x1000,
        max_input_length := 0x0040, output_register := 0x2000, max_output_length := 0x0020,
        command_register := 0x3000, vendor_id := 0x045E, product_id := 0x0C19,
        version_id := 0x0001, device_power_support := 0, power_response_delay := 0 } ∧
    (spi_hid_process_input_report consts0 ext_ok shid_device_desc BufSel.input).2.log =
      shid_device_desc.log ++ [Event.trace_process_input_report BufSel.input,
        Event.schedule_work Work.create_device_work] :=
  ⟨(device_descriptor_dispatch consts0 ext_ok shid_device_desc BufSel.input (by decide)
      (by decide) (by decide) (by decide)).2.1,
   (device_descriptor_dispatch consts0 ext_ok shid_device_desc BufSel.input (by decide)
      (by decide) (by decide) (by decide)).2.2.1,
   (device_descriptor_dispatch consts0 ext_ok shid_device_desc BufSel.input (by decide)
      (by decide) (by decide) (by decide)).2.2.2.1.trans (by decide),
   (device_descriptor_dispatch consts0 ext_ok shid_device_desc BufSel.input (by decide)
      (by decide) (by decide) (by decide)).2.2.2.2.1 (by decide)⟩

/-- C15: when `spi_hid_sync_request` has sent its output frame (the send returned 0) and
the wait on `output_done` returns 0 (timeout, no response), the function returns
-ETIMEDOUT and schedules the error work, and does nothing else after the send. -/
theorem sync_request_timeout (k : Consts) (o : Ext) (s : spi_hid) (output_register : Nat)
    (report : spi_hid_output_report)
    (hsend : (spi_hid_send_output_report k o s (output_register % 2 ^ 16) report).1 = 0)
    (hwait : (wait_for_completion_interruptible_timeout o
      (spi_hid_send_output_report k o s (output_register % 2 ^ 16) report).2).1 = 0) :
    (spi_hid_sync_request k o s output_register report).1 = -ETIMEDOUT ∧
    (spi_hid_sync_request k o s output_register report).2 =
      schedule_work (spi_hid_send_output_report k o s (output_register % 2 ^ 16) report).2
        Work.error_work ∧
    (spi_hid_sync_request k o s output_register report).2.log =
      (spi_hid_send_output_report k o s (output_register % 2 ^ 16) report).2.log ++
        [Event.schedule_work Work.error_work] := by
  have hw : wait_for_completion_interruptible_timeout o
      (spi_hid_send_output_report k o s (output_register % 2 ^ 16) report).2 =
      (0, (spi_hid_send_output_report k o s (output_register % 2 ^ 16) report).2) := by
    revert hwait
    generalize (spi_hid_send_output_report k o s (output_register % 2 ^ 16) report).2 = t
    simp only [wait_for_completion_interruptible_timeout]
    split_ifs with h
    · intro hwait
      have : (1 : Int) ≤ max 1 o.wait_for_completion_ret := le_max_left _ _
      simp only at hwait
      omega
    · intro hwait
      simp only at hwait
      rw [hwait]
  simp only [spi_hid_sync_request]
  rw [if_neg (by simpa using hsend), hw]
  simp [schedule_work, spi_hid.emit]

/-- C15 at the ready session `shid_ready_output` sending a report descriptor request
that no response answers: -ETIMEDOUT, error work scheduled after the transfer. -/
theorem sync_request_timeout_witness :
    (spi_hid_sync_request consts0 ext_timeout shid_ready_output 0x2000
      report_descriptor_report).1 = -ETIMEDOUT ∧
    (spi_hid_sync_request consts0 ext_timeout shid_ready_output 0x2000
      report_descriptor_report).2.log =
      [Event.spi_async_output [2, 0, 32, 0, 131, 0, 0, 3, 0, 0, 161, 162, 163, 0] 0,
        Event.schedule_work Work.error_work] :=
  ⟨(sync_request_timeout consts0 ext_timeout shid_ready_output 0x2000
      report_descriptor_report (by decide) (by decide)).1,
   (sync_request_timeout consts0 ext_timeout shid_ready_output 0x2000
      report_descriptor_report (by decide) (by decide)).2.2.trans (by decide)⟩

theorem destroys_cons (e : Event) (l : List Event) :
    destroys (e :: l) = destroys [e] ++ destroys l := by
  cases e <;> simp [destroys]

theorem destroys_append (l1 l2 : List Event) :
    destroys (l1 ++ l2) = destroys l1 ++ destroys l2 := by
  induction l1 with
  | nil => simp [destroys]
  | cons e l ih =>
    rw [List.cons_append, destroys_cons, ih, destroys_cons e l, List.append_assoc]

theorem resets_append (l1 l2 : List Event) : resets (l1 ++ l2) = resets l1 + resets l2 := by
  simp [resets, List.countP_append]

theorem reset_via_acpi_spec (o : Ext) (s : spi_hid) (hok : o.acpi_RST_failure = false) :
    (spi_hid_reset_via_acpi o s).1 = 0 ∧
    ∃ new, (spi_hid_reset_via_acpi o s).2 = { s with log := s.log ++ new } ∧
      resets new = 1 ∧ destroys new = [] := by
  simp only [spi_hid_reset_via_acpi, hok]
  by_cases h1 : (o.acpi_match_MSHW0231 && o.gpio_to_desc_ok) = true
  · rw [if_pos h1]
    by_cases h2 : o.gpio_request_ret ≠ 0
    · rw [if_pos h2]
      refine ⟨rfl, [Event.gpio_request 644 o.gpio_request_ret, Event.acpi_evaluate_RST false],
        by simp [spi_hid.emit], by simp [resets, Event.is_reset], by simp [destroys]⟩
    · rw [if_neg h2]
      refine ⟨rfl, [Event.gpio_request 644 o.gpio_request_ret,
        Event.gpio_direction_input 644, Event.msleep 10,
        Event.gpio_direction_output 644 1, Event.msleep 20,
        Event.gpio_set_value 644 0, Event.msleep 100,
        Event.gpio_set_value 644 1, Event.msleep 1000,
        Event.gpio_free 644], by simp [spi_hid.emit, spi_hid_reset_via_acpi_gpio],
        by simp [resets, Event.is_reset], by simp [destroys]⟩
  · rw [if_neg h1]
    refine ⟨rfl, [Event.acpi_evaluate_RST false],
      by simp [spi_hid.emit], by simp [resets, Event.is_reset], by simp [destroys]⟩

theorem error_handler_reset_spec (o : Ext) (s : spi_hid)
    (hp : s.power_state ≠ SPI_HID_POWER_MODE.OFF)
    (ha : s.attempts < SPI_HID_MAX_RESET_ATTEMPTS)
    (hok : reset_operations_succeed o = true) :
    (spi_hid_error_handler o s).1 = 0 ∧
    ∃ new, (spi_hid_error_handler o s).2 =
        { s with
          attempts := s.attempts + 1,
          ready := false,
          power_state := SPI_HID_POWER_MODE.ACTIVE,
          input_stage := SPI_HID_INPUT_STAGE.IDLE,
          input_transfer_pending := 0,
          log := s.log ++ new } ∧
      resets new = 1 ∧ destroys new = [] := by
  simp only [reset_operations_succeed, Bool.and_eq_true, decide_eq_true_eq,
    Bool.not_eq_true'] at hok
  obtain ⟨⟨hr, hact⟩, hacpi⟩ := hok
  simp only [spi_hid_error_handler]
  rw [if_neg hp, if_neg (by omega)]
  simp only [spi_hid_error_handler_reset]
  by_cases hof : s.of_node = true
  · have hof1 : (({ ({ s with attempts := s.attempts + 1 } : spi_hid) with ready := false }
        : spi_hid).emit Event.sysfs_notify_ready).of_node = true := hof
    rw [if_pos hof1, if_neg (by simpa using hr)]
    refine ⟨hact, [Event.sysfs_notify_ready, Event.pinctrl_select_state PinState.reset 0,
      Event.cancel_work_sync Work.reset_work, Event.msleep 100,
      Event.pinctrl_select_state PinState.active 0], ?_,
      by simp [resets, Event.is_reset], by simp [destroys]⟩
    simp [spi_hid_error_handler_cycle, spi_hid.emit, hof, hr, hact]
  · have hof1 : ¬ (({ ({ s with attempts := s.attempts + 1 } : spi_hid) with ready := false }
        : spi_hid).emit Event.sysfs_notify_ready).of_node = true := hof
    rw [if_neg hof1]
    obtain ⟨h1, new, h2, h3, h4⟩ := reset_via_acpi_spec o
      (spi_hid_error_handler_cycle (({ ({ s with attempts := s.attempts + 1 } : spi_hid)
        with ready := false } : spi_hid).emit Event.sysfs_notify_ready)) hacpi
    refine ⟨h1, [Event.sysfs_notify_ready, Event.cancel_work_sync Work.reset_work] ++ new, ?_,
      ?_, ?_⟩
    · rw [h2]
      simp [spi_hid_error_handler_cycle, spi_hid.emit, hof]
    · rw [resets_append, h3]
      simp [resets, Event.is_reset]
    · rw [destroys_append, h4]
      simp [destroys]

/-- C17: an invocation of `spi_hid_error_handler` with the power state not Off, the
attempt counter below the threshold of 3 and every platform reset operation
succeeding returns 0 and leaves the session not ready, with `input_transfer_pending`
0, the power state Active and the attempt counter larger by exactly one. -/
theorem error_handler_non_fatal (o : Ext) (s : spi_hid)
    (hp : s.power_state ≠ SPI_HID_POWER_MODE.OFF)
    (ha : s.attempts < SPI_HID_MAX_RESET_ATTEMPTS)
    (hok : reset_operations_succeed o = true) :
    (spi_hid_error_handler o s).1 = 0 ∧
    (spi_hid_error_handler o s).2.ready = false ∧
    (spi_hid_error_handler o s).2.input_transfer_pending = 0 ∧
    (spi_hid_error_handler o s).2.power_state = SPI_HID_POWER_MODE.ACTIVE ∧
    (spi_hid_error_handler o s).2.attempts = s.attempts + 1 := by
  obtain ⟨h1, new, h2, _, _⟩ := error_handler_reset_spec o s hp ha hok
  rw [h2]
  exact ⟨h1, rfl, rfl, rfl, rfl⟩

/-- C17 at the ready session `shid_ready_data` with two reads pending: after the error
handler the session is not ready, nothing is pending, the power state is Active and
one attempt is counted. -/
theorem error_handler_non_fatal_witness :
    (spi_hid_error_handler ext_ok { shid_ready_data with input_transfer_pending := 2 }).1 = 0 ∧
    (spi_hid_error_handler ext_ok
      { shid_ready_data with input_transfer_pending := 2 }).2.ready = false ∧
    (spi_hid_error_handler ext_ok
      { shid_ready_data with input_transfer_pending := 2 }).2.input_transfer_pending = 0 ∧
    (spi_hid_error_handler ext_ok { shid_ready_data with input_transfer_pending := 2 }).2.power_state
      = SPI_HID_POWER_MODE.ACTIVE ∧
    (spi_hid_error_handler ext_ok { shid_ready_data with input_transfer_pending := 2 }).2.attempts
      = ({ shid_ready_data with input_transfer_pending := 2 } : spi_hid).attempts + 1 :=
  error_handler_non_fatal ext_ok { shid_ready_data with input_transfer_pending := 2 }
    (by decide) (by decide) (by decide)

/-- C18: `spi_hid_error_handler` invoked while the power state is Off returns 0 and
leaves the session exactly as it was; in particular the attempt counter, the
readiness flag, `input_transfer_pending`, the power state and the HID consumer are
unchanged, and no outgoing call is made. -/
theorem error_handler_off (o : Ext) (s : spi_hid)
    (hp : s.power_state = SPI_HID_POWER_MODE.OFF) :
    spi_hid_error_handler o s = (0, s) ∧
    (spi_hid_error_handler o s).2.attempts = s.attempts ∧
    (spi_hid_error_handler o s).2.ready = s.ready ∧
    (spi_hid_error_handler o s).2.input_transfer_pending = s.input_transfer_pending ∧
    (spi_hid_error_handler o s).2.power_state = s.power_state ∧
    (spi_hid_error_handler o s).2.hid = s.hid := by
  have h : spi_hid_error_handler o s = (0, s) := by
    simp only [spi_hid_error_handler]
    rw [if_pos hp]
  rw [h]
  exact ⟨rfl, rfl, rfl, rfl, rfl, rfl⟩

/-- C18 at the session after probe with the power state Off. -/
theorem error_handler_off_witness : spi_hid_error_handler ext_ok shid_off = (0, shid_off) :=
  (error_handler_off ext_ok shid_off (by decide)).1

theorem error_handler_reset_fields (o : Ext) (s : spi_hid)
    (hp : s.power_state ≠ SPI_HID_POWER_MODE.OFF)
    (ha : s.attempts < SPI_HID_MAX_RESET_ATTEMPTS)
    (hok : reset_operations_succeed o = true) :
    (spi_hid_error_handler o s).1 = 0 ∧
    (spi_hid_error_handler o s).2.attempts = s.attempts + 1 ∧
    (spi_hid_error_handler o s).2.power_state = SPI_HID_POWER_MODE.ACTIVE ∧
    (spi_hid_error_handler o s).2.hid = s.hid ∧
    (spi_hid_error_handler o s).2.of_node = s.of_node ∧
    (spi_hid_error_handler o s).2.powered = s.powered ∧
    resets (spi_hid_error_handler o s).2.log = resets s.log + 1 ∧
    destroys (spi_hid_error_handler o s).2.log = destroys s.log := by
  obtain ⟨h1, new, h2, h3, h4⟩ := error_handler_reset_spec o s hp ha hok
  rw [h2]
  refine ⟨h1, rfl, rfl, rfl, rfl, rfl, ?_, ?_⟩
  · show resets (s.log ++ new) = _
    rw [resets_append, h3]
  · show destroys (s.log ++ new) = _
    rw [destroys_append, h4, List.append_nil]

theorem power_down_spec (o : Ext) (s : spi_hid) :
    (spi_hid_power_down o s).2.hid = s.hid ∧
    (∃ new, (spi_hid_power_down o s).2.log = s.log ++ new ∧
      resets new = 0 ∧ destroys new = []) ∧
    (s.powered = false → (spi_hid_power_down o s).2.powered = false) ∧
    ((s.of_node = true → o.regulator_disable_ret = 0) →
      (spi_hid_power_down o s).2.powered = false) := by
  simp only [spi_hid_power_down]
  by_cases hpw : s.powered = true
  · rw [if_neg (by simp [hpw])]
    by_cases hof : s.of_node = true
    · rw [if_pos hof]
      by_cases hr : o.regulator_disable_ret ≠ 0
      · rw [if_pos hr]
        refine ⟨rfl, ⟨[Event.pinctrl_select_state PinState.sleep o.pinctrl_sleep_ret,
          Event.regulator_disable o.regulator_disable_ret], by simp [spi_hid.emit],
          by simp [resets, Event.is_reset], by simp [destroys]⟩, ?_, ?_⟩
        · intro h; rw [hpw] at h; cases h
        · intro h; exact absurd (h hof) hr
      · rw [if_neg hr]
        exact ⟨rfl, ⟨[Event.pinctrl_select_state PinState.sleep o.pinctrl_sleep_ret,
          Event.regulator_disable o.regulator_disable_ret], by simp [spi_hid.emit],
          by simp [resets, Event.is_reset], by simp [destroys]⟩, fun _ => rfl, fun _ => rfl⟩
    · rw [if_neg hof]
      exact ⟨rfl, ⟨[], by simp, by simp [resets], by simp [destroys]⟩, fun _ => rfl,
        fun _ => rfl⟩
  · have hpf : s.powered = false := by simpa using hpw
    rw [if_pos (by simp [hpf])]
    exact ⟨rfl, ⟨[], by simp, by simp [resets], by simp [destroys]⟩, fun _ => hpf,
      fun _ => hpf⟩

theorem stop_hid_spec (s : spi_hid) :
    (spi_hid_stop_hid s).hid = none ∧
    (spi_hid_stop_hid s).powered = s.powered ∧
    (spi_hid_stop_hid s).of_node = s.of_node ∧
    ∃ new, (spi_hid_stop_hid s).log = s.log ++ new ∧
      resets new = 0 ∧ destroys new = s.hid.toList := by
  simp only [spi_hid_stop_hid, spi_hid_disconnect_hid]
  cases hh : s.hid with
  | none =>
    exact ⟨rfl, rfl, rfl, [], by simp, by simp [resets], by simp [destroys]⟩
  | some hid =>
    exact ⟨rfl, rfl, rfl, [Event.cancel_work_sync Work.create_device_work,
      Event.cancel_work_sync Work.refresh_device_work, Event.hid_destroy_device hid],
      by simp [spi_hid.emit], by simp [resets, Event.is_reset], by simp [destroys]⟩

theorem error_handler_abort_fields (o : Ext) (s : spi_hid)
    (hp : s.power_state ≠ SPI_HID_POWER_MODE.OFF)
    (ha : SPI_HID_MAX_RESET_ATTEMPTS ≤ s.attempts) :
    (spi_hid_error_handler o s).1 = -ESHUTDOWN ∧
    (spi_hid_error_handler o s).2.hid = none ∧
    resets (spi_hid_error_handler o s).2.log = resets s.log ∧
    destroys (spi_hid_error_handler o s).2.log = destroys s.log ++ s.hid.toList ∧
    (s.powered = false → (spi_hid_error_handler o s).2.powered = false) ∧
    ((s.of_node = true → o.regulator_disable_ret = 0) →
      (spi_hid_error_handler o s).2.powered = false) := by
  have he : spi_hid_error_handler o s =
      (-ESHUTDOWN, (spi_hid_power_down o
        (spi_hid_stop_hid ({ s with attempts := s.attempts + 1 } : spi_hid))).2) := by
    simp only [spi_hid_error_handler]
    rw [if_neg hp, if_pos ha]
    rfl
  obtain ⟨t1, t2, t3, n1, e1, r1, d1⟩ :=
    stop_hid_spec ({ s with attempts := s.attempts + 1 } : spi_hid)
  obtain ⟨q1, ⟨n2, e2, r2, d2⟩, q3, q4⟩ := power_down_spec o
    (spi_hid_stop_hid ({ s with attempts := s.attempts + 1 } : spi_hid))
  rw [he]
  refine ⟨rfl, q1.trans t1, ?_, ?_, ?_, ?_⟩
  · show resets (spi_hid_power_down o _).2.log = _
    rw [e2, e1, resets_append, resets_append, r1, r2]
    rfl
  · show destroys (spi_hid_power_down o _).2.log = _
    rw [e2, e1, destroys_append, destroys_append, d1, d2, List.append_nil]
  · intro h
    exact q3 (t2.trans h)
  · intro h
    exact q4 (fun hof => h (t3.symm.trans hof))

theorem reset_via_acpi_quiet (o : Ext) (s : spi_hid) :
    ∃ new, (spi_hid_reset_via_acpi o s).2 = { s with log := s.log ++ new } ∧
      destroys new = [] := by
  simp only [spi_hid_reset_via_acpi]
  by_cases h1 : (o.acpi_match_MSHW0231 && o.gpio_to_desc_ok) = true
  · rw [if_pos h1]
    by_cases h2 : o.gpio_request_ret ≠ 0
    · rw [if_pos h2]
      refine ⟨[Event.gpio_request 644 o.gpio_request_ret,
        Event.acpi_evaluate_RST o.acpi_RST_failure], ?_, by simp [destroys]⟩
      split_ifs <;> simp [spi_hid.emit]
    · rw [if_neg h2]
      exact ⟨[Event.gpio_request 644 o.gpio_request_ret,
        Event.gpio_direction_input 644, Event.msleep 10,
        Event.gpio_direction_output 644 1, Event.msleep 20,
        Event.gpio_set_value 644 0, Event.msleep 100,
        Event.gpio_set_value 644 1, Event.msleep 1000,
        Event.gpio_free 644], by simp [spi_hid.emit, spi_hid_reset_via_acpi_gpio],
        by simp [destroys]⟩
  · rw [if_neg h1]
    refine ⟨[Event.acpi_evaluate_RST o.acpi_RST_failure], ?_, by simp [destroys]⟩
    split_ifs <;> simp [spi_hid.emit]

theorem error_handler_reset_quiet (o : Ext) (s : spi_hid) :
    (spi_hid_error_handler_reset o s).2.hid = s.hid ∧
    (spi_hid_error_handler_reset o s).2.powered = s.powered ∧
    destroys (spi_hid_error_handler_reset o s).2.log = destroys s.log := by
  simp only [spi_hid_error_handler_reset]
  by_cases hof : s.of_node = true
  · have hof1 : (({ s with ready := false } : spi_hid).emit Event.sysfs_notify_ready).of_node
        = true := hof
    rw [if_pos hof1]
    by_cases hr : o.pinctrl_reset_ret ≠ 0
    · rw [if_pos hr]
      refine ⟨rfl, rfl, ?_⟩
      simp [spi_hid.emit, destroys_append, destroys]
    · rw [if_neg hr]
      refine ⟨?_, ?_, ?_⟩ <;>
        simp [spi_hid_error_handler_cycle, spi_hid.emit, hof, destroys_append, destroys]
  · have hof1 : ¬ (({ s with ready := false } : spi_hid).emit Event.sysfs_notify_ready).of_node
        = true := hof
    rw [if_neg hof1]
    obtain ⟨new, e, d⟩ := reset_via_acpi_quiet o
      (spi_hid_error_handler_cycle
        (({ s with ready := false } : spi_hid).emit Event.sysfs_notify_ready))
    rw [e]
    refine ⟨?_, ?_, ?_⟩ <;>
      simp [spi_hid_error_handler_cycle, spi_hid.emit, hof, destroys_append, destroys, d]

theorem error_handler_no_consumer (o : Ext) (s : spi_hid) (hh : s.hid = none) :
    (spi_hid_error_handler o s).2.hid = none ∧
    destroys (spi_hid_error_handler o s).2.log = destroys s.log ∧
    (s.powered = false → (spi_hid_error_handler o s).2.powered = false) := by
  by_cases hp : s.power_state = SPI_HID_POWER_MODE.OFF
  · simp only [spi_hid_error_handler]
    rw [if_pos hp]
    exact ⟨hh, rfl, fun h => h⟩
  · by_cases ha : SPI_HID_MAX_RESET_ATTEMPTS ≤ s.attempts
    · obtain ⟨_, a2, _, a4, a5, _⟩ := error_handler_abort_fields o s hp ha
      exact ⟨a2, by rw [a4, hh]; simp, a5⟩
    · have he : spi_hid_error_handler o s =
          spi_hid_error_handler_reset o ({ s with attempts := s.attempts + 1 } : spi_hid) := by
        simp only [spi_hid_error_handler]
        rw [if_neg hp, if_neg (by simpa using ha)]
      obtain ⟨q1, q2, q3⟩ := error_handler_reset_quiet o
        ({ s with attempts := s.attempts + 1 } : spi_hid)
      rw [he]
      exact ⟨q1.trans hh, q3, fun h => q2.trans h⟩

theorem error_handler_run_no_consumer (os : List Ext) :
    ∀ s : spi_hid, s.hid = none →
      (error_handler_run s os).2.hid = none ∧
      destroys (error_handler_run s os).2.log = destroys s.log ∧
      (s.powered = false → (error_handler_run s os).2.powered = false) := by
  induction os with
  | nil => intro s hh; exact ⟨hh, rfl, fun h => h⟩
  | cons o os ih =>
    intro s hh
    obtain ⟨a1, a2, a3⟩ := error_handler_no_consumer o s hh
    obtain ⟨b1, b2, b3⟩ := ih (spi_hid_error_handler o s).2 a1
    simp only [error_handler_run]
    exact ⟨b1, b2.trans a2, fun h => b3 (a3 h)⟩

theorem error_handler_run_cons (s : spi_hid) (o : Ext) (os : List Ext) :
    error_handler_run s (o :: os) =
      ((spi_hid_error_handler o s).1 :: (error_handler_run (spi_hid_error_handler o s).2 os).1,
        (error_handler_run (spi_hid_error_handler o s).2 os).2) := rfl

/-- C16: from a session with attempt counter 0 and a power state other than Off, with
the platform reset operations succeeding, the first three invocations of
`spi_hid_error_handler` return 0 and perform one reset each, without touching the HID
consumer; the fourth returns -ESHUTDOWN, performs no reset, detaches the consumer,
destroys it if one was attached, and powers down (the session is unpowered afterwards
unless the regulator refuses); over the fourth and any number of later invocations
the consumer that was attached is destroyed exactly once, and no other. -/
theorem error_handler_escalation (s : spi_hid) (o1 o2 o3 o4 : Ext) (later : List Ext)
    (ha : s.attempts = 0) (hp : s.power_state ≠ SPI_HID_POWER_MODE.OFF)
    (h1 : reset_operations_succeed o1 = true) (h2 : reset_operations_succeed o2 = true)
    (h3 : reset_operations_succeed o3 = true) :
    (error_handler_run s [o1, o2, o3]).1 = [0, 0, 0] ∧
    resets (error_handler_run s [o1]).2.log = resets s.log + 1 ∧
    resets (error_handler_run s [o1, o2]).2.log = resets s.log + 2 ∧
    resets (error_handler_run s [o1, o2, o3]).2.log = resets s.log + 3 ∧
    (error_handler_run s [o1, o2, o3]).2.hid = s.hid ∧
    destroys (error_handler_run s [o1, o2, o3]).2.log = destroys s.log ∧
    (error_handler_run s [o1, o2, o3, o4]).1 = [0, 0, 0, -ESHUTDOWN] ∧
    resets (error_handler_run s [o1, o2, o3, o4]).2.log = resets s.log + 3 ∧
    (error_handler_run s [o1, o2, o3, o4]).2.hid = none ∧
    destroys (error_handler_run s [o1, o2, o3, o4]).2.log = destroys s.log ++ s.hid.toList ∧
    ((s.of_node = true → o4.regulator_disable_ret = 0) →
      (error_handler_run s [o1, o2, o3, o4]).2.powered = false) ∧
    (error_handler_run s (o1 :: o2 :: o3 :: o4 :: later)).2.hid = none ∧
    destroys (error_handler_run s (o1 :: o2 :: o3 :: o4 :: later)).2.log
      = destroys s.log ++ s.hid.toList ∧
    ((s.of_node = true → o4.regulator_disable_ret = 0) →
      (error_handler_run s (o1 :: o2 :: o3 :: o4 :: later)).2.powered = false) := by
  obtain ⟨a1, a2, a3, a4, a5, a6, a7, a8⟩ :=
    error_handler_reset_fields o1 s hp (by rw [ha]; decide) h1
  obtain ⟨b1, b2, b3, b4, b5, b6, b7, b8⟩ :=
    error_handler_reset_fields o2 (spi_hid_error_handler o1 s).2 (by rw [a3]; decide)
      (by rw [a2, ha]; decide) h2
  obtain ⟨c1, c2, c3, c4, c5, c6, c7, c8⟩ :=
    error_handler_reset_fields o3 (spi_hid_error_handler o2 (spi_hid_error_handler o1 s).2).2
      (by rw [b3]; decide) (by rw [b2, a2, ha]; decide) h3
  obtain ⟨d1, d2, d3, d4, _, d6⟩ :=
    error_handler_abort_fields o4
      (spi_hid_error_handler o3 (spi_hid_error_handler o2 (spi_hid_error_handler o1 s).2).2).2
      (by rw [c3]; decide) (by rw [c2, b2, a2, ha]; decide)
  obtain ⟨e1, e2, e3⟩ := error_handler_run_no_consumer later
    (spi_hid_error_handler o4
      (spi_hid_error_handler o3 (spi_hid_error_handler o2 (spi_hid_error_handler o1 s).2).2).2).2
    d2
  have hid3 : (spi_hid_error_handler o3
      (spi_hid_error_handler o2 (spi_hid_error_handler o1 s).2).2).2.hid = s.hid := by
    rw [c4, b4, a4]
  have hof3 : (spi_hid_error_handler o3
      (spi_hid_error_handler o2 (spi_hid_error_handler o1 s).2).2).2.of_node = s.of_node := by
    rw [c5, b5, a5]
  have hdes4 : destroys (spi_hid_error_handler o4 (spi_hid_error_handler o3
      (spi_hid_error_handler o2 (spi_hid_error_handler o1 s).2).2).2).2.log
      = destroys s.log ++ s.hid.toList := by
    rw [d4, c8, b8, a8, hid3]
  have hpow4 : (s.of_node = true → o4.regulator_disable_ret = 0) →
      (spi_hid_error_handler o4 (spi_hid_error_handler o3
        (spi_hid_error_handler o2 (spi_hid_error_handler o1 s).2).2).2).2.powered = false :=
    fun h => d6 (fun hof => h (hof3.symm.trans hof))
  simp only [error_handler_run_cons, error_handler_run]
  refine ⟨?_, ?_, ?_, ?_, hid3, ?_, ?_, ?_, d2, hdes4, hpow4, e1, e2.trans hdes4,
    fun h => e3 (hpow4 h)⟩
  · rw [a1, b1, c1]
  · rw [a7]
  · rw [b7, a7]
  · rw [c7, b7, a7]
  · rw [c8, b8, a8]
  · rw [a1, b1, c1, d1]
  · rw [d3, c7, b7, a7]

/-- C16 at the session after probe with consumer 7 attached, the error handler invoked
six times in a row: three resets, then -ESHUTDOWN each time, consumer 7 destroyed
once. -/
theorem error_handler_escalation_witness :
    (error_handler_run { shid0 with hid := some 7 } [ext_ok, ext_ok, ext_ok]).1 = [0, 0, 0] ∧
    (error_handler_run { shid0 with hid := some 7 } [ext_ok, ext_ok, ext_ok, ext_ok]).1
      = [0, 0, 0, -ESHUTDOWN] ∧
    destroys (error_handler_run { shid0 with hid := some 7 }
      [ext_ok, ext_ok, ext_ok, ext_ok, ext_ok, ext_ok]).2.log = [7] :=
  ⟨(error_handler_escalation { shid0 with hid := some 7 } ext_ok ext_ok ext_ok ext_ok
      [ext_ok, ext_ok] (by decide) (by decide) (by decide) (by decide) (by decide)).1,
   (error_handler_escalation { shid0 with hid := some 7 } ext_ok ext_ok ext_ok ext_ok
      [ext_ok, ext_ok] (by decide) (by decide) (by decide) (by decide)
      (by decide)).2.2.2.2.2.2.1,
   (error_handler_escalation { shid0 with hid := some 7 } ext_ok ext_ok ext_ok ext_ok
      [ext_ok, ext_ok] (by decide) (by decide) (by decide) (by decide)
      (by decide)).2.2.2.2.2.2.2.2.2.2.2.2.1.trans (by decide)⟩

/-- C14 fails on the code: `spi_hid_output_complete`, the completion callback of every
output message, completes `output_done` as well (line 224), without any response.
In the session `shid_ready_output` the reset notification is sent and its output
message completes: `output_done` is completed although no response handler has run;
a report descriptor request sent afterwards, which no response answers (the wait
would time out), finds `output_done` completed and returns 0 without scheduling error
recovery. -/
theorem output_done_completed_by_output_complete :
    (∀ s : spi_hid, (spi_hid_output_complete s).output_done = s.output_done + 1 ∧
      (spi_hid_output_complete s).log = s.log ++ [Event.complete_output_done]) ∧
    shid_ready_output.output_done = 0 ∧
    shid_output_completed.output_done = 1 ∧
    shid_output_completed.log =
      [Event.spi_async_output [2, 0, 32, 0, 131, 0, 3, 2, 0, 1, 161, 162, 0, 0] 0,
        Event.msleep 100, Event.complete_output_done] ∧
    (spi_hid_sync_request consts0 ext_timeout shid_output_completed 0x2000
      report_descriptor_report).1 = 0 ∧
    (spi_hid_sync_request consts0 ext_timeout shid_output_completed 0x2000
      report_descriptor_report).2.log =
      [Event.spi_async_output [2, 0, 32, 0, 131, 0, 3, 2, 0, 1, 161, 162, 0, 0] 0,
        Event.msleep 100, Event.complete_output_done,
        Event.spi_async_output [2, 0, 32, 0, 131, 0, 0, 3, 0, 0, 161, 162, 0, 0] 0] := by
  refine ⟨fun s => ⟨rfl, rfl⟩, ?_, ?_, ?_, ?_, ?_⟩ <;> decide

theorem and_0xff (x : Nat) : x &&& 0xff = x % 256 :=
  Nat.and_pow_two_sub_one_eq_mod x 8

theorem and_0xf (x : Nat) : x &&& 0xf = x % 16 :=
  Nat.and_pow_two_sub_one_eq_mod x 4

/-- Layout of the header written by `spi_hid_output_header` (lines 141-151), for an
opcode constant that is a byte and a version constant that is a nibble: byte0 = the
write opcode, byte1 = 0, byte2 and byte3 = the high and the low byte of the low 16
bits of the register address (the parameter is `u16`), byte4 = the version nibble
in the low half and the low nibble of the payload length in the high half, byte5 =
the next 8 bits of the payload length (length / 16 modulo 256).  For a register
address below 2^16 bytes 1..3 are its 24-bit big-endian value. -/
theorem output_header_layout (k : Consts) (output_register output_report_length : Nat)
    (ho : k.SPI_HID_OUTPUT_HEADER_OPCODE_WRITE < 256)
    (hv : k.SPI_HID_OUTPUT_HEADER_VERSION < 16) :
    spi_hid_output_header k output_register output_report_length =
      [ k.SPI_HID_OUTPUT_HEADER_OPCODE_WRITE,
        0,
        output_register % 2 ^ 16 / 256,
        output_register % 256,
        k.SPI_HID_OUTPUT_HEADER_VERSION + 16 * (output_report_length % 16),
        output_report_length / 16 % 256 ] ∧
    (output_register < 2 ^ 16 →
      (spi_hid_output_header k output_register output_report_length).getD 1 0 * 2 ^ 16
        + (spi_hid_output_header k output_register output_report_length).getD 2 0 * 2 ^ 8
        + (spi_hid_output_header k output_register output_report_length).getD 3 0
        = output_register ∧
      (spi_hid_output_header k output_register output_report_length).getD 1 0 < 256 ∧
      (spi_hid_output_header k output_register output_report_length).getD 2 0 < 256 ∧
      (spi_hid_output_header k output_register output_report_length).getD 3 0 < 256) := by
  have hl : spi_hid_output_header k output_register output_report_length =
      [ k.SPI_HID_OUTPUT_HEADER_OPCODE_WRITE,
        0,
        output_register % 2 ^ 16 / 256,
        output_register % 256,
        k.SPI_HID_OUTPUT_HEADER_VERSION + 16 * (output_report_length % 16),
        output_report_length / 16 % 256 ] := by
    have hor : k.SPI_HID_OUTPUT_HEADER_VERSION ||| (output_report_length % 2 ^ 16 % 16) <<< 4
        = k.SPI_HID_OUTPUT_HEADER_VERSION + 16 * (output_report_length % 16) := by
      have hv4 : k.SPI_HID_OUTPUT_HEADER_VERSION < 2 ^ 4 := hv
      rw [Nat.lor_comm, Nat.shiftLeft_eq, Nat.mul_comm, ← Nat.mul_add_lt_is_or hv4]
      omega
    simp only [spi_hid_output_header, and_0xff, and_0xf, Nat.shiftRight_eq_div_pow,
      Nat.shiftLeft_zero, Nat.pow_zero, Nat.div_one, hor]
    have e0 : k.SPI_HID_OUTPUT_HEADER_OPCODE_WRITE % 256 = k.SPI_HID_OUTPUT_HEADER_OPCODE_WRITE :=
      Nat.mod_eq_of_lt ho
    have e1 : output_register % 2 ^ 16 / 2 ^ 16 % 256 = 0 := by omega
    have e2 : output_register % 2 ^ 16 / 2 ^ 8 % 256 = output_register % 2 ^ 16 / 256 := by omega
    have e3 : output_register % 2 ^ 16 % 256 = output_register % 256 := by omega
    have e4 : (k.SPI_HID_OUTPUT_HEADER_VERSION + 16 * (output_report_length % 16)) % 256
        = k.SPI_HID_OUTPUT_HEADER_VERSION + 16 * (output_report_length % 16) := by omega
    have e5 : output_report_length % 2 ^ 16 / 2 ^ 4 % 256 = output_report_length / 16 % 256 := by
      omega
    rw [e0, e1, e2, e3, e4, e5]
  rw [hl]
  refine ⟨rfl, ?_⟩
  intro hr
  simp only [List.getD_cons_zero, List.getD_cons_succ]
  omega

/-- The header for the output register 0x2000 and the payload length 8 with the
constants `consts0` is 02 00 20 00 83 00. -/
theorem output_header_layout_witness :
    spi_hid_output_header consts0 0x2000 8 = [0x02, 0x00, 0x20, 0x00, 0x83, 0x00] :=
  (output_header_layout consts0 0x2000 8 (by decide) (by decide)).1.trans (by decide)

/-- C19 fails on the code: the claim gives bytes 1..3 of the output header as the
register address in 24-bit big-endian order, and line 145 computes byte 1 as
`(output_register >> 16) & 0xff`, but the parameter `output_register` of
`spi_hid_output_header` is declared `u16` (line 141), so that byte 1 is 0 for every
register address, whatever its bits 16..23.  `spi_hid_send_output_report` takes the
register as `u32` and hands it on: for the register address 0x010203 bytes 1..3 of
the header are 0x00, 0x02, 0x03, not 0x01, 0x02, 0x03, which `spi_hid_read_approval`
(whose parameter is `u32`) writes for the same address. -/
theorem output_header_register_truncated :
    (∀ (k : Consts) (output_register output_report_length : Nat),
      (spi_hid_output_header k output_register output_report_length).getD 1 0 = 0 ∧
      (spi_hid_read_approval k output_register).getD 1 0 = output_register / 2 ^ 16 % 256) ∧
    (spi_hid_send_output_report consts0 ext_ok shid_ready_output 0x010203
      reset_notification_report).2.output.header = [0x02, 0x00, 0x02, 0x03, 0x83, 0x00] ∧
    spi_hid_output_header consts0 0x010203 8 = [0x02, 0x00, 0x02, 0x03, 0x83, 0x00] ∧
    spi_hid_read_approval consts0 0x010203 = [0x0B, 0x01, 0x02, 0x03, 0xFF] := by
  refine ⟨fun k r l => ⟨?_, ?_⟩, by decide, by decide, by decide⟩
  · simp only [spi_hid_output_header, and_0xff, Nat.shiftRight_eq_div_pow,
      List.getD_cons_zero, List.getD_cons_succ]
    omega
  · simp only [spi_hid_read_approval, and_0xff, Nat.shiftRight_eq_div_pow,
      List.getD_cons_zero, List.getD_cons_succ]

/-- C20 as stated fails: the report of `spi_hid_send_reset_notification` has the 2
content bytes 0x01, 0x00; `spi_hid_send_output_report` accepts it (result 0), and the
frame it builds and submits carries after the 4 body bytes 03 02 00 01 not the
content bytes of the report but the bytes 0xA1, 0xA2 that the output buffer already
held, followed by two zero bytes: line 634 copies the content only when the content
length exceeds 3. -/
theorem send_output_report_frame_counterexample :
    reset_notification_report.content_length = 2 ∧
    reset_notification_report.content = [0x01, 0x00] ∧
    shid_ready_output.output.content = [0xA1, 0xA2, 0xA3, 0xA4, 0xA5, 0, 0, 0] ∧
    (spi_hid_send_output_report consts0 ext_ok shid_ready_output 0x2000
      reset_notification_report).1 = 0 ∧
    (spi_hid_send_output_report consts0 ext_ok shid_ready_output 0x2000
      reset_notification_report).2.output.body = [0x03, 0x02, 0x00, 0x01] ∧
    (spi_hid_send_output_report consts0 ext_ok shid_ready_output 0x2000
      reset_notification_report).2.output.content = [0xA1, 0xA2, 0, 0, 0xA5, 0, 0, 0] ∧
    (spi_hid_send_output_report consts0 ext_ok shid_ready_output 0x2000
      reset_notification_report).2.log =
      [Event.spi_async_output
        [0x02, 0x00, 0x20, 0x00, 0x83, 0x00, 0x03, 0x02, 0x00, 0x01, 0xA1, 0xA2, 0, 0] 0] := by
  decide

theorem send_output_report_eq (k : Consts) (o : Ext) (s : spi_hid) (output_register : Nat)
    (report : spi_hid_output_report) :
    spi_hid_send_output_report k o s output_register report =
      if send_output_report_padded_length report < report.content_length then (-E2BIG, s)
      else if send_output_report_padded_length report > send_output_report_max_length s then
        (-E2BIG, s)
      else
        spi_hid_output o (send_output_report_build k s output_register report)
          (SPI_HID_OUTPUT_HEADER_LEN + send_output_report_padded_length report) := rfl

/-- C21 as stated fails: the report `report_65532` has content_length + 3 = 65535, not
above the maximum output length 65535 of the session `shid_ready_output_max`, and
`spi_hid_send_output_report` rejects it with -E2BIG: in 16-bit arithmetic
4 + 65532 is 0, the padded length 0 is below the content length, and the overflow
guard of line 619 fires. -/
theorem send_output_report_accepts_counterexample :
    report_65532.content_length + 3 ≤ shid_ready_output_max.desc.max_output_length ∧
    send_output_report_padded_length report_65532 = 0 ∧
    spi_hid_send_output_report consts0 ext_ok shid_ready_output_max 0x2000 report_65532
      = (-E2BIG, shid_ready_output_max) := by
  decide

/-- C21, amended: for every output report with content_length + 3 at most
max_output_length, and max_output_length at most 65525 (so that no length leaves the
16-bit range), `spi_hid_send_output_report` accepts the report, that is, builds the
frame and hands it to `spi_hid_output`, and the padded body length it computes is
round_up(4 + content_length, 4), a multiple of 4 and at least content_length + 3; a
report whose padded length overflows 16 bits (content length 65529 to 65535) is
rejected with -E2BIG by the overflow guard, the session being left as it was. -/
theorem send_output_report_accepts (k : Consts) (o : Ext) (s : spi_hid) (output_register : Nat)
    (report : spi_hid_output_report) :
    (report.content_length + 3 ≤ s.desc.max_output_length →
      s.desc.max_output_length ≤ 65525 →
      spi_hid_send_output_report k o s output_register report =
        spi_hid_output o (send_output_report_build k s output_register report)
          (SPI_HID_OUTPUT_HEADER_LEN + send_output_report_padded_length report) ∧
      send_output_report_padded_length report = round_up4 (4 + report.content_length) ∧
      send_output_report_padded_length report % 4 = 0 ∧
      report.content_length + 3 ≤ send_output_report_padded_length report) ∧
    (65529 ≤ report.content_length → report.content_length < 65536 →
      spi_hid_send_output_report k o s output_register report = (-E2BIG, s)) := by
  rw [send_output_report_eq]
  simp only [send_output_report_padded_length, send_output_report_body_length,
    send_output_report_max_length, round_up4, SPI_HID_OUTPUT_BODY_LEN]
  constructor
  · intro hfit hmax
    rw [if_neg (by omega), if_neg (by omega)]
    refine ⟨rfl, ?_, ?_, ?_⟩ <;> omega
  · intro h1 h2
    rw [if_pos (by omega)]

/-- C21, amended, at the session `shid_ready_output` (maximum output length 32): the
reset notification report (2 content bytes) is accepted with the padded length 8. -/
theorem send_output_report_accepts_witness :
    spi_hid_send_output_report consts0 ext_ok shid_ready_output 0x2000 reset_notification_report =
      spi_hid_output ext_ok
        (send_output_report_build consts0 shid_ready_output 0x2000 reset_notification_report)
        (SPI_HID_OUTPUT_HEADER_LEN + 8) ∧
    send_output_report_padded_length reset_notification_report = 8 :=
  ⟨((send_output_report_accepts consts0 ext_ok shid_ready_output 0x2000
      reset_notification_report).1 (by decide) (by decide)).1.trans (by decide),
   ((send_output_report_accepts consts0 ext_ok shid_ready_output 0x2000
      reset_notification_report).1 (by decide) (by decide)).2.1.trans (by decide)⟩

theorem read_bytes_length (src : List Nat) (n : Nat) : (read_bytes src n).length = n := by
  simp [read_bytes]

/-- C22 as stated fails: the session `shid_ready_output` has negotiated the maximum
output length 32; the report `report_36` (36 content bytes) is not rejected (result
0), its padded body length is 40 and the frame submitted is 46 bytes long. -/
theorem send_output_report_bound_counterexample :
    shid_ready_output.desc.max_output_length = 32 ∧
    send_output_report_padded_length report_36 = 40 ∧
    (spi_hid_send_output_report consts0 ext_ok shid_ready_output 0x2000 report_36).1 = 0 ∧
    (spi_hid_send_output_report consts0 ext_ok shid_ready_output 0x2000 report_36).2.log =
      [Event.spi_async_output
        ([0x02, 0x00, 0x20, 0x00, 0x83, 0x02, 0x05, 0x24, 0x00, 0x01] ++ List.replicate 36 0xAB)
        0] := by
  decide

/-- C22, amended: for every output report that `spi_hid_send_output_report` does not
reject with -E2BIG, the padded body length (4 body bytes and the content, rounded up
to a multiple of 4, in 16-bit arithmetic) is at least the content length and does
not exceed round_up(max_output_length + 3 + 4, 4) taken in 16 bits; the number of
bytes submitted is 6 + padded length taken in 16 bits (the `u16` parameter of
`spi_hid_output`), which for a max_output_length of at most 65521 is 6 more than the
padded length; with max_output_length at most 65525 the content length is bounded
by max_output_length + 6.  Every report whose padded length exceeds that bound, or is
below the content length, is rejected with -E2BIG before anything is built or
submitted: the session is left as it was. -/
theorem send_output_report_bound (k : Consts) (o : Ext) (s : spi_hid) (output_register : Nat)
    (report : spi_hid_output_report) :
    ((spi_hid_send_output_report k o s output_register report).1 ≠ -E2BIG →
      report.content_length ≤ send_output_report_padded_length report ∧
      send_output_report_padded_length report ≤ send_output_report_max_length s ∧
      send_output_report_max_length s
        = round_up4 (s.desc.max_output_length + 3 + 4) % 2 ^ 16 ∧
      spi_hid_send_output_report k o s output_register report =
        spi_hid_output o (send_output_report_build k s output_register report)
          (SPI_HID_OUTPUT_HEADER_LEN + send_output_report_padded_length report) ∧
      (o.in_atomic = false →
        ∃ tx, (spi_hid_send_output_report k o s output_register report).2.log =
            s.log ++ [Event.spi_async_output tx o.spi_async_output_ret] ∧
          tx.length = (6 + send_output_report_padded_length report) % 2 ^ 16 ∧
          (s.desc.max_output_length ≤ 65521 →
            tx.length = 6 + send_output_report_padded_length report)) ∧
      (s.desc.max_output_length ≤ 65525 →
        report.content_length ≤ s.desc.max_output_length + 6)) ∧
    (send_output_report_padded_length report > send_output_report_max_length s →
      spi_hid_send_output_report k o s output_register report = (-E2BIG, s)) ∧
    (send_output_report_padded_length report < report.content_length →
      spi_hid_send_output_report k o s output_register report = (-E2BIG, s)) := by
  rw [send_output_report_eq]
  refine ⟨?_, ?_, ?_⟩
  · intro h
    by_cases h1 : send_output_report_padded_length report < report.content_length
    · rw [if_pos h1] at h
      exact absurd rfl h
    · by_cases h2 : send_output_report_padded_length report > send_output_report_max_length s
      · rw [if_neg h1, if_pos h2] at h
        exact absurd rfl h
      · rw [if_neg h1, if_neg h2]
        refine ⟨by omega, by omega, rfl, rfl, ?_, ?_⟩
        · intro hat
          refine ⟨read_bytes
            ((send_output_report_build k s output_register report).output.header
              ++ (send_output_report_build k s output_register report).output.body
              ++ (send_output_report_build k s output_register report).output.content)
            ((SPI_HID_OUTPUT_HEADER_LEN + send_output_report_padded_length report) % 2 ^ 16),
            ?_, ?_, ?_⟩
          · simp only [spi_hid_output, hat, Bool.false_eq_true, if_false]
            by_cases hr : o.spi_async_output_ret = 0
            · simp [hr, spi_hid.emit, send_output_report_build]
            · simp [hr, spi_hid.emit, send_output_report_build]
          · rw [read_bytes_length]
            rfl
          · intro hmax
            rw [read_bytes_length]
            simp only [send_output_report_padded_length, send_output_report_body_length,
              send_output_report_max_length, round_up4, SPI_HID_OUTPUT_BODY_LEN,
              SPI_HID_OUTPUT_HEADER_LEN] at h1 h2 ⊢
            omega
        · intro hmax
          simp only [send_output_report_padded_length, send_output_report_body_length,
            send_output_report_max_length, round_up4, SPI_HID_OUTPUT_BODY_LEN] at h1 h2
          omega
  · intro h2
    by_cases h1 : send_output_report_padded_length report < report.content_length
    · rw [if_pos h1]
    · rw [if_neg h1, if_pos h2]
  · intro h1
    rw [if_pos h1]

/-- C22, amended, at the session `shid_ready_output` (maximum output length 32, bound
40): the report `report_36` is accepted with the padded length 40, within the bound,
and a report of 65532 content bytes is rejected with the session unchanged. -/
theorem send_output_report_bound_witness :
    send_output_report_padded_length report_36 ≤ send_output_report_max_length shid_ready_output ∧
    spi_hid_send_output_report consts0 ext_ok shid_ready_output 0x2000 report_65532
      = (-E2BIG, shid_ready_output) :=
  ⟨((send_output_report_bound consts0 ext_ok shid_ready_output 0x2000 report_36).1
      (by decide)).2.1,
   (send_output_report_bound consts0 ext_ok shid_ready_output 0x2000 report_65532).2.2
      (by decide)⟩

theorem spi_hid_output_ret (o : Ext) (s : spi_hid) (length : Nat) :
    (spi_hid_output o s length).1 = 0 ∨ (spi_hid_output o s length).1 = o.spi_async_output_ret := by
  simp only [spi_hid_output]
  split_ifs <;> simp

theorem send_output_report_ret (k : Consts) (o : Ext) (s : spi_hid) (output_register : Nat)
    (report : spi_hid_output_report) :
    (spi_hid_send_output_report k o s output_register report).1 = 0 ∨
    (spi_hid_send_output_report k o s output_register report).1 = -E2BIG ∨
    (spi_hid_send_output_report k o s output_register report).1 = o.spi_async_output_ret := by
  rw [send_output_report_eq]
  split_ifs
  · exact Or.inr (Or.inl rfl)
  · exact Or.inr (Or.inl rfl)
  · rcases spi_hid_output_ret o (send_output_report_build k s output_register report)
      (SPI_HID_OUTPUT_HEADER_LEN + send_output_report_padded_length report) with h | h
    · exact Or.inl h
    · exact Or.inr (Or.inr h)

theorem sync_request_effect (k : Consts) (o : Ext) (s : spi_hid) (output_register : Nat)
    (report : spi_hid_output_report) :
    ∃ new, request_effect s (spi_hid_sync_request k o s output_register report).2 new := by
  obtain ⟨new, h1, h2⟩ := spi_hid_send_output_report_effect k o s (output_register % 2 ^ 16) report
  simp only [spi_hid_sync_request, wait_for_completion_interruptible_timeout]
  generalize spi_hid_send_output_report k o s (output_register % 2 ^ 16) report = r at h1 ⊢
  obtain ⟨ret, t⟩ := r
  simp only at h1 ⊢
  have hlog : t.log = s.log ++ new := by rw [h1]
  split_ifs
  · refine ⟨new, ?_, fun e he => Or.inl (h2 e he)⟩
    rw [h1]
  · refine ⟨new ++ [Event.schedule_work Work.error_work], ?_, ?_⟩
    · rw [h1]; simp [schedule_work, spi_hid.emit]
    · intro e he
      rcases List.mem_append.mp he with he | he
      · exact Or.inl (h2 e he)
      · exact Or.inr (by simpa using he)
  · refine ⟨new, ?_, fun e he => Or.inl (h2 e he)⟩
    rw [h1]
  · refine ⟨new ++ [Event.schedule_work Work.error_work], ?_, ?_⟩
    · rw [h1]; simp [schedule_work, spi_hid.emit]
    · intro e he
      rcases List.mem_append.mp he with he | he
      · exact Or.inl (h2 e he)
      · exact Or.inr (by simpa using he)
  · refine ⟨new, ?_, fun e he => Or.inl (h2 e he)⟩
    rw [h1]

theorem sync_request_ret (k : Consts) (o : Ext) (s : spi_hid) (output_register : Nat)
    (report : spi_hid_output_report) :
    (spi_hid_sync_request k o s output_register report).1 = 0 ∨
    (spi_hid_sync_request k o s output_register report).1 = -E2BIG ∨
    (spi_hid_sync_request k o s output_register report).1 = o.spi_async_output_ret ∨
    (spi_hid_sync_request k o s output_register report).1 = -ETIMEDOUT := by
  have h := send_output_report_ret k o s (output_register % 2 ^ 16) report
  simp only [spi_hid_sync_request]
  split_ifs with h1 h2
  · rcases h with h | h | h
    · exact absurd h h1
    · exact Or.inr (Or.inl h)
    · exact Or.inr (Or.inr (Or.inl h))
  · exact Or.inr (Or.inr (Or.inr rfl))
  · exact Or.inl rfl

theorem wait_for_completion_idle (o : Ext) (t : spi_hid) (h : t.output_done = 0) :
    wait_for_completion_interruptible_timeout o t = (o.wait_for_completion_ret, t) := by
  unfold wait_for_completion_interruptible_timeout
  rw [if_neg (not_not.mpr h)]

/-- C28: when `spi_hid_sync_request` has sent its output frame (the send returned 0) and
the wait on `output_done` is interrupted (it returns a negative value, no response
having arrived), the function returns 0 and schedules no error recovery: it does
nothing after the send, and its result and the session it leaves are those of a call
during which the response arrived in time. -/
theorem sync_request_interrupted (k : Consts) (o : Ext) (s : spi_hid) (output_register : Nat)
    (report : spi_hid_output_report)
    (hsend : (spi_hid_send_output_report k o s (output_register % 2 ^ 16) report).1 = 0)
    (hwait : (wait_for_completion_interruptible_timeout o
      (spi_hid_send_output_report k o s (output_register % 2 ^ 16) report).2).1 < 0) :
    (spi_hid_sync_request k o s output_register report).1 = 0 ∧
    (spi_hid_sync_request k o s output_register report).2 =
      (spi_hid_send_output_report k o s (output_register % 2 ^ 16) report).2 ∧
    (spi_hid_sync_request k o s output_register report).2.output_done = 0 ∧
    spi_hid_sync_request k o s output_register report =
      spi_hid_sync_request k { o with wait_for_completion_ret := 1 } s output_register report := by
  have hs : spi_hid_send_output_report k { o with wait_for_completion_ret := 1 } s
      (output_register % 2 ^ 16) report =
      spi_hid_send_output_report k o s (output_register % 2 ^ 16) report := rfl
  have hd0 : (spi_hid_send_output_report k o s (output_register % 2 ^ 16) report).2.output_done
      = 0 := by
    by_contra hd
    simp only [wait_for_completion_interruptible_timeout] at hwait
    rw [if_pos hd] at hwait
    have : (1 : Int) ≤ max 1 o.wait_for_completion_ret := le_max_left _ _
    simp only at hwait
    omega
  have hw : o.wait_for_completion_ret < 0 := by
    rw [wait_for_completion_idle o _ hd0] at hwait
    exact hwait
  have e1 : spi_hid_sync_request k o s output_register report =
      (0, (spi_hid_send_output_report k o s (output_register % 2 ^ 16) report).2) := by
    simp only [spi_hid_sync_request]
    rw [if_neg (by simpa using hsend), wait_for_completion_idle o _ hd0, if_neg (by simp; omega)]
  have e2 : spi_hid_sync_request k { o with wait_for_completion_ret := 1 } s output_register
      report = (0, (spi_hid_send_output_report k o s (output_register % 2 ^ 16) report).2) := by
    simp only [spi_hid_sync_request, hs]
    rw [if_neg (by simpa using hsend), wait_for_completion_idle _ _ hd0, if_neg (by simp)]
  rw [e1, e2]
  exact ⟨rfl, rfl, hd0, rfl⟩

/-- C28 at the ready session `shid_ready_output` sending a report descriptor request,
the wait being interrupted by a signal (-512): the result is 0 and the record of
outgoing calls holds the output transfer only. -/
theorem sync_request_interrupted_witness :
    (spi_hid_sync_request consts0 { ext_ok with wait_for_completion_ret := -512 }
      shid_ready_output 0x2000 report_descriptor_report).1 = 0 ∧
    (spi_hid_sync_request consts0 { ext_ok with wait_for_completion_ret := -512 }
      shid_ready_output 0x2000 report_descriptor_report).2.log =
      [Event.spi_async_output [2, 0, 32, 0, 131, 0, 0, 3, 0, 0, 161, 162, 163, 0] 0] :=
  ⟨(sync_request_interrupted consts0 { ext_ok with wait_for_completion_ret := -512 }
      shid_ready_output 0x2000 report_descriptor_report (by decide) (by decide)).1,
   (congrArg spi_hid.log (sync_request_interrupted consts0
      { ext_ok with wait_for_completion_ret := -512 }
      shid_ready_output 0x2000 report_descriptor_report (by decide) (by decide)).2.1).trans
      (by decide)⟩

theorem request_effect_fields (s1 s2 : spi_hid) (new : List Event)
    (h : request_effect s1 s2 new) :
    s2.log = s1.log ++ new ∧ s2.response = s1.response ∧ s2.desc = s1.desc ∧
    s2.hid = s1.hid ∧ s2.ready = s1.ready ∧ s2.refresh_in_progress = s1.refresh_in_progress ∧
    s2.report_descriptor_crc32 = s1.report_descriptor_crc32 ∧
    s2.power_state = s1.power_state ∧ s2.powered = s1.powered ∧
    s2.dir_count = s1.dir_count ∧ s2.attempts = s1.attempts ∧
    s2.irq_enabled = s1.irq_enabled ∧ s2.input_transfer_pending = s1.input_transfer_pending ∧
    s2.bus = s1.bus := by
  have hb := fun {α : Type} (f : spi_hid → α) => congrArg f h.1
  exact ⟨hb spi_hid.log, hb spi_hid.response, hb spi_hid.desc, hb spi_hid.hid, hb spi_hid.ready,
    hb spi_hid.refresh_in_progress, hb spi_hid.report_descriptor_crc32, hb spi_hid.power_state,
    hb spi_hid.powered, hb spi_hid.dir_count, hb spi_hid.attempts, hb spi_hid.irq_enabled,
    hb spi_hid.input_transfer_pending, hb spi_hid.bus⟩

theorem min_t_unsigned_int_spec (a b : Int) (ha : -3 ≤ a) (ha2 : a < 2 ^ 31) (hb : 0 ≤ b)
    (hb2 : b < 2 ^ 31) :
    0 ≤ min_t_unsigned_int a b ∧ min_t_unsigned_int a b ≤ b ∧
    (a < 0 → min_t_unsigned_int a b = b) ∧ (0 ≤ a → min_t_unsigned_int a b = min a b) := by
  unfold min_t_unsigned_int
  have hbm : b % 2 ^ 32 = b := Int.emod_eq_of_lt hb (by omega)
  rw [hbm]
  by_cases h0 : a < 0
  · have ham : a % 2 ^ 32 = a + 2 ^ 32 := by omega
    rw [ham]
    have hm : min (a + 2 ^ 32) b = b := min_eq_right (by omega)
    rw [hm, if_pos hb2]
    exact ⟨hb, le_refl _, fun _ => rfl, fun h => absurd h (by omega)⟩
  · have ham : a % 2 ^ 32 = a := Int.emod_eq_of_lt (by omega) (by omega)
    rw [ham]
    have hm1 : min a b ≤ b := min_le_right _ _
    have hm2 : min a b ≤ a := min_le_left _ _
    have hm3 : 0 ≤ min a b := le_min (by omega) hb
    rw [if_pos (by omega)]
    exact ⟨hm3, hm1, fun h => absurd h h0, fun _ => rfl⟩

/-- C27: `spi_hid_report_descriptor_request` returns the result of the synchronous
request when that is not 0, a negative error code (the submission of the transfer
returning 0 or a negative error code); after a successful request, with L the
little-endian length field of the response body, it returns L - 3 when that equals
the `report_descriptor_length` of the device descriptor and otherwise the minimum of
the two taken as 32-bit unsigned values, so that the result is never negative and
never exceeds `report_descriptor_length`; for L below 3, where L - 3 is negative, the
result is `report_descriptor_length`. -/
theorem report_descriptor_request_spec (k : Consts) (o : Ext) (s : spi_hid)
    (hbody : ∀ x ∈ s.response.body, x < 256)
    (hrdl : s.desc.report_descriptor_length < 2 ^ 31) :
    ((spi_hid_sync_request k o s s.desc.report_descriptor_register
        { content_type := k.SPI_HID_CONTENT_TYPE_COMMAND, content_length := 3, content_id := 0,
          content := [] }).1 ≠ 0 →
      (spi_hid_report_descriptor_request k o s).1 =
        (spi_hid_sync_request k o s s.desc.report_descriptor_register
          { content_type := k.SPI_HID_CONTENT_TYPE_COMMAND, content_length := 3, content_id := 0,
            content := [] }).1 ∧
      (o.spi_async_output_ret ≤ 0 → (spi_hid_report_descriptor_request k o s).1 < 0)) ∧
    ((spi_hid_sync_request k o s s.desc.report_descriptor_register
        { content_type := k.SPI_HID_CONTENT_TYPE_COMMAND, content_length := 3, content_id := 0,
          content := [] }).1 = 0 →
      (((s.response.body.getD 0 0 ||| (s.response.body.getD 1 0 <<< 8) : Nat) : Int) - 3
          = (s.desc.report_descriptor_length : Int) →
        (spi_hid_report_descriptor_request k o s).1 =
          ((s.response.body.getD 0 0 ||| (s.response.body.getD 1 0 <<< 8) : Nat) : Int) - 3) ∧
      (((s.response.body.getD 0 0 ||| (s.response.body.getD 1 0 <<< 8) : Nat) : Int) - 3
          ≠ (s.desc.report_descriptor_length : Int) →
        (spi_hid_report_descriptor_request k o s).1 =
          min_t_unsigned_int
            (((s.response.body.getD 0 0 ||| (s.response.body.getD 1 0 <<< 8) : Nat) : Int) - 3)
            (s.desc.report_descriptor_length : Int)) ∧
      (3 ≤ s.response.body.getD 0 0 ||| (s.response.body.getD 1 0 <<< 8) →
        (spi_hid_report_descriptor_request k o s).1 =
          ((min ((s.response.body.getD 0 0 ||| (s.response.body.getD 1 0 <<< 8)) - 3)
            s.desc.report_descriptor_length : Nat) : Int)) ∧
      (s.response.body.getD 0 0 ||| (s.response.body.getD 1 0 <<< 8) < 3 →
        (spi_hid_report_descriptor_request k o s).1 = (s.desc.report_descriptor_length : Int)) ∧
      0 ≤ (spi_hid_report_descriptor_request k o s).1 ∧
      (spi_hid_report_descriptor_request k o s).1 ≤ (s.desc.report_descriptor_length : Int)) := by
  obtain ⟨new, hre⟩ := sync_request_effect k o s s.desc.report_descriptor_register
    { content_type := k.SPI_HID_CONTENT_TYPE_COMMAND, content_length := 3, content_id := 0,
      content := [] }
  obtain ⟨_, hresp, hdesc, _⟩ := request_effect_fields _ _ _ hre
  have hret := sync_request_ret k o s s.desc.report_descriptor_register
    { content_type := k.SPI_HID_CONTENT_TYPE_COMMAND, content_length := 3, content_id := 0,
      content := [] }
  have hL : s.response.body.getD 0 0 ||| (s.response.body.getD 1 0 <<< 8) < 65536 :=
    le16_lt _ _ (getD_byte _ hbody 0) (getD_byte _ hbody 1)
  simp only [spi_hid_report_descriptor_request, hresp, hdesc]
  generalize spi_hid_sync_request k o s s.desc.report_descriptor_register
    { content_type := k.SPI_HID_CONTENT_TYPE_COMMAND, content_length := 3, content_id := 0,
      content := [] } = r at hret ⊢
  generalize s.response.body.getD 0 0 ||| (s.response.body.getD 1 0 <<< 8) = L at hL ⊢
  generalize s.desc.report_descriptor_length = rdl at hrdl ⊢
  constructor
  · intro h
    rw [if_pos h]
    refine ⟨rfl, ?_⟩
    intro ho
    simp only [E2BIG, ETIMEDOUT] at hret
    show r.1 < 0
    omega
  · intro h
    rw [if_neg (by simpa using h)]
    obtain ⟨m1, m2, m3, m4⟩ := min_t_unsigned_int_spec ((L : Int) - 3) (rdl : Int) (by omega)
      (by omega) (by omega) (by omega)
    refine ⟨?_, ?_, ?_, ?_, ?_, ?_⟩
    · intro he
      rw [if_neg (by simpa using he)]
    · intro hne
      rw [if_pos hne]
    · intro h3
      split_ifs with hne
      · show min_t_unsigned_int ((L : Int) - 3) (rdl : Int) = _
        rw [m4 (by omega)]
        omega
      · simp only [ne_eq, not_not] at hne
        show (L : Int) - 3 = _
        omega
    · intro h3
      have hne : (L : Int) - 3 ≠ (rdl : Int) := by omega
      rw [if_pos hne]
      exact m3 (by omega)
    · split_ifs with hne
      · exact m1
      · simp only [ne_eq, not_not] at hne
        show 0 ≤ (L : Int) - 3
        omega
    · split_ifs with hne
      · exact m2
      · simp only [ne_eq, not_not] at hne
        show (L : Int) - 3 ≤ _
        omega

/-- C27 at the ready session `shid_ready_output` (report descriptor length 0 in its
descriptor, response body [0, 0, 0], so a length field below 3), the response
arriving in time: the result is 0, not -3. -/
theorem report_descriptor_request_spec_witness :
    (spi_hid_report_descriptor_request consts0 ext_ok shid_ready_output).1 = 0 :=
  ((report_descriptor_request_spec consts0 ext_ok shid_ready_output (by decide)
    (by decide)).2 (by decide)).2.2.2.1 (by decide)

theorem process_input_report_over_length (k : Consts) (o : Ext) (s : spi_hid) (b : BufSel)
    (hlen : (spi_hid_populate_input_body (s.buf b).body).content_length >
      (spi_hid_populate_input_header (s.buf b).header).report_length) :
    ((spi_hid_process_input_report k o s b).1 = 0 ∨
      (spi_hid_process_input_report k o s b).1 = -EINVAL) ∧
    quiet_step (s.emit (Event.trace_process_input_report b))
      (spi_hid_process_input_report k o s b).2 := by
  simp only [spi_hid_process_input_report, buf_emit]
  rw [if_pos hlen]
  split_ifs
  · obtain ⟨h1, h2⟩ := handshake_quiet k o (s.emit (Event.trace_process_input_report b))
      (spi_hid_populate_input_header (s.buf b).header)
    exact ⟨Or.inl h1, h2⟩
  · exact ⟨Or.inl rfl, ⟨[], by simp, by simp, rfl⟩, rfl, rfl, rfl, rfl, rfl, rfl, rfl, rfl, rfl⟩
  · exact ⟨Or.inr rfl, quiet_step_refl _⟩

theorem report_length_bound (hdr : List Nat) (hh : ∀ x ∈ hdr, x < 256) :
    (spi_hid_populate_input_header hdr).report_length % 4 = 0 ∧
    (spi_hid_populate_input_header hdr).report_length ≤ 16380 := by
  have h1 := getD_byte hdr hh 1
  have h2 := getD_byte hdr hh 2
  simp only [spi_hid_populate_input_header, shiftRight4_and_0xf _ h1, Nat.shiftLeft_zero]
  have a : hdr.getD 1 0 >>> 4 < 2 ^ 12 := by rw [Nat.shiftRight_eq_div_pow]; omega
  have c : hdr.getD 2 0 <<< 4 < 2 ^ 12 := by rw [Nat.shiftLeft_eq]; omega
  have := Nat.or_lt_two_pow a c
  omega

/-- C29: for every body whose little-endian 16-bit length field L is below 3 the decoded
content length is L + 65533; every decoded report_length is a multiple of 4 and at
most 16380; so the content length exceeds the report_length of every header, and
`spi_hid_process_input_report` takes the over-length branch: it returns 0 or -EINVAL
and calls no report-type handler (no handler entry, no delivery, no completion of
`output_done`, no reset or refresh work; attempt counter and device descriptor
untouched). -/
theorem short_length_field (k : Consts) (o : Ext) (s : spi_hid) (b : BufSel)
    (hh : ∀ x ∈ (s.buf b).header, x < 256)
    (hL : (s.buf b).body.getD 0 0 ||| ((s.buf b).body.getD 1 0 <<< 8) < 3) :
    (spi_hid_populate_input_body (s.buf b).body).content_length =
      ((s.buf b).body.getD 0 0 ||| ((s.buf b).body.getD 1 0 <<< 8)) + 65533 ∧
    (spi_hid_populate_input_header (s.buf b).header).report_length % 4 = 0 ∧
    (spi_hid_populate_input_header (s.buf b).header).report_length ≤ 16380 ∧
    (spi_hid_populate_input_body (s.buf b).body).content_length >
      (spi_hid_populate_input_header (s.buf b).header).report_length ∧
    ((spi_hid_process_input_report k o s b).1 = 0 ∨
      (spi_hid_process_input_report k o s b).1 = -EINVAL) ∧
    (∃ new, (spi_hid_process_input_report k o s b).2.log =
        s.log ++ Event.trace_process_input_report b :: new ∧
      ∀ e ∈ new, e.is_dispatch = false) ∧
    (spi_hid_process_input_report k o s b).2.attempts = s.attempts ∧
    (spi_hid_process_input_report k o s b).2.desc = s.desc ∧
    (spi_hid_process_input_report k o s b).2.output_done = s.output_done := by
  obtain ⟨r1, r2⟩ := report_length_bound (s.buf b).header hh
  have hc : (spi_hid_populate_input_body (s.buf b).body).content_length =
      ((s.buf b).body.getD 0 0 ||| ((s.buf b).body.getD 1 0 <<< 8)) + 65533 := by
    simp only [spi_hid_populate_input_body, SPI_HID_INPUT_BODY_LEN]
    generalize (s.buf b).body.getD 0 0 ||| ((s.buf b).body.getD 1 0 <<< 8) = L at hL ⊢
    omega
  have hgt : (spi_hid_populate_input_body (s.buf b).body).content_length >
      (spi_hid_populate_input_header (s.buf b).header).report_length := by
    rw [hc]; omega
  obtain ⟨q1, ⟨new, hl, hd, _⟩, _, _, _, _, _, _, qa, qd, qo⟩ :=
    process_input_report_over_length k o s b hgt
  refine ⟨hc, r1, r2, hgt, q1, ⟨new, ?_, hd⟩, qa, qd, qo⟩
  rw [hl]
  simp [spi_hid.emit]

/-- C29 at the session `shid_short_body`: header [0x13, 0xF0, 0xFF, 0x5A] (report_length
16380, the largest) and body [0x02, 0x00, 0x01] (length field 2); the decoded content
length is 65535; the frame takes the over-length branch, where the bypass of the
first 50 such frames returns 0, and no handler is called. -/
theorem short_length_field_witness :
    (spi_hid_populate_input_body (shid_short_body.buf BufSel.input).body).content_length
      = 65535 ∧
    (spi_hid_populate_input_header (shid_short_body.buf BufSel.input).header).report_length
      = 16380 ∧
    (spi_hid_process_input_report consts0 ext_ok shid_short_body BufSel.input).2.log =
      [Event.trace_process_input_report BufSel.input] :=
  ⟨(short_length_field consts0 ext_ok shid_short_body BufSel.input (by decide)
      (by decide)).1.trans (by decide),
   by decide, by decide⟩

/-- C26: `spi_hid_ll_open` on a session whose power state is Active returns 0 and leaves
the session exactly as it was, and `spi_hid_ll_close` on a session whose power state
is Off leaves the session exactly as it was: no field changes and no outgoing call
(interrupt enable or disable, power or reset operation) is made. -/
theorem ll_open_close_idempotent (o : Ext) (s : spi_hid) :
    (s.power_state = SPI_HID_POWER_MODE.ACTIVE → spi_hid_ll_open o s = (0, s)) ∧
    (s.power_state = SPI_HID_POWER_MODE.OFF → spi_hid_ll_close o s = s) := by
  constructor
  · intro h
    simp only [spi_hid_ll_open]
    rw [if_pos (by simp [h])]
  · intro h
    simp only [spi_hid_ll_close]
    rw [if_pos (by simp [h])]

/-- C26 at the session after probe (Active) and at the session `shid_off` (Off). -/
theorem ll_open_close_idempotent_witness :
    spi_hid_ll_open ext_ok shid0 = (0, shid0) ∧ spi_hid_ll_close ext_ok shid_off = shid_off :=
  ⟨(ll_open_close_idempotent ext_ok shid0).1 (by decide),
   (ll_open_close_idempotent ext_ok shid_off).2 (by decide)⟩

/-- C25 as stated fails: in the session `shid_attached` a HID consumer exists (the
session is not ready) and `spi_hid_reset_work` does not count the reset; in the
session after probe made ready, without a consumer, it counts it. -/
theorem reset_work_spec_counterexample :
    shid_attached.hid = some 1 ∧
    (spi_hid_reset_work consts0 ext_ok shid_attached).dir_count = shid_attached.dir_count ∧
    ({ shid0 with ready := true } : spi_hid).hid = none ∧
    (spi_hid_reset_work consts0 ext_ok { shid0 with ready := true }).dir_count
      = ({ shid0 with ready := true } : spi_hid).dir_count + 1 := by
  decide

theorem reset_work_count_fields (s : spi_hid) :
    (s.ready = true → (spi_hid_reset_work_count s).dir_count = s.dir_count + 1 ∧
      (spi_hid_reset_work_count s).log = s.log ++ [Event.sysfs_notify_ready]) ∧
    (s.ready = false → spi_hid_reset_work_count s = s) ∧
    (spi_hid_reset_work_count s).ready = false ∧
    (spi_hid_reset_work_count s).power_state = s.power_state ∧
    (spi_hid_reset_work_count s).hid_desc_addr = s.hid_desc_addr ∧
    (spi_hid_reset_work_count s).output = s.output := by
  unfold spi_hid_reset_work_count
  by_cases h : s.ready = true
  · rw [if_pos h]
    refine ⟨fun _ => ⟨rfl, rfl⟩, fun h2 => ?_, rfl, rfl, rfl, rfl⟩
    rw [h] at h2
    cases h2
  · rw [if_neg h]
    have hf : s.ready = false := by simpa using h
    exact ⟨fun h2 => absurd h2 h, fun _ => rfl, hf, rfl, rfl, rfl⟩

theorem reset_work_request_fields (k : Consts) (o : Ext) (s : spi_hid) :
    (spi_hid_reset_work_request k o s).dir_count = s.dir_count ∧
    (spi_hid_reset_work_request k o s).ready = s.ready ∧
    (o.in_atomic = false →
      (spi_hid_reset_work_request k o s).log = s.log ++
        Event.spi_async_output
          (read_bytes
            (spi_hid_output_header k s.hid_desc_addr 4
              ++ write_at s.output.body 0 [0, 0, 0, 0] ++ s.output.content) 10)
          o.spi_async_output_ret ::
        (if o.spi_async_output_ret ≠ 0 then [Event.schedule_work Work.error_work] else [])) := by
  simp only [spi_hid_reset_work_request, spi_hid_output]
  by_cases hat : o.in_atomic = true
  · rw [if_pos hat]
    refine ⟨rfl, rfl, fun h => ?_⟩
    rw [hat] at h
    cases h
  · rw [if_neg hat]
    by_cases hr : o.spi_async_output_ret = 0
    · simp [hr, spi_hid.emit, round_up4, SPI_HID_OUTPUT_BODY_LEN, SPI_HID_OUTPUT_HEADER_LEN]
    · simp [hr, spi_hid.emit, schedule_work, round_up4, SPI_HID_OUTPUT_BODY_LEN,
        SPI_HID_OUTPUT_HEADER_LEN]

theorem device_descriptor_request_frame (k : Consts) (reg : Nat) (body content : List Nat) :
    read_bytes (spi_hid_output_header k reg 4 ++ write_at body 0 [0, 0, 0, 0] ++ content) 10
      = spi_hid_output_header k reg 4 ++ [0, 0, 0, 0] := by
  simp [read_bytes, spi_hid_output_header, write_at, List.range_succ, List.getD_cons_succ]

/-- C25, amended: `spi_hid_reset_work` counts a device-initiated reset (increments
`dir_count` by one, and clears the readiness flag) exactly when the session is ready
at the time the reset response is handled, whether or not a HID consumer exists; in
both cases, unless the power state is Off, it sends the device-descriptor request:
in process context, where a work item runs, it submits the 6-byte output header for
the register `hid_desc_addr` with payload length 4 followed by 4 zero bytes, and
schedules the error work if the submission fails; with the power state Off it
submits nothing. -/
theorem reset_work_spec (k : Consts) (o : Ext) (s : spi_hid) :
    (s.ready = true → (spi_hid_reset_work k o s).dir_count = s.dir_count + 1) ∧
    (s.ready = false → (spi_hid_reset_work k o s).dir_count = s.dir_count) ∧
    (spi_hid_reset_work k o s).ready = false ∧
    (s.power_state ≠ SPI_HID_POWER_MODE.OFF → o.in_atomic = false →
      ∃ pre, (spi_hid_reset_work k o s).log = s.log ++ pre ++
          Event.spi_async_output (spi_hid_output_header k s.hid_desc_addr 4 ++ [0, 0, 0, 0])
            o.spi_async_output_ret ::
          (if o.spi_async_output_ret ≠ 0 then [Event.schedule_work Work.error_work] else []) ∧
        ∀ e ∈ pre, ∀ tx ret, e ≠ Event.spi_async_output tx ret) ∧
    (s.power_state = SPI_HID_POWER_MODE.OFF →
      ∃ pre, (spi_hid_reset_work k o s).log = s.log ++ pre ∧
        ∀ e ∈ pre, ∀ tx ret, e ≠ Event.spi_async_output tx ret) := by
  obtain ⟨c1, c2, c3, c4, c5, c6⟩ := reset_work_count_fields (s.emit Event.trace_reset_work)
  have hpre : ∃ pre, (spi_hid_reset_work_count (s.emit Event.trace_reset_work)).log
      = s.log ++ pre ∧ ∀ e ∈ pre, ∀ tx ret, e ≠ Event.spi_async_output tx ret := by
    by_cases hr : s.ready = true
    · refine ⟨[Event.trace_reset_work, Event.sysfs_notify_ready], ?_, ?_⟩
      · rw [(c1 hr).2]; simp [spi_hid.emit]
      · intro e he tx ret
        simp only [List.mem_cons, List.mem_singleton, List.not_mem_nil, or_false] at he
        rcases he with rfl | rfl <;> simp
    · refine ⟨[Event.trace_reset_work], ?_, ?_⟩
      · rw [c2 (by simpa using hr)]; simp [spi_hid.emit]
      · intro e he tx ret
        simp only [List.mem_singleton] at he
        subst he
        simp
  obtain ⟨pre, hp1, hp2⟩ := hpre
  by_cases hoff : s.power_state = SPI_HID_POWER_MODE.OFF
  · have hoff2 : ((spi_hid_reset_work_count (s.emit Event.trace_reset_work)).emit
        (Event.flush_work Work.create_device_work)).power_state = SPI_HID_POWER_MODE.OFF := by
      show (spi_hid_reset_work_count (s.emit Event.trace_reset_work)).power_state = _
      rw [c4]; exact hoff
    have he : spi_hid_reset_work k o s =
        (spi_hid_reset_work_count (s.emit Event.trace_reset_work)).emit
          (Event.flush_work Work.create_device_work) := by
      simp only [spi_hid_reset_work]
      rw [if_pos hoff2]
    rw [he]
    refine ⟨?_, ?_, c3, fun h => absurd hoff h, fun _ => ?_⟩
    · intro hr
      exact (c1 hr).1
    · intro hr
      show (spi_hid_reset_work_count (s.emit Event.trace_reset_work)).dir_count = _
      rw [c2 hr]; rfl
    · refine ⟨pre ++ [Event.flush_work Work.create_device_work], ?_, ?_⟩
      · show (spi_hid_reset_work_count (s.emit Event.trace_reset_work)).log ++ _ = _
        rw [hp1, List.append_assoc]
      · intro e he tx ret
        rcases List.mem_append.mp he with he | he
        · exact hp2 e he tx ret
        · simp only [List.mem_singleton] at he
          subst he
          simp
  · have hoff2 : ¬ ((spi_hid_reset_work_count (s.emit Event.trace_reset_work)).emit
        (Event.flush_work Work.create_device_work)).power_state = SPI_HID_POWER_MODE.OFF := by
      show ¬ (spi_hid_reset_work_count (s.emit Event.trace_reset_work)).power_state = _
      rw [c4]; exact hoff
    have he : spi_hid_reset_work k o s =
        spi_hid_reset_work_request k o
          (((spi_hid_reset_work_count (s.emit Event.trace_reset_work)).emit
            (Event.flush_work Work.create_device_work)).emit
            (Event.flush_work Work.refresh_device_work)) := by
      simp only [spi_hid_reset_work]
      rw [if_neg hoff2]
    obtain ⟨q1, q2, q3⟩ := reset_work_request_fields k o
      (((spi_hid_reset_work_count (s.emit Event.trace_reset_work)).emit
        (Event.flush_work Work.create_device_work)).emit
        (Event.flush_work Work.refresh_device_work))
    rw [he]
    refine ⟨?_, ?_, ?_, fun _ hat => ?_, fun h => absurd h hoff⟩
    · intro hr
      rw [q1]
      exact (c1 hr).1
    · intro hr
      rw [q1]
      show (spi_hid_reset_work_count (s.emit Event.trace_reset_work)).dir_count = _
      rw [c2 hr]; rfl
    · rw [q2]
      exact c3
    · refine ⟨pre ++ [Event.flush_work Work.create_device_work,
        Event.flush_work Work.refresh_device_work], ?_, ?_⟩
      · rw [q3 hat]
        have e1 : (((spi_hid_reset_work_count (s.emit Event.trace_reset_work)).emit
            (Event.flush_work Work.create_device_work)).emit
            (Event.flush_work Work.refresh_device_work)).hid_desc_addr = s.hid_desc_addr := c5
        have e2 : (((spi_hid_reset_work_count (s.emit Event.trace_reset_work)).emit
            (Event.flush_work Work.create_device_work)).emit
            (Event.flush_work Work.refresh_device_work)).log =
            s.log ++ (pre ++ [Event.flush_work Work.create_device_work,
              Event.flush_work Work.refresh_device_work]) := by
          show ((spi_hid_reset_work_count (s.emit Event.trace_reset_work)).log ++ _) ++ _ = _
          rw [hp1]; simp
        rw [e1, e2, device_descriptor_request_frame]
      · intro e he tx ret
        rcases List.mem_append.mp he with he | he
        · exact hp2 e he tx ret
        · simp only [List.mem_cons, List.mem_singleton, List.not_mem_nil, or_false] at he
          rcases he with rfl | rfl <;> simp

/-- C25, amended, at the ready session `shid_ready_data`: the reset is counted and the
device-descriptor request for register 0x0001 is submitted. -/
theorem reset_work_spec_witness :
    (spi_hid_reset_work consts0 ext_ok shid_ready_data).dir_count = 1 ∧
    (spi_hid_reset_work consts0 ext_ok shid_ready_data).log =
      [Event.trace_reset_work, Event.sysfs_notify_ready,
        Event.flush_work Work.create_device_work, Event.flush_work Work.refresh_device_work,
        Event.spi_async_output [0x02, 0x00, 0x00, 0x01, 0x43, 0x00, 0, 0, 0, 0] 0] :=
  ⟨((reset_work_spec consts0 ext_ok shid_ready_data).1 (by decide)).trans (by decide),
   by decide⟩

/-- C24 as stated fails: in the MSHW0231 session `shid_mshw_probe` the descriptor
version 0 differs from the supported version 0x0300, and `spi_hid_create_device_work`
creates the HID consumer 2 and schedules no error work: the version is replaced by
default values and the creation goes on. -/
theorem unsupported_version_counterexample :
    shid_mshw_probe.desc.hid_version ≠ consts0.SPI_HID_SUPPORTED_VERSION ∧
    shid_mshw_probe.hid = none ∧
    (spi_hid_create_device_work consts0 ext_ok shid_mshw_probe).hid = some 2 ∧
    (spi_hid_create_device_work consts0 ext_ok shid_mshw_probe).log =
      [Event.trace_create_device_work, Event.hid_allocate_device 0,
        Event.hid_parse_report 2 touchscreen_descriptor 0, Event.hid_add_device 2 0,
        Event.schedule_work Work.staged_init_work, Event.disable_irq] := by
  decide

/-- C24, amended: for every device descriptor whose hid_version differs from the
supported version, `spi_hid_create_device_work` creates no HID consumer and schedules
the error work, doing nothing else, unless the device is an MSHW0231 reporting
version 0: then it runs as for a descriptor holding the supported version and the
default lengths and identifiers.  `spi_hid_refresh_device_work` schedules the error
work for every such descriptor and changes nothing else, in particular neither the
consumer nor the readiness flag. -/
theorem unsupported_version (k : Consts) (o : Ext) (s : spi_hid)
    (hv : s.desc.hid_version ≠ k.SPI_HID_SUPPORTED_VERSION) :
    (¬ (spi_hid_is_mshw0231 s = true ∧ s.desc.hid_version = 0) →
      spi_hid_create_device_work k o s =
        { s with log := s.log ++ [Event.trace_create_device_work,
          Event.schedule_work Work.error_work] } ∧
      (spi_hid_create_device_work k o s).hid = s.hid) ∧
    (spi_hid_is_mshw0231 s = true ∧ s.desc.hid_version = 0 →
      spi_hid_create_device_work k o s =
        spi_hid_create_device_work k o
          { s with desc := { s.desc with
            hid_version := k.SPI_HID_SUPPORTED_VERSION,
            report_descriptor_length := 256,
            max_input_length := 64,
            max_output_length := 64,
            vendor_id := 0x045E,
            product_id := 0x0921 } }) ∧
    spi_hid_refresh_device_work k o s =
      { s with log := s.log ++ [Event.trace_refresh_device_work,
        Event.schedule_work Work.error_work] } ∧
    (spi_hid_refresh_device_work k o s).hid = s.hid ∧
    (spi_hid_refresh_device_work k o s).ready = s.ready := by
  have hv1 : (s.emit Event.trace_create_device_work).desc.hid_version
      ≠ k.SPI_HID_SUPPORTED_VERSION := hv
  have hv2 : (s.emit Event.trace_refresh_device_work).desc.hid_version
      ≠ k.SPI_HID_SUPPORTED_VERSION := hv
  have hr : spi_hid_refresh_device_work k o s =
      { s with log := s.log ++ [Event.trace_refresh_device_work,
        Event.schedule_work Work.error_work] } := by
    simp only [spi_hid_refresh_device_work]
    rw [if_pos hv2]
    simp [schedule_work, spi_hid.emit]
  refine ⟨?_, ?_, hr, by rw [hr], by rw [hr]⟩
  · intro hm
    have hc : (spi_hid_is_mshw0231 (s.emit Event.trace_create_device_work)
        && decide ((s.emit Event.trace_create_device_work).desc.hid_version = 0)) = false := by
      rw [Bool.and_eq_false_iff]
      by_cases h1 : spi_hid_is_mshw0231 s = true
      · right
        simpa using fun h2 => hm ⟨h1, h2⟩
      · left
        simpa using h1
    have he : spi_hid_create_device_work k o s =
        { s with log := s.log ++ [Event.trace_create_device_work,
          Event.schedule_work Work.error_work] } := by
      simp only [spi_hid_create_device_work, spi_hid_create_device_work_version]
      rw [if_pos hv1, hc]
      simp [schedule_work, spi_hid.emit]
    exact ⟨he, by rw [he]⟩
  · intro hm
    have hc : (spi_hid_is_mshw0231 (s.emit Event.trace_create_device_work)
        && decide ((s.emit Event.trace_create_device_work).desc.hid_version = 0)) = true := by
      rw [Bool.and_eq_true]
      exact ⟨hm.1, by simpa using hm.2⟩
    have hver : spi_hid_create_device_work_version k (s.emit Event.trace_create_device_work) =
        some { (s.emit Event.trace_create_device_work) with desc := { s.desc with
            hid_version := k.SPI_HID_SUPPORTED_VERSION,
            report_descriptor_length := 256,
            max_input_length := 64,
            max_output_length := 64,
            vendor_id := 0x045E,
            product_id := 0x0921 } } := by
      simp only [spi_hid_create_device_work_version]
      rw [if_pos hv1, hc]
      rfl
    have hver2 : spi_hid_create_device_work_version k
        (({ s with desc := { s.desc with
            hid_version := k.SPI_HID_SUPPORTED_VERSION,
            report_descriptor_length := 256,
            max_input_length := 64,
            max_output_length := 64,
            vendor_id := 0x045E,
            product_id := 0x0921 } } : spi_hid).emit Event.trace_create_device_work) =
        some { (s.emit Event.trace_create_device_work) with desc := { s.desc with
            hid_version := k.SPI_HID_SUPPORTED_VERSION,
            report_descriptor_length := 256,
            max_input_length := 64,
            max_output_length := 64,
            vendor_id := 0x045E,
            product_id := 0x0921 } } := by
      simp only [spi_hid_create_device_work_version]
      rw [if_neg (by simp [spi_hid.emit])]
      rfl
    simp only [spi_hid_create_device_work]
    rw [hver, hver2]

/-- C24, amended, at the session after probe (device name without MSHW0231, descriptor
version 0, supported version 0x0300): both works schedule the error work and leave the
consumer and the readiness flag as they were. -/
theorem unsupported_version_witness :
    (spi_hid_create_device_work consts0 ext_ok shid_attached).log =
      [Event.trace_create_device_work, Event.schedule_work Work.error_work] ∧
    (spi_hid_create_device_work consts0 ext_ok shid_attached).hid = shid_attached.hid ∧
    (spi_hid_refresh_device_work consts0 ext_ok shid_attached).log =
      [Event.trace_refresh_device_work, Event.schedule_work Work.error_work] ∧
    (spi_hid_refresh_device_work consts0 ext_ok shid_attached).hid = shid_attached.hid ∧
    (spi_hid_refresh_device_work consts0 ext_ok shid_attached).ready = shid_attached.ready :=
  ⟨(congrArg spi_hid.log ((unsupported_version consts0 ext_ok shid_attached (by decide)).1
      (by decide)).1).trans (by decide),
   ((unsupported_version consts0 ext_ok shid_attached (by decide)).1 (by decide)).2,
   (congrArg spi_hid.log (unsupported_version consts0 ext_ok shid_attached
      (by decide)).2.2.1).trans (by decide),
   (unsupported_version consts0 ext_ok shid_attached (by decide)).2.2.2.1,
   (unsupported_version consts0 ext_ok shid_attached (by decide)).2.2.2.2⟩

theorem creations_cons (e : Event) (l : List Event) :
    creations (e :: l) = creations [e] + creations l := by
  cases e <;> simp [creations]
  omega

theorem creations_append (l1 l2 : List Event) :
    creations (l1 ++ l2) = creations l1 + creations l2 := by
  induction l1 with
  | nil => simp [creations]
  | cons e l ih =>
    rw [List.cons_append, creations_cons, ih, creations_cons e l, Nat.add_assoc]

theorem request_events_quiet (new : List Event)
    (h : ∀ e ∈ new, (∃ tx ret, e = Event.spi_async_output tx ret)
      ∨ e = Event.schedule_work Work.error_work) :
    destroys new = [] ∧ creations new = 0 ∧ deliveries new = [] := by
  induction new with
  | nil => exact ⟨rfl, rfl, rfl⟩
  | cons e l ih =>
    obtain ⟨a, b, c⟩ := ih (fun x hx => h x (List.mem_cons_of_mem _ hx))
    rw [destroys_cons, creations_cons, deliveries_cons, a, b, c]
    rcases h e (by simp) with ⟨tx, ret, rfl⟩ | rfl <;> exact ⟨rfl, rfl, rfl⟩

theorem report_descriptor_request_effect (k : Consts) (o : Ext) (s : spi_hid) :
    ∃ new, request_effect s (spi_hid_report_descriptor_request k o s).2 new := by
  have h : (spi_hid_report_descriptor_request k o s).2 =
      (spi_hid_sync_request k o s s.desc.report_descriptor_register
        { content_type := k.SPI_HID_CONTENT_TYPE_COMMAND, content_length := 3, content_id := 0,
          content := [] }).2 := by
    simp only [spi_hid_report_descriptor_request]
    split_ifs <;> rfl
  rw [h]
  exact sync_request_effect k o s _ _

theorem parse_scan_fuel (n : Nat) : ∀ (m : Nat) (l : List Nat) (f : Nat),
    l.length ≤ n → l.length ≤ m →
    spi_hid_parse_mshw0231_collections_scan n l f
      = spi_hid_parse_mshw0231_collections_scan m l f := by
  induction n with
  | zero =>
    intro m l f hn hm
    have hl : l = [] := List.length_eq_zero.mp (Nat.le_zero.mp hn)
    subst hl
    cases m <;> rfl
  | succ n ih =>
    intro m l f hn hm
    cases l with
    | nil => cases m <;> rfl
    | cons item rest =>
      cases m with
      | zero => simp at hm
      | succ m =>
        simp only [spi_hid_parse_mshw0231_collections_scan]
        simp only [List.length_cons] at hn hm
        apply ih
        · rw [List.length_drop]
          omega
        · rw [List.length_drop]
          omega

theorem read_bytes_append_left (d r : List Nat) : read_bytes (d ++ r) d.length = d := by
  apply List.ext_getElem
  · simp [read_bytes]
  · intro i h1 h2
    simp [read_bytes, List.getD_eq_getElem?_getD, List.getElem?_append_left h2,
      List.getElem?_eq_getElem h2]

theorem read_bytes_write_at_zero (c d : List Nat) :
    read_bytes (write_at c 0 d) d.length = d := by
  have h : write_at c 0 d = d ++ (c ++ List.replicate (d.length - c.length) 0).drop d.length := by
    simp [write_at]
  rw [h, read_bytes_append_left]

theorem crc32_le_write_at_zero (c d : List Nat) :
    crc32_le 0 (write_at c 0 d) d.length = crc32_le 0 d d.length := by
  have h := read_bytes_append_left d []
  rw [List.append_nil] at h
  simp only [crc32_le, read_bytes_write_at_zero, h]

theorem parse_mshw0231_collections_spec (o : Ext) (s : spi_hid) (hid : Nat)
    (descriptor : List Nat) :
    (spi_hid_parse_mshw0231_collections o s hid descriptor).1 = o.hid_parse_report_ret ∧
    (spi_hid_parse_mshw0231_collections o s hid descriptor).2.refresh_in_progress
      = s.refresh_in_progress ∧
    (spi_hid_parse_mshw0231_collections o s hid descriptor).2.ready = s.ready ∧
    (spi_hid_parse_mshw0231_collections o s hid descriptor).2.hid = s.hid ∧
    (spi_hid_parse_mshw0231_collections o s hid descriptor).2.report_descriptor_crc32
      = s.report_descriptor_crc32 ∧
    (spi_hid_parse_mshw0231_collections o s hid descriptor).2.response = s.response ∧
    (spi_hid_parse_mshw0231_collections o s hid descriptor).2.log =
      s.log ++ [Event.hid_parse_report hid descriptor o.hid_parse_report_ret] := by
  simp only [spi_hid_parse_mshw0231_collections, spi_hid_parse_collection_06]
  split_ifs with h1 h2
  · exact ⟨h2.symm, rfl, rfl, rfl, rfl, rfl, rfl⟩
  · exact ⟨rfl, rfl, rfl, rfl, rfl, rfl, rfl⟩
  · exact ⟨rfl, rfl, rfl, rfl, rfl, rfl, rfl⟩

theorem ll_parse_mshw0231_parse_spec (o : Ext) (s : spi_hid) (hid : Nat) (len : Nat) :
    (spi_hid_ll_parse_mshw0231_parse o s hid len).1 = o.hid_parse_report_ret ∧
    (spi_hid_ll_parse_mshw0231_parse o s hid len).2.refresh_in_progress
      = s.refresh_in_progress ∧
    (spi_hid_ll_parse_mshw0231_parse o s hid len).2.ready = s.ready ∧
    (spi_hid_ll_parse_mshw0231_parse o s hid len).2.hid = s.hid ∧
    (spi_hid_ll_parse_mshw0231_parse o s hid len).2.report_descriptor_crc32
      = s.report_descriptor_crc32 ∧
    (spi_hid_ll_parse_mshw0231_parse o s hid len).2.response = s.response ∧
    (∃ new, (spi_hid_ll_parse_mshw0231_parse o s hid len).2.log = s.log ++ new ∧
      ∀ e ∈ new, ∃ data ret, e = Event.hid_parse_report hid data ret) := by
  obtain ⟨r1, r2, r3, r4, r5, r6, r7⟩ := parse_mshw0231_collections_spec o s hid
    (read_bytes s.response.content len)
  unfold spi_hid_ll_parse_mshw0231_parse
  by_cases h : (spi_hid_parse_mshw0231_collections o s hid
      (read_bytes s.response.content len)).1 ≠ 0
  · rw [if_pos h]
    refine ⟨rfl, r2, r3, r4, r5, r6,
      [Event.hid_parse_report hid (read_bytes s.response.content len) o.hid_parse_report_ret,
        Event.hid_parse_report hid
          (read_bytes (spi_hid_parse_mshw0231_collections o s hid
            (read_bytes s.response.content len)).2.response.content len)
          o.hid_parse_report_ret], ?_, ?_⟩
    · show (spi_hid_parse_mshw0231_collections o s hid _).2.log ++ [_] = _
      rw [r7, List.append_assoc]
      rfl
    · intro e he
      simp only [List.mem_cons, List.mem_singleton, List.not_mem_nil, or_false] at he
      rcases he with rfl | rfl
      · exact ⟨_, _, rfl⟩
      · exact ⟨_, _, rfl⟩
  · rw [if_neg h]
    refine ⟨r1, r2, r3, r4, r5, r6,
      [Event.hid_parse_report hid (read_bytes s.response.content len) o.hid_parse_report_ret],
      r7, ?_⟩
    intro e he
    rw [List.mem_singleton] at he
    exact ⟨_, _, he⟩

theorem ll_parse_mshw0231_spec (o : Ext) (s : spi_hid) (hid : Nat) :
    (spi_hid_ll_parse_mshw0231 o s hid).1 = o.hid_parse_report_ret ∧
    (spi_hid_ll_parse_mshw0231 o s hid).2.refresh_in_progress = s.refresh_in_progress ∧
    (spi_hid_ll_parse_mshw0231 o s hid).2.ready = s.ready ∧
    (spi_hid_ll_parse_mshw0231 o s hid).2.hid = s.hid ∧
    (spi_hid_ll_parse_mshw0231 o s hid).2.report_descriptor_crc32
      = s.report_descriptor_crc32 ∧
    (spi_hid_ll_parse_mshw0231 o s hid).2.response.content
      = write_at s.response.content 0 touchscreen_descriptor ∧
    (∃ new, (spi_hid_ll_parse_mshw0231 o s hid).2.log = s.log ++ new ∧
      ∀ e ∈ new, ∃ data ret, e = Event.hid_parse_report hid data ret) := by
  obtain ⟨r1, r2, r3, r4, r5, r6, r7⟩ := ll_parse_mshw0231_parse_spec o
    { s with response := { s.response with
      content := write_at s.response.content 0 touchscreen_descriptor } } hid
    touchscreen_descriptor.length
  refine ⟨r1, r2, r3, r4, r5, ?_, r7⟩
  show (spi_hid_ll_parse_mshw0231_parse o _ hid _).2.response.content = _
  rw [r6]

theorem parse_events_quiet (hid : Nat) (new : List Event)
    (h : ∀ e ∈ new, (∃ tx ret, e = Event.spi_async_output tx ret)
      ∨ e = Event.schedule_work Work.error_work
      ∨ ∃ data ret, e = Event.hid_parse_report hid data ret) :
    destroys new = [] ∧ creations new = 0 ∧ deliveries new = [] := by
  induction new with
  | nil => exact ⟨rfl, rfl, rfl⟩
  | cons e l ih =>
    obtain ⟨a, b, c⟩ := ih (fun x hx => h x (List.mem_cons_of_mem _ hx))
    rw [destroys_cons, creations_cons, deliveries_cons, a, b, c]
    rcases h e (by simp) with ⟨tx, ret, rfl⟩ | rfl | ⟨data, ret, rfl⟩ <;> exact ⟨rfl, rfl, rfl⟩

theorem ll_parse_store_spec (r : Int × spi_hid) (len : Int) :
    (spi_hid_ll_parse_store r len).1 = r.1 ∧
    (spi_hid_ll_parse_store r len).2.refresh_in_progress = r.2.refresh_in_progress ∧
    (spi_hid_ll_parse_store r len).2.ready = r.2.ready ∧
    (spi_hid_ll_parse_store r len).2.hid = r.2.hid ∧
    (spi_hid_ll_parse_store r len).2.log = r.2.log ∧
    (spi_hid_ll_parse_store r len).2.response = r.2.response ∧
    (r.1 ≠ 0 → (spi_hid_ll_parse_store r len).2.report_descriptor_crc32
      = r.2.report_descriptor_crc32) ∧
    (r.1 = 0 → (spi_hid_ll_parse_store r len).2.report_descriptor_crc32
      = crc32_le 0 r.2.response.content len.toNat) := by
  obtain ⟨a, b⟩ := r
  simp only [spi_hid_ll_parse_store]
  split_ifs with h
  · exact ⟨rfl, rfl, rfl, rfl, rfl, rfl, fun _ => rfl, fun h0 => absurd h0 h⟩
  · exact ⟨(not_not.mp h).symm, rfl, rfl, rfl, rfl, rfl,
      fun h0 => absurd (not_not.mp h) h0, fun _ => rfl⟩

theorem ll_parse_mshw0231_case (k : Consts) (o : Ext) (s : spi_hid) (hid : Nat)
    (hm : spi_hid_is_mshw0231 s = true) :
    (spi_hid_ll_parse k o s hid).1 = o.hid_parse_report_ret ∧
    (spi_hid_ll_parse k o s hid).2.refresh_in_progress = s.refresh_in_progress ∧
    (spi_hid_ll_parse k o s hid).2.ready = s.ready ∧
    (spi_hid_ll_parse k o s hid).2.hid = s.hid ∧
    (∃ new, (spi_hid_ll_parse k o s hid).2.log = s.log ++ new ∧
      destroys new = [] ∧ creations new = 0) ∧
    (o.hid_parse_report_ret ≠ 0 →
      (spi_hid_ll_parse k o s hid).2.report_descriptor_crc32 = s.report_descriptor_crc32) ∧
    (o.hid_parse_report_ret = 0 →
      (spi_hid_ll_parse k o s hid).2.report_descriptor_crc32 =
        crc32_le 0 (spi_hid_ll_parse k o s hid).2.response.content
          touchscreen_descriptor.length ∧
      (spi_hid_ll_parse k o s hid).2.report_descriptor_crc32 =
        crc32_le 0 touchscreen_descriptor touchscreen_descriptor.length) := by
  obtain ⟨m1, m2, m3, m4, m5, m6, new, m7, m8⟩ := ll_parse_mshw0231_spec o s hid
  obtain ⟨t1, t2, t3, t4, t5, t6, t7, t8⟩ := ll_parse_store_spec
    (spi_hid_ll_parse_mshw0231 o s hid) touchscreen_descriptor.length
  have hq : destroys new = [] ∧ creations new = 0 ∧ deliveries new = [] :=
    parse_events_quiet hid new (fun e he => Or.inr (Or.inr (m8 e he)))
  have he : spi_hid_ll_parse k o s hid =
      spi_hid_ll_parse_store (spi_hid_ll_parse_mshw0231 o s hid)
        touchscreen_descriptor.length := by
    simp only [spi_hid_ll_parse, hm, if_true]
  rw [he]
  refine ⟨t1.trans m1, t2.trans m2, t3.trans m3, t4.trans m4,
    ⟨new, t5.trans m7, hq.1, hq.2.1⟩, ?_, ?_⟩
  · intro h
    exact (t7 (by rw [m1]; exact h)).trans m5
  · intro h
    have c1 := t8 (m1.trans h)
    rw [Int.toNat_ofNat] at c1
    refine ⟨?_, ?_⟩
    · rw [c1, t6]
    · rw [c1, m6]
      exact crc32_le_write_at_zero _ _

theorem ll_parse_other_case (k : Consts) (o : Ext) (s : spi_hid) (hid : Nat)
    (hm : spi_hid_is_mshw0231 s = false) :
    (spi_hid_ll_parse k o s hid).1 =
      (if (spi_hid_report_descriptor_request k o s).1 < 0 then
        (spi_hid_report_descriptor_request k o s).1
       else o.hid_parse_report_ret) ∧
    (spi_hid_ll_parse k o s hid).2.refresh_in_progress = s.refresh_in_progress ∧
    (spi_hid_ll_parse k o s hid).2.ready = s.ready ∧
    (spi_hid_ll_parse k o s hid).2.hid = s.hid ∧
    (∃ new, (spi_hid_ll_parse k o s hid).2.log = s.log ++ new ∧
      destroys new = [] ∧ creations new = 0) ∧
    (spi_hid_ll_parse k o s hid).2.response = s.response ∧
    ((spi_hid_ll_parse k o s hid).1 ≠ 0 →
      (spi_hid_ll_parse k o s hid).2.report_descriptor_crc32 = s.report_descriptor_crc32) ∧
    ((spi_hid_ll_parse k o s hid).1 = 0 →
      (spi_hid_ll_parse k o s hid).2.report_descriptor_crc32 =
        crc32_le 0 (spi_hid_ll_parse k o s hid).2.response.content
          (spi_hid_report_descriptor_request k o s).1.toNat) := by
  obtain ⟨new, hre⟩ := report_descriptor_request_effect k o s
  obtain ⟨f1, f2, f3, f4, f5, f6, f7, _⟩ := request_effect_fields _ _ _ hre
  obtain ⟨q1, q2, _⟩ := request_events_quiet new hre.2
  by_cases hneg : (spi_hid_report_descriptor_request k o s).1 < 0
  · have he : spi_hid_ll_parse k o s hid =
        ((spi_hid_report_descriptor_request k o s).1,
          (spi_hid_report_descriptor_request k o s).2) := by
      simp only [spi_hid_ll_parse, hm, Bool.false_eq_true, if_false, hneg, if_true]
    rw [he, if_pos hneg]
    refine ⟨rfl, f6, f5, f4, ⟨new, f1, q1, q2⟩, f2, fun _ => f7, fun h => ?_⟩
    have h0 : (spi_hid_report_descriptor_request k o s).1 = 0 := h
    omega
  · obtain ⟨t1, t2, t3, t4, t5, t6, t7, t8⟩ := ll_parse_store_spec
      (o.hid_parse_report_ret,
        (spi_hid_report_descriptor_request k o s).2.emit
          (Event.hid_parse_report hid
            (read_bytes (spi_hid_report_descriptor_request k o s).2.response.content
              (spi_hid_report_descriptor_request k o s).1.toNat)
            o.hid_parse_report_ret))
      (spi_hid_report_descriptor_request k o s).1
    have he : spi_hid_ll_parse k o s hid =
        spi_hid_ll_parse_store
          (o.hid_parse_report_ret,
            (spi_hid_report_descriptor_request k o s).2.emit
              (Event.hid_parse_report hid
                (read_bytes (spi_hid_report_descriptor_request k o s).2.response.content
                  (spi_hid_report_descriptor_request k o s).1.toNat)
                o.hid_parse_report_ret))
          (spi_hid_report_descriptor_request k o s).1 := by
      simp only [spi_hid_ll_parse, hm, Bool.false_eq_true, if_false, hneg]
    rw [he, if_neg hneg]
    refine ⟨t1, t2.trans f6, t3.trans f5, t4.trans f4,
      ⟨new ++ [Event.hid_parse_report hid
        (read_bytes (spi_hid_report_descriptor_request k o s).2.response.content
          (spi_hid_report_descriptor_request k o s).1.toNat) o.hid_parse_report_ret],
        ?_, ?_, ?_⟩, t6.trans f2, ?_, ?_⟩
    · rw [t5]
      show (spi_hid_report_descriptor_request k o s).2.log ++ _ = _
      rw [f1, List.append_assoc]
    · rw [destroys_append, q1]
      rfl
    · rw [creations_append, q2]
      rfl
    · intro h
      rw [t1] at h
      exact (t7 h).trans f7
    · intro h
      rw [t1] at h
      rw [t8 h, t6]

theorem ll_parse_spec_fields (k : Consts) (o : Ext) (s : spi_hid) (hid : Nat) :
    (spi_hid_ll_parse k o s hid).2.refresh_in_progress = s.refresh_in_progress ∧
    (spi_hid_ll_parse k o s hid).2.ready = s.ready ∧
    (spi_hid_ll_parse k o s hid).2.hid = s.hid ∧
    (∃ new, (spi_hid_ll_parse k o s hid).2.log = s.log ++ new ∧
      destroys new = [] ∧ creations new = 0) ∧
    ((spi_hid_ll_parse k o s hid).1 ≠ 0 →
      (spi_hid_ll_parse k o s hid).2.report_descriptor_crc32 = s.report_descriptor_crc32) ∧
    ((spi_hid_ll_parse k o s hid).1 = 0 →
      (spi_hid_ll_parse k o s hid).2.report_descriptor_crc32 =
        crc32_le 0 (spi_hid_ll_parse k o s hid).2.response.content
          (ll_parse_length k o s).toNat) ∧
    (spi_hid_is_mshw0231 s = true →
      (spi_hid_ll_parse k o s hid).1 = o.hid_parse_report_ret ∧
      ((spi_hid_ll_parse k o s hid).1 = 0 →
        (spi_hid_ll_parse k o s hid).2.report_descriptor_crc32 =
          crc32_le 0 touchscreen_descriptor touchscreen_descriptor.length)) ∧
    (spi_hid_is_mshw0231 s = false →
      (spi_hid_ll_parse k o s hid).2.response = s.response ∧
      (spi_hid_ll_parse k o s hid).1 =
        (if (spi_hid_report_descriptor_request k o s).1 < 0 then
          (spi_hid_report_descriptor_request k o s).1
         else o.hid_parse_report_ret)) := by
  by_cases hm : spi_hid_is_mshw0231 s = true
  · obtain ⟨c1, c2, c3, c4, c5, c6, c7⟩ := ll_parse_mshw0231_case k o s hid hm
    have hlen : (ll_parse_length k o s).toNat = touchscreen_descriptor.length := by
      simp only [ll_parse_length, hm, if_true, Int.toNat_ofNat]
    rw [hlen]
    refine ⟨c2, c3, c4, c5, fun h => c6 (by rw [← c1]; exact h),
      fun h => (c7 (c1.symm.trans h)).1,
      fun _ => ⟨c1, fun h => (c7 (c1.symm.trans h)).2⟩, fun h => ?_⟩
    rw [hm] at h
    exact Bool.noConfusion h
  · have hmf : spi_hid_is_mshw0231 s = false := by simpa using hm
    obtain ⟨c1, c2, c3, c4, c5, c6, c7, c8⟩ := ll_parse_other_case k o s hid hmf
    have hlen : ll_parse_length k o s = (spi_hid_report_descriptor_request k o s).1 := by
      simp only [ll_parse_length, hmf, Bool.false_eq_true, if_false]
    rw [hlen]
    exact ⟨c2, c3, c4, c5, c7, c8, fun h => absurd h hm, fun _ => ⟨c6, c1⟩⟩

theorem create_device_attached_fields (o : Ext) (s : spi_hid) :
    (create_device_attached o s).refresh_in_progress = s.refresh_in_progress ∧
    (create_device_attached o s).ready = s.ready ∧
    (create_device_attached o s).hid = some o.hid_allocate_device_hid ∧
    (create_device_attached o s).log
      = s.log ++ [Event.hid_allocate_device o.hid_allocate_device_err] ∧
    (create_device_attached o s).report_descriptor_crc32 = s.report_descriptor_crc32 ∧
    (create_device_attached o s).response = s.response ∧
    spi_hid_is_mshw0231 (create_device_attached o s) = spi_hid_is_mshw0231 s := by
  unfold create_device_attached spi_hid_create_device_attach
  by_cases h : (s.emit (Event.hid_allocate_device o.hid_allocate_device_err)).desc.vendor_id
      = 0x045e ∧
      (s.emit (Event.hid_allocate_device o.hid_allocate_device_err)).desc.product_id = 0x0231
  · rw [if_pos h]
    exact ⟨rfl, rfl, rfl, rfl, rfl, rfl, rfl⟩
  · rw [if_neg h]
    exact ⟨rfl, rfl, rfl, rfl, rfl, rfl, rfl⟩

theorem hid_add_device_spec (k : Consts) (o : Ext) (s : spi_hid) (hid : Nat) :
    (hid_add_device k o s hid).1 =
      (if (spi_hid_ll_parse k o s hid).1 ≠ 0 then (spi_hid_ll_parse k o s hid).1
       else o.hid_add_device_ret) ∧
    (hid_add_device k o s hid).2.refresh_in_progress
      = (spi_hid_ll_parse k o s hid).2.refresh_in_progress ∧
    (hid_add_device k o s hid).2.ready = (spi_hid_ll_parse k o s hid).2.ready ∧
    (hid_add_device k o s hid).2.hid = (spi_hid_ll_parse k o s hid).2.hid ∧
    (hid_add_device k o s hid).2.report_descriptor_crc32
      = (spi_hid_ll_parse k o s hid).2.report_descriptor_crc32 ∧
    (hid_add_device k o s hid).2.response = (spi_hid_ll_parse k o s hid).2.response ∧
    (hid_add_device k o s hid).2.log =
      (spi_hid_ll_parse k o s hid).2.log ++
        [Event.hid_add_device hid (hid_add_device k o s hid).1] :=
  ⟨rfl, rfl, rfl, rfl, rfl, rfl, rfl⟩

theorem create_device_eq (k : Consts) (o : Ext) (s : spi_hid) :
    spi_hid_create_device k o s =
      (if o.hid_allocate_device_err ≠ 0 then
        (o.hid_allocate_device_err,
          s.emit (Event.hid_allocate_device o.hid_allocate_device_err))
       else if (hid_add_device k o (create_device_attached o s)
          o.hid_allocate_device_hid).1 ≠ 0 then
        ((hid_add_device k o (create_device_attached o s) o.hid_allocate_device_hid).1,
          ({ (hid_add_device k o (create_device_attached o s) o.hid_allocate_device_hid).2
            with hid := none } : spi_hid).emit
            (Event.hid_destroy_device o.hid_allocate_device_hid))
       else (0, (hid_add_device k o (create_device_attached o s)
          o.hid_allocate_device_hid).2)) := by
  obtain ⟨_, _, a3, _⟩ := create_device_attached_fields o s
  obtain ⟨_, _, _, h4, _⟩ := hid_add_device_spec k o (create_device_attached o s)
    o.hid_allocate_device_hid
  obtain ⟨_, _, p3, _⟩ := ll_parse_spec_fields k o (create_device_attached o s)
    o.hid_allocate_device_hid
  have hh : (hid_add_device k o (create_device_attached o s) o.hid_allocate_device_hid).2.hid
      = some o.hid_allocate_device_hid := h4.trans (p3.trans a3)
  unfold spi_hid_create_device
  simp only []
  by_cases ha : o.hid_allocate_device_err ≠ 0
  · rw [if_pos ha, if_pos ha]
  · rw [if_neg ha, if_neg ha]
    by_cases hd : (hid_add_device k o (create_device_attached o s)
        o.hid_allocate_device_hid).1 ≠ 0
    · have hd1 : (hid_add_device k o
          (spi_hid_create_device_attach o
            (s.emit (Event.hid_allocate_device o.hid_allocate_device_err)))
          o.hid_allocate_device_hid).1 ≠ 0 := hd
      rw [if_pos hd1, if_pos hd]
      have hh1 : (spi_hid_disconnect_hid (hid_add_device k o
          (spi_hid_create_device_attach o
            (s.emit (Event.hid_allocate_device o.hid_allocate_device_err)))
          o.hid_allocate_device_hid).2).1 = some o.hid_allocate_device_hid := hh
      split
      · rename_i hid heq
        rw [hh1] at heq
        cases heq
        rfl
      · rename_i heq
        rw [hh1] at heq
        cases heq
    · have hd1 : ¬ (hid_add_device k o
          (spi_hid_create_device_attach o
            (s.emit (Event.hid_allocate_device o.hid_allocate_device_err)))
          o.hid_allocate_device_hid).1 ≠ 0 := hd
      rw [if_neg hd1, if_neg hd]
      rfl
theorem create_device_spec (k : Consts) (o : Ext) (s : spi_hid) :
    (spi_hid_create_device k o s).2.refresh_in_progress = s.refresh_in_progress ∧
    (spi_hid_create_device k o s).2.ready = s.ready ∧
    (∃ new, (spi_hid_create_device k o s).2.log = s.log ++ new ∧ creations new = 1 ∧
      destroys new =
        (if o.hid_allocate_device_err = 0 ∧ (spi_hid_create_device k o s).1 ≠ 0 then
          [o.hid_allocate_device_hid] else [])) ∧
    ((spi_hid_create_device k o s).1 = 0 ↔
      o.hid_allocate_device_err = 0 ∧
      (spi_hid_ll_parse k o (create_device_attached o s) o.hid_allocate_device_hid).1 = 0 ∧
      o.hid_add_device_ret = 0) ∧
    ((spi_hid_create_device k o s).1 = 0 →
      (spi_hid_create_device k o s).2.hid = some o.hid_allocate_device_hid) ∧
    ((spi_hid_create_device k o s).1 ≠ 0 → o.hid_allocate_device_err = 0 ∨ s.hid = none →
      (spi_hid_create_device k o s).2.hid = none) ∧
    (o.hid_allocate_device_err ≠ 0 →
      (spi_hid_create_device k o s).2.report_descriptor_crc32 = s.report_descriptor_crc32 ∧
      (spi_hid_create_device k o s).2.response = s.response) ∧
    (o.hid_allocate_device_err = 0 →
      (spi_hid_create_device k o s).2.report_descriptor_crc32 =
        (spi_hid_ll_parse k o (create_device_attached o s)
          o.hid_allocate_device_hid).2.report_descriptor_crc32 ∧
      (spi_hid_create_device k o s).2.response =
        (spi_hid_ll_parse k o (create_device_attached o s)
          o.hid_allocate_device_hid).2.response) := by
  obtain ⟨a1, a2, a3, a4, a5, a6, a7⟩ := create_device_attached_fields o s
  obtain ⟨h1, h2, h3, h4, h5, h6, h7⟩ := hid_add_device_spec k o (create_device_attached o s)
    o.hid_allocate_device_hid
  obtain ⟨p1, p2, p3, ⟨pnew, p4, p5, p6⟩, _⟩ := ll_parse_spec_fields k o
    (create_device_attached o s) o.hid_allocate_device_hid
  have hA0 : (hid_add_device k o (create_device_attached o s) o.hid_allocate_device_hid).1 = 0 ↔
      (spi_hid_ll_parse k o (create_device_attached o s) o.hid_allocate_device_hid).1 = 0 ∧
      o.hid_add_device_ret = 0 := by
    rw [h1]
    by_cases hp : (spi_hid_ll_parse k o (create_device_attached o s)
        o.hid_allocate_device_hid).1 = 0
    · rw [if_neg (not_not.mpr hp)]
      exact ⟨fun h => ⟨hp, h⟩, fun h => h.2⟩
    · rw [if_pos hp]
      exact ⟨fun h => absurd h hp, fun h => absurd h.1 hp⟩
  have hlog : (hid_add_device k o (create_device_attached o s) o.hid_allocate_device_hid).2.log
      = s.log ++ (Event.hid_allocate_device o.hid_allocate_device_err :: pnew ++
        [Event.hid_add_device o.hid_allocate_device_hid
          (hid_add_device k o (create_device_attached o s) o.hid_allocate_device_hid).1]) := by
    rw [h7, p4, a4]
    simp
  have hc : creations (Event.hid_allocate_device o.hid_allocate_device_err :: pnew ++
        [Event.hid_add_device o.hid_allocate_device_hid
          (hid_add_device k o (create_device_attached o s) o.hid_allocate_device_hid).1]) = 1 := by
    rw [creations_append, creations_cons, p6]
    rfl
  have hd : destroys (Event.hid_allocate_device o.hid_allocate_device_err :: pnew ++
        [Event.hid_add_device o.hid_allocate_device_hid
          (hid_add_device k o (create_device_attached o s) o.hid_allocate_device_hid).1]) = [] := by
    rw [destroys_append, destroys_cons, p5]
    rfl
  rw [create_device_eq]
  by_cases ha : o.hid_allocate_device_err ≠ 0
  · rw [if_pos ha]
    refine ⟨rfl, rfl, ⟨[Event.hid_allocate_device o.hid_allocate_device_err], rfl, rfl, ?_⟩,
      ⟨fun h => absurd h ha, fun h => absurd h.1 ha⟩, fun h => absurd h ha,
      fun _ h => ?_, fun _ => ⟨rfl, rfl⟩, fun h => absurd h ha⟩
    · rw [if_neg (fun h => ha h.1)]
      rfl
    · rcases h with h | h
      · exact absurd h ha
      · exact h
  · have ha0 : o.hid_allocate_device_err = 0 := not_not.mp ha
    rw [if_neg ha]
    by_cases hf : (hid_add_device k o (create_device_attached o s)
        o.hid_allocate_device_hid).1 ≠ 0
    · rw [if_pos hf]
      refine ⟨h2.trans (p1.trans a1), h3.trans (p2.trans a2),
        ⟨Event.hid_allocate_device o.hid_allocate_device_err :: pnew ++
          [Event.hid_add_device o.hid_allocate_device_hid
            (hid_add_device k o (create_device_attached o s) o.hid_allocate_device_hid).1]
          ++ [Event.hid_destroy_device o.hid_allocate_device_hid], ?_, ?_, ?_⟩,
        ⟨fun h => absurd h hf, fun h => absurd (hA0.mpr h.2) hf⟩, fun h => absurd h hf,
        fun _ _ => rfl, fun h => absurd ha0 h, fun _ => ⟨h5, h6⟩⟩
      · show (hid_add_device k o (create_device_attached o s)
          o.hid_allocate_device_hid).2.log ++ [_] = _
        rw [hlog, List.append_assoc]
      · rw [creations_append, hc]
        rfl
      · rw [destroys_append, hd, if_pos ⟨ha0, hf⟩]
        rfl
    · have hf0 := not_not.mp hf
      rw [if_neg hf]
      refine ⟨h2.trans (p1.trans a1), h3.trans (p2.trans a2),
        ⟨_, hlog, hc, ?_⟩,
        ⟨fun _ => ⟨ha0, hA0.mp hf0⟩, fun _ => rfl⟩, fun _ => h4.trans (p3.trans a3),
        fun h => absurd rfl h, fun h => absurd ha0 h, fun _ => ⟨h5, h6⟩⟩
      rw [hd, if_neg (fun h => h.2 rfl)]

theorem refresh_detach_fields (s : spi_hid) :
    (spi_hid_refresh_device_work_detach s).hid = none ∧
    (spi_hid_refresh_device_work_detach s).refresh_in_progress = s.refresh_in_progress ∧
    (spi_hid_refresh_device_work_detach s).ready = s.ready ∧
    (spi_hid_refresh_device_work_detach s).report_descriptor_crc32
      = s.report_descriptor_crc32 ∧
    (spi_hid_refresh_device_work_detach s).response = s.response ∧
    (∃ pre, (spi_hid_refresh_device_work_detach s).log = s.log ++ pre ∧
      destroys pre = s.hid.toList ∧ creations pre = 0) ∧
    spi_hid_is_mshw0231 (spi_hid_refresh_device_work_detach s) = spi_hid_is_mshw0231 s := by
  simp only [spi_hid_refresh_device_work_detach, spi_hid_disconnect_hid]
  cases hh : s.hid with
  | none => exact ⟨rfl, rfl, rfl, rfl, rfl, ⟨[], by simp, rfl, rfl⟩, rfl⟩
  | some hid =>
    exact ⟨rfl, rfl, rfl, rfl, rfl, ⟨[Event.hid_destroy_device hid], rfl, rfl, rfl⟩, rfl⟩

theorem refresh_recreate_spec (k : Consts) (o : Ext) (s : spi_hid) :
    (∃ new, (spi_hid_refresh_device_work_recreate k o s).log = s.log ++ new ∧
      creations new = 1 ∧
      destroys new = s.hid.toList ++
        (if o.hid_allocate_device_err = 0 ∧
            (spi_hid_create_device k o (spi_hid_refresh_device_work_detach s)).1 ≠ 0 then
          [o.hid_allocate_device_hid] else [])) ∧
    ((spi_hid_create_device k o (spi_hid_refresh_device_work_detach s)).1 = 0 →
      (spi_hid_refresh_device_work_recreate k o s).ready = true ∧
      (spi_hid_refresh_device_work_recreate k o s).refresh_in_progress = false ∧
      (spi_hid_refresh_device_work_recreate k o s).hid = some o.hid_allocate_device_hid) ∧
    ((spi_hid_create_device k o (spi_hid_refresh_device_work_detach s)).1 ≠ 0 →
      (spi_hid_refresh_device_work_recreate k o s).refresh_in_progress
        = s.refresh_in_progress ∧
      (spi_hid_refresh_device_work_recreate k o s).ready = s.ready ∧
      (spi_hid_refresh_device_work_recreate k o s).hid = none) ∧
    (spi_hid_refresh_device_work_recreate k o s).report_descriptor_crc32 =
      (spi_hid_create_device k o
        (spi_hid_refresh_device_work_detach s)).2.report_descriptor_crc32 ∧
    (spi_hid_refresh_device_work_recreate k o s).response =
      (spi_hid_create_device k o (spi_hid_refresh_device_work_detach s)).2.response := by
  obtain ⟨d1, d2, d3, d4, d5, ⟨pre, d6, d7, d8⟩, _⟩ := refresh_detach_fields s
  obtain ⟨c1, c2, ⟨new, c3, c4, c5⟩, c6, c7, c8, _⟩ := create_device_spec k o
    (spi_hid_refresh_device_work_detach s)
  unfold spi_hid_refresh_device_work_recreate
  simp only []
  by_cases hok : (spi_hid_create_device k o (spi_hid_refresh_device_work_detach s)).1 ≠ 0
  · rw [if_pos hok]
    refine ⟨⟨pre ++ new, ?_, ?_, ?_⟩, fun h => absurd h hok,
      fun _ => ⟨c1.trans d2, c2.trans d3, c8 hok (Or.inr d1)⟩, rfl, rfl⟩
    · rw [c3, d6, List.append_assoc]
    · rw [creations_append, d8, c4]
    · rw [destroys_append, d7, c5]
  · rw [if_neg hok]
    refine ⟨⟨pre ++ new ++ [Event.sysfs_notify_ready], ?_, ?_, ?_⟩,
      fun h => ⟨rfl, rfl, c7 h⟩, fun h => absurd h hok, rfl, rfl⟩
    · show (spi_hid_create_device k o (spi_hid_refresh_device_work_detach s)).2.log ++ [_] = _
      rw [c3, d6]
      simp
    · rw [creations_append, creations_append, d8, c4]
      rfl
    · rw [destroys_append, destroys_append, d7, c5]
      simp [destroys]
theorem refresh_device_work_cases (k : Consts) (o : Ext) (s : spi_hid)
    (hv : s.desc.hid_version = k.SPI_HID_SUPPORTED_VERSION)
    (hp : s.power_state ≠ SPI_HID_POWER_MODE.OFF)
    (hfetch : 0 ≤ (spi_hid_report_descriptor_request k o
      (s.emit Event.trace_refresh_device_work)).1) :
    (∃ new, (spi_hid_report_descriptor_request k o (s.emit Event.trace_refresh_device_work)).2.log
        = s.log ++ new ∧
      destroys new = [] ∧ creations new = 0) ∧
    (spi_hid_report_descriptor_request k o (s.emit Event.trace_refresh_device_work)).2.hid
      = s.hid ∧
    (spi_hid_report_descriptor_request k o (s.emit Event.trace_refresh_device_work)).2.ready
      = s.ready ∧
    (spi_hid_report_descriptor_request k o
      (s.emit Event.trace_refresh_device_work)).2.refresh_in_progress = s.refresh_in_progress ∧
    (spi_hid_report_descriptor_request k o
      (s.emit Event.trace_refresh_device_work)).2.report_descriptor_crc32
      = s.report_descriptor_crc32 ∧
    (spi_hid_report_descriptor_request k o
      (s.emit Event.trace_refresh_device_work)).2.response = s.response ∧
    spi_hid_is_mshw0231 (spi_hid_report_descriptor_request k o
      (s.emit Event.trace_refresh_device_work)).2 = spi_hid_is_mshw0231 s ∧
    (refresh_device_work_crc32 k o s = s.report_descriptor_crc32 →
      spi_hid_refresh_device_work k o s =
        ({ (spi_hid_report_descriptor_request k o (s.emit Event.trace_refresh_device_work)).2
          with ready := true } : spi_hid).emit Event.sysfs_notify_ready) ∧
    (refresh_device_work_crc32 k o s ≠ s.report_descriptor_crc32 →
      spi_hid_refresh_device_work k o s =
        spi_hid_refresh_device_work_recreate k o
          { (spi_hid_report_descriptor_request k o (s.emit Event.trace_refresh_device_work)).2
            with report_descriptor_crc32 := refresh_device_work_crc32 k o s,
                 refresh_in_progress := true }) := by
  obtain ⟨new, hre⟩ := report_descriptor_request_effect k o
    (s.emit Event.trace_refresh_device_work)
  obtain ⟨f1, f2, f3, g4, g5, g6, g7, _⟩ := request_effect_fields _ _ _ hre
  have f4 : (spi_hid_report_descriptor_request k o
      (s.emit Event.trace_refresh_device_work)).2.hid = s.hid := g4
  have f5 : (spi_hid_report_descriptor_request k o
      (s.emit Event.trace_refresh_device_work)).2.ready = s.ready := g5
  have f6 : (spi_hid_report_descriptor_request k o
      (s.emit Event.trace_refresh_device_work)).2.refresh_in_progress
      = s.refresh_in_progress := g6
  have f7 : (spi_hid_report_descriptor_request k o
      (s.emit Event.trace_refresh_device_work)).2.report_descriptor_crc32
      = s.report_descriptor_crc32 := g7
  obtain ⟨q1, q2, _⟩ := request_events_quiet new hre.2
  have he : spi_hid_refresh_device_work k o s =
      spi_hid_refresh_device_work_compare k o
        (spi_hid_report_descriptor_request k o (s.emit Event.trace_refresh_device_work)).2
        (spi_hid_report_descriptor_request k o (s.emit Event.trace_refresh_device_work)).1 := by
    have hv1 : ¬ (s.emit Event.trace_refresh_device_work).desc.hid_version
        ≠ k.SPI_HID_SUPPORTED_VERSION := not_not.mpr hv
    have hp1 : ¬ (s.emit Event.trace_refresh_device_work).power_state
        = SPI_HID_POWER_MODE.OFF := hp
    simp only [spi_hid_refresh_device_work]
    rw [if_neg hv1, if_neg hp1, if_neg (by omega)]
  have hcrc : crc32_le 0
      (spi_hid_report_descriptor_request k o
        (s.emit Event.trace_refresh_device_work)).2.response.content
      (spi_hid_report_descriptor_request k o
        (s.emit Event.trace_refresh_device_work)).1.toNat = refresh_device_work_crc32 k o s := by
    rw [f2]; rfl
  have hb := fun {α : Type} (f : spi_hid → α) => congrArg f hre.1
  have f8 : spi_hid_is_mshw0231 (spi_hid_report_descriptor_request k o
      (s.emit Event.trace_refresh_device_work)).2 = spi_hid_is_mshw0231 s :=
    hb spi_hid.name_has_MSHW0231
  refine ⟨⟨Event.trace_refresh_device_work :: new, ?_, ?_, ?_⟩, f4, f5, f6, f7, f2, f8, ?_, ?_⟩
  · rw [f1]; simp [spi_hid.emit]
  · rw [destroys_cons, q1]; rfl
  · rw [creations_cons, q2]; rfl
  · intro h
    rw [he]
    simp only [spi_hid_refresh_device_work_compare]
    rw [hcrc, f7]
    rw [if_pos h]
  · intro h
    rw [he]
    simp only [spi_hid_refresh_device_work_compare]
    rw [hcrc, f7]
    rw [if_neg h]


theorem before_create_fields (k : Consts) (o : Ext) (s : spi_hid)
    (hv : s.desc.hid_version = k.SPI_HID_SUPPORTED_VERSION)
    (hp : s.power_state ≠ SPI_HID_POWER_MODE.OFF)
    (hfetch : 0 ≤ (spi_hid_report_descriptor_request k o
      (s.emit Event.trace_refresh_device_work)).1) :
    (refresh_device_work_before_create k o s).hid = none ∧
    (refresh_device_work_before_create k o s).refresh_in_progress = true ∧
    (refresh_device_work_before_create k o s).ready = s.ready ∧
    (refresh_device_work_before_create k o s).report_descriptor_crc32
      = refresh_device_work_crc32 k o s ∧
    (refresh_device_work_before_create k o s).response = s.response ∧
    spi_hid_is_mshw0231 (refresh_device_work_before_create k o s) = spi_hid_is_mshw0231 s ∧
    (∃ pre, (refresh_device_work_before_create k o s).log = s.log ++ pre ∧
      destroys pre = s.hid.toList ∧ creations pre = 0) ∧
    (refresh_device_work_crc32 k o s ≠ s.report_descriptor_crc32 →
      spi_hid_refresh_device_work k o s =
        (if (spi_hid_create_device k o (refresh_device_work_before_create k o s)).1 ≠ 0 then
          (spi_hid_create_device k o (refresh_device_work_before_create k o s)).2
         else
          ({ (spi_hid_create_device k o (refresh_device_work_before_create k o s)).2 with
              refresh_in_progress := false, ready := true } : spi_hid).emit
            Event.sysfs_notify_ready)) := by
  obtain ⟨⟨new, l1, q1, q2⟩, f4, f5, f6, f7, f2, f8, _, hdiff⟩ :=
    refresh_device_work_cases k o s hv hp hfetch
  obtain ⟨d1, d2, d3, d4, d5, ⟨pre, d6, d7, d8⟩, d9⟩ := refresh_detach_fields
    { (spi_hid_report_descriptor_request k o (s.emit Event.trace_refresh_device_work)).2 with
      report_descriptor_crc32 := refresh_device_work_crc32 k o s,
      refresh_in_progress := true }
  refine ⟨d1, d2, d3.trans f5, d4, d5.trans f2, d9.trans f8, ⟨new ++ pre, ?_, ?_, ?_⟩, ?_⟩
  · refine d6.trans ?_
    show (spi_hid_report_descriptor_request k o
      (s.emit Event.trace_refresh_device_work)).2.log ++ pre = _
    rw [l1, List.append_assoc]
  · rw [destroys_append, q1, d7]
    show [] ++ (spi_hid_report_descriptor_request k o
      (s.emit Event.trace_refresh_device_work)).2.hid.toList = _
    rw [f4]
    rfl
  · rw [creations_append, q2, d8]
  · intro h
    rw [hdiff h]
    rfl

/-- C23 as stated fails: in the MSHW0231 session `shid_mshw_refresh` the checksum of the
fetched bytes differs from the stored one, the consumer 1 is destroyed and the
consumer 2 created, and when `spi_hid_refresh_device_work` returns the stored checksum
is the one stored before, not that of the fetched bytes: `spi_hid_ll_parse`, called
while the new consumer is added, stores the checksum of the built-in descriptor. -/
theorem refresh_device_work_spec_counterexample :
    refresh_device_work_crc32 consts0 ext_ok shid_mshw_refresh
      ≠ shid_mshw_refresh.report_descriptor_crc32 ∧
    (spi_hid_refresh_device_work consts0 ext_ok shid_mshw_refresh).report_descriptor_crc32
      = shid_mshw_refresh.report_descriptor_crc32 ∧
    destroys (spi_hid_refresh_device_work consts0 ext_ok shid_mshw_refresh).log = [1] ∧
    creations (spi_hid_refresh_device_work consts0 ext_ok shid_mshw_refresh).log = 1 ∧
    (spi_hid_refresh_device_work consts0 ext_ok shid_mshw_refresh).hid = some 2 ∧
    (spi_hid_refresh_device_work consts0 ext_ok shid_mshw_refresh).ready = true ∧
    (spi_hid_refresh_device_work consts0 ext_ok shid_mshw_refresh).refresh_in_progress
      = false := by
  decide

/-- C23, amended: in `spi_hid_refresh_device_work` with the supported descriptor
version, the power state not Off and a successful report descriptor fetch (result not
negative): when the CRC-32 of the fetched bytes equals the stored checksum, the
session is marked ready, the consumer stays attached, nothing is destroyed or created
and the stored checksum stays; when it differs, the stored checksum is replaced by
the new one (in the session in which the creation starts), the consumer that was
attached is destroyed once and one creation of a consumer is attempted (a consumer
whose registration fails is destroyed again); the creation succeeds exactly when the
allocation, the parse of the report descriptor and the registration succeed, and then
the session is ready, `refresh_in_progress` is false and the new consumer is
attached.  When the function returns the stored checksum is the new one if the
allocation or the parse failed, and otherwise the one `spi_hid_ll_parse` stored: the
checksum of the descriptor bytes in the response buffer, on an MSHW0231 device that
of the built-in touchscreen descriptor. -/
theorem refresh_device_work_spec (k : Consts) (o : Ext) (s : spi_hid)
    (hv : s.desc.hid_version = k.SPI_HID_SUPPORTED_VERSION)
    (hp : s.power_state ≠ SPI_HID_POWER_MODE.OFF)
    (hfetch : 0 ≤ (spi_hid_report_descriptor_request k o
      (s.emit Event.trace_refresh_device_work)).1) :
    (refresh_device_work_crc32 k o s = s.report_descriptor_crc32 →
      (spi_hid_refresh_device_work k o s).ready = true ∧
      (spi_hid_refresh_device_work k o s).hid = s.hid ∧
      destroys (spi_hid_refresh_device_work k o s).log = destroys s.log ∧
      creations (spi_hid_refresh_device_work k o s).log = creations s.log ∧
      (spi_hid_refresh_device_work k o s).report_descriptor_crc32 = s.report_descriptor_crc32 ∧
      (spi_hid_refresh_device_work k o s).refresh_in_progress = s.refresh_in_progress) ∧
    (refresh_device_work_crc32 k o s ≠ s.report_descriptor_crc32 →
      (refresh_device_work_before_create k o s).report_descriptor_crc32
        = refresh_device_work_crc32 k o s ∧
      creations (spi_hid_refresh_device_work k o s).log = creations s.log + 1 ∧
      destroys (spi_hid_refresh_device_work k o s).log =
        destroys s.log ++ s.hid.toList ++
          (if o.hid_allocate_device_err = 0 ∧
              (spi_hid_create_device k o (refresh_device_work_before_create k o s)).1 ≠ 0 then
            [o.hid_allocate_device_hid] else []) ∧
      ((spi_hid_create_device k o (refresh_device_work_before_create k o s)).1 = 0 ↔
        o.hid_allocate_device_err = 0 ∧
        (spi_hid_ll_parse k o
          (create_device_attached o (refresh_device_work_before_create k o s))
          o.hid_allocate_device_hid).1 = 0 ∧
        o.hid_add_device_ret = 0) ∧
      ((spi_hid_create_device k o (refresh_device_work_before_create k o s)).1 = 0 →
        (spi_hid_refresh_device_work k o s).ready = true ∧
        (spi_hid_refresh_device_work k o s).refresh_in_progress = false ∧
        (spi_hid_refresh_device_work k o s).hid = some o.hid_allocate_device_hid) ∧
      (o.hid_allocate_device_err ≠ 0 ∨
          (spi_hid_ll_parse k o
            (create_device_attached o (refresh_device_work_before_create k o s))
            o.hid_allocate_device_hid).1 ≠ 0 →
        (spi_hid_refresh_device_work k o s).report_descriptor_crc32
          = refresh_device_work_crc32 k o s) ∧
      (o.hid_allocate_device_err = 0 →
        (spi_hid_ll_parse k o
          (create_device_attached o (refresh_device_work_before_create k o s))
          o.hid_allocate_device_hid).1 = 0 →
        (spi_hid_refresh_device_work k o s).report_descriptor_crc32 =
          crc32_le 0 (spi_hid_refresh_device_work k o s).response.content
            (ll_parse_length k o
              (create_device_attached o (refresh_device_work_before_create k o s))).toNat ∧
        (spi_hid_is_mshw0231 s = true →
          (spi_hid_refresh_device_work k o s).report_descriptor_crc32 =
            crc32_le 0 touchscreen_descriptor touchscreen_descriptor.length))) := by
  obtain ⟨⟨new, l1, d1, c1⟩, f4, f5, f6, f7, _, _, hsame, _⟩ :=
    refresh_device_work_cases k o s hv hp hfetch
  constructor
  · intro h
    rw [hsame h]
    refine ⟨rfl, f4, ?_, ?_, f7, f6⟩
    · show destroys (_ ++ [Event.sysfs_notify_ready]) = _
      rw [l1, destroys_append, destroys_append, d1]; simp [destroys]
    · show creations (_ ++ [Event.sysfs_notify_ready]) = _
      rw [l1, creations_append, creations_append, c1]; simp [creations]
  · intro h
    obtain ⟨b1, b2, b3, b4, b5, b6, ⟨pre, b7, b8, b9⟩, b10⟩ :=
      before_create_fields k o s hv hp hfetch
    obtain ⟨c1, c2, ⟨cnew, c3, c4, c5⟩, c6, c7, c8, c9, c10⟩ := create_device_spec k o
      (refresh_device_work_before_create k o s)
    obtain ⟨a1, a2, a3, a4, a5, a6, a7⟩ := create_device_attached_fields o
      (refresh_device_work_before_create k o s)
    obtain ⟨p1, p2, p3, p4, p5, p6, p7, _⟩ := ll_parse_spec_fields k o
      (create_device_attached o (refresh_device_work_before_create k o s))
      o.hid_allocate_device_hid
    have hfin : (spi_hid_refresh_device_work k o s).log =
          (spi_hid_create_device k o (refresh_device_work_before_create k o s)).2.log ++
            (if (spi_hid_create_device k o (refresh_device_work_before_create k o s)).1 ≠ 0
              then [] else [Event.sysfs_notify_ready]) ∧
        (spi_hid_refresh_device_work k o s).report_descriptor_crc32 =
          (spi_hid_create_device k o
            (refresh_device_work_before_create k o s)).2.report_descriptor_crc32 ∧
        (spi_hid_refresh_device_work k o s).response =
          (spi_hid_create_device k o (refresh_device_work_before_create k o s)).2.response ∧
        ((spi_hid_create_device k o (refresh_device_work_before_create k o s)).1 = 0 →
          (spi_hid_refresh_device_work k o s).ready = true ∧
          (spi_hid_refresh_device_work k o s).refresh_in_progress = false ∧
          (spi_hid_refresh_device_work k o s).hid =
            (spi_hid_create_device k o (refresh_device_work_before_create k o s)).2.hid) := by
      rw [b10 h]
      by_cases hc : (spi_hid_create_device k o (refresh_device_work_before_create k o s)).1 ≠ 0
      · rw [if_pos hc, if_pos hc, List.append_nil]
        exact ⟨rfl, rfl, rfl, fun h0 => absurd h0 hc⟩
      · rw [if_neg hc, if_neg hc]
        exact ⟨rfl, rfl, rfl, fun _ => ⟨rfl, rfl, rfl⟩⟩
    obtain ⟨g1, g2, g3, g4⟩ := hfin
    have hq : ∀ x : Int, creations (if x ≠ 0 then [] else [Event.sysfs_notify_ready]) = 0 ∧
        destroys (if x ≠ 0 then [] else [Event.sysfs_notify_ready]) = [] := by
      intro x
      split_ifs <;> exact ⟨rfl, rfl⟩
    refine ⟨b4, ?_, ?_, c6, ?_, ?_, ?_⟩
    · rw [g1, c3, b7, creations_append, creations_append, creations_append, b9, c4, (hq _).1]
    · rw [g1, c3, b7, destroys_append, destroys_append, destroys_append, b8, c5, (hq _).2,
        List.append_nil]
    · intro h0
      obtain ⟨r1, r2, r3⟩ := g4 h0
      exact ⟨r1, r2, r3.trans (c7 h0)⟩
    · intro h0
      rw [g2]
      by_cases ha : o.hid_allocate_device_err = 0
      · have hp0 : (spi_hid_ll_parse k o
            (create_device_attached o (refresh_device_work_before_create k o s))
            o.hid_allocate_device_hid).1 ≠ 0 := by
          rcases h0 with h0 | h0
          · exact absurd ha h0
          · exact h0
        rw [(c10 ha).1, p5 hp0, a5, b4]
      · rw [(c9 ha).1, b4]
    · intro ha hp0
      rw [g2, g3, (c10 ha).1, (c10 ha).2]
      refine ⟨p6 hp0, fun hm => ?_⟩
      exact (p7 (a7.trans (b6.trans hm))).2 hp0

/-- C23, amended, at the session `shid_refresh_changed` (not an MSHW0231 device, consumer
1 attached, stored checksum 0, fetched bytes 05 0D 09 04) with every call succeeding:
consumer 1 is destroyed, consumer 2 is created and attached, the session is ready and
the stored checksum is that of the descriptor bytes. -/
theorem refresh_device_work_spec_witness :
    destroys (spi_hid_refresh_device_work consts0 ext_ok shid_refresh_changed).log = [1] ∧
    (spi_hid_refresh_device_work consts0 ext_ok shid_refresh_changed).ready = true ∧
    (spi_hid_refresh_device_work consts0 ext_ok shid_refresh_changed).refresh_in_progress
      = false ∧
    (spi_hid_refresh_device_work consts0 ext_ok shid_refresh_changed).hid = some 2 ∧
    (spi_hid_refresh_device_work consts0 ext_ok shid_refresh_changed).report_descriptor_crc32
      = 3920174129 :=
  ⟨((refresh_device_work_spec consts0 ext_ok shid_refresh_changed (by decide) (by decide)
      (by decide)).2 (by decide)).2.2.1.trans (by decide),
   (((refresh_device_work_spec consts0 ext_ok shid_refresh_changed (by decide) (by decide)
      (by decide)).2 (by decide)).2.2.2.2.1 (by decide)).1,
   (((refresh_device_work_spec consts0 ext_ok shid_refresh_changed (by decide) (by decide)
      (by decide)).2 (by decide)).2.2.2.2.1 (by decide)).2.1,
   (((refresh_device_work_spec consts0 ext_ok shid_refresh_changed (by decide) (by decide)
      (by decide)).2 (by decide)).2.2.2.2.1 (by decide)).2.2,
   ((((refresh_device_work_spec consts0 ext_ok shid_refresh_changed (by decide) (by decide)
      (by decide)).2 (by decide)).2.2.2.2.2.2 (by decide) (by decide)).1).trans (by decide)⟩
theorem input_async_refresh_flag (k : Consts) (o : Ext) (t : spi_hid) (rx : RxBuf) (len : Nat)
    (cb : Callback) :
    (spi_hid_input_async k o t rx len cb).2.refresh_in_progress = t.refresh_in_progress := by
  simp only [spi_hid_input_async]
  split_ifs <;> rfl

theorem dev_irq_refresh_flag (k : Consts) (o : Ext) (s : spi_hid) :
    (spi_hid_dev_irq k o s).refresh_in_progress = s.refresh_in_progress := by
  have h : (spi_hid_bus_input_report k o s).2.refresh_in_progress = s.refresh_in_progress := by
    simp only [spi_hid_bus_input_report]
    split_ifs
    · rfl
    · exact input_async_refresh_flag k o _ _ _ _
    · exact input_async_refresh_flag k o _ _ _ _
  simp only [spi_hid_dev_irq]
  split_ifs
  · exact h
  · exact h

theorem output_effect_refresh_flag (s1 s2 : spi_hid) (new : List Event)
    (h : output_effect s1 s2 new) : s2.refresh_in_progress = s1.refresh_in_progress := by
  have hb := fun {α : Type} (f : spi_hid → α) => congrArg f h.1
  exact hb spi_hid.refresh_in_progress

theorem command_effect_refresh_flag (s1 s2 : spi_hid) (new : List Event)
    (h : command_effect s1 s2 new) : s2.refresh_in_progress = s1.refresh_in_progress := by
  have hb := fun {α : Type} (f : spi_hid → α) => congrArg f h.1
  exact hb spi_hid.refresh_in_progress

theorem handshake_refresh_flag (k : Consts) (o : Ext) (s : spi_hid)
    (header : spi_hid_input_header) :
    (spi_hid_process_input_report_handshake k o s header).2.refresh_in_progress
      = s.refresh_in_progress := by
  unfold spi_hid_process_input_report_handshake
  simp only []
  split_ifs with h1 h2 h3
  · rfl
  · obtain ⟨new, h⟩ := handshake_commands_effect k o (s.init_responses + 1)
      (schedule_work { s with init_responses := s.init_responses + 1, ready := true }
        Work.create_device_work)
    have hf := command_effect_refresh_flag _ _ _ h
    exact hf
  · obtain ⟨new, h⟩ := handshake_commands_effect k o (s.init_responses + 1)
      { s with init_responses := s.init_responses + 1, ready := true }
    have hf := command_effect_refresh_flag _ _ _ h
    exact hf
  · rfl

theorem set_buf_refresh_flag (s : spi_hid) (b : BufSel) (v : spi_hid_input_buf) :
    (s.set_buf b v).refresh_in_progress = s.refresh_in_progress := by
  cases b <;> rfl

theorem signature_refresh_flag (k : Consts) (s : spi_hid) (b : BufSel) :
    (spi_hid_input_report_handler_signature k s b).refresh_in_progress
      = s.refresh_in_progress := by
  simp only [spi_hid_input_report_handler_signature]
  split_ifs
  · exact set_buf_refresh_flag s b _
  · rfl

theorem input_report_handler_refresh_flag (k : Consts) (o : Ext) (s : spi_hid) (b : BufSel) :
    (spi_hid_input_report_handler k o s b).2.refresh_in_progress = s.refresh_in_progress := by
  simp only [spi_hid_input_report_handler]
  split_ifs <;> (try split) <;> first
    | rfl
    | exact signature_refresh_flag k _ b

theorem response_handler_refresh_flag (s : spi_hid) (b : BufSel) :
    (spi_hid_response_handler s b).2.refresh_in_progress = s.refresh_in_progress := by
  simp only [spi_hid_response_handler]
  split_ifs <;> rfl

theorem process_input_report_switch_refresh_flag (k : Consts) (o : Ext) (s : spi_hid)
    (b : BufSel) (h : spi_hid_input_header) :
    (spi_hid_process_input_report_switch k o s b h).2.refresh_in_progress
      = s.refresh_in_progress := by
  simp only [spi_hid_process_input_report_switch]
  split_ifs
  · exact input_report_handler_refresh_flag k o s b
  · rfl
  · rfl
  · rfl
  · rfl
  · exact response_handler_refresh_flag s b
  · exact response_handler_refresh_flag s b
  · refine (input_report_handler_refresh_flag k o _ b).trans ?_
    split <;> rfl
  · exact input_report_handler_refresh_flag k o _ b
  · rfl

theorem process_input_report_refresh_flag (k : Consts) (o : Ext) (s : spi_hid) (b : BufSel) :
    (spi_hid_process_input_report k o s b).2.refresh_in_progress = s.refresh_in_progress := by
  simp only [spi_hid_process_input_report]
  split_ifs
  · exact handshake_refresh_flag k o _ _
  · rfl
  · rfl
  · exact process_input_report_switch_refresh_flag k o _ b _

theorem validate_header_refresh_flag (k : Consts) (t : spi_hid) (h : spi_hid_input_header) :
    (spi_hid_bus_validate_header k t h).2.2.refresh_in_progress = t.refresh_in_progress := by
  obtain ⟨w, i, e⟩ := validate_header_session k t h
  rw [e]

theorem input_header_complete_refresh_flag (k : Consts) (o : Ext) (s : spi_hid) :
    (spi_hid_input_header_complete k o s).refresh_in_progress = s.refresh_in_progress := by
  have hv := validate_header_refresh_flag k (s.emit Event.trace_input_header_complete)
    (spi_hid_populate_input_header (s.emit Event.trace_input_header_complete).input.header)
  have hroute : ∀ (t : spi_hid) (rt : Nat),
      (spi_hid_input_header_complete_route k t rt).refresh_in_progress
        = t.refresh_in_progress := by
    intro t rt
    simp only [spi_hid_input_header_complete_route]
    split_ifs <;> rfl
  simp only [spi_hid_input_header_complete]
  split_ifs
  · rfl
  · rfl
  · rfl
  · exact hv
  · exact (input_async_refresh_flag k o _ _ _ _).trans ((hroute _ _).trans hv)
  · exact (input_async_refresh_flag k o _ _ _ _).trans ((hroute _ _).trans hv)

theorem input_body_complete_refresh_flag (k : Consts) (o : Ext) (s : spi_hid) :
    (spi_hid_input_body_complete k o s).refresh_in_progress = s.refresh_in_progress := by
  have hnext : ∀ t : spi_hid,
      (spi_hid_input_body_complete_next k o t).refresh_in_progress = t.refresh_in_progress := by
    intro t
    simp only [spi_hid_input_body_complete_next]
    split_ifs
    · exact input_async_refresh_flag k o _ _ _ _
    · rfl
  have hproc := process_input_report_refresh_flag k o (spi_hid_input_body_complete_begin s)
    (spi_hid_select_buf k (spi_hid_populate_input_header
      (spi_hid_input_body_complete_begin s).input.header).report_type)
  have hbegin : (spi_hid_input_body_complete_begin s).refresh_in_progress
      = s.refresh_in_progress := rfl
  unfold spi_hid_input_body_complete
  by_cases hp0 : (!s.powered) = true
  · rw [if_pos hp0]
  · rw [if_neg hp0]
    dsimp only
    by_cases hst : (spi_hid_input_body_complete_begin s).input_message_status < 0
    · rw [if_pos hst]
      exact hbegin
    · rw [if_neg hst]
      by_cases hoff : (spi_hid_input_body_complete_begin s).power_state = SPI_HID_POWER_MODE.OFF
      · rw [if_pos hoff]
        exact hbegin
      · rw [if_neg hoff]
        by_cases hr : (spi_hid_process_input_report k o (spi_hid_input_body_complete_begin s)
            (spi_hid_select_buf k (spi_hid_populate_input_header
              (spi_hid_input_body_complete_begin s).input.header).report_type)).1 ≠ 0
        · rw [if_pos hr]
          have hs : ∀ (t : spi_hid) (w : Work),
              (schedule_work t w).refresh_in_progress = t.refresh_in_progress :=
            fun _ _ => rfl
          rw [hs, hproc]
          exact hbegin
        · rw [if_neg hr]
          rw [hnext, hproc]
          exact hbegin

theorem spi_complete_refresh_flag (k : Consts) (o : Ext) (status : Int) (data : List Nat)
    (s : spi_hid) :
    (spi_complete k o status data s).refresh_in_progress = s.refresh_in_progress := by
  have hrecv : ∀ (t : spi_hid) (rx : RxBuf) (len : Nat),
      (spi_receive t rx len data).refresh_in_progress = t.refresh_in_progress := by
    intro t rx len
    cases rx with
    | header b => exact set_buf_refresh_flag _ _ _
    | body b => exact set_buf_refresh_flag _ _ _
  have hdel : (spi_deliver status data s).refresh_in_progress = s.refresh_in_progress := by
    simp only [spi_deliver]
    split
    · rfl
    · exact hrecv _ _ _
  simp only [spi_complete]
  split
  · rfl
  · split
    · exact (input_header_complete_refresh_flag k o _).trans hdel
    · exact (input_body_complete_refresh_flag k o _).trans hdel
theorem spi_complete_output_refresh_flag (s : spi_hid) :
    (spi_complete_output s).refresh_in_progress = s.refresh_in_progress := by
  simp only [spi_complete_output]
  split_ifs <;> rfl

theorem power_down_refresh_flag (o : Ext) (s : spi_hid) :
    (spi_hid_power_down o s).2.refresh_in_progress = s.refresh_in_progress := by
  simp only [spi_hid_power_down]
  split_ifs <;> rfl

theorem stop_hid_refresh_flag (s : spi_hid) :
    (spi_hid_stop_hid s).refresh_in_progress = s.refresh_in_progress := by
  simp only [spi_hid_stop_hid]
  split <;> rfl

theorem reset_via_acpi_refresh_flag (o : Ext) (s : spi_hid) :
    (spi_hid_reset_via_acpi o s).2.refresh_in_progress = s.refresh_in_progress := by
  obtain ⟨new, e, _⟩ := reset_via_acpi_quiet o s
  have hb := fun {α : Type} (f : spi_hid → α) => congrArg f e
  exact hb spi_hid.refresh_in_progress

theorem error_handler_cycle_refresh_flag (s : spi_hid) :
    (spi_hid_error_handler_cycle s).refresh_in_progress = s.refresh_in_progress := by
  simp only [spi_hid_error_handler_cycle]
  split_ifs <;> rfl

theorem error_work_refresh_flag (o : Ext) (s : spi_hid) :
    (spi_hid_error_work o s).refresh_in_progress = s.refresh_in_progress := by
  have habort : ∀ t : spi_hid,
      (spi_hid_error_handler_abort o t).2.refresh_in_progress = t.refresh_in_progress := by
    intro t
    simp only [spi_hid_error_handler_abort]
    rw [power_down_refresh_flag, stop_hid_refresh_flag]
  have hreset : ∀ t : spi_hid,
      (spi_hid_error_handler_reset o t).2.refresh_in_progress = t.refresh_in_progress := by
    intro t
    simp only [spi_hid_error_handler_reset]
    split_ifs
    · rfl
    · exact error_handler_cycle_refresh_flag _
    · exact (reset_via_acpi_refresh_flag o _).trans (error_handler_cycle_refresh_flag _)
  simp only [spi_hid_error_work, spi_hid_error_handler]
  split_ifs
  · rfl
  · exact habort _
  · exact hreset _

theorem spi_hid_output_refresh_flag (o : Ext) (s : spi_hid) (length : Nat) :
    (spi_hid_output o s length).2.refresh_in_progress = s.refresh_in_progress := by
  obtain ⟨new, h⟩ := spi_hid_output_effect o s length
  exact output_effect_refresh_flag _ _ _ h

theorem reset_work_refresh_flag (k : Consts) (o : Ext) (s : spi_hid) :
    (spi_hid_reset_work k o s).refresh_in_progress = s.refresh_in_progress := by
  have hcount : ∀ t : spi_hid,
      (spi_hid_reset_work_count t).refresh_in_progress = t.refresh_in_progress := by
    intro t
    simp only [spi_hid_reset_work_count]
    split_ifs <;> rfl
  have hreq : ∀ t : spi_hid,
      (spi_hid_reset_work_request k o t).refresh_in_progress = t.refresh_in_progress := by
    intro t
    simp only [spi_hid_reset_work_request]
    split_ifs
    · exact spi_hid_output_refresh_flag o _ _
    · exact spi_hid_output_refresh_flag o _ _
  simp only [spi_hid_reset_work]
  split_ifs
  · exact hcount _
  · exact (hreq _).trans (hcount _)

theorem create_device_work_refresh_flag (k : Consts) (o : Ext) (s : spi_hid) :
    (spi_hid_create_device_work k o s).refresh_in_progress = s.refresh_in_progress := by
  have hver : ∀ t t1 : spi_hid, spi_hid_create_device_work_version k t = some t1 →
      t1.refresh_in_progress = t.refresh_in_progress := by
    intro t t1 h
    simp only [spi_hid_create_device_work_version] at h
    split_ifs at h
    · cases h
      rfl
    · cases h
      rfl
  have hmulti : ∀ t : spi_hid,
      (spi_hid_create_mshw0231_multi_collections k t).2.refresh_in_progress
        = t.refresh_in_progress := by
    intro t
    simp only [spi_hid_create_mshw0231_multi_collections, spi_hid_windows_interrupt_setup]
    split_ifs <;> rfl
  have hfin : ∀ t : spi_hid,
      (spi_hid_create_device_work_finish o t).refresh_in_progress = t.refresh_in_progress := by
    intro t
    simp only [spi_hid_create_device_work_finish]
    split_ifs
    · exact power_down_refresh_flag o _
    · exact power_down_refresh_flag o _
    · exact power_down_refresh_flag o _
    · exact power_down_refresh_flag o _
  simp only [spi_hid_create_device_work]
  split
  · rfl
  · rename_i t1 h1
    have h2 := hver _ _ h1
    have hc := (create_device_spec k o t1).1
    split_ifs
    · exact hc.trans h2
    · exact (hfin _).trans ((hmulti _).trans (hc.trans h2))
    · exact (hfin _).trans (hc.trans h2)

theorem ll_open_refresh_flag (o : Ext) (s : spi_hid) :
    (spi_hid_ll_open o s).2.refresh_in_progress = s.refresh_in_progress := by
  have hassert : (spi_hid_assert_reset o s).2.refresh_in_progress = s.refresh_in_progress := by
    simp only [spi_hid_assert_reset]
    split_ifs <;> rfl
  have hup : ∀ t : spi_hid,
      (spi_hid_power_up o t).2.refresh_in_progress = t.refresh_in_progress := by
    intro t
    simp only [spi_hid_power_up]
    split_ifs <;> rfl
  have hde : ∀ t : spi_hid,
      (spi_hid_deassert_reset o t).2.refresh_in_progress = t.refresh_in_progress := by
    intro t
    simp only [spi_hid_deassert_reset]
    split_ifs
    · exact reset_via_acpi_refresh_flag o t
    · rfl
    · rfl
  have herr : ∀ (ret : Int) (t : spi_hid),
      (spi_hid_ll_open_err1 o ret t).2.refresh_in_progress = t.refresh_in_progress := by
    intro ret t
    simp only [spi_hid_ll_open_err1]
    split_ifs <;> rfl
  have hact : ∀ t : spi_hid,
      (spi_hid_ll_open_activate o t).2.refresh_in_progress = t.refresh_in_progress := by
    intro t
    simp only [spi_hid_ll_open_activate]
    split_ifs
    · exact (herr _ _).trans ((hup _).trans rfl)
    · exact (herr _ _).trans ((power_down_refresh_flag o _).trans
        ((hde _).trans ((hup _).trans rfl)))
    · exact (hde _).trans ((hup _).trans rfl)
    · exact (herr _ _).trans ((hup _).trans rfl)
    · exact (herr _ _).trans ((power_down_refresh_flag o _).trans
        ((hde _).trans ((hup _).trans rfl)))
    · exact (hde _).trans ((hup _).trans rfl)
  simp only [spi_hid_ll_open]
  split_ifs
  · rfl
  · exact hassert
  · exact (hact _).trans hassert

theorem ll_close_refresh_flag (o : Ext) (s : spi_hid) :
    (spi_hid_ll_close o s).refresh_in_progress = s.refresh_in_progress := by
  simp only [spi_hid_ll_close]
  split_ifs
  · rfl
  · simp only [spi_hid_ll_close_power_off]
    split_ifs
    · exact power_down_refresh_flag o _
    · exact power_down_refresh_flag o _
    · exact power_down_refresh_flag o _
    · exact power_down_refresh_flag o _

theorem send_output_report_refresh_flag (k : Consts) (o : Ext) (s : spi_hid)
    (output_register : Nat) (report : spi_hid_output_report) :
    (spi_hid_send_output_report k o s output_register report).2.refresh_in_progress
      = s.refresh_in_progress := by
  obtain ⟨new, h⟩ := spi_hid_send_output_report_effect k o s output_register report
  exact output_effect_refresh_flag _ _ _ h

theorem sync_request_refresh_flag (k : Consts) (o : Ext) (s : spi_hid)
    (output_register : Nat) (report : spi_hid_output_report) :
    (spi_hid_sync_request k o s output_register report).2.refresh_in_progress
      = s.refresh_in_progress := by
  obtain ⟨new, h⟩ := sync_request_effect k o s output_register report
  exact (request_effect_fields _ _ _ h).2.2.2.2.2.1

theorem refresh_device_work_refresh_flag (k : Consts) (o : Ext) (s : spi_hid)
    (hflag : s.refresh_in_progress = true)
    (hfail : ¬ (o.hid_allocate_device_err = 0 ∧ o.hid_add_device_ret = 0)) :
    (spi_hid_refresh_device_work k o s).refresh_in_progress = true := by
  have hreq : (spi_hid_report_descriptor_request k o
      (s.emit Event.trace_refresh_device_work)).2.refresh_in_progress = true := by
    obtain ⟨new, h⟩ := report_descriptor_request_effect k o
      (s.emit Event.trace_refresh_device_work)
    rw [(request_effect_fields _ _ _ h).2.2.2.2.2.1]
    exact hflag
  simp only [spi_hid_refresh_device_work]
  split_ifs
  · exact hflag
  · exact hflag
  · exact hreq
  · simp only [spi_hid_refresh_device_work_compare]
    split_ifs
    · exact hreq
    · have hne : ∀ t : spi_hid, (spi_hid_create_device k o t).1 ≠ 0 := fun t h0 =>
        hfail ⟨((create_device_spec k o t).2.2.2.1.mp h0).1,
          ((create_device_spec k o t).2.2.2.1.mp h0).2.2⟩
      rw [((refresh_recreate_spec k o _).2.2.1 (hne _)).1]

theorem driver_step_refresh_flag (k : Consts) (s : spi_hid) (op : DriverOp)
    (hflag : s.refresh_in_progress = true) (hop : op.is_successful_refresh = false) :
    (driver_step k s op).refresh_in_progress = true := by
  cases op with
  | dev_irq o => exact (dev_irq_refresh_flag k o s).trans hflag
  | input_complete o status data => exact (spi_complete_refresh_flag k o status data s).trans hflag
  | output_complete => exact (spi_complete_output_refresh_flag s).trans hflag
  | error_work o => exact (error_work_refresh_flag o s).trans hflag
  | reset_work o => exact (reset_work_refresh_flag k o s).trans hflag
  | create_device_work o => exact (create_device_work_refresh_flag k o s).trans hflag
  | refresh_device_work o =>
    refine refresh_device_work_refresh_flag k o s hflag ?_
    simpa [DriverOp.is_successful_refresh] using hop
  | ll_open o => exact (ll_open_refresh_flag o s).trans hflag
  | ll_close o => exact (ll_close_refresh_flag o s).trans hflag
  | send_output_report o r rep => exact (send_output_report_refresh_flag k o s r rep).trans hflag
  | sync_request o r rep => exact (sync_request_refresh_flag k o s r rep).trans hflag

theorem driver_run_refresh_flag (k : Consts) (ops : List DriverOp) :
    ∀ s : spi_hid, s.refresh_in_progress = true →
      (∀ op ∈ ops, op.is_successful_refresh = false) →
      (driver_run k s ops).refresh_in_progress = true := by
  induction ops with
  | nil => intro s h _; exact h
  | cons op rest ih =>
    intro s h hall
    show (driver_run k (driver_step k s op) rest).refresh_in_progress = true
    exact ih _ (driver_step_refresh_flag k s op h (hall op (List.mem_cons_self _ _)))
      (fun op2 h2 => hall op2 (List.mem_cons_of_mem _ h2))
theorem refresh_flag_guards (k : Consts) (t : spi_hid) (ht : t.refresh_in_progress = true) :
    (∀ o : Ext, spi_hid_ll_open o t = (0, t)) ∧
    (∀ o : Ext, spi_hid_ll_close o t = t) ∧
    (∀ (o : Ext) (b : BufSel),
      spi_hid_input_report_handler k o t b = (0, t.emit (Event.trace_input_report_handler b))) ∧
    (∀ (o : Ext) (b : BufSel),
      (spi_hid_populate_input_header (t.buf b).header).report_type
          = k.SPI_HID_REPORT_TYPE_DATA →
      (spi_hid_populate_input_body (t.buf b).body).content_length
          ≤ (spi_hid_populate_input_header (t.buf b).header).report_length →
      spi_hid_process_input_report k o t b =
        (0, (t.emit (Event.trace_process_input_report b)).emit
          (Event.trace_input_report_handler b))) := by
  refine ⟨?_, ?_, ?_, ?_⟩
  · intro o
    simp only [spi_hid_ll_open, ht, Bool.true_or, if_true]
  · intro o
    simp only [spi_hid_ll_close, ht, Bool.true_or, if_true]
  · intro o b
    exact input_report_handler_dropped k o t b (Or.inr (Or.inl ht))
  · intro o b htype hlen
    rw [process_input_report_dispatch k o t b hlen]
    simp only [spi_hid_process_input_report_switch]
    rw [if_pos htype]
    exact input_report_handler_dropped k o (t.emit (Event.trace_process_input_report b)) b
      (Or.inr (Or.inl ht))

/-- C30: when `spi_hid_refresh_device_work` (supported version, power state not Off,
report descriptor fetched) finds a checksum that differs from the stored one and the
creation of the new HID consumer fails (the allocation, the parse of the report
descriptor or the registration), it returns with `refresh_in_progress` true and no
consumer attached.  After every sequence of later operations (data-ready interrupt,
completion of an input or output message, error work, reset work, create-device
work, refresh work, open, close, output report, synchronous request) none of which is
a refresh whose allocation and registration succeed, the flag is still true;
`spi_hid_ll_open` returns 0 and `spi_hid_ll_close` returns, both leaving the session
as it is (no power-up, no power-down, no call made); `spi_hid_input_report_handler`
returns 0 after its trace call alone, and a Data frame within its declared length is
processed without a delivery to a consumer.  A refresh that finds a changed checksum
and whose creation succeeds clears the flag. -/
theorem refresh_in_progress_stuck (k : Consts) (o : Ext) (s : spi_hid)
    (hv : s.desc.hid_version = k.SPI_HID_SUPPORTED_VERSION)
    (hp : s.power_state ≠ SPI_HID_POWER_MODE.OFF)
    (hfetch : 0 ≤ (spi_hid_report_descriptor_request k o
      (s.emit Event.trace_refresh_device_work)).1)
    (hcrc : refresh_device_work_crc32 k o s ≠ s.report_descriptor_crc32)
    (hfail : (spi_hid_create_device k o (refresh_device_work_before_create k o s)).1 ≠ 0) :
    (spi_hid_refresh_device_work k o s).refresh_in_progress = true ∧
    (spi_hid_refresh_device_work k o s).hid = none ∧
    (∀ ops : List DriverOp, (∀ op ∈ ops, op.is_successful_refresh = false) →
      (driver_run k (spi_hid_refresh_device_work k o s) ops).refresh_in_progress = true ∧
      (∀ o2 : Ext,
        spi_hid_ll_open o2 (driver_run k (spi_hid_refresh_device_work k o s) ops)
          = (0, driver_run k (spi_hid_refresh_device_work k o s) ops)) ∧
      (∀ o2 : Ext,
        spi_hid_ll_close o2 (driver_run k (spi_hid_refresh_device_work k o s) ops)
          = driver_run k (spi_hid_refresh_device_work k o s) ops) ∧
      (∀ (o2 : Ext) (b : BufSel),
        spi_hid_input_report_handler k o2
            (driver_run k (spi_hid_refresh_device_work k o s) ops) b
          = (0, (driver_run k (spi_hid_refresh_device_work k o s) ops).emit
              (Event.trace_input_report_handler b))) ∧
      (∀ (o2 : Ext) (b : BufSel),
        (spi_hid_populate_input_header
            ((driver_run k (spi_hid_refresh_device_work k o s) ops).buf b).header).report_type
          = k.SPI_HID_REPORT_TYPE_DATA →
        (spi_hid_populate_input_body
            ((driver_run k (spi_hid_refresh_device_work k o s) ops).buf b).body).content_length
          ≤ (spi_hid_populate_input_header
            ((driver_run k (spi_hid_refresh_device_work k o s) ops).buf b).header).report_length →
        spi_hid_process_input_report k o2
            (driver_run k (spi_hid_refresh_device_work k o s) ops) b
          = (0, ((driver_run k (spi_hid_refresh_device_work k o s) ops).emit
              (Event.trace_process_input_report b)).emit
                (Event.trace_input_report_handler b)))) ∧
    (∀ (t : spi_hid) (op : DriverOp), t.refresh_in_progress = true →
      (driver_step k t op).refresh_in_progress = false → op.is_successful_refresh = true) ∧
    (∀ (t : spi_hid) (o2 : Ext), t.desc.hid_version = k.SPI_HID_SUPPORTED_VERSION →
      t.power_state ≠ SPI_HID_POWER_MODE.OFF →
      0 ≤ (spi_hid_report_descriptor_request k o2
        (t.emit Event.trace_refresh_device_work)).1 →
      refresh_device_work_crc32 k o2 t ≠ t.report_descriptor_crc32 →
      (spi_hid_create_device k o2 (refresh_device_work_before_create k o2 t)).1 = 0 →
      (driver_step k t (DriverOp.refresh_device_work o2)).refresh_in_progress = false) := by
  obtain ⟨b1, b2, _, _, _, _, _, b10⟩ := before_create_fields k o s hv hp hfetch
  obtain ⟨c1, _, _, _, _, c8, _⟩ := create_device_spec k o
    (refresh_device_work_before_create k o s)
  have hflag : (spi_hid_refresh_device_work k o s).refresh_in_progress = true := by
    rw [b10 hcrc, if_pos hfail]
    exact c1.trans b2
  have hhid : (spi_hid_refresh_device_work k o s).hid = none := by
    rw [b10 hcrc, if_pos hfail]
    exact c8 hfail (Or.inr b1)
  refine ⟨hflag, hhid, ?_, ?_, ?_⟩
  · intro ops hops
    have hrun := driver_run_refresh_flag k ops _ hflag hops
    exact ⟨hrun, refresh_flag_guards k _ hrun⟩
  · intro t op ht hcl
    by_contra hop
    have hstep := driver_step_refresh_flag k t op ht (by simpa using hop)
    rw [hcl] at hstep
    exact Bool.noConfusion hstep
  · intro t o2 tv tp tfetch tcrc tok
    obtain ⟨_, _, _, _, _, _, _, t10⟩ := before_create_fields k o2 t tv tp tfetch
    show (spi_hid_refresh_device_work k o2 t).refresh_in_progress = false
    rw [t10 tcrc, if_neg (not_not.mpr tok)]
    rfl

/-- C30 at the session `shid_refresh_changed` (consumer 1 attached, stored checksum 0)
with `hid_add_device` failing: the refresh leaves the flag set and no consumer, and
after an open, a data-ready interrupt and a close the flag is still set and open and
close change nothing. -/
theorem refresh_in_progress_stuck_witness :
    (spi_hid_refresh_device_work consts0 ext_add_fails shid_refresh_changed).refresh_in_progress
      = true ∧
    (spi_hid_refresh_device_work consts0 ext_add_fails shid_refresh_changed).hid = none ∧
    (driver_run consts0 (spi_hid_refresh_device_work consts0 ext_add_fails shid_refresh_changed)
      [DriverOp.ll_open ext_ok, DriverOp.dev_irq ext_ok, DriverOp.ll_close ext_ok]
      ).refresh_in_progress = true ∧
    spi_hid_ll_open ext_ok
      (driver_run consts0 (spi_hid_refresh_device_work consts0 ext_add_fails shid_refresh_changed)
        [DriverOp.ll_open ext_ok, DriverOp.dev_irq ext_ok, DriverOp.ll_close ext_ok])
      = (0, driver_run consts0
        (spi_hid_refresh_device_work consts0 ext_add_fails shid_refresh_changed)
        [DriverOp.ll_open ext_ok, DriverOp.dev_irq ext_ok, DriverOp.ll_close ext_ok]) :=
  ⟨(refresh_in_progress_stuck consts0 ext_add_fails shid_refresh_changed (by decide)
      (by decide) (by decide) (by decide) (by decide)).1,
   (refresh_in_progress_stuck consts0 ext_add_fails shid_refresh_changed (by decide)
      (by decide) (by decide) (by decide) (by decide)).2.1,
   ((refresh_in_progress_stuck consts0 ext_add_fails shid_refresh_changed (by decide)
      (by decide) (by decide) (by decide) (by decide)).2.2.1
      [DriverOp.ll_open ext_ok, DriverOp.dev_irq ext_ok, DriverOp.ll_close ext_ok]
      (by decide)).1,
   ((refresh_in_progress_stuck consts0 ext_add_fails shid_refresh_changed (by decide)
      (by decide) (by decide) (by decide) (by decide)).2.2.1
      [DriverOp.ll_open ext_ok, DriverOp.dev_irq ext_ok, DriverOp.ll_close ext_ok]
      (by decide)).2.1 ext_ok⟩

/-- C5, amended: a header whose sync byte differs from the valid constant is rejected
by `spi_hid_bus_validate_header` with -EINVAL, except that the sync byte 0xFF is
accepted (return 0) while the read is interrupt-driven (interrupt enabled and a
transfer pending) or fewer than 15 wake attempts have been used; for a rejected
header `spi_hid_input_header_complete` issues no read and submits nothing; for an
accepted 0xFF header `spi_hid_input_header_complete`, when it processes the header
(device powered, transfer status not negative, power state not Off), issues the
body read: a read approval for the input register, into the body of the buffer
selected by the report type, of `report_length` bytes, completed by
`spi_hid_input_body_complete`. -/
theorem validate_header_bad_sync (k : Consts) (o : Ext) (s : spi_hid)
    (h : spi_hid_input_header) (hs : h.sync_const ≠ SPI_HID_INPUT_HEADER_SYNC_BYTE) :
    (spi_hid_bus_validate_header k s h).1 =
      (if h.sync_const = 0xFF ∧
          ((s.irq_enabled = true ∧ s.input_transfer_pending ≠ 0) ∨ s.wake_attempts < 15)
       then 0 else -EINVAL) ∧
    (spi_hid_populate_input_header s.input.header = h →
      ¬ (h.sync_const = 0xFF ∧
          ((s.irq_enabled = true ∧ s.input_transfer_pending ≠ 0) ∨ s.wake_attempts < 15)) →
      reads (spi_hid_input_header_complete k o s).log = reads s.log ∧
      (spi_hid_input_header_complete k o s).bus = s.bus) ∧
    (spi_hid_populate_input_header s.input.header = h →
      (h.sync_const = 0xFF ∧
          ((s.irq_enabled = true ∧ s.input_transfer_pending ≠ 0) ∨ s.wake_attempts < 15)) →
      s.powered = true → ¬ s.input_message_status < 0 →
      s.power_state ≠ SPI_HID_POWER_MODE.OFF →
      (spi_hid_input_header_complete k o s).log =
        s.log ++ [Event.trace_input_header_complete,
          Event.spi_async_input (spi_hid_read_approval k s.desc.input_register)
            (RxBuf.body (spi_hid_select_buf k h.report_type)) h.report_length
            Callback.spi_hid_input_body_complete o.spi_async_ret] ∧
      reads (spi_hid_input_header_complete k o s).log = reads s.log ++ [ReadKind.body] ∧
      (spi_hid_input_header_complete k o s).bus =
        s.bus ++ (if o.spi_async_ret = 0 then
          [Message.mk (RxBuf.body (spi_hid_select_buf k h.report_type)) h.report_length
            Callback.spi_hid_input_body_complete]
          else [])) := by
  have hval : ∀ t : spi_hid, t.irq_enabled = s.irq_enabled →
      t.input_transfer_pending = s.input_transfer_pending → t.wake_attempts = s.wake_attempts →
      (spi_hid_bus_validate_header k t h).1 =
        (if h.sync_const = 0xFF ∧
            ((s.irq_enabled = true ∧ s.input_transfer_pending ≠ 0) ∨ s.wake_attempts < 15)
         then 0 else -EINVAL) ∧
      (spi_hid_bus_validate_header k t h).2.2.bus = t.bus ∧
      (spi_hid_bus_validate_header k t h).2.2.log = t.log := by
    intro t h1 h2 h3
    have hs90 : ¬ h.sync_const = 90 := hs
    unfold spi_hid_bus_validate_header
    rw [← h1, ← h2, ← h3]
    by_cases hff : h.sync_const = 0xFF <;> by_cases hi : t.irq_enabled = true <;>
      by_cases hp : t.input_transfer_pending = 0 <;> by_cases hw : t.wake_attempts < 15 <;>
        by_cases h5 : 5 ≤ t.interrupt_successes + 1 <;>
          simp [hs90, hff, hi, hp, hw, h5, SPI_HID_INPUT_HEADER_SYNC_BYTE]
  refine ⟨(hval s rfl rfl rfl).1, ?_, ?_⟩
  · intro hh hnt
    have hv := hval (s.emit Event.trace_input_header_complete) rfl rfl rfl
    rw [if_neg hnt] at hv
    have hne : (-EINVAL : Int) ≠ 0 := by decide
    unfold spi_hid_input_header_complete
    by_cases hpow : s.powered = true
    · by_cases hst : s.input_message_status < 0
      · simp [hpow, hst, spi_hid.emit, schedule_work, reads_append, reads]
      · by_cases hoff : s.power_state = SPI_HID_POWER_MODE.OFF
        · simp [hpow, hst, hoff, spi_hid.emit, reads_append, reads]
        · have e1 : (s.emit Event.trace_input_header_complete).input.header = s.input.header := rfl
          have e2 : (s.emit Event.trace_input_header_complete).input_message_status
              = s.input_message_status := rfl
          have e3 : (s.emit Event.trace_input_header_complete).power_state = s.power_state := rfl
          simp only [hpow, e1, e2, e3, hst, hoff, hh, hv.1, hne, Bool.not_true,
            Bool.false_eq_true, if_false, if_true, ne_eq, not_false_eq_true]
          simp only [hv.2.1, hv.2.2]
          simp [spi_hid.emit, reads_append, reads]
    · simp [hpow]
  · intro hh htol hpow hst hoff
    have hv := (hval (s.emit Event.trace_input_header_complete) rfl rfl rfl).1
    rw [if_pos htol, ← hh] at hv
    obtain ⟨l1, l2, _⟩ := input_header_complete_ok k o s hpow hst hoff hv
    rw [hh] at l1 l2
    refine ⟨l1, ?_, l2⟩
    rw [l1, reads_append]
    rfl

/-- C5, amended, at two headers arriving on the first read after probe: the header
[0x13, 0x10, 0x00, 0x00] (sync byte 0x00) is rejected with -EINVAL and no body read
follows the header read; the header [0x13, 0x10, 0x00, 0xFF] (sync byte 0xFF, read
interrupt-driven) is accepted and the body read follows the header read. -/
theorem validate_header_bad_sync_witness :
    (spi_hid_bus_validate_header consts0 (shid_header_arrived [0x13, 0x10, 0x00, 0x00])
      (spi_hid_populate_input_header [0x13, 0x10, 0x00, 0x00])).1 = -EINVAL ∧
    reads (spi_hid_input_header_complete consts0 ext_ok
      (shid_header_arrived [0x13, 0x10, 0x00, 0x00])).log = [ReadKind.header] ∧
    reads (spi_hid_input_header_complete consts0 ext_ok
      (shid_header_arrived [0x13, 0x10, 0x00, 0xFF])).log = [ReadKind.header, ReadKind.body] :=
  ⟨(validate_header_bad_sync consts0 ext_ok (shid_header_arrived [0x13, 0x10, 0x00, 0x00])
      (spi_hid_populate_input_header [0x13, 0x10, 0x00, 0x00]) (by decide)).1.trans (by decide),
   ((validate_header_bad_sync consts0 ext_ok (shid_header_arrived [0x13, 0x10, 0x00, 0x00])
      (spi_hid_populate_input_header [0x13, 0x10, 0x00, 0x00]) (by decide)).2.1
        (by decide) (by decide)).1.trans (by decide),
   ((validate_header_bad_sync consts0 ext_ok (shid_header_arrived [0x13, 0x10, 0x00, 0xFF])
      (spi_hid_populate_input_header [0x13, 0x10, 0x00, 0xFF]) (by decide)).2.2
        (by decide) (by decide) (by decide) (by decide) (by decide)).2.1.trans (by decide)⟩

theorem read_bytes_getD (l : List Nat) (n i : Nat) (h : i < n) :
    (read_bytes l n).getD i 0 = l.getD i 0 := by
  simp [read_bytes, List.getD_eq_getElem?_getD, h]

theorem write_at_getD_lt (dst src : List Nat) (off i : Nat) (h : i < off) :
    (write_at dst off src).getD i 0 = dst.getD i 0 := by
  simp only [write_at, List.getD_eq_getElem?_getD]
  have hlen : off ≤ (dst ++ List.replicate (off + src.length - dst.length) 0).length := by
    simp only [List.length_append, List.length_replicate]
    omega
  rw [List.append_assoc, List.getElem?_append_left (by rw [List.length_take]; omega),
    List.getElem?_take, if_pos h]
  by_cases hd : i < dst.length
  · rw [List.getElem?_append_left hd]
  · have hn : dst[i]? = none := List.getElem?_eq_none (by omega)
    rw [List.getElem?_append_right (by omega), hn, List.getElem?_replicate]
    split_ifs <;> rfl

theorem write_at_getD_mid (dst src : List Nat) (off i : Nat) (h1 : off ≤ i)
    (h2 : i < off + src.length) :
    (write_at dst off src).getD i 0 = src.getD (i - off) 0 := by
  simp only [write_at, List.getD_eq_getElem?_getD]
  have hlen : off ≤ (dst ++ List.replicate (off + src.length - dst.length) 0).length := by
    simp only [List.length_append, List.length_replicate]
    omega
  have ht : (List.take off (dst ++ List.replicate (off + src.length - dst.length) 0)).length
      = off := by
    rw [List.length_take]
    omega
  rw [List.append_assoc, List.getElem?_append_right (by omega), ht,
    List.getElem?_append_left (by omega)]

/-- C20, amended: for every output report that `spi_hid_send_output_report` accepts (the
content length a `u16`, the two length checks passed), the frame built in the output
buffer is the 6-byte header for the register and the padded length, the 4 body bytes
content type, content length (little-endian) and content id, and then the content:
the content bytes of the report when the content length exceeds 3, the bytes that
the output buffer already held when the content length is at most 3 (nothing is
copied), followed by zero bytes up to the padded length, a multiple of 4; in process
context the first 6 + padded length bytes (taken in 16 bits) of the buffer are
submitted. -/
theorem send_output_report_frame (k : Consts) (o : Ext) (s : spi_hid) (output_register : Nat)
    (report : spi_hid_output_report)
    (hcl : report.content_length < 2 ^ 16)
    (h1 : ¬ send_output_report_padded_length report < report.content_length)
    (h2 : ¬ send_output_report_padded_length report > send_output_report_max_length s) :
    send_output_report_padded_length report = round_up4 (4 + report.content_length) ∧
    send_output_report_padded_length report % 4 = 0 ∧
    (spi_hid_send_output_report k o s output_register report).2.output.header =
      spi_hid_output_header k output_register (send_output_report_padded_length report) ∧
    (spi_hid_send_output_report k o s output_register report).2.output.body =
      [ report.content_type % 256, report.content_length % 256,
        report.content_length / 256 % 256, report.content_id % 256 ] ∧
    (∀ i, i < report.content_length →
      (spi_hid_send_output_report k o s output_register report).2.output.content.getD i 0 =
        (if report.content_length > 3 then report.content.getD i 0
         else s.output.content.getD i 0)) ∧
    (∀ i, report.content_length ≤ i → i + 4 < send_output_report_padded_length report →
      (spi_hid_send_output_report k o s output_register report).2.output.content.getD i 0 = 0) ∧
    (o.in_atomic = false →
      (spi_hid_send_output_report k o s output_register report).2.log =
        s.log ++ [Event.spi_async_output
          (read_bytes
            ((spi_hid_send_output_report k o s output_register report).2.output.header ++
              (spi_hid_send_output_report k o s output_register report).2.output.body ++
              (spi_hid_send_output_report k o s output_register report).2.output.content)
            ((6 + send_output_report_padded_length report) % 2 ^ 16))
          o.spi_async_output_ret]) := by
  have hpad : send_output_report_padded_length report = round_up4 (4 + report.content_length) ∧
      report.content_length ≤ 65528 := by
    simp only [send_output_report_padded_length, send_output_report_body_length, round_up4,
      SPI_HID_OUTPUT_BODY_LEN] at h1 ⊢
    omega
  have hout : ∀ t : spi_hid, ∀ n : Nat,
      (spi_hid_output o t n).2.output = t.output ∧
      (o.in_atomic = false → (spi_hid_output o t n).2.log = t.log ++
        [Event.spi_async_output
          (read_bytes (t.output.header ++ t.output.body ++ t.output.content) (n % 2 ^ 16))
          o.spi_async_output_ret]) := by
    intro t n
    simp only [spi_hid_output]
    by_cases ha : o.in_atomic = true
    · simp [ha]
    · by_cases hr : o.spi_async_output_ret = 0 <;> simp [ha, hr, spi_hid.emit]
  have hbody : spi_hid_output_body report =
      [ report.content_type % 256, report.content_length % 256,
        report.content_length / 256 % 256, report.content_id % 256 ] := by
    simp only [spi_hid_output_body, and_0xff, Nat.shiftRight_eq_div_pow, Nat.pow_zero,
      Nat.div_one]
    congr 1
    congr 1
    · omega
    · congr 1
      omega
  rw [send_output_report_eq, if_neg h1, if_neg h2]
  obtain ⟨o1, o2⟩ := hout (send_output_report_build k s output_register report)
    (SPI_HID_OUTPUT_HEADER_LEN + send_output_report_padded_length report)
  rw [o1]
  refine ⟨hpad.1, ?_, rfl, hbody, ?_, ?_, ?_⟩
  · rw [hpad.1]
    simp only [round_up4]
    omega
  · intro i hi
    show (write_at _ report.content_length _).getD i 0 = _
    rw [write_at_getD_lt _ _ _ _ hi]
    by_cases h3 : report.content_length > 3
    · rw [if_pos h3, if_pos h3, write_at_getD_mid _ _ _ _ (Nat.zero_le _)
        (by rw [read_bytes_length]; omega), Nat.sub_zero, read_bytes_getD _ _ _ hi]
    · rw [if_neg h3, if_neg h3]
  · intro i hi1 hi2
    show (write_at _ report.content_length _).getD i 0 = _
    have hp : (send_output_report_padded_length report + 2 ^ 16
        - send_output_report_body_length report) % 2 ^ 8
        = send_output_report_padded_length report - 4 - report.content_length := by
      have hb : send_output_report_body_length report = 4 + report.content_length := by
        simp only [send_output_report_body_length, SPI_HID_OUTPUT_BODY_LEN]
        omega
      rw [hb, hpad.1]
      simp only [round_up4]
      omega
    rw [write_at_getD_mid _ _ _ _ hi1 (by rw [List.length_replicate, hp]; omega)]
    rw [List.getD_eq_getElem?_getD, List.getElem?_replicate]
    split_ifs <;> rfl
  · intro hat
    rw [o2 hat]
    rfl

/-- C20, amended, at the session `shid_ready_output` and a report of the 5 content bytes
11 22 33 44 55 (accepted, padded length 12): the frame submitted is the header, the
body 03 05 00 01, the 5 content bytes and 3 zero bytes. -/
theorem send_output_report_frame_witness :
    (spi_hid_send_output_report consts0 ext_ok shid_ready_output 0x2000
      { content_type := consts0.SPI_HID_CONTENT_TYPE_SET_FEATURE, content_id := 0x01,
        content_length := 5, content := [0x11, 0x22, 0x33, 0x44, 0x55] }).2.log =
      [Event.spi_async_output
        [0x02, 0x00, 0x20, 0x00, 0xC3, 0x00, 0x03, 0x05, 0x00, 0x01,
          0x11, 0x22, 0x33, 0x44, 0x55, 0, 0, 0] 0] :=
  ((send_output_report_frame consts0 ext_ok shid_ready_output 0x2000
    { content_type := consts0.SPI_HID_CONTENT_TYPE_SET_FEATURE, content_id := 0x01,
      content_length := 5, content := [0x11, 0x22, 0x33, 0x44, 0x55] }
    (by decide) (by decide) (by decide)).2.2.2.2.2.2 (by decide)).trans (by decide)

end SpiHid
